import Mathlib

/-!
# Multi-patch model generators (IFEM, `Apps/Common/MultiPatchModelGenerator.C`)

A shallow embedding of the post-split sub-patch extraction (`createGeometry`,
`getSubPatch`) and of the topology builders (`createTopology`) of the 1D, 2D and
3D multi-patch model generators, followed by theorems about them.

Conventions of the embedding.

* `size_t` and `int` counters are natural numbers.  The theorems about the
  loops are stated for block counts `nx, ny, nz ≥ 1`; the one place where the
  unsigned arithmetic of the source wraps for a count of zero, the loop bound
  `nx-1`, is modelled by `decr`.  Patch numbers are taken to fit the `int`
  parameters of `addConnection`, and orders to be at least 1, so that
  `order-1` does not wrap.
* Spline coefficients and knots are copied, never computed with, so their type
  is a parameter `α`.  A read through a raw iterator is `xs[i]?`, with `none`
  standing for a read outside the array.
* The simulator `SIMinput` is an external collaborator.  Its answers are
  parameters of the model, and the calls that `createTopology` makes on it are
  recorded, in order, in a list of `Event`s.
-/

namespace IFEM

/-! ## The generators' configuration (data members read from the XML element) -/

/-- Data members of `MultiPatchModelGenerator1D`. -/
structure MultiPatchModelGenerator1D where
  nx : Nat
  periodic_x : Int
  subdivision : Bool
deriving DecidableEq, Repr

/-- Data members of `MultiPatchModelGenerator2D`. -/
structure MultiPatchModelGenerator2D where
  nx : Nat
  ny : Nat
  periodic_x : Int
  periodic_y : Int
  subdivision : Bool
deriving DecidableEq, Repr

/-- Data members of `MultiPatchModelGenerator3D`. -/
structure MultiPatchModelGenerator3D where
  nx : Nat
  ny : Nat
  nz : Nat
  periodic_x : Int
  periodic_y : Int
  periodic_z : Int
  subdivision : Bool
deriving DecidableEq, Repr

/-! ## Post-split subdivision: block sizes and offsets -/

/-- The block size `ni = nelems_sub + (i < nelems_rem ? 1 : 0)` of the extraction
loops, with `nelems_sub = nelems / nx` and `nelems_rem = nelems % nx`. -/
def ni (nelems nx i : Nat) : Nat :=
  nelems / nx + (if i < nelems % nx then 1 else 0)

/-- The block offset `i0 = ni*i + (i < nelems_rem ? 0 : nelems_rem)`. -/
def i0 (nelems nx i : Nat) : Nat :=
  ni nelems nx i * i + (if i < nelems % nx then 0 else nelems % nx)

/-- The number of coefficients `di = ni + p` of block `i`. -/
def di (nelems nx p i : Nat) : Nat :=
  ni nelems nx i + p

/-! ## Spline patches (the data the generator reads from GoTools objects) -/

/-- The queries of `Go::SplineCurve` used by the 1D generator. -/
structure SplineCurve (α : Type) where
  numCoefs : Nat
  order : Nat
  dimension : Nat
  rational : Bool
  basis : List α
  coefs : List α
  rcoefs : List α

/-- The queries of `Go::SplineSurface` used by the 2D generator. -/
structure SplineSurface (α : Type) where
  numCoefs_u : Nat
  numCoefs_v : Nat
  order_u : Nat
  order_v : Nat
  dimension : Nat
  rational : Bool
  basis_u : List α
  basis_v : List α
  coefs : List α
  rcoefs : List α

/-- The queries of `Go::SplineVolume` used by the 3D generator
(`numCoefs(d)`, `order(d)`, `basis(d)` for `d = 0, 1, 2`). -/
structure SplineVolume (α : Type) where
  numCoefs0 : Nat
  numCoefs1 : Nat
  numCoefs2 : Nat
  order0 : Nat
  order1 : Nat
  order2 : Nat
  dimension : Nat
  rational : Bool
  basis0 : List α
  basis1 : List α
  basis2 : List α
  coefs : List α
  rcoefs : List α

/-- The arguments with which `getSubPatch` (1D) constructs the sub-curve: the
knot iterator is `basis().begin() + knotStart`, the coefficient iterator is
`(rat ? rcoefs_begin() : coefs_begin()) + coefStart`. -/
structure SubCurve where
  numcoefsu : Nat
  orderu : Nat
  knotStart : Nat
  coefStart : Nat
  dimension : Nat
  rational : Bool
deriving DecidableEq, Repr

/-- The arguments with which `getSubPatch` (2D) constructs the sub-surface;
`subcoefs` is the coefficient vector it has filled. -/
structure SubSurface (α : Type) where
  numcoefsu : Nat
  numcoefsv : Nat
  orderu : Nat
  orderv : Nat
  knotStartu : Nat
  knotStartv : Nat
  subcoefs : List (Option α)
  dimension : Nat
  rational : Bool

/-- Component `k` of control point `(i, j)` of an extracted sub-surface with `d`
values per control point, in the layout in which `getSubPatch` fills
`subcoefs` (component fastest, then `i`, then `j`); `none` if there is no such
entry or if the entry was read from outside the source array. -/
def SubSurface.coef {α : Type} (s : SubSurface α) (d i j k : Nat) : Option α :=
  (s.subcoefs[k + d * i + d * s.numcoefsu * j]?).join

/-- The arguments with which `getSubPatch` (3D) constructs the sub-volume. -/
structure SubVolume (α : Type) where
  numcoefsu : Nat
  numcoefsv : Nat
  numcoefsw : Nat
  orderu : Nat
  orderv : Nat
  orderw : Nat
  knotStartu : Nat
  knotStartv : Nat
  knotStartw : Nat
  subcoefs : List (Option α)
  dimension : Nat
  rational : Bool

/-! ## 1D generator: geometry -/

namespace MultiPatchModelGenerator1D

/-- `MultiPatchModelGenerator1D::getSubPatch`. -/
def getSubPatch {α : Type} (cur : SplineCurve α) (startu numcoefsu orderu : Nat) :
    SubCurve :=
  let d := cur.dimension + (if cur.rational then 1 else 0)
  let rat := cur.rational
  { numcoefsu := numcoefsu, orderu := orderu, knotStart := startu,
    coefStart := d * startu, dimension := cur.dimension, rational := rat }

/-- The post-split branch of `MultiPatchModelGenerator1D::createGeometry`, from
"Compute parameters" on: the sub-curves written to the patch stream, in order.
`cur` is the curve after the refine / raiseorder directives.  The model is
that of a block count `nx ≥ 1`: with `nx = 0` the source evaluates
`nelems / nx` and `nelems % nx` before the loop, a division by zero that a
list of sub-curves does not represent. -/
def createGeometry {α : Type} (g : MultiPatchModelGenerator1D) (cur : SplineCurve α) :
    List SubCurve :=
  let p := cur.order - 1
  let nelems := cur.numCoefs - p
  (List.range g.nx).map fun i =>
    getSubPatch cur (i0 nelems g.nx i) (di nelems g.nx p i) (p + 1)

end MultiPatchModelGenerator1D

/-! ## 2D generator: geometry -/

namespace MultiPatchModelGenerator2D

/-- The flat positions `k + d*i + d*I*j` that `getSubPatch` (2D) reads, in the
order of its three nested loops (`j` outermost, then `i`, then `k`). -/
def subIndices (d I startu numcoefsu startv numcoefsv : Nat) : List Nat :=
  (List.range numcoefsv).flatMap fun jj =>
    (List.range numcoefsu).flatMap fun ii =>
      (List.range d).map fun k =>
        k + d * (startu + ii) + d * I * (startv + jj)

/-- `MultiPatchModelGenerator2D::getSubPatch`. -/
def getSubPatch {α : Type} (srf : SplineSurface α)
    (startu numcoefsu orderu startv numcoefsv orderv : Nat) : SubSurface α :=
  let d := srf.dimension + (if srf.rational then 1 else 0)
  let rat := srf.rational
  let I := srf.numCoefs_u
  let k0 := if rat then srf.rcoefs else srf.coefs
  let subcoefs := (subIndices d I startu numcoefsu startv numcoefsv).map fun idx => k0[idx]?
  { numcoefsu := numcoefsu, numcoefsv := numcoefsv, orderu := orderu, orderv := orderv,
    knotStartu := startu, knotStartv := startv, subcoefs := subcoefs,
    dimension := srf.dimension, rational := rat }

/-- The sub-surface extracted for block `(i, j)`: the body of the two extraction
loops of `MultiPatchModelGenerator2D::createGeometry`. -/
def block {α : Type} (g : MultiPatchModelGenerator2D) (srf : SplineSurface α) (i j : Nat) :
    SubSurface α :=
  let px := srf.order_u - 1
  let py := srf.order_v - 1
  let nelemsx := srf.numCoefs_u - px
  let nelemsy := srf.numCoefs_v - py
  getSubPatch srf (i0 nelemsx g.nx i) (di nelemsx g.nx px i) (px + 1)
                  (i0 nelemsy g.ny j) (di nelemsy g.ny py j) (py + 1)

/-- The post-split branch of `MultiPatchModelGenerator2D::createGeometry`, from
"Compute parameters" on: the sub-surfaces written to the patch stream, in order
(`j` outer loop, `i` inner loop).  The model is that of block counts
`nx, ny ≥ 1`: with a count 0 the source divides by it before the loops. -/
def createGeometry {α : Type} (g : MultiPatchModelGenerator2D) (srf : SplineSurface α) :
    List (SubSurface α) :=
  (List.range g.ny).flatMap fun j =>
    (List.range g.nx).map fun i => block g srf i j

end MultiPatchModelGenerator2D

/-! ## 3D generator: geometry -/

namespace MultiPatchModelGenerator3D

/-- The flat positions `n + N*i + N*I*j + N*I*J*k` that `getSubPatch` (3D)
reads, in the order of its four nested loops (`k` outermost, then `j`, `i`, `n`). -/
def subIndices (N I J startu numcoefsu startv numcoefsv startw numcoefsw : Nat) : List Nat :=
  (List.range numcoefsw).flatMap fun kk =>
    (List.range numcoefsv).flatMap fun jj =>
      (List.range numcoefsu).flatMap fun ii =>
        (List.range N).map fun n =>
          n + N * (startu + ii) + N * I * (startv + jj) + N * I * J * (startw + kk)

/-- `MultiPatchModelGenerator3D::getSubPatch`. -/
def getSubPatch {α : Type} (vol : SplineVolume α)
    (startu numcoefsu orderu startv numcoefsv orderv startw numcoefsw orderw : Nat) :
    SubVolume α :=
  let rat := vol.rational
  let I := vol.numCoefs0
  let J := vol.numCoefs1
  let N := vol.dimension + (if rat then 1 else 0)
  let n0 := if rat then vol.rcoefs else vol.coefs
  let subcoefs :=
    (subIndices N I J startu numcoefsu startv numcoefsv startw numcoefsw).map fun idx => n0[idx]?
  { numcoefsu := numcoefsu, numcoefsv := numcoefsv, numcoefsw := numcoefsw,
    orderu := orderu, orderv := orderv, orderw := orderw,
    knotStartu := startu, knotStartv := startv, knotStartw := startw,
    subcoefs := subcoefs, dimension := vol.dimension, rational := rat }

/-- The sub-volume extracted for block `(i, j, k)`: the body of the three
extraction loops of `MultiPatchModelGenerator3D::createGeometry`. -/
def block {α : Type} (g : MultiPatchModelGenerator3D) (vol : SplineVolume α) (i j k : Nat) :
    SubVolume α :=
  let px := vol.order0 - 1
  let py := vol.order1 - 1
  let pz := vol.order2 - 1
  let nelemsx := vol.numCoefs0 - px
  let nelemsy := vol.numCoefs1 - py
  let nelemsz := vol.numCoefs2 - pz
  getSubPatch vol (i0 nelemsx g.nx i) (di nelemsx g.nx px i) (px + 1)
                  (i0 nelemsy g.ny j) (di nelemsy g.ny py j) (py + 1)
                  (i0 nelemsz g.nz k) (di nelemsz g.nz pz k) (pz + 1)

/-- The post-split branch of `MultiPatchModelGenerator3D::createGeometry`, from
"Compute parameters" on: the sub-volumes written to the patch stream, in order
(`k` outer loop, then `j`, then `i`).  The model is that of block counts
`nx, ny, nz ≥ 1`: with a count 0 the source divides by it before the loops. -/
def createGeometry {α : Type} (g : MultiPatchModelGenerator3D) (vol : SplineVolume α) :
    List (SubVolume α) :=
  (List.range g.nz).flatMap fun k =>
    (List.range g.ny).flatMap fun j =>
      (List.range g.nx).map fun i => block g vol i j k

end MultiPatchModelGenerator3D

/-! ## The simulator interface and the record of calls made on it -/

/-- The arguments of one call
`addConnection(master, slave, mIdx, sIdx, orient, basis, coordCheck, dim, thick)`. -/
structure Conn where
  master : Nat
  slave : Nat
  mIdx : Nat
  sIdx : Nat
  orient : Nat
  basis : Nat
  coordCheck : Bool
  dim : Nat
  thick : Int
deriving DecidableEq, Repr

/-- A call made by `createTopology` on the simulator or on one of its patches:
`sim.addConnection(...)` together with the value it returned, or
`closeEnds()`, `closeEdges(dir)`, `closeFaces(dir)` on the patch obtained by
`sim.getPatch(patch, true)`. -/
inductive Event where
  | addConnection (c : Conn) (ok : Bool)
  | closeEnds (patch : Nat)
  | closeEdges (patch : Nat) (dir : Nat)
  | closeFaces (patch : Nat) (dir : Nat)
deriving DecidableEq, Repr

/-- What `createTopology` needs from `SIMinput`, whose code is outside the
generator.  `createFEMmodel` is the result of `sim.createFEMmodel()`;
`p1 p2 p3` are the orders delivered by `sim.getPatch(1)->getOrder(p1,p2,p3)`;
`addConnection` is the result of a connection call, which may depend on the
calls made before it; `getPatch idx` tells whether `sim.getPatch(idx, true)`
yields a patch of the generator's kind (a non-null pointer after the
`dynamic_cast`); `dim_default` and `thick_default` are the default values of
the last two parameters of `addConnection`, used where a call omits them. -/
structure SIMinput where
  createFEMmodel : Bool
  p1 : Int
  p2 : Int
  p3 : Int
  addConnection : List Event → Conn → Bool
  getPatch : Nat → Bool
  dim_default : Nat
  thick_default : Int

/-- A piece of `createTopology`: it extends the record of calls and tells
whether control continues (`true`) or the function has executed `return false`. -/
abbrev Topo := List Event → Bool × List Event

/-- The empty statement. -/
def Topo.skip : Topo := fun t => (true, t)

/-- Sequencing of two statements `a; b`: `b` runs unless `a` has returned `false`. -/
def Topo.seq (a b : Topo) : Topo := fun t =>
  if (a t).1 then b (a t).2 else a t

/-- The loop `for (size_t i = 0; i < n; ++i) body(i)`. -/
def forLoop : Nat → (Nat → Topo) → Topo
  | 0, _ => Topo.skip
  | n + 1, body => Topo.seq (forLoop n body) (body n)

/-- The unsigned value `n-1` of the loop bounds `nx-1`, `ny-1`, `nz-1`
(64-bit `size_t`, wrapping for `n = 0`). -/
def decr (n : Nat) : Nat := if n = 0 then 2 ^ 64 - 1 else n - 1

/-- The statement `if (!sim.addConnection(...)) return false;`. -/
def connect (sim : SIMinput) (c : Conn) : Topo := fun t =>
  (sim.addConnection t c, t ++ [Event.addConnection c (sim.addConnection t c)])

/-- The statements `pch = dynamic_cast<..>(sim.getPatch(patch, true)); if (pch) pch->close..(..)`,
where `ev` is the closing call. -/
def close (sim : SIMinput) (patch : Nat) (ev : Event) : Topo := fun t =>
  (true, if sim.getPatch patch then t ++ [ev] else t)

/-- The connection calls recorded in a list of events, in order. -/
def connections (t : List Event) : List Conn :=
  t.filterMap fun e => match e with
    | Event.addConnection c _ => some c
    | _ => none

/-- Every `addConnection` call recorded in `t` returned `true`. -/
def allSucceed (t : List Event) : Bool :=
  t.all fun e => match e with
    | Event.addConnection _ ok => ok
    | _ => true

/-! ## 1D generator: topology -/

namespace MultiPatchModelGenerator1D

/-- The local `thick = subdivision ? p1-1 : 1`. -/
def thick (g : MultiPatchModelGenerator1D) (sim : SIMinput) : Int :=
  if g.subdivision then sim.p1 - 1 else 1

/-- `MultiPatchModelGenerator1D::createTopology`: the value returned and the
calls made. -/
def createTopology (g : MultiPatchModelGenerator1D) (sim : SIMinput) : Bool × List Event :=
  if !sim.createFEMmodel then (false, [])
  else
    (Topo.seq
      (forLoop (decr g.nx) fun i =>
        connect sim ⟨i + 1, i + 2, 2, 1, 0, 0, true, 0, thick g sim⟩)
      (if g.periodic_x ≠ 0 then
        (if g.nx > 1 then
          connect sim ⟨1, g.nx, 1, 2, 0, 0, false, 0, thick g sim⟩
        else
          close sim 0 (Event.closeEnds 0))
      else Topo.skip)) []

end MultiPatchModelGenerator1D

/-! ## 2D generator: topology -/

namespace MultiPatchModelGenerator2D

/-- The lambda `IJ(i,j) = 1 + j*nx + i`. -/
def IJ (g : MultiPatchModelGenerator2D) (i j : Nat) : Nat := 1 + j * g.nx + i

/-- The lambda `thick(dir) = subdivision ? dir == 1 ? p1-1 : p2-1 : 1`. -/
def thick (g : MultiPatchModelGenerator2D) (sim : SIMinput) (dir : Nat) : Int :=
  if g.subdivision then (if dir = 1 then sim.p1 - 1 else sim.p2 - 1) else 1

/-- `MultiPatchModelGenerator2D::createTopology`: the value returned and the
calls made. -/
def createTopology (g : MultiPatchModelGenerator2D) (sim : SIMinput) : Bool × List Event :=
  if !sim.createFEMmodel then (false, [])
  else
    (Topo.seq
      (forLoop g.ny fun j => forLoop (decr g.nx) fun i =>
        connect sim ⟨IJ g i j, IJ g (i + 1) j, 2, 1, 0, 0, true, 1, thick g sim 1⟩) <|
     Topo.seq
      (forLoop (decr g.ny) fun j => forLoop g.nx fun i =>
        connect sim ⟨IJ g i j, IJ g i (j + 1), 4, 3, 0, 0, true, 1, thick g sim 2⟩) <|
     Topo.seq
      (if g.periodic_x ≠ 0 then
        forLoop g.ny fun j =>
          if g.nx > 1 then
            connect sim ⟨IJ g 0 j, IJ g (g.nx - 1) j, 1, 2, 0, 0, false,
                         sim.dim_default, sim.thick_default⟩
          else
            close sim (IJ g 0 j) (Event.closeEdges (IJ g 0 j) 1)
      else Topo.skip)
      (if g.periodic_y ≠ 0 then
        forLoop g.nx fun i =>
          if g.ny > 1 then
            connect sim ⟨IJ g i 0, IJ g i (g.ny - 1), 3, 4, 0, 0, false,
                         sim.dim_default, sim.thick_default⟩
          else
            close sim (IJ g i 0) (Event.closeEdges (IJ g i 0) 2)
      else Topo.skip)) []

end MultiPatchModelGenerator2D

/-! ## 3D generator: topology -/

namespace MultiPatchModelGenerator3D

/-- The lambda `IJK(i,j,k) = 1 + (k*ny+j)*nx + i`. -/
def IJK (g : MultiPatchModelGenerator3D) (i j k : Nat) : Nat :=
  1 + (k * g.ny + j) * g.nx + i

/-- The lambda `thick(dir)`: `1` without subdivision, else
`dir == 1 ? p1-1 : (dir == 2 ? p2-1 : p3-1)`. -/
def thick (g : MultiPatchModelGenerator3D) (sim : SIMinput) (dir : Nat) : Int :=
  if !g.subdivision then 1
  else if dir = 1 then sim.p1 - 1 else (if dir = 2 then sim.p2 - 1 else sim.p3 - 1)

/-- `MultiPatchModelGenerator3D::createTopology`: the value returned and the
calls made. -/
def createTopology (g : MultiPatchModelGenerator3D) (sim : SIMinput) : Bool × List Event :=
  if !sim.createFEMmodel then (false, [])
  else
    (Topo.seq
      (forLoop g.nz fun k => forLoop g.ny fun j => forLoop (decr g.nx) fun i =>
        connect sim ⟨IJK g i j k, IJK g (i + 1) j k, 2, 1, 0, 0, true, 2, thick g sim 1⟩) <|
     Topo.seq
      (forLoop g.nz fun k => forLoop (decr g.ny) fun j => forLoop g.nx fun i =>
        connect sim ⟨IJK g i j k, IJK g i (j + 1) k, 4, 3, 0, 0, true, 2, thick g sim 2⟩) <|
     Topo.seq
      (forLoop (decr g.nz) fun k => forLoop g.ny fun j => forLoop g.nx fun i =>
        connect sim ⟨IJK g i j k, IJK g i j (k + 1), 6, 5, 0, 0, true, 2, thick g sim 3⟩) <|
     Topo.seq
      (if g.periodic_x ≠ 0 then
        forLoop g.nz fun k => forLoop g.ny fun j =>
          if g.nx > 1 then
            connect sim ⟨IJK g 0 j k, IJK g (g.nx - 1) j k, 1, 2, 0, 0, false, 2,
                         sim.thick_default⟩
          else
            close sim (IJK g 0 j k) (Event.closeFaces (IJK g 0 j k) 1)
      else Topo.skip) <|
     Topo.seq
      (if g.periodic_y ≠ 0 then
        forLoop g.nz fun k => forLoop g.nx fun i =>
          if g.ny > 1 then
            connect sim ⟨IJK g i 0 k, IJK g i (g.ny - 1) k, 3, 4, 0, 0, false, 2,
                         sim.thick_default⟩
          else
            close sim (IJK g i 0 k) (Event.closeFaces (IJK g i 0 k) 2)
      else Topo.skip)
      (if g.periodic_z ≠ 0 then
        forLoop g.ny fun j => forLoop g.nx fun i =>
          if g.nz > 1 then
            connect sim ⟨IJK g i j 0, IJK g i j (g.nz - 1), 5, 6, 0, 0, false, 2,
                         sim.thick_default⟩
          else
            close sim (IJK g i j 0) (Event.closeFaces (IJK g i j 0) 3)
      else Topo.skip)) []

end MultiPatchModelGenerator3D

/-! ## The calls of a run of `createTopology` in which no call fails -/

/-- The statement `s` behaves regularly with respect to the list of calls `L`:
started after any record `t` it either continues, having made exactly the calls
`L`, all connection calls answered `true`; or it returns `false` right after a
connection call answered `false`, having made before it an initial part of `L`,
the failed call being the next call of `L`. -/
def Regular (s : Topo) (L : List Event) : Prop :=
  ∀ t, s t = (true, t ++ L) ∨
    ∃ pre c, s t = (false, t ++ pre ++ [Event.addConnection c false]) ∧
      (pre ++ [Event.addConnection c true]) <+: L

namespace MultiPatchModelGenerator1D

/-- The calls of the 1D `createTopology` when the model build and every
connection call succeed. -/
def calls (g : MultiPatchModelGenerator1D) (sim : SIMinput) : List Event :=
  ((List.range (decr g.nx)).flatMap fun i =>
    [Event.addConnection ⟨i + 1, i + 2, 2, 1, 0, 0, true, 0, thick g sim⟩ true]) ++
  (if g.periodic_x ≠ 0 then
    (if g.nx > 1 then
      [Event.addConnection ⟨1, g.nx, 1, 2, 0, 0, false, 0, thick g sim⟩ true]
    else (if sim.getPatch 0 then [Event.closeEnds 0] else []))
  else [])

end MultiPatchModelGenerator1D

namespace MultiPatchModelGenerator2D

/-- The calls of the first loop nest (neighbours in `x`) when nothing fails. -/
def adjacentX (g : MultiPatchModelGenerator2D) (sim : SIMinput) : List Event :=
  (List.range g.ny).flatMap fun j => (List.range (decr g.nx)).flatMap fun i =>
    [Event.addConnection ⟨IJ g i j, IJ g (i + 1) j, 2, 1, 0, 0, true, 1, thick g sim 1⟩ true]

/-- The calls of the second loop nest (neighbours in `y`) when nothing fails. -/
def adjacentY (g : MultiPatchModelGenerator2D) (sim : SIMinput) : List Event :=
  (List.range (decr g.ny)).flatMap fun j => (List.range g.nx).flatMap fun i =>
    [Event.addConnection ⟨IJ g i j, IJ g i (j + 1), 4, 3, 0, 0, true, 1, thick g sim 2⟩ true]

/-- The calls of the `periodic_x` part when nothing fails. -/
def periodicX (g : MultiPatchModelGenerator2D) (sim : SIMinput) : List Event :=
  if g.periodic_x ≠ 0 then
    (List.range g.ny).flatMap fun j =>
      if g.nx > 1 then
        [Event.addConnection ⟨IJ g 0 j, IJ g (g.nx - 1) j, 1, 2, 0, 0, false,
                              sim.dim_default, sim.thick_default⟩ true]
      else (if sim.getPatch (IJ g 0 j) then [Event.closeEdges (IJ g 0 j) 1] else [])
  else []

/-- The calls of the `periodic_y` part when nothing fails. -/
def periodicY (g : MultiPatchModelGenerator2D) (sim : SIMinput) : List Event :=
  if g.periodic_y ≠ 0 then
    (List.range g.nx).flatMap fun i =>
      if g.ny > 1 then
        [Event.addConnection ⟨IJ g i 0, IJ g i (g.ny - 1), 3, 4, 0, 0, false,
                              sim.dim_default, sim.thick_default⟩ true]
      else (if sim.getPatch (IJ g i 0) then [Event.closeEdges (IJ g i 0) 2] else [])
  else []

/-- The calls of the 2D `createTopology` when the model build and every
connection call succeed. -/
def calls (g : MultiPatchModelGenerator2D) (sim : SIMinput) : List Event :=
  adjacentX g sim ++ (adjacentY g sim ++ (periodicX g sim ++ periodicY g sim))

end MultiPatchModelGenerator2D

namespace MultiPatchModelGenerator3D

/-- The calls of the first loop nest (neighbours in `x`) when nothing fails. -/
def adjacentX (g : MultiPatchModelGenerator3D) (sim : SIMinput) : List Event :=
  (List.range g.nz).flatMap fun k => (List.range g.ny).flatMap fun j =>
    (List.range (decr g.nx)).flatMap fun i =>
      [Event.addConnection
        ⟨IJK g i j k, IJK g (i + 1) j k, 2, 1, 0, 0, true, 2, thick g sim 1⟩ true]

/-- The calls of the second loop nest (neighbours in `y`) when nothing fails. -/
def adjacentY (g : MultiPatchModelGenerator3D) (sim : SIMinput) : List Event :=
  (List.range g.nz).flatMap fun k => (List.range (decr g.ny)).flatMap fun j =>
    (List.range g.nx).flatMap fun i =>
      [Event.addConnection
        ⟨IJK g i j k, IJK g i (j + 1) k, 4, 3, 0, 0, true, 2, thick g sim 2⟩ true]

/-- The calls of the third loop nest (neighbours in `z`) when nothing fails. -/
def adjacentZ (g : MultiPatchModelGenerator3D) (sim : SIMinput) : List Event :=
  (List.range (decr g.nz)).flatMap fun k => (List.range g.ny).flatMap fun j =>
    (List.range g.nx).flatMap fun i =>
      [Event.addConnection
        ⟨IJK g i j k, IJK g i j (k + 1), 6, 5, 0, 0, true, 2, thick g sim 3⟩ true]

/-- The calls of the `periodic_x` part when nothing fails. -/
def periodicX (g : MultiPatchModelGenerator3D) (sim : SIMinput) : List Event :=
  if g.periodic_x ≠ 0 then
    (List.range g.nz).flatMap fun k => (List.range g.ny).flatMap fun j =>
      if g.nx > 1 then
        [Event.addConnection ⟨IJK g 0 j k, IJK g (g.nx - 1) j k, 1, 2, 0, 0, false, 2,
                              sim.thick_default⟩ true]
      else (if sim.getPatch (IJK g 0 j k) then [Event.closeFaces (IJK g 0 j k) 1] else [])
  else []

/-- The calls of the `periodic_y` part when nothing fails. -/
def periodicY (g : MultiPatchModelGenerator3D) (sim : SIMinput) : List Event :=
  if g.periodic_y ≠ 0 then
    (List.range g.nz).flatMap fun k => (List.range g.nx).flatMap fun i =>
      if g.ny > 1 then
        [Event.addConnection ⟨IJK g i 0 k, IJK g i (g.ny - 1) k, 3, 4, 0, 0, false, 2,
                              sim.thick_default⟩ true]
      else (if sim.getPatch (IJK g i 0 k) then [Event.closeFaces (IJK g i 0 k) 2] else [])
  else []

/-- The calls of the `periodic_z` part when nothing fails. -/
def periodicZ (g : MultiPatchModelGenerator3D) (sim : SIMinput) : List Event :=
  if g.periodic_z ≠ 0 then
    (List.range g.ny).flatMap fun j => (List.range g.nx).flatMap fun i =>
      if g.nz > 1 then
        [Event.addConnection ⟨IJK g i j 0, IJK g i j (g.nz - 1), 5, 6, 0, 0, false, 2,
                              sim.thick_default⟩ true]
      else (if sim.getPatch (IJK g i j 0) then [Event.closeFaces (IJK g i j 0) 3] else [])
  else []

/-- The calls of the 3D `createTopology` when the model build and every
connection call succeed. -/
def calls (g : MultiPatchModelGenerator3D) (sim : SIMinput) : List Event :=
  adjacentX g sim ++ (adjacentY g sim ++ (adjacentZ g sim ++
    (periodicX g sim ++ (periodicY g sim ++ periodicZ g sim))))

end MultiPatchModelGenerator3D

/-! ## Sample inputs, used to instantiate the theorems -/

/-- A linear curve with two coefficients (one knot span). -/
def sampleCurve : SplineCurve Nat :=
  { numCoefs := 2, order := 2, dimension := 1, rational := false,
    basis := [0, 0, 1, 1], coefs := [0, 1], rcoefs := [] }

/-- A surface with 5 x 3 control points in the plane, quadratic in `u` and
linear in `v` (three knot spans by two); coefficient number `n` has value `n`. -/
def sampleSurface : SplineSurface Nat :=
  { numCoefs_u := 5, numCoefs_v := 3, order_u := 3, order_v := 2, dimension := 2,
    rational := false, basis_u := [0, 0, 0, 1, 2, 3, 3, 3], basis_v := [0, 0, 1, 2, 2],
    coefs := List.range 30, rcoefs := [] }

/-- A trilinear volume with 3 x 2 x 2 control points in space; coefficient
number `n` has value `n`. -/
def sampleVolume : SplineVolume Nat :=
  { numCoefs0 := 3, numCoefs1 := 2, numCoefs2 := 2, order0 := 2, order1 := 2, order2 := 2,
    dimension := 3, rational := false, basis0 := [0, 0, 1, 2, 2], basis1 := [0, 0, 1, 1],
    basis2 := [0, 0, 1, 1], coefs := List.range 36, rcoefs := [] }

/-- A simulator whose model build and connection calls all succeed, with
patch 1 of orders 3, 4, 5 and patches numbered from 1 to 8. -/
def sampleSim : SIMinput :=
  { createFEMmodel := true, p1 := 3, p2 := 4, p3 := 5,
    addConnection := fun _ _ => true,
    getPatch := fun idx => decide (1 ≤ idx ∧ idx ≤ 8),
    dim_default := 1, thick_default := 1 }


/-! ## Named topology sets -/

/-- A topological item `TopItem(patch, item, idim)`: local entity `item` of
dimension `idim` on patch `patch`. -/
structure TopItem where
  patch : Nat
  item : Nat
  idim : Nat
deriving DecidableEq, Repr

/-- A `TopEntity`: a set of topological items. -/
abbrev TopEntity := Finset TopItem

/-- A `TopologySet`, a map from names to sets of items: `names` are the keys
present in the map and `items n` is the set stored under `n` (empty for a name
that is not a key). -/
structure TopologySet where
  names : Finset String
  items : String → TopEntity

/-- The empty map, `TopologySet result;`. -/
def TopologySet.empty : TopologySet := ⟨∅, fun _ => ∅⟩

/-- The access `result[n]`, which creates the key `n` with an empty set when it
is not present. -/
def TopologySet.touch (m : TopologySet) (n : String) : TopologySet :=
  ⟨insert n m.names, m.items⟩

/-- The statement `result[n].insert(t)`. -/
def TopologySet.insert (m : TopologySet) (n : String) (t : TopItem) : TopologySet :=
  ⟨Insert.insert n m.names, fun k => if k = n then Insert.insert t (m.items k) else m.items k⟩

/-- The loop `for (size_t i = 0; i < n; ++i) body(i)` on a state of type `σ`. -/
def forEach {σ : Type} (n : Nat) (body : Nat → σ → σ) (s : σ) : σ :=
  (List.range n).foldl (fun s i => body i s) s

/-- The lambdas `insertion` and `insertionv` of the 1D and 2D generators:
`name` is the key of the set passed by reference, `glob` the key of the captured
aggregate set, `L` is `sim.getLocalPatchIndex`.  The patch number of the item is
replaced by its local index; the item is stored when that index is positive. -/
def insertion (L : Nat → Nat) (glob name : String) (top : TopItem) (m : TopologySet) :
    TopologySet :=
  if L top.patch > 0 then
    (m.insert name ⟨L top.patch, top.item, top.idim⟩).insert glob
      ⟨L top.patch, top.item, top.idim⟩
  else m

namespace MultiPatchModelGenerator1D

/-- `MultiPatchModelGenerator1D::createTopologySets`; `topologySets` is the
value of `this->topologySets()` and `L` is `sim.getLocalPatchIndex`. -/
def createTopologySets (g : MultiPatchModelGenerator1D) (topologySets : Bool)
    (L : Nat → Nat) : TopologySet :=
  let result := TopologySet.empty
  if !topologySets then result
  else
    let result := ((result.touch "Vertex1").touch "Vertex2").touch "Boundary"
    let result := insertion L "Boundary" "Vertex1" ⟨1, 1, 0⟩ result
    insertion L "Boundary" "Vertex2" ⟨g.nx, 2, 0⟩ result

end MultiPatchModelGenerator1D

namespace MultiPatchModelGenerator2D

/-- `MultiPatchModelGenerator2D::createTopologySets`; `topologySets` is the
value of `this->topologySets()` and `L` is `sim.getLocalPatchIndex`. -/
def createTopologySets (g : MultiPatchModelGenerator2D) (topologySets : Bool)
    (L : Nat → Nat) : TopologySet :=
  let result := TopologySet.empty
  if !topologySets then result
  else
    let result := ((((result.touch "Edge1").touch "Edge2").touch "Edge3").touch "Edge4").touch
      "Boundary"
    let result := forEach g.ny (fun i m =>
      insertion L "Boundary" "Edge2" ⟨(i + 1) * g.nx, 2, 1⟩
        (insertion L "Boundary" "Edge1" ⟨i * g.nx + 1, 1, 1⟩ m)) result
    let result := forEach g.nx (fun i m =>
      insertion L "Boundary" "Edge4" ⟨g.nx * (g.ny - 1) + 1 + i, 4, 1⟩
        (insertion L "Boundary" "Edge3" ⟨i + 1, 3, 1⟩ m)) result
    let result := result.touch "Corners"
    let result := insertion L "Corners" "Vertex1" ⟨1, 1, 0⟩ (result.touch "Vertex1")
    let result := insertion L "Corners" "Vertex2" ⟨g.nx, 2, 0⟩ (result.touch "Vertex2")
    let result := insertion L "Corners" "Vertex3" ⟨g.nx * (g.ny - 1) + 1, 3, 0⟩
      (result.touch "Vertex3")
    insertion L "Corners" "Vertex4" ⟨g.nx * g.ny, 4, 0⟩ (result.touch "Vertex4")

end MultiPatchModelGenerator2D

namespace MultiPatchModelGenerator3D

/-- The lambda `IJK2` (start/end IJK). -/
def IJK2 (g : MultiPatchModelGenerator3D) (i j k : Nat) : Nat :=
  IJK g (i * (g.nx - 1)) (j * (g.ny - 1)) (k * (g.nz - 1))

/-- The lambda `IJKI` (start/end JK). -/
def IJKI (g : MultiPatchModelGenerator3D) (i j k : Nat) : Nat :=
  IJK g i (j * (g.ny - 1)) (k * (g.nz - 1))

/-- The lambda `IJKJ` (start/end IK). -/
def IJKJ (g : MultiPatchModelGenerator3D) (i j k : Nat) : Nat :=
  IJK g (i * (g.nx - 1)) j (k * (g.nz - 1))

/-- The lambda `IJKK` (start/end IJ). -/
def IJKK (g : MultiPatchModelGenerator3D) (i j k : Nat) : Nat :=
  IJK g (i * (g.nx - 1)) (j * (g.ny - 1)) k

/-- The lambda `IJK2I` (start/end I). -/
def IJK2I (g : MultiPatchModelGenerator3D) (i j k : Nat) : Nat :=
  IJK g (i * (g.nx - 1)) j k

/-- The lambda `IJK2J` (start/end J). -/
def IJK2J (g : MultiPatchModelGenerator3D) (i j k : Nat) : Nat :=
  IJK g i (j * (g.ny - 1)) k

/-- The lambda `IJK2K` (start/end K). -/
def IJK2K (g : MultiPatchModelGenerator3D) (i j k : Nat) : Nat :=
  IJK g i j (k * (g.nz - 1))

/-- The lambda `insertion` of the 3D generator: the set `type` followed by the
item number and the aggregate set `glob` are looked up (and so created) by
name; the item is stored in both, with its local patch index, when that index
is positive. -/
def insertion (L : Nat → Nat) (top : TopItem) (glob type : String) (m : TopologySet) :
    TopologySet :=
  let m := (m.touch (type ++ toString top.item)).touch glob
  if L top.patch > 0 then
    (m.insert (type ++ toString top.item) ⟨L top.patch, top.item, top.idim⟩).insert glob
      ⟨L top.patch, top.item, top.idim⟩
  else m

/-- `MultiPatchModelGenerator3D::createTopologySets`; `topologySets` is the
value of `this->topologySets()` and `L` is `sim.getLocalPatchIndex`.  The
state of the loops is the pair of the running item number `r` and `result`;
a loop header `for (...; ++i, ++r)` increments `r` after each of its rounds. -/
def createTopologySets (g : MultiPatchModelGenerator3D) (topologySets : Bool)
    (L : Nat → Nat) : TopologySet :=
  let result := TopologySet.empty
  if !topologySets then result
  else
    let s : Nat × TopologySet := (1, result)
    let s := forEach 2 (fun i s =>
      (s.1 + 1, forEach g.nz (fun k m => forEach g.ny (fun j m =>
        insertion L ⟨IJK2I g i j k, s.1, 2⟩ "Boundary" "Face" m) m) s.2)) s
    let s := forEach 2 (fun j s =>
      (s.1 + 1, forEach g.nz (fun k m => forEach g.nx (fun i m =>
        insertion L ⟨IJK2J g i j k, s.1, 2⟩ "Boundary" "Face" m) m) s.2)) s
    let s := forEach 2 (fun k s =>
      (s.1 + 1, forEach g.ny (fun j m => forEach g.nx (fun i m =>
        insertion L ⟨IJK2K g i j k, s.1, 2⟩ "Boundary" "Face" m) m) s.2)) s
    let s : Nat × TopologySet := (1, s.2)
    let s := forEach 2 (fun k s => forEach 2 (fun j s => forEach 2 (fun i s =>
      (s.1 + 1, insertion L ⟨IJK2 g i j k, s.1, 0⟩ "Corners" "Vertex" s.2)) s) s) s
    let s : Nat × TopologySet := (1, s.2)
    let s := forEach 2 (fun k s => forEach 2 (fun i s =>
      (s.1 + 1, forEach g.ny (fun j m =>
        insertion L ⟨IJKJ g i j k, s.1, 1⟩ "Frame" "Edge" m) s.2)) s) s
    let s := forEach 2 (fun j s => forEach 2 (fun i s =>
      (s.1 + 1, forEach g.nz (fun k m =>
        insertion L ⟨IJKK g i j k, s.1, 1⟩ "Frame" "Edge" m) s.2)) s) s
    let s := forEach 2 (fun k s => forEach 2 (fun j s =>
      (s.1 + 1, forEach g.nx (fun i m =>
        insertion L ⟨IJKI g i j k, s.1, 1⟩ "Frame" "Edge" m) s.2)) s) s
    s.2

end MultiPatchModelGenerator3D

/-- The statement `f` adds the items `A k` to the set stored under each name
`k`, whatever the map it starts from. -/
def Adds (f : TopologySet → TopologySet) (A : String → Finset TopItem) : Prop :=
  ∀ m k, (f m).items k = m.items k ∪ A k

/-! ## Pre-split geometry: `createG2` -/

/-- The attributes of the `geo` XML element that `createG2` reads, with the
defaults of the source applied to an absent attribute (`rational = false`,
`scale = 1`, `Lx = Ly = Lz = 1`, `X0 = 0`).  The numbers are rationals: the
arithmetic of `createG2` is modelled exactly, without the rounding of `double`;
the decimal output of the computed numbers, six significant digits, is
modelled apart, by `G2Patch.text`. -/
structure GeoAttributes where
  rational : Bool
  scale : ℚ
  Lx : ℚ
  Ly : ℚ
  Lz : ℚ
  X0 : ℚ × ℚ × ℚ

/-- One patch of the g2 text written by `createG2`: the numbers of its header
line, the space dimension and the rational flag of its second line, for each
parametric direction the line `2 2` (number of coefficients, order) with the
knot vector following it, and the control points, one list of numbers per
line. -/
structure G2Patch where
  header : List Nat
  dimension : Nat
  rational : Bool
  basis : List (Nat × Nat × List ℚ)
  coefs : List (List ℚ)
deriving DecidableEq, Repr

namespace MultiPatchModelGenerator1D

/-- `MultiPatchModelGenerator1D::createG2`: the patches of the g2 text, in the
order in which they are appended, with the numbers as they are computed in
exact arithmetic (`G2Patch.text` gives them as they are written). -/
def createG2 (g : MultiPatchModelGenerator1D) (geo : GeoAttributes) (nsd : Nat) :
    List G2Patch :=
  let Lx := geo.Lx * geo.scale
  let Lx := if !g.subdivision then Lx / g.nx else Lx
  let nx_mp := if !g.subdivision then g.nx else 1
  (List.range nx_mp).map fun (x : Nat) =>
    let rest : List ℚ := (if nsd > 1 then [0] else []) ++ (if nsd > 2 then [0] else []) ++
      (if geo.rational then [1] else [])
    { header := [100, 1, 0, 0], dimension := nsd, rational := geo.rational,
      basis := [(2, 2, [0, 0, 1, 1])],
      coefs := [[geo.X0.1 + x * Lx] ++ rest, [geo.X0.1 + ((x + 1 : Nat) : ℚ) * Lx] ++ rest] }

end MultiPatchModelGenerator1D

namespace MultiPatchModelGenerator2D

/-- `MultiPatchModelGenerator2D::createG2`: the patches of the g2 text, in the
order in which they are appended (`y` outer loop, `x` inner loop), with the
numbers as they are computed in exact arithmetic (`G2Patch.text` gives them as
they are written). -/
def createG2 (g : MultiPatchModelGenerator2D) (geo : GeoAttributes) (nsd : Nat) :
    List G2Patch :=
  let Lx := geo.Lx * geo.scale
  let Ly := geo.Ly * geo.scale
  let Lx := if !g.subdivision then Lx / g.nx else Lx
  let Ly := if !g.subdivision then Ly / g.ny else Ly
  let nx_mp := if !g.subdivision then g.nx else 1
  let ny_mp := if !g.subdivision then g.ny else 1
  (List.range ny_mp).flatMap fun (y : Nat) => (List.range nx_mp).map fun (x : Nat) =>
    let rest : List ℚ := (if nsd > 2 then [0] else []) ++ (if geo.rational then [1] else [])
    { header := [200, 1, 0, 0], dimension := if nsd > 2 then 3 else 2,
      rational := geo.rational,
      basis := [(2, 2, [0, 0, 1, 1]), (2, 2, [0, 0, 1, 1])],
      coefs := [[geo.X0.1 + x * Lx, geo.X0.2.1 + y * Ly] ++ rest,
                [geo.X0.1 + ((x + 1 : Nat) : ℚ) * Lx, geo.X0.2.1 + y * Ly] ++ rest,
                [geo.X0.1 + x * Lx, geo.X0.2.1 + ((y + 1 : Nat) : ℚ) * Ly] ++ rest,
                [geo.X0.1 + ((x + 1 : Nat) : ℚ) * Lx,
                 geo.X0.2.1 + ((y + 1 : Nat) : ℚ) * Ly] ++ rest] }

end MultiPatchModelGenerator2D

namespace MultiPatchModelGenerator3D

/-- The array `nodes` of `createG2`: the corners of the unit cube. -/
def nodes : List ℚ :=
  [0, 0, 0,
   1, 0, 0,
   0, 1, 0,
   1, 1, 0,
   0, 0, 1,
   1, 0, 1,
   0, 1, 1,
   1, 1, 1]

/-- `MultiPatchModelGenerator3D::createG2`: the patches of the g2 text, in the
order in which they are appended (`z` outer loop, then `y`, then `x`), with
the numbers as they are computed in exact arithmetic (`G2Patch.text` gives
them as they are written).  The loop `for (i = 0; i < nodes.size(); i += 3)`
is run with `i = 3*q`. -/
def createG2 (g : MultiPatchModelGenerator3D) (geo : GeoAttributes) : List G2Patch :=
  let Lx := geo.Lx * geo.scale
  let Ly := geo.Ly * geo.scale
  let Lz := geo.Lz * geo.scale
  let Lx := if !g.subdivision then Lx / g.nx else Lx
  let Ly := if !g.subdivision then Ly / g.ny else Ly
  let Lz := if !g.subdivision then Lz / g.nz else Lz
  let nx_mp := if !g.subdivision then g.nx else 1
  let ny_mp := if !g.subdivision then g.ny else 1
  let nz_mp := if !g.subdivision then g.nz else 1
  let X0 : List ℚ := [geo.X0.1, geo.X0.2.1, geo.X0.2.2]
  (List.range nz_mp).flatMap fun (z : Nat) => (List.range ny_mp).flatMap fun (y : Nat) =>
    (List.range nx_mp).map fun (x : Nat) =>
      { header := [700, 1, 0, 0], dimension := 3, rational := geo.rational,
        basis := [(2, 2, [0, 0, 1, 1]), (2, 2, [0, 0, 1, 1]), (2, 2, [0, 0, 1, 1])],
        coefs := (List.range 8).map fun (q : Nat) =>
          let N : List ℚ := [x, y, z]
          let L : List ℚ := [Lx, Ly, Lz]
          ((List.range 3).map fun (j : Nat) =>
            X0.getD j 0 + N.getD j 0 * L.getD j 0 + nodes.getD (3 * q + j) 0 * L.getD j 0) ++
          (if geo.rational then [1] else []) }

end MultiPatchModelGenerator3D

/-- A box of lengths 2, 3 and 1 with corner `(1, 0, 0)`, not rational, unscaled. -/
def sampleGeo : GeoAttributes :=
  { rational := false, scale := 1, Lx := 2, Ly := 3, Lz := 1, X0 := (1, 0, 0) }

/-- The lower coordinate of grid cell `x` along one axis in the words of the
specification: `X0 + x*h` with `h = s*L/n`. -/
def cellLower (o s L : ℚ) (n x : Nat) : ℚ := o + x * (s * L / n)

/-- The upper coordinate of grid cell `x` along one axis in the words of the
specification: `X0 + (x+1)*h` with `h = s*L/n`. -/
def cellUpper (o s L : ℚ) (n x : Nat) : ℚ := o + (x + 1) * (s * L / n)

/-- The knot vector of a sub-curve constructed by `getSubPatch` (1D): the
`Go::SplineCurve` constructor reads `numcoefsu + orderu` knots through the knot
iterator `basis().begin() + knotStart` of the source curve `cur`. -/
def SubCurve.knots {α : Type} (cur : SplineCurve α) (s : SubCurve) : List (Option α) :=
  (List.range (s.numcoefsu + s.orderu)).map fun t => cur.basis[s.knotStart + t]?

/-- The 8 corners of the box with lower corner `lo` and upper corner `hi`, in
the order of the unit-cube table of `createG2` (`x` fastest, then `y`, then
`z`). -/
def boxCorners (lo hi : ℚ × ℚ × ℚ) : List (List ℚ) :=
  [[lo.1, lo.2.1, lo.2.2], [hi.1, lo.2.1, lo.2.2], [lo.1, hi.2.1, lo.2.2], [hi.1, hi.2.1, lo.2.2],
   [lo.1, lo.2.1, hi.2.2], [hi.1, lo.2.1, hi.2.2], [lo.1, hi.2.1, hi.2.2], [hi.1, hi.2.1, hi.2.2]]

/-! ## Structured 3D patches: global node numbering and thread groups

`ASMs3D.h` declares `connectPatch`, `assignNodeNumbers` and
`generateThreadGroups` without their bodies.  The definitions of this section
follow the specification (its sections 3, 4.3 and 4.4) and the comments of the
header. -/

/-- Modelled from the spec: the data of a structured 3D patch that node
numbering and thread grouping work on (the header declares the class `ASMs3D`;
its base classes, which hold these data, and the bodies of its member
functions are missing): the number of nodes `n1, n2, n3` and the polynomial
order `p1, p2, p3` in each parameter direction, and the global number `MLGN`
of each node, the nodes taken in the native order of the patch (`I` fastest,
then `J`, then `K`). -/
structure ASMs3D where
  n1 : Nat
  n2 : Nat
  n3 : Nat
  p1 : Nat
  p2 : Nat
  p3 : Nat
  MLGN : List Nat
deriving DecidableEq, Repr

namespace ASMs3D

/-- Modelled from the spec: the 0-based local index of the node `(i, j, k)` in
the native order of the patch. -/
def node (p : ASMs3D) (i j k : Nat) : Nat := i + p.n1 * (j + p.n2 * k)

/-- Modelled from the spec: the numbers of nodes of local face `face` (1 to 6)
in its two parameter directions: faces 1 and 2 are normal to `I`, faces 3 and 4
to `J`, faces 5 and 6 to `K`. -/
def faceSize (p : ASMs3D) (face : Nat) : Nat × Nat :=
  if face = 1 ∨ face = 2 then (p.n2, p.n3)
  else if face = 3 ∨ face = 4 then (p.n1, p.n3)
  else if face = 5 ∨ face = 6 then (p.n1, p.n2)
  else (0, 0)

/-- Modelled from the spec: the node count of the patch normal to local face
`face`. -/
def normalSize (p : ASMs3D) (face : Nat) : Nat :=
  if face = 1 ∨ face = 2 then p.n1
  else if face = 3 ∨ face = 4 then p.n2
  else if face = 5 ∨ face = 6 then p.n3
  else 0

/-- Modelled from the spec: the local index of the node with face parameters
`(a, b)` in layer `t` of the `thick` layers of nodes next to local face `face`,
the layers taken in the order of increasing index normal to the face. -/
def faceNode (p : ASMs3D) (face thick t a b : Nat) : Nat :=
  if face = 1 then p.node t a b
  else if face = 2 then p.node (p.n1 - thick + t) a b
  else if face = 3 then p.node a t b
  else if face = 4 then p.node a (p.n2 - thick + t) b
  else if face = 5 then p.node a b t
  else if face = 6 then p.node a b (p.n3 - thick + t)
  else 0

/-- Modelled from the spec: `ASMs3D::connectPatch` (declared in `ASMs3D.h`, body
missing), with the thickness of the specification's connection record.  The
result is `false` with nothing shared when a face index is outside `[1,6]`,
when the orientation flag is outside `[0,7]`, when the thickness exceeds the
node count normal to the interface of the smaller patch, or when the two faces
do not have matching numbers of nodes.  Otherwise it is `true` with the table
of the shared nodes: each node of the `thick` layers at `face` of this patch,
paired with the global number of the matching node of the neighbour.  The
three binary digits of `norient` are decoded as in the header: left digit, the
parameters of the neighbour face are swapped; middle digit, its first
parameter is reversed; right digit, its second parameter is reversed. -/
def connectPatch (this : ASMs3D) (face : Nat) (neighbor : ASMs3D) (nface : Nat)
    (norient : Int) (thick : Nat) : Bool × List (Nat × Nat) :=
  if face < 1 ∨ 6 < face ∨ nface < 1 ∨ 6 < nface then (false, [])
  else if norient < 0 ∨ 7 < norient then (false, [])
  else if min (this.normalSize face) (neighbor.normalSize nface) < thick then (false, [])
  else
    let swap : Bool := norient.toNat / 4 % 2 = 1
    let revu : Bool := norient.toNat / 2 % 2 = 1
    let revv : Bool := norient.toNat % 2 = 1
    let nu := (this.faceSize face).1
    let nv := (this.faceSize face).2
    let mu := (neighbor.faceSize nface).1
    let mv := (neighbor.faceSize nface).2
    if (if swap then (nv, nu) else (nu, nv)) ≠ (mu, mv) then (false, [])
    else
      (true, (List.range thick).flatMap fun t => (List.range nv).flatMap fun b =>
        (List.range nu).map fun a =>
          let a1 := if swap then b else a
          let b1 := if swap then a else b
          let a2 := if revu then mu - 1 - a1 else a1
          let b2 := if revv then mv - 1 - b1 else b1
          (this.faceNode face thick t a b,
           neighbor.MLGN.getD (neighbor.faceNode nface thick t a2 b2) 0))

/-- Modelled from the spec: the visit of the first `n` nodes of a patch in its
native `(I, J, K)` order by the global node numbering: a node that a
connection shares with a patch numbered before (an entry of `shared`) reads the
number assigned there, every other node takes the value of the running
counter, which is then incremented.  The result is the list of the numbers
given and the value of the counter. -/
def numberNodes (shared : List (Nat × Nat)) (n counter : Nat) : List Nat × Nat :=
  (List.range n).foldl
    (fun (s : List Nat × Nat) inod =>
      match shared.lookup inod with
      | some g => (s.1 ++ [g], s.2)
      | none => (s.1 ++ [s.2], s.2 + 1)) ([], counter)

/-- Modelled from the spec: `ASMs3D::assignNodeNumbers` (declared in
`ASMs3D.h`, body missing) as the global node numbering of the specification:
all `n1*n2*n3` nodes of the patch are visited by `numberNodes`.  The result is
the numbered patch and the counter for the next patch. -/
def assignNodeNumbers (this : ASMs3D) (shared : List (Nat × Nat)) (counter : Nat) :
    ASMs3D × Nat :=
  ({ this with MLGN := (numberNodes shared (this.n1 * this.n2 * this.n3) counter).1 },
   (numberNodes shared (this.n1 * this.n2 * this.n3) counter).2)

/-- Modelled from the spec: the global node numbers occurring on local face
`face` of a numbered patch. -/
def faceNumbers (p : ASMs3D) (face : Nat) : Finset Nat :=
  (Finset.range (p.faceSize face).1 ×ˢ Finset.range (p.faceSize face).2).image
    fun ab => p.MLGN.getD (p.faceNode face 1 0 ab.1 ab.2) 0

/-- Modelled from the spec: the numbers of elements (knot spans) of the patch
in the three parameter directions, `n - p + 1` for `n` nodes and order `p`. -/
def nel (p : ASMs3D) : Nat × Nat × Nat :=
  (p.n1 - p.p1 + 1, p.n2 - p.p2 + 1, p.n3 - p.p3 + 1)

/-- Modelled from the spec: the number of elements of the patch. -/
def nElements (p : ASMs3D) : Nat := p.nel.1 * p.nel.2.1 * p.nel.2.2

/-- Modelled from the spec: the position `(e1, e2, e3)` in the regular
`I/J/K` element lattice of the element with 0-based index `iel` (`I` fastest). -/
def elementIJK (p : ASMs3D) (iel : Nat) : Nat × Nat × Nat :=
  (iel % p.nel.1, iel / p.nel.1 % p.nel.2.1, iel / p.nel.1 / p.nel.2.1)

/-- Modelled from the spec: the element-to-node connectivity of the patch: the
element at lattice position `(e1, e2, e3)` has the `p1*p2*p3` nodes
`(e1 + a, e2 + b, e3 + c)`, `a < p1`, `b < p2`, `c < p3`. -/
def elementNodes (p : ASMs3D) (iel : Nat) : Finset Nat :=
  (Finset.range p.p1 ×ˢ Finset.range p.p2 ×ˢ Finset.range p.p3).image fun abc =>
    p.node ((p.elementIJK iel).1 + abc.1) ((p.elementIJK iel).2.1 + abc.2.1)
      ((p.elementIJK iel).2.2 + abc.2.2)

/-- Modelled from the spec: the group of an element under stride partitioning
along each parametric direction, the stride in a direction being the order of
the patch in that direction. -/
def threadGroup (p : ASMs3D) (iel : Nat) : Nat :=
  (p.elementIJK iel).1 % p.p1 +
    p.p1 * ((p.elementIJK iel).2.1 % p.p2 + p.p2 * ((p.elementIJK iel).2.2 % p.p3))

/-- Modelled from the spec: `ASMs3D::generateThreadGroups` (declared in
`ASMs3D.h`, body missing) for the volume assembly: the ordered sequence of the
`p1*p2*p3` groups of the stride partitioning of the element lattice, each group
in ascending element order. -/
def generateThreadGroups (p : ASMs3D) : List (List Nat) :=
  (List.range (p.p1 * p.p2 * p.p3)).map fun grp =>
    (List.range p.nElements).filter fun iel => p.threadGroup iel = grp

end ASMs3D

/-- The statement `f` adds the names `A` to the keys of the map, whatever the
map it starts from. -/
def AddsNames (f : TopologySet → TopologySet) (A : Finset String) : Prop :=
  ∀ m, (f m).names = m.names ∪ A

/-! ## Application helpers: restart -/

namespace SIM

/-- The time levels used by a run of `SIM::handleRestart`: `max` after the
correction, the level passed to `hdf->openFile` and `hdf->readDouble`, and the
levels passed to `reader.loadTimeLevel`, in the order of the calls. -/
structure RestartLevels where
  max : Int
  opened : Int
  loaded : List Int
deriving DecidableEq, Repr

/-- `SIM::handleRestart`, as far as the time levels go.  `level` is the value
returned by `reader.getTimeLevel()`, whose body is not among the sources at
hand, and `steps` is the argument of that name.  The operator `%` of C++
truncates towards zero (`Int.tmod`); the overflow of `int` is not modelled.
The loop `for (int i=steps;i>=0;--i)` is run with `i = steps - q`,
`q = 0 .. steps`. -/
def handleRestart (level steps : Int) : RestartLevels :=
  let max := level
  let max :=
    if (max + 1).tmod (steps + 1) ≠ 0 then max - (max.tmod (steps + 1) + steps) else max
  { max := max, opened := max - steps,
    loaded := (List.range (steps + 1).toNat).map fun (q : Nat) => max - (steps - q) }

end SIM

/-! ## The decimal text of the control points -/

namespace ASMs3D

end ASMs3D
/-! ## Theorems: block sizes and offsets -/

/-- The first `m` block sizes add up to `m * (E / n) + min m (E % n)`. -/
theorem sum_ni_range (E n m : Nat) :
    ((List.range m).map (ni E n)).sum = m * (E / n) + min m (E % n) := by
  induction m with
  | zero => simp
  | succ m ih =>
    rw [List.sum_range_succ, ih]
    unfold ni
    split_ifs with h
    · rw [Nat.min_eq_left (Nat.le_of_lt h), Nat.min_eq_left (Nat.succ_le_of_lt h)]
      rw [Nat.succ_mul]
      omega
    · have h1 : E % n ≤ m := Nat.le_of_not_lt h
      rw [Nat.min_eq_right h1, Nat.min_eq_right (Nat.le_succ_of_le h1)]
      rw [Nat.succ_mul]
      omega

/-- The offset of block `i` is the sum of the sizes of the blocks before it. -/
theorem i0_eq_sum (E n i : Nat) :
    i0 E n i = ((List.range i).map (ni E n)).sum := by
  rw [sum_ni_range]
  unfold i0 ni
  split_ifs with h
  · rw [Nat.min_eq_left (Nat.le_of_lt h)]
    ring
  · rw [Nat.min_eq_right (Nat.le_of_not_lt h)]
    ring

/-- A block starts where the previous one ends. -/
theorem i0_succ (E n i : Nat) : i0 E n (i + 1) = i0 E n i + ni E n i := by
  rw [i0_eq_sum, i0_eq_sum, List.sum_range_succ]

/-- A block ends within the `E` elements of the source. -/
theorem i0_add_ni_le (E n i : Nat) (hi : i < n) : i0 E n i + ni E n i ≤ E := by
  rw [← i0_succ, i0_eq_sum, sum_ni_range]
  have h1 : (i + 1) * (E / n) ≤ n * (E / n) := Nat.mul_le_mul_right _ hi
  have h2 : min (i + 1) (E % n) ≤ E % n := Nat.min_le_right _ _
  have h3 := Nat.div_add_mod E n
  omega

/-- The last block ends exactly at the last element of the source. -/
theorem i0_add_ni_last (E n i : Nat) (hi : i + 1 = n) : i0 E n i + ni E n i = E := by
  rw [← i0_succ, i0_eq_sum, sum_ni_range, hi]
  have h0 : 0 < n := by omega
  rw [Nat.min_eq_right (Nat.le_of_lt (Nat.mod_lt E h0))]
  exact Nat.div_add_mod E n

/-- A flat index built from in-range coordinates is in range. -/
theorem flat_index_lt (N I J K n a b c : Nat) (hn : n < N) (ha : a < I) (hb : b < J)
    (hc : c < K) : n + N * a + N * I * b + N * I * J * c < N * I * J * K := by
  have h1 : n + N * a < N * I := by
    calc n + N * a < N + N * a := by omega
      _ = N * (a + 1) := by ring
      _ ≤ N * I := Nat.mul_le_mul_left _ ha
  have h2 : n + N * a + N * I * b < N * I * J := by
    calc n + N * a + N * I * b < N * I + N * I * b := by omega
      _ = N * I * (b + 1) := by ring
      _ ≤ N * I * J := Nat.mul_le_mul_left _ hb
  calc n + N * a + N * I * b + N * I * J * c < N * I * J + N * I * J * c := by omega
    _ = N * I * J * (c + 1) := by ring
    _ ≤ N * I * J * K := Nat.mul_le_mul_left _ hc

/-- C1: in post-split mode every block gets `E / n` or `E / n + 1` elements, the
blocks with the extra element are exactly those of index `i < E % n`, and the
sizes of the `n` blocks add up to `E`. -/
theorem ni_even_split (E n : Nat) (hn : 1 ≤ n) :
    (∀ i, i < n →
      (ni E n i = E / n ∨ ni E n i = E / n + 1) ∧
      (ni E n i = E / n + 1 ↔ i < E % n)) ∧
    ((List.range n).map (ni E n)).sum = E := by
  refine ⟨fun i _ => ?_, ?_⟩
  · unfold ni
    split_ifs with h
    · exact ⟨Or.inr rfl, fun _ => h, fun _ => rfl⟩
    · exact ⟨Or.inl rfl, fun h1 => absurd h1 (by omega), fun h1 => absurd h1 h⟩
  · rw [sum_ni_range, Nat.min_eq_right (Nat.le_of_lt (Nat.mod_lt E (by omega)))]
    exact Nat.div_add_mod E n

/-- Seven elements in three blocks: sizes 3, 2, 2. -/
theorem ni_even_split_witness :
    1 ≤ 3 ∧ ((∀ i, i < 3 →
      (ni 7 3 i = 7 / 3 ∨ ni 7 3 i = 7 / 3 + 1) ∧
      (ni 7 3 i = 7 / 3 + 1 ↔ i < 7 % 3)) ∧
    ((List.range 3).map (ni 7 3)).sum = 7) :=
  ⟨by decide, ni_even_split 7 3 (by decide)⟩

/-- C2: the start offset `i0` of block `i` is the sum of the element counts of
the blocks `0 .. i-1`; so block 0 starts at offset 0 and each further block
starts exactly where the previous one ends. -/
theorem i0_contiguous (E n i : Nat) (_hn : 1 ≤ n) (_hi : i < n) :
    i0 E n i = ((List.range i).map (ni E n)).sum ∧
    i0 E n 0 = 0 ∧
    (i + 1 < n → i0 E n (i + 1) = i0 E n i + ni E n i) := by
  refine ⟨i0_eq_sum E n i, ?_, fun _ => i0_succ E n i⟩
  rw [i0_eq_sum]; rfl

/-- Seven elements in three blocks: block 1 starts at 3, block 2 at 5. -/
theorem i0_contiguous_witness :
    1 ≤ 3 ∧ 1 < 3 ∧
    i0 7 3 1 = ((List.range 1).map (ni 7 3)).sum ∧
    i0 7 3 0 = 0 ∧
    (1 + 1 < 3 → i0 7 3 (1 + 1) = i0 7 3 1 + ni 7 3 1) :=
  ⟨by decide, by decide, i0_contiguous 7 3 1 (by decide) (by decide)⟩

/-! ## Theorems: extraction bounds -/

/-- Membership in the index list of the 3D `getSubPatch`. -/
theorem MultiPatchModelGenerator3D.mem_subIndices
    (N I J su nu sv nv sw nw idx : Nat) :
    idx ∈ MultiPatchModelGenerator3D.subIndices N I J su nu sv nv sw nw ↔
      ∃ kk, kk < nw ∧ ∃ jj, jj < nv ∧ ∃ ii, ii < nu ∧ ∃ n, n < N ∧
        n + N * (su + ii) + N * I * (sv + jj) + N * I * J * (sw + kk) = idx := by
  simp [MultiPatchModelGenerator3D.subIndices, List.mem_flatMap, List.mem_map, List.mem_range]

/-- Membership in the list of sub-volumes of the 3D `createGeometry`. -/
theorem MultiPatchModelGenerator3D.mem_createGeometry {α : Type}
    (g : MultiPatchModelGenerator3D) (vol : SplineVolume α) (b : SubVolume α) :
    b ∈ MultiPatchModelGenerator3D.createGeometry g vol ↔
      ∃ k, k < g.nz ∧ ∃ j, j < g.ny ∧ ∃ i, i < g.nx ∧
        MultiPatchModelGenerator3D.block g vol i j k = b := by
  simp [MultiPatchModelGenerator3D.createGeometry, List.mem_flatMap, List.mem_map,
    List.mem_range]

/-- C3: every block that the 3D `createGeometry` passes to `getSubPatch` lies
within the source in each direction (`start + numcoefs ≤ numCoefs`, with
equality for the last block of the direction), so every flat coefficient index
that `getSubPatch` reads is below `N*I*J*K`. -/
theorem MultiPatchModelGenerator3D.createGeometry_in_bounds {α : Type}
    (g : MultiPatchModelGenerator3D) (vol : SplineVolume α)
    (_hnx : 1 ≤ g.nx) (_hny : 1 ≤ g.ny) (_hnz : 1 ≤ g.nz)
    (_ho0 : 1 ≤ vol.order0) (_ho1 : 1 ≤ vol.order1) (_ho2 : 1 ≤ vol.order2)
    (hp0 : vol.order0 - 1 ≤ vol.numCoefs0) (hp1 : vol.order1 - 1 ≤ vol.numCoefs1)
    (hp2 : vol.order2 - 1 ≤ vol.numCoefs2) :
    (∀ b ∈ MultiPatchModelGenerator3D.createGeometry g vol,
      b.knotStartu + b.numcoefsu ≤ vol.numCoefs0 ∧
      b.knotStartv + b.numcoefsv ≤ vol.numCoefs1 ∧
      b.knotStartw + b.numcoefsw ≤ vol.numCoefs2 ∧
      ∀ idx ∈ MultiPatchModelGenerator3D.subIndices
          (vol.dimension + (if vol.rational then 1 else 0)) vol.numCoefs0 vol.numCoefs1
          b.knotStartu b.numcoefsu b.knotStartv b.numcoefsv b.knotStartw b.numcoefsw,
        idx < (vol.dimension + (if vol.rational then 1 else 0)) *
                vol.numCoefs0 * vol.numCoefs1 * vol.numCoefs2) ∧
    (∀ i j k, i < g.nx → j < g.ny → k < g.nz →
      (i + 1 = g.nx →
        (MultiPatchModelGenerator3D.block g vol i j k).knotStartu +
          (MultiPatchModelGenerator3D.block g vol i j k).numcoefsu = vol.numCoefs0) ∧
      (j + 1 = g.ny →
        (MultiPatchModelGenerator3D.block g vol i j k).knotStartv +
          (MultiPatchModelGenerator3D.block g vol i j k).numcoefsv = vol.numCoefs1) ∧
      (k + 1 = g.nz →
        (MultiPatchModelGenerator3D.block g vol i j k).knotStartw +
          (MultiPatchModelGenerator3D.block g vol i j k).numcoefsw = vol.numCoefs2)) := by
  constructor
  · intro b hb
    rw [MultiPatchModelGenerator3D.mem_createGeometry] at hb
    obtain ⟨k, hk, j, hj, i, hi, rfl⟩ := hb
    have hx := i0_add_ni_le (vol.numCoefs0 - (vol.order0 - 1)) g.nx i hi
    have hy := i0_add_ni_le (vol.numCoefs1 - (vol.order1 - 1)) g.ny j hj
    have hz := i0_add_ni_le (vol.numCoefs2 - (vol.order2 - 1)) g.nz k hk
    simp only [MultiPatchModelGenerator3D.block, MultiPatchModelGenerator3D.getSubPatch, di]
    have bx : i0 (vol.numCoefs0 - (vol.order0 - 1)) g.nx i +
        (ni (vol.numCoefs0 - (vol.order0 - 1)) g.nx i + (vol.order0 - 1)) ≤ vol.numCoefs0 := by
      omega
    have bY : i0 (vol.numCoefs1 - (vol.order1 - 1)) g.ny j +
        (ni (vol.numCoefs1 - (vol.order1 - 1)) g.ny j + (vol.order1 - 1)) ≤ vol.numCoefs1 := by
      omega
    have bz : i0 (vol.numCoefs2 - (vol.order2 - 1)) g.nz k +
        (ni (vol.numCoefs2 - (vol.order2 - 1)) g.nz k + (vol.order2 - 1)) ≤ vol.numCoefs2 := by
      omega
    refine ⟨bx, bY, bz, ?_⟩
    intro idx hidx
    rw [MultiPatchModelGenerator3D.mem_subIndices] at hidx
    obtain ⟨kk, hkk, jj, hjj, ii, hii, n, hn, rfl⟩ := hidx
    exact flat_index_lt _ _ _ _ _ _ _ _ hn (by omega) (by omega) (by omega)
  · intro i j k _ _ _
    simp only [MultiPatchModelGenerator3D.block, MultiPatchModelGenerator3D.getSubPatch, di]
    refine ⟨fun h => ?_, fun h => ?_, fun h => ?_⟩
    · have := i0_add_ni_last (vol.numCoefs0 - (vol.order0 - 1)) g.nx i h
      omega
    · have := i0_add_ni_last (vol.numCoefs1 - (vol.order1 - 1)) g.ny j h
      omega
    · have := i0_add_ni_last (vol.numCoefs2 - (vol.order2 - 1)) g.nz k h
      omega

/-! ## Theorems: coefficient layout of the extracted sub-patches -/

/-- The length of a concatenation of `n` blocks of equal length `m`. -/
theorem length_flatMap_range_uniform {β : Type} (f : Nat → List β) (m : Nat)
    (hf : ∀ a, (f a).length = m) (n : Nat) :
    ((List.range n).flatMap f).length = m * n := by
  induction n with
  | zero => simp
  | succ n ih => simp [List.range_succ, List.flatMap_append, ih, hf, Nat.mul_succ]

/-- Indexing into a concatenation of `n` blocks of equal length `m`. -/
theorem getElem?_flatMap_range_uniform {β : Type} (f : Nat → List β) (m : Nat)
    (hf : ∀ a, (f a).length = m) (n a r : Nat) (ha : a < n) (hr : r < m) :
    ((List.range n).flatMap f)[m * a + r]? = (f a)[r]? := by
  induction n with
  | zero => omega
  | succ n ih =>
    rw [List.range_succ, List.flatMap_append]
    by_cases h : a < n
    · have h1 : m * a + r < ((List.range n).flatMap f).length := by
        rw [length_flatMap_range_uniform f m hf]
        calc m * a + r < m * a + m := by omega
          _ = m * (a + 1) := by ring
          _ ≤ m * n := Nat.mul_le_mul_left _ h
      rw [List.getElem?_append_left h1]
      exact ih h
    · have h2 : a = n := by omega
      subst h2
      have h1 : ((List.range a).flatMap f).length ≤ m * a + r := by
        rw [length_flatMap_range_uniform f m hf]; omega
      rw [List.getElem?_append_right h1, length_flatMap_range_uniform f m hf]
      simp

/-- The position at which the 2D `getSubPatch` stores the index it reads for
local control point `(ii, jj)`, component `k`. -/
theorem MultiPatchModelGenerator2D.subIndices_getElem?
    (d I su nu sv nv k ii jj : Nat) (hk : k < d) (hii : ii < nu) (hjj : jj < nv) :
    (MultiPatchModelGenerator2D.subIndices d I su nu sv nv)[k + d * ii + d * nu * jj]? =
      some (k + d * (su + ii) + d * I * (sv + jj)) := by
  unfold MultiPatchModelGenerator2D.subIndices
  have hpos : k + d * ii + d * nu * jj = d * nu * jj + (d * ii + k) := by ring
  have hr : d * ii + k < d * nu := by
    calc d * ii + k < d * ii + d := by omega
      _ = d * (ii + 1) := by ring
      _ ≤ d * nu := Nat.mul_le_mul_left _ hii
  rw [hpos, getElem?_flatMap_range_uniform _ (d * nu) (fun a =>
        length_flatMap_range_uniform _ d (fun b => by simp) nu) nv jj _ hjj hr,
      getElem?_flatMap_range_uniform _ d (fun b => by simp) nu ii k hii hk]
  simp [hk]

/-- The coefficient that the 2D `getSubPatch` stores for local control point
`(ii, jj)`, component `k`, is the source coefficient of control point
`(startu + ii, startv + jj)`. -/
theorem MultiPatchModelGenerator2D.getSubPatch_coef {α : Type} (srf : SplineSurface α)
    (su nu ou sv nv ov k ii jj : Nat)
    (hk : k < srf.dimension + (if srf.rational then 1 else 0)) (hii : ii < nu) (hjj : jj < nv) :
    (MultiPatchModelGenerator2D.getSubPatch srf su nu ou sv nv ov).coef
        (srf.dimension + (if srf.rational then 1 else 0)) ii jj k =
      (if srf.rational then srf.rcoefs else srf.coefs)[k +
        (srf.dimension + (if srf.rational then 1 else 0)) * (su + ii) +
        (srf.dimension + (if srf.rational then 1 else 0)) * srf.numCoefs_u * (sv + jj)]? := by
  simp only [SubSurface.coef, MultiPatchModelGenerator2D.getSubPatch, List.getElem?_map]
  rw [MultiPatchModelGenerator2D.subIndices_getElem? _ _ _ _ _ _ _ _ _ hk hii hjj]
  simp

/-- A source array of full length answers every in-range read. -/
theorem getElem?_isSome_of_lt {β : Type} (l : List β) (n i : Nat) (hl : l.length = n)
    (hi : i < n) : (l[i]?).isSome = true := by
  have h : i < l.length := by omega
  simp [List.getElem?_eq_getElem h]

/-- A flat 2D index built from in-range coordinates is in range. -/
theorem flat_index_lt2 (d I J k a b : Nat) (hk : k < d) (ha : a < I) (hb : b < J) :
    k + d * a + d * I * b < d * I * J := by
  have h := flat_index_lt d I J 1 k a b 0 hk ha hb (by omega)
  simpa using h

/-- The sample volume split into two blocks along `u`: both stay within its three columns. -/
theorem MultiPatchModelGenerator3D.createGeometry_in_bounds_witness :
    (1 ≤ (2 : Nat) ∧ 1 ≤ (1 : Nat) ∧ 1 ≤ sampleVolume.order0 ∧
      sampleVolume.order0 - 1 ≤ sampleVolume.numCoefs0) ∧
    ∀ b ∈ MultiPatchModelGenerator3D.createGeometry ⟨2, 1, 1, 0, 0, 0, true⟩ sampleVolume,
      b.knotStartu + b.numcoefsu ≤ sampleVolume.numCoefs0 :=
  ⟨by decide, fun b hb =>
    ((MultiPatchModelGenerator3D.createGeometry_in_bounds ⟨2, 1, 1, 0, 0, 0, true⟩ sampleVolume
      (by decide) (by decide) (by decide) (by decide) (by decide) (by decide)
      (by decide) (by decide) (by decide)).1 b hb).1⟩

/-- C4, as stated, fails: for the sample curve (one knot span) and `nx = 2` the
post-split `createGeometry` calls `getSubPatch` for both blocks; the second
block has no element and fewer coefficients than its order. -/
theorem MultiPatchModelGenerator1D.createGeometry_more_blocks_than_spans :
    sampleCurve.numCoefs - (sampleCurve.order - 1) < 2 ∧
    MultiPatchModelGenerator1D.createGeometry ⟨2, 0, true⟩ sampleCurve ≠ [] ∧
    MultiPatchModelGenerator1D.createGeometry ⟨2, 0, true⟩ sampleCurve =
      [⟨2, 2, 0, 0, 1, false⟩, ⟨1, 2, 1, 1, 1, false⟩] := by
  decide

/-- C5: in post-split mode of the 2D generator the last `p_u` columns of
control points of block `(i, j)` coincide, entry for entry, with the first `p_u`
columns of block `(i+1, j)`, and the last `p_v` rows of block `(i, j)` with the
first `p_v` rows of block `(i, j+1)`: both are the same coefficients of the
source (which are present when the source array has its full length). -/
theorem MultiPatchModelGenerator2D.block_interface {α : Type}
    (g : MultiPatchModelGenerator2D) (srf : SplineSurface α)
    (_hnx : 1 ≤ g.nx) (_hny : 1 ≤ g.ny)
    (_hou : 1 ≤ srf.order_u) (_hov : 1 ≤ srf.order_v)
    (hpu : srf.order_u - 1 ≤ srf.numCoefs_u) (hpv : srf.order_v - 1 ≤ srf.numCoefs_v)
    (i j c r k : Nat) (hi : i < g.nx) (hj : j < g.ny)
    (hk : k < srf.dimension + (if srf.rational then 1 else 0)) :
    (i + 1 < g.nx → c < srf.order_u - 1 → r < (block g srf i j).numcoefsv →
      (block g srf i j).coef (srf.dimension + (if srf.rational then 1 else 0))
          ((block g srf i j).numcoefsu - (srf.order_u - 1) + c) r k =
        (block g srf (i + 1) j).coef (srf.dimension + (if srf.rational then 1 else 0)) c r k ∧
      ((if srf.rational then srf.rcoefs else srf.coefs).length =
          (srf.dimension + (if srf.rational then 1 else 0)) * srf.numCoefs_u * srf.numCoefs_v →
        ((block g srf (i + 1) j).coef
          (srf.dimension + (if srf.rational then 1 else 0)) c r k).isSome = true)) ∧
    (j + 1 < g.ny → c < (block g srf i j).numcoefsu → r < srf.order_v - 1 →
      (block g srf i j).coef (srf.dimension + (if srf.rational then 1 else 0))
          c ((block g srf i j).numcoefsv - (srf.order_v - 1) + r) k =
        (block g srf i (j + 1)).coef (srf.dimension + (if srf.rational then 1 else 0)) c r k ∧
      ((if srf.rational then srf.rcoefs else srf.coefs).length =
          (srf.dimension + (if srf.rational then 1 else 0)) * srf.numCoefs_u * srf.numCoefs_v →
        ((block g srf i (j + 1)).coef
          (srf.dimension + (if srf.rational then 1 else 0)) c r k).isSome = true)) := by
  have hxi := i0_add_ni_le (srf.numCoefs_u - (srf.order_u - 1)) g.nx i hi
  have hyj := i0_add_ni_le (srf.numCoefs_v - (srf.order_v - 1)) g.ny j hj
  have sx := i0_succ (srf.numCoefs_u - (srf.order_u - 1)) g.nx i
  have sy := i0_succ (srf.numCoefs_v - (srf.order_v - 1)) g.ny j
  constructor
  · intro hi1 hc hr
    have hxi1 := i0_add_ni_le (srf.numCoefs_u - (srf.order_u - 1)) g.nx (i + 1) hi1
    simp only [block, getSubPatch, di] at hr
    simp only [block, di]
    rw [getSubPatch_coef srf _ _ _ _ _ _ k _ r hk (by simp only [getSubPatch]; omega) hr,
        getSubPatch_coef srf _ _ _ _ _ _ k c r hk (by omega) hr]
    simp only [getSubPatch]
    have e : i0 (srf.numCoefs_u - (srf.order_u - 1)) g.nx i +
        (ni (srf.numCoefs_u - (srf.order_u - 1)) g.nx i + (srf.order_u - 1) -
          (srf.order_u - 1) + c) = i0 (srf.numCoefs_u - (srf.order_u - 1)) g.nx (i + 1) + c := by
      omega
    rw [e]
    refine ⟨rfl, fun hl => ?_⟩
    exact getElem?_isSome_of_lt _ _ _ hl
      (flat_index_lt2 _ _ _ _ _ _ hk (by omega) (by omega))
  · intro hj1 hc hr
    have hyj1 := i0_add_ni_le (srf.numCoefs_v - (srf.order_v - 1)) g.ny (j + 1) hj1
    simp only [block, getSubPatch, di] at hc
    simp only [block, di]
    rw [getSubPatch_coef srf _ _ _ _ _ _ k c _ hk hc (by simp only [getSubPatch]; omega),
        getSubPatch_coef srf _ _ _ _ _ _ k c r hk hc (by omega)]
    simp only [getSubPatch]
    have e : i0 (srf.numCoefs_v - (srf.order_v - 1)) g.ny j +
        (ni (srf.numCoefs_v - (srf.order_v - 1)) g.ny j + (srf.order_v - 1) -
          (srf.order_v - 1) + r) = i0 (srf.numCoefs_v - (srf.order_v - 1)) g.ny (j + 1) + r := by
      omega
    rw [e]
    refine ⟨rfl, fun hl => ?_⟩
    exact getElem?_isSome_of_lt _ _ _ hl
      (flat_index_lt2 _ _ _ _ _ _ hk (by omega) (by omega))

/-- The sample surface split into two blocks along `u` (`p_u = 2`): local
column 3 of block (0,0) and local column 1 of block (1,0), row 2, component 1. -/
theorem MultiPatchModelGenerator2D.block_interface_witness :
    (1 ≤ (2 : Nat) ∧ 1 ≤ (1 : Nat) ∧ 1 ≤ sampleSurface.order_u ∧ 1 ≤ sampleSurface.order_v ∧
      sampleSurface.order_u - 1 ≤ sampleSurface.numCoefs_u ∧
      sampleSurface.order_v - 1 ≤ sampleSurface.numCoefs_v ∧
      0 + 1 < (2 : Nat) ∧ 1 < sampleSurface.order_u - 1 ∧
      2 < (block ⟨2, 1, 0, 0, true⟩ sampleSurface 0 0).numcoefsv) ∧
    (block ⟨2, 1, 0, 0, true⟩ sampleSurface 0 0).coef 2 3 2 1 =
      (block ⟨2, 1, 0, 0, true⟩ sampleSurface 1 0).coef 2 1 2 1 ∧
    (block ⟨2, 1, 0, 0, true⟩ sampleSurface 1 0).coef 2 1 2 1 = some 27 :=
  ⟨by decide,
   ((MultiPatchModelGenerator2D.block_interface ⟨2, 1, 0, 0, true⟩ sampleSurface
      (by decide) (by decide) (by decide) (by decide) (by decide) (by decide)
      0 0 1 2 1 (by decide) (by decide) (by decide)).1
      (by decide) (by decide) (by decide)).1,
   by decide⟩

/-! ## Theorems: the control flow of `createTopology` -/

theorem Regular.skip : Regular Topo.skip [] := by
  intro t
  left
  simp [Topo.skip]

theorem Regular.connect (sim : SIMinput) (c : Conn) :
    Regular (connect sim c) [Event.addConnection c true] := by
  intro t
  unfold IFEM.connect
  cases h : sim.addConnection t c
  · right
    exact ⟨[], c, by simp, by simp⟩
  · left
    rfl

theorem Regular.close (sim : SIMinput) (patch : Nat) (ev : Event) :
    Regular (close sim patch ev) (if sim.getPatch patch then [ev] else []) := by
  intro t
  left
  unfold IFEM.close
  split_ifs <;> simp

theorem Regular.seq {a b : Topo} {La Lb : List Event} (ha : Regular a La)
    (hb : Regular b Lb) : Regular (Topo.seq a b) (La ++ Lb) := by
  intro t
  unfold Topo.seq
  rcases ha t with h | ⟨pre, c, h, hp⟩
  · rw [h]
    simp only [if_true]
    rcases hb (t ++ La) with h2 | ⟨pre, c, h2, hp⟩
    · left
      rw [h2, List.append_assoc]
    · right
      refine ⟨La ++ pre, c, ?_, ?_⟩
      · rw [h2]; simp [List.append_assoc]
      · rw [List.append_assoc]
        exact (List.prefix_append_right_inj La).mpr hp
  · right
    refine ⟨pre, c, ?_, ?_⟩
    · rw [h]; simp
    · exact hp.trans (List.prefix_append La Lb)

theorem Regular.forLoop (n : Nat) {body : Nat → Topo} {L : Nat → List Event}
    (h : ∀ i, Regular (body i) (L i)) :
    Regular (forLoop n body) ((List.range n).flatMap L) := by
  induction n with
  | zero => simpa [IFEM.forLoop] using Regular.skip
  | succ n ih =>
    rw [List.range_succ, List.flatMap_append]
    simp only [IFEM.forLoop, List.flatMap_cons, List.flatMap_nil, List.append_nil]
    exact Regular.seq ih (h n)

theorem Regular.ite (c : Prop) [Decidable c] {a b : Topo} {La Lb : List Event}
    (ha : Regular a La) (hb : Regular b Lb) :
    Regular (if c then a else b) (if c then La else Lb) := by
  split_ifs
  · exact ha
  · exact hb

/-- A run that starts from the empty record and in which every recorded
connection call succeeded has made exactly the calls `L`. -/
theorem Regular.run_of_allSucceed {s : Topo} {L : List Event} (h : Regular s L)
    (hok : allSucceed (s []).2 = true) : s [] = (true, L) := by
  rcases h [] with h1 | ⟨pre, c, h1, _⟩
  · simpa using h1
  · rw [h1] at hok
    simp [allSucceed] at hok

/-- The outcome of the 1D `createTopology` once the model is built: either all
of `calls`, or an initial part of it cut short by a failed connection call. -/
theorem MultiPatchModelGenerator1D.createTopology_run1D
    (g : MultiPatchModelGenerator1D) (sim : SIMinput) (hfem : sim.createFEMmodel = true) :
    createTopology g sim = (true, calls g sim) ∨
    ∃ pre c, createTopology g sim = (false, pre ++ [Event.addConnection c false]) ∧
      (pre ++ [Event.addConnection c true]) <+: calls g sim := by
  have key := (Regular.seq (Regular.forLoop _ fun i => Regular.connect sim _)
    (Regular.ite _ (Regular.ite _ (Regular.connect sim _) (Regular.close sim _ _))
      Regular.skip) : Regular _ (calls g sim))
  have h := key []
  simp only [createTopology, hfem, Bool.not_true, Bool.false_eq_true, if_false]
  exact h

/-- A record that contains a failed connection call does not satisfy `allSucceed`. -/
theorem allSucceed_append_failed (pre : List Event) (c : Conn) :
    allSucceed (pre ++ [Event.addConnection c false]) = false := by
  simp [allSucceed]

/-- The 1D `createTopology` makes exactly the calls `calls` when the model is
built and every connection call it makes succeeds. -/
theorem MultiPatchModelGenerator1D.createTopology_of_allSucceed1D
    (g : MultiPatchModelGenerator1D) (sim : SIMinput) (hfem : sim.createFEMmodel = true)
    (hok : allSucceed (createTopology g sim).2 = true) :
    createTopology g sim = (true, calls g sim) := by
  rcases createTopology_run1D g sim hfem with h | ⟨pre, c, h, _⟩
  · exact h
  · rw [h] at hok
    simp [allSucceed] at hok

/-- The outcome of the 2D `createTopology` once the model is built. -/
theorem MultiPatchModelGenerator2D.createTopology_run2D
    (g : MultiPatchModelGenerator2D) (sim : SIMinput) (hfem : sim.createFEMmodel = true) :
    createTopology g sim = (true, calls g sim) ∨
    ∃ pre c, createTopology g sim = (false, pre ++ [Event.addConnection c false]) ∧
      (pre ++ [Event.addConnection c true]) <+: calls g sim := by
  have key := (Regular.seq
      (Regular.forLoop _ fun j => Regular.forLoop _ fun i => Regular.connect sim _)
    (Regular.seq
      (Regular.forLoop _ fun j => Regular.forLoop _ fun i => Regular.connect sim _)
    (Regular.seq
      (Regular.ite _ (Regular.forLoop _ fun j =>
        Regular.ite _ (Regular.connect sim _) (Regular.close sim _ _)) Regular.skip)
      (Regular.ite _ (Regular.forLoop _ fun i =>
        Regular.ite _ (Regular.connect sim _) (Regular.close sim _ _)) Regular.skip))) :
    Regular _ (calls g sim))
  have h := key []
  simp only [createTopology, hfem, Bool.not_true, Bool.false_eq_true, if_false]
  exact h

/-- The outcome of the 3D `createTopology` once the model is built. -/
theorem MultiPatchModelGenerator3D.createTopology_run3D
    (g : MultiPatchModelGenerator3D) (sim : SIMinput) (hfem : sim.createFEMmodel = true) :
    createTopology g sim = (true, calls g sim) ∨
    ∃ pre c, createTopology g sim = (false, pre ++ [Event.addConnection c false]) ∧
      (pre ++ [Event.addConnection c true]) <+: calls g sim := by
  have key := (Regular.seq
      (Regular.forLoop _ fun k => Regular.forLoop _ fun j => Regular.forLoop _ fun i =>
        Regular.connect sim _)
    (Regular.seq
      (Regular.forLoop _ fun k => Regular.forLoop _ fun j => Regular.forLoop _ fun i =>
        Regular.connect sim _)
    (Regular.seq
      (Regular.forLoop _ fun k => Regular.forLoop _ fun j => Regular.forLoop _ fun i =>
        Regular.connect sim _)
    (Regular.seq
      (Regular.ite _ (Regular.forLoop _ fun k => Regular.forLoop _ fun j =>
        Regular.ite _ (Regular.connect sim _) (Regular.close sim _ _)) Regular.skip)
    (Regular.seq
      (Regular.ite _ (Regular.forLoop _ fun k => Regular.forLoop _ fun i =>
        Regular.ite _ (Regular.connect sim _) (Regular.close sim _ _)) Regular.skip)
      (Regular.ite _ (Regular.forLoop _ fun j => Regular.forLoop _ fun i =>
        Regular.ite _ (Regular.connect sim _) (Regular.close sim _ _)) Regular.skip))))) :
    Regular _ (calls g sim))
  have h := key []
  simp only [createTopology, hfem, Bool.not_true, Bool.false_eq_true, if_false]
  exact h

/-- The 2D `createTopology` makes exactly the calls `calls` when the model is
built and every connection call it makes succeeds. -/
theorem MultiPatchModelGenerator2D.createTopology_of_allSucceed2D
    (g : MultiPatchModelGenerator2D) (sim : SIMinput) (hfem : sim.createFEMmodel = true)
    (hok : allSucceed (createTopology g sim).2 = true) :
    createTopology g sim = (true, calls g sim) := by
  rcases createTopology_run2D g sim hfem with h | ⟨pre, c, h, _⟩
  · exact h
  · rw [h, allSucceed_append_failed] at hok
    exact absurd hok (by decide)

/-- The 3D `createTopology` makes exactly the calls `calls` when the model is
built and every connection call it makes succeeds. -/
theorem MultiPatchModelGenerator3D.createTopology_of_allSucceed3D
    (g : MultiPatchModelGenerator3D) (sim : SIMinput) (hfem : sim.createFEMmodel = true)
    (hok : allSucceed (createTopology g sim).2 = true) :
    createTopology g sim = (true, calls g sim) := by
  rcases createTopology_run3D g sim hfem with h | ⟨pre, c, h, _⟩
  · exact h
  · rw [h, allSucceed_append_failed] at hok
    exact absurd hok (by decide)

/-! ## Theorems: patch numbering -/

/-- Quotient and remainder determine each other: `a*n + r` with `r < n`. -/
theorem mul_add_inj (n a r a' r' : Nat) (hr : r < n) (hr' : r' < n)
    (h : a * n + r = a' * n + r') : a = a' ∧ r = r' := by
  have hn : 0 < n := by omega
  have h1 : (a * n + r) / n = a := by
    rw [Nat.mul_comm, Nat.mul_add_div hn, Nat.div_eq_of_lt hr, Nat.add_zero]
  have h2 : (a' * n + r') / n = a' := by
    rw [Nat.mul_comm, Nat.mul_add_div hn, Nat.div_eq_of_lt hr', Nat.add_zero]
  have h3 : a = a' := by rw [← h1, ← h2, h]
  subst h3
  exact ⟨rfl, by omega⟩

/-- `IJK` is injective on grid coordinates with `i < nx`, `j < ny`. -/
theorem MultiPatchModelGenerator3D.IJK_inj (g : MultiPatchModelGenerator3D)
    (i j k i' j' k' : Nat) (hi : i < g.nx) (hi' : i' < g.nx) (hj : j < g.ny) (hj' : j' < g.ny)
    (h : IJK g i j k = IJK g i' j' k') : i = i' ∧ j = j' ∧ k = k' := by
  unfold IJK at h
  have h1 := mul_add_inj g.nx (k * g.ny + j) i (k' * g.ny + j') i' hi hi' (by omega)
  have h2 := mul_add_inj g.ny k j k' j' hj hj' h1.1
  exact ⟨h1.2, h2.2, h2.1⟩

/-- `IJK` of coordinates inside the grid is a patch number between 1 and `nx*ny*nz`. -/
theorem MultiPatchModelGenerator3D.IJK_range (g : MultiPatchModelGenerator3D)
    (i j k : Nat) (hi : i < g.nx) (hj : j < g.ny) (hk : k < g.nz) :
    1 ≤ IJK g i j k ∧ IJK g i j k ≤ g.nx * g.ny * g.nz := by
  unfold IJK
  have h := flat_index_lt 1 g.nx g.ny g.nz 0 i j k (by omega) hi hj hk
  have e : 0 + 1 * i + 1 * g.nx * j + 1 * g.nx * g.ny * k = (k * g.ny + j) * g.nx + i := by ring
  rw [e] at h
  constructor
  · omega
  · have : 1 * g.nx * g.ny * g.nz = g.nx * g.ny * g.nz := by ring
    omega

/-- Every patch number between 1 and `nx*ny*nz` is `IJK` of coordinates inside the grid. -/
theorem MultiPatchModelGenerator3D.IJK_surj (g : MultiPatchModelGenerator3D)
    (m : Nat) (h1 : 1 ≤ m) (h2 : m ≤ g.nx * g.ny * g.nz) :
    ∃ i j k, i < g.nx ∧ j < g.ny ∧ k < g.nz ∧ IJK g i j k = m := by
  have hx : 0 < g.nx := by
    rcases Nat.eq_zero_or_pos g.nx with h | h
    · rw [h] at h2; simp at h2; omega
    · exact h
  have hy : 0 < g.ny := by
    rcases Nat.eq_zero_or_pos g.ny with h | h
    · rw [h] at h2; simp at h2; omega
    · exact h
  refine ⟨(m - 1) % g.nx, (m - 1) / g.nx % g.ny, (m - 1) / g.nx / g.ny,
    Nat.mod_lt _ hx, Nat.mod_lt _ hy, ?_, ?_⟩
  · rw [Nat.div_div_eq_div_mul]
    apply Nat.div_lt_of_lt_mul
    have : g.nx * g.ny * g.nz = g.nx * g.ny * g.nz := rfl
    omega
  · unfold IJK
    have e1 : (m - 1) / g.nx / g.ny * g.ny + (m - 1) / g.nx % g.ny = (m - 1) / g.nx := by
      rw [Nat.mul_comm]; exact Nat.div_add_mod _ _
    have e2 : (m - 1) / g.nx * g.nx + (m - 1) % g.nx = m - 1 := by
      rw [Nat.mul_comm]; exact Nat.div_add_mod _ _
    rw [e1]
    omega

/-- C6: `IJK(i,j,k) = 1 + (k*ny + j)*nx + i` is a bijection from the grid
`{0..nx-1} x {0..ny-1} x {0..nz-1}` onto the patch numbers `1 .. nx*ny*nz`, and
`IJ(i,j) = 1 + j*nx + i` is a bijection from `{0..nx-1} x {0..ny-1}` onto
`1 .. nx*ny`. -/
theorem patch_numbering_bijective (g3 : MultiPatchModelGenerator3D)
    (g2 : MultiPatchModelGenerator2D) :
    Set.BijOn (fun t : Nat × Nat × Nat => MultiPatchModelGenerator3D.IJK g3 t.1 t.2.1 t.2.2)
      {t | t.1 < g3.nx ∧ t.2.1 < g3.ny ∧ t.2.2 < g3.nz}
      (Set.Icc 1 (g3.nx * g3.ny * g3.nz)) ∧
    Set.BijOn (fun t : Nat × Nat => MultiPatchModelGenerator2D.IJ g2 t.1 t.2)
      {t | t.1 < g2.nx ∧ t.2 < g2.ny}
      (Set.Icc 1 (g2.nx * g2.ny)) := by
  constructor
  · refine ⟨?_, ?_, ?_⟩
    · rintro ⟨i, j, k⟩ ⟨hi, hj, hk⟩
      exact MultiPatchModelGenerator3D.IJK_range g3 i j k hi hj hk
    · rintro ⟨i, j, k⟩ ⟨hi, hj, _⟩ ⟨i', j', k'⟩ ⟨hi', hj', _⟩ h
      obtain ⟨r1, r2, r3⟩ := MultiPatchModelGenerator3D.IJK_inj g3 i j k i' j' k' hi hi' hj hj' h
      subst r1 r2 r3
      rfl
    · rintro m ⟨h1, h2⟩
      obtain ⟨i, j, k, hi, hj, hk, e⟩ := MultiPatchModelGenerator3D.IJK_surj g3 m h1 h2
      exact ⟨(i, j, k), ⟨hi, hj, hk⟩, e⟩
  · -- the 2D numbering is the 3D numbering of the layer `k = 0`
    have e : ∀ i j, MultiPatchModelGenerator2D.IJ g2 i j =
        MultiPatchModelGenerator3D.IJK ⟨g2.nx, g2.ny, 1, 0, 0, 0, false⟩ i j 0 := by
      intro i j
      simp [MultiPatchModelGenerator2D.IJ, MultiPatchModelGenerator3D.IJK]
    refine ⟨?_, ?_, ?_⟩
    · rintro ⟨i, j⟩ ⟨hi, hj⟩
      have := MultiPatchModelGenerator3D.IJK_range ⟨g2.nx, g2.ny, 1, 0, 0, 0, false⟩ i j 0
        hi hj (Nat.lt_succ_self 0)
      simp only [Set.mem_Icc, e]
      simpa using this
    · rintro ⟨i, j⟩ ⟨hi, hj⟩ ⟨i', j'⟩ ⟨hi', hj'⟩ h
      simp only [e] at h
      obtain ⟨r1, r2, _⟩ := MultiPatchModelGenerator3D.IJK_inj
        ⟨g2.nx, g2.ny, 1, 0, 0, 0, false⟩ i j 0 i' j' 0 hi hi' hj hj' h
      subst r1 r2
      rfl
    · rintro m ⟨h1, h2⟩
      obtain ⟨i, j, k, hi, hj, hk, e'⟩ := MultiPatchModelGenerator3D.IJK_surj
        ⟨g2.nx, g2.ny, 1, 0, 0, 0, false⟩ m h1 (by simpa using h2)
      have hk0 : k = 0 := by
        have : k < 1 := hk
        omega
      subst hk0
      exact ⟨(i, j), ⟨hi, hj⟩, by simp only [e]; exact e'⟩

/-! ## Theorems: the connections requested by `createTopology` -/

theorem connections_append (a b : List Event) :
    connections (a ++ b) = connections a ++ connections b := by
  simp [connections, List.filterMap_append]

theorem connections_flatMap {ι : Type} (l : List ι) (f : ι → List Event) :
    connections (l.flatMap f) = l.flatMap fun a => connections (f a) := by
  induction l with
  | nil => rfl
  | cons x xs ih => simp [List.flatMap_cons, connections_append, ih]

theorem connections_single (c : Conn) (ok : Bool) :
    connections [Event.addConnection c ok] = [c] := rfl

theorem connections_nil : connections [] = [] := rfl

theorem mem_connections (t : List Event) (c : Conn) :
    c ∈ connections t ↔ ∃ ok, Event.addConnection c ok ∈ t := by
  unfold connections
  rw [List.mem_filterMap]
  constructor
  · rintro ⟨e, he, h⟩
    cases e with
    | addConnection c' ok =>
      simp only [Option.some.injEq] at h
      subst h
      exact ⟨ok, he⟩
    | closeEnds p => simp at h
    | closeEdges p d => simp at h
    | closeFaces p d => simp at h
  · rintro ⟨ok, h⟩
    exact ⟨_, h, rfl⟩

/-- A closing call is not a connection call. -/
theorem connections_close (c : Bool) (ev : Event) (h : ∀ x ok, ev ≠ Event.addConnection x ok) :
    connections (if c = true then [ev] else []) = [] := by
  split_ifs
  · cases ev with
    | addConnection x ok => exact absurd rfl (h x ok)
    | closeEnds p => rfl
    | closeEdges p d => rfl
    | closeFaces p d => rfl
  · rfl

/-- A concatenation of lists over a range has no duplicates if each list has
none and an element determines the list it belongs to. -/
theorem nodup_flatMap_range {β : Type} (n : Nat) (f : Nat → List β)
    (h1 : ∀ a, a < n → (f a).Nodup)
    (h2 : ∀ a b x, a < n → b < n → x ∈ f a → x ∈ f b → a = b) :
    ((List.range n).flatMap f).Nodup := by
  rw [List.nodup_flatMap]
  refine ⟨fun a ha => h1 a (List.mem_range.mp ha), ?_⟩
  apply List.Nodup.pairwise_of_forall_ne (List.nodup_range n)
  intro a ha b hb hab x hxa hxb
  exact hab (h2 a b x (List.mem_range.mp ha) (List.mem_range.mp hb) hxa hxb)

/-- A doubly indexed family listed by two nested loops has no duplicates if it
is injective on the index ranges. -/
theorem nodup_flatMap2 {β : Type} (n1 n2 : Nat) (f : Nat → Nat → β)
    (hinj : ∀ a b a' b', a < n1 → b < n2 → a' < n1 → b' < n2 →
      f a b = f a' b' → a = a' ∧ b = b') :
    ((List.range n1).flatMap fun a => (List.range n2).flatMap fun b => [f a b]).Nodup := by
  apply nodup_flatMap_range
  · intro a ha
    apply nodup_flatMap_range
    · intro b _
      simp
    · intro b b' x hb hb' hx hx'
      simp only [List.mem_singleton] at hx hx'
      exact (hinj a b a b' ha hb ha hb' (hx.symm.trans hx')).2
  · intro a a' x ha ha' hx hx'
    simp only [List.mem_flatMap, List.mem_range, List.mem_singleton] at hx hx'
    obtain ⟨b, hb, rfl⟩ := hx
    obtain ⟨b', hb', e⟩ := hx'
    exact (hinj a b a' b' ha hb ha' hb' e).1

/-- A triply indexed family listed by three nested loops has no duplicates if
it is injective on the index ranges. -/
theorem nodup_flatMap3 {β : Type} (n1 n2 n3 : Nat) (f : Nat → Nat → Nat → β)
    (hinj : ∀ a b c a' b' c', a < n1 → b < n2 → c < n3 → a' < n1 → b' < n2 → c' < n3 →
      f a b c = f a' b' c' → a = a' ∧ b = b' ∧ c = c') :
    ((List.range n1).flatMap fun a => (List.range n2).flatMap fun b =>
      (List.range n3).flatMap fun c => [f a b c]).Nodup := by
  apply nodup_flatMap_range
  · intro a ha
    apply nodup_flatMap2
    intro b c b' c' hb hc hb' hc' e
    exact (hinj a b c a b' c' ha hb hc ha hb' hc' e).2
  · intro a a' x ha ha' hx hx'
    simp only [List.mem_flatMap, List.mem_range, List.mem_singleton] at hx hx'
    obtain ⟨b, hb, c, hc, rfl⟩ := hx
    obtain ⟨b', hb', c', hc', e⟩ := hx'
    exact (hinj a b c a' b' c' ha hb hc ha' hb' hc' e).1

/-- For a count of at least one, the loop bound `n-1` does not wrap. -/
theorem decr_of_pos (n : Nat) (h : 1 ≤ n) : decr n = n - 1 := by
  unfold decr
  rw [if_neg (by omega)]

namespace MultiPatchModelGenerator3D

theorem connections_adjacentX3D (g : MultiPatchModelGenerator3D) (sim : SIMinput) :
    connections (adjacentX g sim) =
      (List.range g.nz).flatMap fun k => (List.range g.ny).flatMap fun j =>
        (List.range (decr g.nx)).flatMap fun i =>
          [⟨IJK g i j k, IJK g (i + 1) j k, 2, 1, 0, 0, true, 2, thick g sim 1⟩] := by
  simp only [adjacentX, connections_flatMap, connections_single]

theorem connections_adjacentY3D (g : MultiPatchModelGenerator3D) (sim : SIMinput) :
    connections (adjacentY g sim) =
      (List.range g.nz).flatMap fun k => (List.range (decr g.ny)).flatMap fun j =>
        (List.range g.nx).flatMap fun i =>
          [⟨IJK g i j k, IJK g i (j + 1) k, 4, 3, 0, 0, true, 2, thick g sim 2⟩] := by
  simp only [adjacentY, connections_flatMap, connections_single]

theorem connections_adjacentZ3D (g : MultiPatchModelGenerator3D) (sim : SIMinput) :
    connections (adjacentZ g sim) =
      (List.range (decr g.nz)).flatMap fun k => (List.range g.ny).flatMap fun j =>
        (List.range g.nx).flatMap fun i =>
          [⟨IJK g i j k, IJK g i j (k + 1), 6, 5, 0, 0, true, 2, thick g sim 3⟩] := by
  simp only [adjacentZ, connections_flatMap, connections_single]

theorem connections_periodicX3D (g : MultiPatchModelGenerator3D) (sim : SIMinput) :
    connections (periodicX g sim) =
      if g.periodic_x ≠ 0 ∧ 1 < g.nx then
        (List.range g.nz).flatMap fun k => (List.range g.ny).flatMap fun j =>
          [⟨IJK g 0 j k, IJK g (g.nx - 1) j k, 1, 2, 0, 0, false, 2, sim.thick_default⟩]
      else [] := by
  unfold periodicX
  by_cases hp : g.periodic_x ≠ 0
  · by_cases hn : 1 < g.nx
    · simp only [hp, hn, gt_iff_lt, and_self, if_true, connections_flatMap, connections_single,
        ne_eq, not_false_eq_true]
    · simp only [hp, hn, gt_iff_lt, and_false, if_false, if_true, connections_flatMap,
        ne_eq, not_false_eq_true]
      simp [connections_close]
  · simp only [hp, false_and, if_false, connections_nil]

theorem connections_periodicY3D (g : MultiPatchModelGenerator3D) (sim : SIMinput) :
    connections (periodicY g sim) =
      if g.periodic_y ≠ 0 ∧ 1 < g.ny then
        (List.range g.nz).flatMap fun k => (List.range g.nx).flatMap fun i =>
          [⟨IJK g i 0 k, IJK g i (g.ny - 1) k, 3, 4, 0, 0, false, 2, sim.thick_default⟩]
      else [] := by
  unfold periodicY
  by_cases hp : g.periodic_y ≠ 0
  · by_cases hn : 1 < g.ny
    · simp only [hp, hn, gt_iff_lt, and_self, if_true, connections_flatMap, connections_single,
        ne_eq, not_false_eq_true]
    · simp only [hp, hn, gt_iff_lt, and_false, if_false, if_true, connections_flatMap,
        ne_eq, not_false_eq_true]
      simp [connections_close]
  · simp only [hp, false_and, if_false, connections_nil]

theorem connections_periodicZ3D (g : MultiPatchModelGenerator3D) (sim : SIMinput) :
    connections (periodicZ g sim) =
      if g.periodic_z ≠ 0 ∧ 1 < g.nz then
        (List.range g.ny).flatMap fun j => (List.range g.nx).flatMap fun i =>
          [⟨IJK g i j 0, IJK g i j (g.nz - 1), 5, 6, 0, 0, false, 2, sim.thick_default⟩]
      else [] := by
  unfold periodicZ
  by_cases hp : g.periodic_z ≠ 0
  · by_cases hn : 1 < g.nz
    · simp only [hp, hn, gt_iff_lt, and_self, if_true, connections_flatMap, connections_single,
        ne_eq, not_false_eq_true]
    · simp only [hp, hn, gt_iff_lt, and_false, if_false, if_true, connections_flatMap,
        ne_eq, not_false_eq_true]
      simp [connections_close]
  · simp only [hp, false_and, if_false, connections_nil]

/-- The connections requested by a run of the 3D `createTopology` in which
nothing fails: six families, in the order of the source. -/
theorem connections_calls3D (g : MultiPatchModelGenerator3D) (sim : SIMinput) :
    connections (calls g sim) =
      connections (adjacentX g sim) ++ (connections (adjacentY g sim) ++
        (connections (adjacentZ g sim) ++ (connections (periodicX g sim) ++
          (connections (periodicY g sim) ++ connections (periodicZ g sim))))) := by
  simp only [calls, connections_append]

end MultiPatchModelGenerator3D

namespace MultiPatchModelGenerator3D

theorem mem_adjacentX3D (g : MultiPatchModelGenerator3D) (sim : SIMinput) (hnx : 1 ≤ g.nx)
    (c : Conn) :
    c ∈ connections (adjacentX g sim) ↔
      ∃ i j k, i + 1 < g.nx ∧ j < g.ny ∧ k < g.nz ∧
        c = ⟨IJK g i j k, IJK g (i + 1) j k, 2, 1, 0, 0, true, 2, thick g sim 1⟩ := by
  rw [connections_adjacentX3D, decr_of_pos g.nx hnx]
  simp only [List.mem_flatMap, List.mem_range, List.mem_singleton]
  constructor
  · rintro ⟨k, hk, j, hj, i, hi, e⟩
    exact ⟨i, j, k, by omega, hj, hk, e⟩
  · rintro ⟨i, j, k, hi, hj, hk, e⟩
    exact ⟨k, hk, j, hj, i, by omega, e⟩

theorem mem_adjacentY3D (g : MultiPatchModelGenerator3D) (sim : SIMinput) (hny : 1 ≤ g.ny)
    (c : Conn) :
    c ∈ connections (adjacentY g sim) ↔
      ∃ i j k, i < g.nx ∧ j + 1 < g.ny ∧ k < g.nz ∧
        c = ⟨IJK g i j k, IJK g i (j + 1) k, 4, 3, 0, 0, true, 2, thick g sim 2⟩ := by
  rw [connections_adjacentY3D, decr_of_pos g.ny hny]
  simp only [List.mem_flatMap, List.mem_range, List.mem_singleton]
  constructor
  · rintro ⟨k, hk, j, hj, i, hi, e⟩
    exact ⟨i, j, k, hi, by omega, hk, e⟩
  · rintro ⟨i, j, k, hi, hj, hk, e⟩
    exact ⟨k, hk, j, by omega, i, hi, e⟩

theorem mem_adjacentZ3D (g : MultiPatchModelGenerator3D) (sim : SIMinput) (hnz : 1 ≤ g.nz)
    (c : Conn) :
    c ∈ connections (adjacentZ g sim) ↔
      ∃ i j k, i < g.nx ∧ j < g.ny ∧ k + 1 < g.nz ∧
        c = ⟨IJK g i j k, IJK g i j (k + 1), 6, 5, 0, 0, true, 2, thick g sim 3⟩ := by
  rw [connections_adjacentZ3D, decr_of_pos g.nz hnz]
  simp only [List.mem_flatMap, List.mem_range, List.mem_singleton]
  constructor
  · rintro ⟨k, hk, j, hj, i, hi, e⟩
    exact ⟨i, j, k, hi, hj, by omega, e⟩
  · rintro ⟨i, j, k, hi, hj, hk, e⟩
    exact ⟨k, by omega, j, hj, i, hi, e⟩

theorem mem_periodicX3D (g : MultiPatchModelGenerator3D) (sim : SIMinput) (c : Conn) :
    c ∈ connections (periodicX g sim) ↔
      g.periodic_x ≠ 0 ∧ 1 < g.nx ∧ ∃ j k, j < g.ny ∧ k < g.nz ∧
        c = ⟨IJK g 0 j k, IJK g (g.nx - 1) j k, 1, 2, 0, 0, false, 2, sim.thick_default⟩ := by
  rw [connections_periodicX3D]
  split_ifs with h
  · simp only [List.mem_flatMap, List.mem_range, List.mem_singleton]
    constructor
    · rintro ⟨k, hk, j, hj, e⟩
      exact ⟨h.1, h.2, j, k, hj, hk, e⟩
    · rintro ⟨_, _, j, k, hj, hk, e⟩
      exact ⟨k, hk, j, hj, e⟩
  · constructor
    · intro hc
      exact absurd hc (List.not_mem_nil c)
    · rintro ⟨h1, h2, _⟩
      exact absurd ⟨h1, h2⟩ h

theorem mem_periodicY3D (g : MultiPatchModelGenerator3D) (sim : SIMinput) (c : Conn) :
    c ∈ connections (periodicY g sim) ↔
      g.periodic_y ≠ 0 ∧ 1 < g.ny ∧ ∃ i k, i < g.nx ∧ k < g.nz ∧
        c = ⟨IJK g i 0 k, IJK g i (g.ny - 1) k, 3, 4, 0, 0, false, 2, sim.thick_default⟩ := by
  rw [connections_periodicY3D]
  split_ifs with h
  · simp only [List.mem_flatMap, List.mem_range, List.mem_singleton]
    constructor
    · rintro ⟨k, hk, i, hi, e⟩
      exact ⟨h.1, h.2, i, k, hi, hk, e⟩
    · rintro ⟨_, _, i, k, hi, hk, e⟩
      exact ⟨k, hk, i, hi, e⟩
  · constructor
    · intro hc
      exact absurd hc (List.not_mem_nil c)
    · rintro ⟨h1, h2, _⟩
      exact absurd ⟨h1, h2⟩ h

theorem mem_periodicZ3D (g : MultiPatchModelGenerator3D) (sim : SIMinput) (c : Conn) :
    c ∈ connections (periodicZ g sim) ↔
      g.periodic_z ≠ 0 ∧ 1 < g.nz ∧ ∃ i j, i < g.nx ∧ j < g.ny ∧
        c = ⟨IJK g i j 0, IJK g i j (g.nz - 1), 5, 6, 0, 0, false, 2, sim.thick_default⟩ := by
  rw [connections_periodicZ3D]
  split_ifs with h
  · simp only [List.mem_flatMap, List.mem_range, List.mem_singleton]
    constructor
    · rintro ⟨j, hj, i, hi, e⟩
      exact ⟨h.1, h.2, i, j, hi, hj, e⟩
    · rintro ⟨_, _, i, j, hi, hj, e⟩
      exact ⟨j, hj, i, hi, e⟩
  · constructor
    · intro hc
      exact absurd hc (List.not_mem_nil c)
    · rintro ⟨h1, h2, _⟩
      exact absurd ⟨h1, h2⟩ h

theorem nodup_adjacentX3D (g : MultiPatchModelGenerator3D) (sim : SIMinput) (hnx : 1 ≤ g.nx) :
    (connections (adjacentX g sim)).Nodup := by
  rw [connections_adjacentX3D, decr_of_pos g.nx hnx]
  apply nodup_flatMap3
  intro k j i k' j' i' _ hj hi _ hj' hi' e
  have hm := congrArg Conn.master e
  obtain ⟨a, b, c⟩ := IJK_inj g i j k i' j' k' (by omega) (by omega) hj hj' hm
  exact ⟨c, b, a⟩

theorem nodup_adjacentY3D (g : MultiPatchModelGenerator3D) (sim : SIMinput) (hny : 1 ≤ g.ny) :
    (connections (adjacentY g sim)).Nodup := by
  rw [connections_adjacentY3D, decr_of_pos g.ny hny]
  apply nodup_flatMap3
  intro k j i k' j' i' _ hj hi _ hj' hi' e
  have hm := congrArg Conn.master e
  obtain ⟨a, b, c⟩ := IJK_inj g i j k i' j' k' hi hi' (by omega) (by omega) hm
  exact ⟨c, b, a⟩

theorem nodup_adjacentZ3D (g : MultiPatchModelGenerator3D) (sim : SIMinput) :
    (connections (adjacentZ g sim)).Nodup := by
  rw [connections_adjacentZ3D]
  apply nodup_flatMap3
  intro k j i k' j' i' _ hj hi _ hj' hi' e
  have hm := congrArg Conn.master e
  obtain ⟨a, b, c⟩ := IJK_inj g i j k i' j' k' hi hi' hj hj' hm
  exact ⟨c, b, a⟩

theorem nodup_periodicX3D (g : MultiPatchModelGenerator3D) (sim : SIMinput) :
    (connections (periodicX g sim)).Nodup := by
  rw [connections_periodicX3D]
  split_ifs
  · apply nodup_flatMap2
    intro k j k' j' _ hj _ hj' e
    have hm := congrArg Conn.master e
    obtain ⟨_, b, c⟩ := IJK_inj g 0 j k 0 j' k' (by omega) (by omega) hj hj' hm
    exact ⟨c, b⟩
  · exact List.nodup_nil

theorem nodup_periodicY3D (g : MultiPatchModelGenerator3D) (sim : SIMinput) :
    (connections (periodicY g sim)).Nodup := by
  rw [connections_periodicY3D]
  split_ifs
  · apply nodup_flatMap2
    intro k i k' i' _ hi _ hi' e
    have hm := congrArg Conn.master e
    obtain ⟨a, _, c⟩ := IJK_inj g i 0 k i' 0 k' hi hi' (by omega) (by omega) hm
    exact ⟨c, a⟩
  · exact List.nodup_nil

theorem nodup_periodicZ3D (g : MultiPatchModelGenerator3D) (sim : SIMinput) :
    (connections (periodicZ g sim)).Nodup := by
  rw [connections_periodicZ3D]
  split_ifs
  · apply nodup_flatMap2
    intro j i j' i' hj hi hj' hi' e
    have hm := congrArg Conn.master e
    obtain ⟨a, b, _⟩ := IJK_inj g i j 0 i' j' 0 hi hi' hj hj' hm
    exact ⟨b, a⟩
  · exact List.nodup_nil

/-- The local face of the first patch tells the family of a connection. -/
theorem mIdx_of_mem_calls3D (g : MultiPatchModelGenerator3D) (sim : SIMinput)
    (hnx : 1 ≤ g.nx) (hny : 1 ≤ g.ny) (hnz : 1 ≤ g.nz) (c : Conn) :
    (c ∈ connections (adjacentX g sim) → c.mIdx = 2) ∧
    (c ∈ connections (adjacentY g sim) → c.mIdx = 4) ∧
    (c ∈ connections (adjacentZ g sim) → c.mIdx = 6) ∧
    (c ∈ connections (periodicX g sim) → c.mIdx = 1) ∧
    (c ∈ connections (periodicY g sim) → c.mIdx = 3) ∧
    (c ∈ connections (periodicZ g sim) → c.mIdx = 5) := by
  rw [mem_adjacentX3D g sim hnx, mem_adjacentY3D g sim hny, mem_adjacentZ3D g sim hnz,
    mem_periodicX3D, mem_periodicY3D, mem_periodicZ3D]
  refine ⟨?_, ?_, ?_, ?_, ?_, ?_⟩
  · rintro ⟨_, _, _, _, _, _, rfl⟩; rfl
  · rintro ⟨_, _, _, _, _, _, rfl⟩; rfl
  · rintro ⟨_, _, _, _, _, _, rfl⟩; rfl
  · rintro ⟨_, _, _, _, _, _, rfl⟩; rfl
  · rintro ⟨_, _, _, _, _, _, rfl⟩; rfl
  · rintro ⟨_, _, _, _, _, _, rfl⟩; rfl

/-- No connection is requested twice in a run of the 3D `createTopology` in
which nothing fails. -/
theorem nodup_connections_calls3D (g : MultiPatchModelGenerator3D) (sim : SIMinput)
    (hnx : 1 ≤ g.nx) (hny : 1 ≤ g.ny) (hnz : 1 ≤ g.nz) :
    (connections (calls g sim)).Nodup := by
  rw [connections_calls3D]
  have hm := mIdx_of_mem_calls3D g sim hnx hny hnz
  refine List.nodup_append.mpr ⟨nodup_adjacentX3D g sim hnx, ?_, ?_⟩
  refine List.nodup_append.mpr ⟨nodup_adjacentY3D g sim hny, ?_, ?_⟩
  refine List.nodup_append.mpr ⟨nodup_adjacentZ3D g sim, ?_, ?_⟩
  refine List.nodup_append.mpr ⟨nodup_periodicX3D g sim, ?_, ?_⟩
  refine List.nodup_append.mpr ⟨nodup_periodicY3D g sim, nodup_periodicZ3D g sim, ?_⟩
  · intro c h1 h2
    have a := (hm c).2.2.2.2.1 h1
    have b := (hm c).2.2.2.2.2 h2
    omega
  · intro c h1 h2
    have a := (hm c).2.2.2.1 h1
    simp only [List.mem_append] at h2
    rcases h2 with h2 | h2
    · have b := (hm c).2.2.2.2.1 h2; omega
    · have b := (hm c).2.2.2.2.2 h2; omega
  · intro c h1 h2
    have a := (hm c).2.2.1 h1
    simp only [List.mem_append] at h2
    rcases h2 with h2 | h2 | h2
    · have b := (hm c).2.2.2.1 h2; omega
    · have b := (hm c).2.2.2.2.1 h2; omega
    · have b := (hm c).2.2.2.2.2 h2; omega
  · intro c h1 h2
    have a := (hm c).2.1 h1
    simp only [List.mem_append] at h2
    rcases h2 with h2 | h2 | h2 | h2
    · have b := (hm c).2.2.1 h2; omega
    · have b := (hm c).2.2.2.1 h2; omega
    · have b := (hm c).2.2.2.2.1 h2; omega
    · have b := (hm c).2.2.2.2.2 h2; omega
  · intro c h1 h2
    have a := (hm c).1 h1
    simp only [List.mem_append] at h2
    rcases h2 with h2 | h2 | h2 | h2 | h2
    · have b := (hm c).2.1 h2; omega
    · have b := (hm c).2.2.1 h2; omega
    · have b := (hm c).2.2.2.1 h2; omega
    · have b := (hm c).2.2.2.2.1 h2; omega
    · have b := (hm c).2.2.2.2.2 h2; omega

end MultiPatchModelGenerator3D

/-- The number of entries listed by three nested loops. -/
theorem length_flatMap3 {β : Type} (n1 n2 n3 : Nat) (f : Nat → Nat → Nat → β) :
    ((List.range n1).flatMap fun a => (List.range n2).flatMap fun b =>
      (List.range n3).flatMap fun c => [f a b c]).length = n3 * n2 * n1 := by
  have h3 : ∀ a b, ((List.range n3).flatMap fun c => [f a b c]).length = n3 := by
    intro a b
    rw [length_flatMap_range_uniform (fun c => [f a b c]) 1 (fun c => rfl), Nat.one_mul]
  have h2 : ∀ a, ((List.range n2).flatMap fun b =>
      (List.range n3).flatMap fun c => [f a b c]).length = n3 * n2 := by
    intro a
    rw [length_flatMap_range_uniform
      (fun b => (List.range n3).flatMap fun c => [f a b c]) n3 (h3 a)]
  rw [length_flatMap_range_uniform
    (fun a => (List.range n2).flatMap fun b => (List.range n3).flatMap fun c => [f a b c])
    (n3 * n2) h2]

namespace MultiPatchModelGenerator3D

/-- Without periodic flags no periodic connection is requested. -/
theorem connections_periodic_unset3D (g : MultiPatchModelGenerator3D) (sim : SIMinput) :
    (g.periodic_x = 0 → connections (periodicX g sim) = []) ∧
    (g.periodic_y = 0 → connections (periodicY g sim) = []) ∧
    (g.periodic_z = 0 → connections (periodicZ g sim) = []) := by
  refine ⟨fun h => ?_, fun h => ?_, fun h => ?_⟩
  · simp [periodicX, h, connections_nil]
  · simp [periodicY, h, connections_nil]
  · simp [periodicZ, h, connections_nil]

/-- C7: with no periodic flag set, the model built and every connection call
succeeding, the connections requested by the 3D `createTopology` are, each
exactly once, the pairs of patches that are neighbours along one axis of the
grid: the patch with the lower coordinate comes first, with local face 2
(`x`), 4 (`y`) or 6 (`z`), its neighbour second with local face 1, 3 or 5,
orientation code 0 and dimension 2.  Their number is
`(nx-1)*ny*nz + nx*(ny-1)*nz + nx*ny*(nz-1)`. -/
theorem createTopology_adjacent_pairs (g : MultiPatchModelGenerator3D) (sim : SIMinput)
    (hnx : 1 ≤ g.nx) (hny : 1 ≤ g.ny) (hnz : 1 ≤ g.nz)
    (hpx : g.periodic_x = 0) (hpy : g.periodic_y = 0) (hpz : g.periodic_z = 0)
    (hfem : sim.createFEMmodel = true)
    (hok : allSucceed (createTopology g sim).2 = true) :
    (connections (createTopology g sim).2).Nodup ∧
    (∀ c, c ∈ connections (createTopology g sim).2 ↔
      ∃ i j k, i < g.nx ∧ j < g.ny ∧ k < g.nz ∧
        ((i + 1 < g.nx ∧
            c = ⟨IJK g i j k, IJK g (i + 1) j k, 2, 1, 0, 0, true, 2, thick g sim 1⟩) ∨
         (j + 1 < g.ny ∧
            c = ⟨IJK g i j k, IJK g i (j + 1) k, 4, 3, 0, 0, true, 2, thick g sim 2⟩) ∨
         (k + 1 < g.nz ∧
            c = ⟨IJK g i j k, IJK g i j (k + 1), 6, 5, 0, 0, true, 2, thick g sim 3⟩))) ∧
    (connections (createTopology g sim).2).length =
      (g.nx - 1) * g.ny * g.nz + g.nx * (g.ny - 1) * g.nz + g.nx * g.ny * (g.nz - 1) := by
  rw [createTopology_of_allSucceed3D g sim hfem hok]
  refine ⟨nodup_connections_calls3D g sim hnx hny hnz, ?_, ?_⟩
  · intro c
    have hu := connections_periodic_unset3D g sim
    rw [connections_calls3D, hu.1 hpx, hu.2.1 hpy, hu.2.2 hpz]
    simp only [List.append_nil, List.mem_append]
    rw [mem_adjacentX3D g sim hnx, mem_adjacentY3D g sim hny, mem_adjacentZ3D g sim hnz]
    constructor
    · rintro (⟨i, j, k, hi, hj, hk, e⟩ | ⟨i, j, k, hi, hj, hk, e⟩ | ⟨i, j, k, hi, hj, hk, e⟩)
      · exact ⟨i, j, k, by omega, hj, hk, Or.inl ⟨hi, e⟩⟩
      · exact ⟨i, j, k, hi, by omega, hk, Or.inr (Or.inl ⟨hj, e⟩)⟩
      · exact ⟨i, j, k, hi, hj, by omega, Or.inr (Or.inr ⟨hk, e⟩)⟩
    · rintro ⟨i, j, k, hi, hj, hk, (⟨h, e⟩ | ⟨h, e⟩ | ⟨h, e⟩)⟩
      · exact Or.inl ⟨i, j, k, h, hj, hk, e⟩
      · exact Or.inr (Or.inl ⟨i, j, k, hi, h, hk, e⟩)
      · exact Or.inr (Or.inr ⟨i, j, k, hi, hj, h, e⟩)
  · have hu := connections_periodic_unset3D g sim
    rw [connections_calls3D, hu.1 hpx, hu.2.1 hpy, hu.2.2 hpz,
      connections_adjacentX3D, connections_adjacentY3D, connections_adjacentZ3D]
    simp only [List.append_nil, List.length_append, length_flatMap3,
      decr_of_pos g.nx hnx, decr_of_pos g.ny hny, decr_of_pos g.nz hnz]
    ring

/-- A 2 x 2 x 1 grid without periodicity: four connections. -/
theorem createTopology_adjacent_pairs_witness :
    (1 ≤ (2 : Nat) ∧ 1 ≤ (1 : Nat) ∧ (0 : Int) = 0 ∧ sampleSim.createFEMmodel = true ∧
      allSucceed (createTopology ⟨2, 2, 1, 0, 0, 0, false⟩ sampleSim).2 = true) ∧
    (connections (createTopology ⟨2, 2, 1, 0, 0, 0, false⟩ sampleSim).2).length = 4 :=
  ⟨by decide,
   (createTopology_adjacent_pairs ⟨2, 2, 1, 0, 0, 0, false⟩ sampleSim (by decide) (by decide)
      (by decide) rfl rfl rfl rfl (by decide)).2.2⟩

end MultiPatchModelGenerator3D

namespace MultiPatchModelGenerator1D

/-- The connections requested by a run of the 1D `createTopology` in which
nothing fails: the chain of neighbours, then the periodic connection if any. -/
theorem connections_calls1D (g : MultiPatchModelGenerator1D) (sim : SIMinput) :
    connections (calls g sim) =
      ((List.range (decr g.nx)).map fun i =>
        (⟨i + 1, i + 2, 2, 1, 0, 0, true, 0, thick g sim⟩ : Conn)) ++
      (if g.periodic_x ≠ 0 ∧ 1 < g.nx then
        [⟨1, g.nx, 1, 2, 0, 0, false, 0, thick g sim⟩] else []) := by
  unfold calls
  rw [connections_append, connections_flatMap]
  congr 1
  · simp only [connections_single]
    induction (List.range (decr g.nx)) with
    | nil => rfl
    | cons x xs ih => simp [List.flatMap_cons, ih]
  · by_cases hp : g.periodic_x ≠ 0
    · by_cases hn : 1 < g.nx
      · simp only [hp, hn, gt_iff_lt, and_self, if_true, ne_eq, not_false_eq_true,
          connections_single]
      · simp only [hp, hn, gt_iff_lt, and_false, if_false, if_true, ne_eq, not_false_eq_true]
        exact connections_close _ _ (fun x ok => by simp)
    · simp only [hp, false_and, if_false, connections_nil]

/-- C8: with `periodic_x` unset, the model built and every connection call
succeeding, the 1D `createTopology` requests exactly `nx-1` connections and
nothing else; the `m`-th (`m = 1 .. nx-1`) joins local vertex 2 (the end) of
patch `m` to local vertex 1 (the start) of patch `m+1`, with orientation code 0
and dimension 0.  For `nx = 2` this is the single connection of patch 1's end
to patch 2's start. -/
theorem createTopology_chain (g : MultiPatchModelGenerator1D) (sim : SIMinput)
    (hnx : 1 ≤ g.nx) (hp : g.periodic_x = 0) (hfem : sim.createFEMmodel = true)
    (hok : allSucceed (createTopology g sim).2 = true) :
    (createTopology g sim).2 =
      ((List.range (g.nx - 1)).map fun i =>
        Event.addConnection ⟨i + 1, i + 2, 2, 1, 0, 0, true, 0, thick g sim⟩ true) ∧
    (connections (createTopology g sim).2).length = g.nx - 1 ∧
    (∀ m, 1 ≤ m → m < g.nx →
      (connections (createTopology g sim).2)[m - 1]? =
        some ⟨m, m + 1, 2, 1, 0, 0, true, 0, thick g sim⟩) ∧
    (g.nx = 2 →
      connections (createTopology g sim).2 = [⟨1, 2, 2, 1, 0, 0, true, 0, thick g sim⟩]) := by
  rw [createTopology_of_allSucceed1D g sim hfem hok]
  have hc : connections (calls g sim) = (List.range (g.nx - 1)).map fun i =>
      (⟨i + 1, i + 2, 2, 1, 0, 0, true, 0, thick g sim⟩ : Conn) := by
    rw [connections_calls1D, decr_of_pos g.nx hnx]
    simp [hp]
  refine ⟨?_, ?_, ?_, ?_⟩
  · simp only [calls, hp, decr_of_pos g.nx hnx, ne_eq, not_true_eq_false, if_false,
      List.append_nil]
    induction (List.range (g.nx - 1)) with
    | nil => rfl
    | cons x xs ih => simp [List.flatMap_cons, ih]
  · rw [hc]; simp
  · intro m h1 h2
    rw [hc, List.getElem?_map, List.getElem?_range (by omega)]
    have e1 : m - 1 + 1 = m := by omega
    have e2 : m - 1 + 2 = m + 1 := by omega
    simp only [Option.map_some', e1, e2]
  · intro h2
    rw [hc, h2]
    rfl

/-- A chain of three patches: two connections, 1-2 and 2-3. -/
theorem createTopology_chain_witness :
    (1 ≤ (3 : Nat) ∧ (0 : Int) = 0 ∧ sampleSim.createFEMmodel = true ∧
      allSucceed (createTopology ⟨3, 0, false⟩ sampleSim).2 = true) ∧
    (createTopology ⟨3, 0, false⟩ sampleSim).2 =
      ((List.range (3 - 1)).map fun i =>
        Event.addConnection ⟨i + 1, i + 2, 2, 1, 0, 0, true, 0,
          thick ⟨3, 0, false⟩ sampleSim⟩ true) :=
  ⟨by decide,
   (createTopology_chain ⟨3, 0, false⟩ sampleSim (by decide) rfl rfl (by decide)).1⟩

end MultiPatchModelGenerator1D

/-- Every connection call recorded by a run, whether it succeeded or not, is
one of the calls of the run in which nothing fails. -/
theorem mem_connections_of_run (r : Bool × List Event) (L : List Event)
    (h : r = (true, L) ∨
      ∃ pre c, r = (false, pre ++ [Event.addConnection c false]) ∧
        (pre ++ [Event.addConnection c true]) <+: L)
    (c : Conn) (ok : Bool) (hm : Event.addConnection c ok ∈ r.2) :
    c ∈ connections L := by
  rcases h with h | ⟨pre, c', h, hp⟩
  · rw [h] at hm
    exact (mem_connections L c).mpr ⟨ok, hm⟩
  · rw [h] at hm
    simp only [List.mem_append, List.mem_singleton] at hm
    rcases hm with hm | hm
    · exact (mem_connections L c).mpr ⟨ok, hp.subset (List.mem_append_left _ hm)⟩
    · have e : c = c' := by
        injection hm
      subst e
      exact (mem_connections L c).mpr
        ⟨true, hp.subset (List.mem_append_right _ (List.mem_singleton_self _))⟩

namespace MultiPatchModelGenerator2D

theorem connections_adjacentX2D (g : MultiPatchModelGenerator2D) (sim : SIMinput) :
    connections (adjacentX g sim) =
      (List.range g.ny).flatMap fun j => (List.range (decr g.nx)).flatMap fun i =>
        [⟨IJ g i j, IJ g (i + 1) j, 2, 1, 0, 0, true, 1, thick g sim 1⟩] := by
  simp only [adjacentX, connections_flatMap, connections_single]

theorem connections_adjacentY2D (g : MultiPatchModelGenerator2D) (sim : SIMinput) :
    connections (adjacentY g sim) =
      (List.range (decr g.ny)).flatMap fun j => (List.range g.nx).flatMap fun i =>
        [⟨IJ g i j, IJ g i (j + 1), 4, 3, 0, 0, true, 1, thick g sim 2⟩] := by
  simp only [adjacentY, connections_flatMap, connections_single]

theorem connections_periodicX2D (g : MultiPatchModelGenerator2D) (sim : SIMinput) :
    connections (periodicX g sim) =
      if g.periodic_x ≠ 0 ∧ 1 < g.nx then
        (List.range g.ny).flatMap fun j =>
          [⟨IJ g 0 j, IJ g (g.nx - 1) j, 1, 2, 0, 0, false, sim.dim_default,
            sim.thick_default⟩]
      else [] := by
  unfold periodicX
  by_cases hp : g.periodic_x ≠ 0
  · by_cases hn : 1 < g.nx
    · simp only [hp, hn, gt_iff_lt, and_self, if_true, connections_flatMap, connections_single,
        ne_eq, not_false_eq_true]
    · simp only [hp, hn, gt_iff_lt, and_false, if_false, if_true, connections_flatMap,
        ne_eq, not_false_eq_true]
      simp [connections_close]
  · simp only [hp, false_and, if_false, connections_nil]

theorem connections_periodicY2D (g : MultiPatchModelGenerator2D) (sim : SIMinput) :
    connections (periodicY g sim) =
      if g.periodic_y ≠ 0 ∧ 1 < g.ny then
        (List.range g.nx).flatMap fun i =>
          [⟨IJ g i 0, IJ g i (g.ny - 1), 3, 4, 0, 0, false, sim.dim_default,
            sim.thick_default⟩]
      else [] := by
  unfold periodicY
  by_cases hp : g.periodic_y ≠ 0
  · by_cases hn : 1 < g.ny
    · simp only [hp, hn, gt_iff_lt, and_self, if_true, connections_flatMap, connections_single,
        ne_eq, not_false_eq_true]
    · simp only [hp, hn, gt_iff_lt, and_false, if_false, if_true, connections_flatMap,
        ne_eq, not_false_eq_true]
      simp [connections_close]
  · simp only [hp, false_and, if_false, connections_nil]

/-- The connections requested by a run of the 2D `createTopology` in which
nothing fails: four families, in the order of the source. -/
theorem connections_calls2D (g : MultiPatchModelGenerator2D) (sim : SIMinput) :
    connections (calls g sim) =
      connections (adjacentX g sim) ++ (connections (adjacentY g sim) ++
        (connections (periodicX g sim) ++ connections (periodicY g sim))) := by
  simp only [calls, connections_append]

/-- Local edge of the first patch and thickness of each requested connection. -/
theorem fields_of_mem_calls2D (g : MultiPatchModelGenerator2D) (sim : SIMinput) (c : Conn)
    (h : c ∈ connections (calls g sim)) :
    (c.mIdx = 2 ∧ c.thick = thick g sim 1) ∨ (c.mIdx = 4 ∧ c.thick = thick g sim 2) ∨
    c.mIdx = 1 ∨ c.mIdx = 3 := by
  rw [connections_calls2D] at h
  simp only [List.mem_append] at h
  rcases h with h | h | h | h
  · rw [connections_adjacentX2D] at h
    simp only [List.mem_flatMap, List.mem_singleton] at h
    obtain ⟨j, _, i, _, rfl⟩ := h
    exact Or.inl ⟨rfl, rfl⟩
  · rw [connections_adjacentY2D] at h
    simp only [List.mem_flatMap, List.mem_singleton] at h
    obtain ⟨j, _, i, _, rfl⟩ := h
    exact Or.inr (Or.inl ⟨rfl, rfl⟩)
  · rw [connections_periodicX2D] at h
    split_ifs at h
    · simp only [List.mem_flatMap, List.mem_singleton] at h
      obtain ⟨j, _, rfl⟩ := h
      exact Or.inr (Or.inr (Or.inl rfl))
    · exact absurd h (List.not_mem_nil c)
  · rw [connections_periodicY2D] at h
    split_ifs at h
    · simp only [List.mem_flatMap, List.mem_singleton] at h
      obtain ⟨i, _, rfl⟩ := h
      exact Or.inr (Or.inr (Or.inr rfl))
    · exact absurd h (List.not_mem_nil c)

end MultiPatchModelGenerator2D

/-- Local face of the first patch and thickness of each requested connection. -/
theorem MultiPatchModelGenerator3D.fields_of_mem_calls3D (g : MultiPatchModelGenerator3D)
    (sim : SIMinput) (c : Conn) (h : c ∈ connections (calls g sim)) :
    (c.mIdx = 2 ∧ c.thick = thick g sim 1) ∨ (c.mIdx = 4 ∧ c.thick = thick g sim 2) ∨
    (c.mIdx = 6 ∧ c.thick = thick g sim 3) ∨ c.mIdx = 1 ∨ c.mIdx = 3 ∨ c.mIdx = 5 := by
  rw [connections_calls3D] at h
  simp only [List.mem_append] at h
  rcases h with h | h | h | h | h | h
  · rw [connections_adjacentX3D] at h
    simp only [List.mem_flatMap, List.mem_singleton] at h
    obtain ⟨k, _, j, _, i, _, rfl⟩ := h
    exact Or.inl ⟨rfl, rfl⟩
  · rw [connections_adjacentY3D] at h
    simp only [List.mem_flatMap, List.mem_singleton] at h
    obtain ⟨k, _, j, _, i, _, rfl⟩ := h
    exact Or.inr (Or.inl ⟨rfl, rfl⟩)
  · rw [connections_adjacentZ3D] at h
    simp only [List.mem_flatMap, List.mem_singleton] at h
    obtain ⟨k, _, j, _, i, _, rfl⟩ := h
    exact Or.inr (Or.inr (Or.inl ⟨rfl, rfl⟩))
  · rw [mem_periodicX3D] at h
    obtain ⟨_, _, _, _, _, _, rfl⟩ := h
    exact Or.inr (Or.inr (Or.inr (Or.inl rfl)))
  · rw [mem_periodicY3D] at h
    obtain ⟨_, _, _, _, _, _, rfl⟩ := h
    exact Or.inr (Or.inr (Or.inr (Or.inr (Or.inl rfl))))
  · rw [mem_periodicZ3D] at h
    obtain ⟨_, _, _, _, _, _, rfl⟩ := h
    exact Or.inr (Or.inr (Or.inr (Or.inr (Or.inr rfl))))

/-- Local vertex of the first patch and thickness of each requested connection. -/
theorem MultiPatchModelGenerator1D.fields_of_mem_calls1D (g : MultiPatchModelGenerator1D)
    (sim : SIMinput) (c : Conn) (h : c ∈ connections (calls g sim)) :
    (c.mIdx = 2 ∧ c.thick = thick g sim) ∨ c.mIdx = 1 := by
  rw [connections_calls1D] at h
  simp only [List.mem_append, List.mem_map] at h
  rcases h with ⟨i, _, rfl⟩ | h
  · exact Or.inl ⟨rfl, rfl⟩
  · split_ifs at h
    · simp only [List.mem_singleton] at h
      subst h
      exact Or.inr rfl
    · exact absurd h (List.not_mem_nil c)

/-- The three values of the lambda `thick` of the 3D builder. -/
theorem MultiPatchModelGenerator3D.thick_eq (g : MultiPatchModelGenerator3D) (sim : SIMinput) :
    thick g sim 1 = (if g.subdivision then sim.p1 - 1 else 1) ∧
    thick g sim 2 = (if g.subdivision then sim.p2 - 1 else 1) ∧
    thick g sim 3 = (if g.subdivision then sim.p3 - 1 else 1) := by
  cases hs : g.subdivision <;> simp [thick, hs]

/-- The two values of the lambda `thick` of the 2D builder. -/
theorem MultiPatchModelGenerator2D.thick_eq2D (g : MultiPatchModelGenerator2D) (sim : SIMinput) :
    thick g sim 1 = (if g.subdivision then sim.p1 - 1 else 1) ∧
    thick g sim 2 = (if g.subdivision then sim.p2 - 1 else 1) := by
  cases hs : g.subdivision <;> simp [thick, hs]

/-- C9: the thickness given to every connection of two neighbouring patches
(those requested with the `+`end, local index 2, 4 or 6, of the first patch) is
1 in pre-split mode and, in post-split mode, the order of patch 1 in the
direction of the connection minus one: `p1-1` for `x`, `p2-1` for `y`, `p3-1`
for `z`, in the 1D, 2D and 3D builders, whatever the outcome of the calls. -/
theorem adjacent_thickness (g1 : MultiPatchModelGenerator1D) (g2 : MultiPatchModelGenerator2D)
    (g3 : MultiPatchModelGenerator3D) (sim : SIMinput) :
    (∀ c ok, Event.addConnection c ok ∈ (MultiPatchModelGenerator1D.createTopology g1 sim).2 →
      (c.mIdx = 2 → c.thick = if g1.subdivision then sim.p1 - 1 else 1)) ∧
    (∀ c ok, Event.addConnection c ok ∈ (MultiPatchModelGenerator2D.createTopology g2 sim).2 →
      (c.mIdx = 2 → c.thick = if g2.subdivision then sim.p1 - 1 else 1) ∧
      (c.mIdx = 4 → c.thick = if g2.subdivision then sim.p2 - 1 else 1)) ∧
    (∀ c ok, Event.addConnection c ok ∈ (MultiPatchModelGenerator3D.createTopology g3 sim).2 →
      (c.mIdx = 2 → c.thick = if g3.subdivision then sim.p1 - 1 else 1) ∧
      (c.mIdx = 4 → c.thick = if g3.subdivision then sim.p2 - 1 else 1) ∧
      (c.mIdx = 6 → c.thick = if g3.subdivision then sim.p3 - 1 else 1)) := by
  refine ⟨fun c ok hm => ?_, fun c ok hm => ?_, fun c ok hm => ?_⟩
  · by_cases hfem : sim.createFEMmodel = true
    · have hc := mem_connections_of_run _ _
        (MultiPatchModelGenerator1D.createTopology_run1D g1 sim hfem) c ok hm
      rcases MultiPatchModelGenerator1D.fields_of_mem_calls1D g1 sim c hc with ⟨_, h⟩ | h
      · intro _
        rw [h]; rfl
      · intro h2; omega
    · simp [MultiPatchModelGenerator1D.createTopology, hfem] at hm
  · by_cases hfem : sim.createFEMmodel = true
    · have hc := mem_connections_of_run _ _
        (MultiPatchModelGenerator2D.createTopology_run2D g2 sim hfem) c ok hm
      have ht := MultiPatchModelGenerator2D.thick_eq2D g2 sim
      rcases MultiPatchModelGenerator2D.fields_of_mem_calls2D g2 sim c hc with
        ⟨h1, h⟩ | ⟨h1, h⟩ | h1 | h1
      · exact ⟨fun _ => h.trans ht.1, fun h2 => by omega⟩
      · exact ⟨fun h2 => by omega, fun _ => h.trans ht.2⟩
      · exact ⟨fun h2 => by omega, fun h2 => by omega⟩
      · exact ⟨fun h2 => by omega, fun h2 => by omega⟩
    · simp [MultiPatchModelGenerator2D.createTopology, hfem] at hm
  · by_cases hfem : sim.createFEMmodel = true
    · have hc := mem_connections_of_run _ _
        (MultiPatchModelGenerator3D.createTopology_run3D g3 sim hfem) c ok hm
      have ht := MultiPatchModelGenerator3D.thick_eq g3 sim
      rcases MultiPatchModelGenerator3D.fields_of_mem_calls3D g3 sim c hc with
        ⟨h1, h⟩ | ⟨h1, h⟩ | ⟨h1, h⟩ | h1 | h1 | h1
      · exact ⟨fun _ => h.trans ht.1, fun h2 => by omega, fun h2 => by omega⟩
      · exact ⟨fun h2 => by omega, fun _ => h.trans ht.2.1, fun h2 => by omega⟩
      · exact ⟨fun h2 => by omega, fun h2 => by omega, fun _ => h.trans ht.2.2⟩
      · exact ⟨fun h2 => by omega, fun h2 => by omega, fun h2 => by omega⟩
      · exact ⟨fun h2 => by omega, fun h2 => by omega, fun h2 => by omega⟩
      · exact ⟨fun h2 => by omega, fun h2 => by omega, fun h2 => by omega⟩
    · simp [MultiPatchModelGenerator3D.createTopology, hfem] at hm

/-- A post-split 2 x 2 x 1 grid with patch 1 of orders 3, 4, 5: the connection
of patches 1 and 3 in `y` has thickness 3. -/
theorem adjacent_thickness_witness :
    Event.addConnection ⟨1, 3, 4, 3, 0, 0, true, 2, 3⟩ true ∈
      (MultiPatchModelGenerator3D.createTopology ⟨2, 2, 1, 0, 0, 0, true⟩ sampleSim).2 ∧
    (3 : Int) = if (true : Bool) then sampleSim.p2 - 1 else 1 :=
  ⟨by decide,
   ((adjacent_thickness ⟨2, 0, true⟩ ⟨2, 2, 0, 0, true⟩ ⟨2, 2, 1, 0, 0, 0, true⟩
      sampleSim).2.2 ⟨1, 3, 4, 3, 0, 0, true, 2, 3⟩ true (by decide)).2.1 rfl⟩

namespace MultiPatchModelGenerator3D

/-- A face closure is requested only for a periodic axis with a single patch
along it; the direction closed is that of the axis. -/
theorem closeFaces_of_mem_calls3D (g : MultiPatchModelGenerator3D) (sim : SIMinput)
    (p d : Nat) (h : Event.closeFaces p d ∈ calls g sim) :
    (d = 1 ∧ g.periodic_x ≠ 0 ∧ ¬ 1 < g.nx) ∨ (d = 2 ∧ g.periodic_y ≠ 0 ∧ ¬ 1 < g.ny) ∨
    (d = 3 ∧ g.periodic_z ≠ 0 ∧ ¬ 1 < g.nz) := by
  unfold calls at h
  simp only [List.mem_append] at h
  rcases h with h | h | h | h | h | h
  · simp [adjacentX] at h
  · simp [adjacentY] at h
  · simp [adjacentZ] at h
  · by_cases hp : g.periodic_x = 0
    · simp [periodicX, hp] at h
    · by_cases hn : 1 < g.nx
      · simp [periodicX, hp, hn] at h
      · simp only [periodicX, hp, hn, ne_eq, not_false_eq_true, if_true, gt_iff_lt, if_false,
          List.mem_flatMap] at h
        obtain ⟨k, _, j, _, h⟩ := h
        split_ifs at h
        · simp only [List.mem_singleton, Event.closeFaces.injEq] at h
          exact Or.inl ⟨h.2, hp, hn⟩
        · exact absurd h (List.not_mem_nil _)
  · by_cases hp : g.periodic_y = 0
    · simp [periodicY, hp] at h
    · by_cases hn : 1 < g.ny
      · simp [periodicY, hp, hn] at h
      · simp only [periodicY, hp, hn, ne_eq, not_false_eq_true, if_true, gt_iff_lt, if_false,
          List.mem_flatMap] at h
        obtain ⟨k, _, i, _, h⟩ := h
        split_ifs at h
        · simp only [List.mem_singleton, Event.closeFaces.injEq] at h
          exact Or.inr (Or.inl ⟨h.2, hp, hn⟩)
        · exact absurd h (List.not_mem_nil _)
  · by_cases hp : g.periodic_z = 0
    · simp [periodicZ, hp] at h
    · by_cases hn : 1 < g.nz
      · simp [periodicZ, hp, hn] at h
      · simp only [periodicZ, hp, hn, ne_eq, not_false_eq_true, if_true, gt_iff_lt, if_false,
          List.mem_flatMap] at h
        obtain ⟨j, _, i, _, h⟩ := h
        split_ifs at h
        · simp only [List.mem_singleton, Event.closeFaces.injEq] at h
          exact Or.inr (Or.inr ⟨h.2, hp, hn⟩)
        · exact absurd h (List.not_mem_nil _)

/-- The connections whose first patch is joined on local face 1, 3 or 5 are
the periodic ones. -/
theorem periodic_of_mIdx3D (g : MultiPatchModelGenerator3D) (sim : SIMinput)
    (hnx : 1 ≤ g.nx) (hny : 1 ≤ g.ny) (hnz : 1 ≤ g.nz) (c : Conn)
    (h : c ∈ connections (calls g sim)) :
    (c.mIdx = 1 → c ∈ connections (periodicX g sim)) ∧
    (c.mIdx = 3 → c ∈ connections (periodicY g sim)) ∧
    (c.mIdx = 5 → c ∈ connections (periodicZ g sim)) := by
  have hm := mIdx_of_mem_calls3D g sim hnx hny hnz c
  rw [connections_calls3D] at h
  simp only [List.mem_append] at h
  rcases h with h | h | h | h | h | h
  · have := hm.1 h
    exact ⟨fun _ => by omega, fun _ => by omega, fun _ => by omega⟩
  · have := hm.2.1 h
    exact ⟨fun _ => by omega, fun _ => by omega, fun _ => by omega⟩
  · have := hm.2.2.1 h
    exact ⟨fun _ => by omega, fun _ => by omega, fun _ => by omega⟩
  · have := hm.2.2.2.1 h
    exact ⟨fun _ => h, fun _ => by omega, fun _ => by omega⟩
  · have := hm.2.2.2.2.1 h
    exact ⟨fun _ => by omega, fun _ => h, fun _ => by omega⟩
  · have := hm.2.2.2.2.2 h
    exact ⟨fun _ => by omega, fun _ => by omega, fun _ => h⟩

/-- Membership of a periodic connection in the whole list of connections. -/
theorem mem_calls_of_periodic3D (g : MultiPatchModelGenerator3D) (sim : SIMinput) (c : Conn) :
    (c ∈ connections (periodicX g sim) → c ∈ connections (calls g sim)) ∧
    (c ∈ connections (periodicY g sim) → c ∈ connections (calls g sim)) ∧
    (c ∈ connections (periodicZ g sim) → c ∈ connections (calls g sim)) := by
  rw [connections_calls3D]
  simp only [List.mem_append]
  exact ⟨fun h => Or.inr (Or.inr (Or.inr (Or.inl h))),
    fun h => Or.inr (Or.inr (Or.inr (Or.inr (Or.inl h)))),
    fun h => Or.inr (Or.inr (Or.inr (Or.inr (Or.inr h))))⟩

/-- C10: in the 3D builder, with the model built and every connection call
succeeding: if `periodic_x` is set and `nx > 1`, then for every `(j,k)` in the
grid exactly one connection of `IJK(0,j,k)` on local face 1 with
`IJK(nx-1,j,k)` on local face 2 is requested, there is no other connection with
local face 1 as first face, and no face closure in direction 1 is requested;
likewise for `y` (faces 3 and 4, direction 2) and `z` (faces 5 and 6,
direction 3).  If the flag of an axis is unset, neither a periodic connection
nor a closure is requested for it. -/
theorem createTopology_periodic (g : MultiPatchModelGenerator3D) (sim : SIMinput)
    (hnx : 1 ≤ g.nx) (hny : 1 ≤ g.ny) (hnz : 1 ≤ g.nz)
    (hfem : sim.createFEMmodel = true)
    (hok : allSucceed (createTopology g sim).2 = true) :
    (g.periodic_x ≠ 0 → 1 < g.nx →
      (∀ j k, j < g.ny → k < g.nz →
        (connections (createTopology g sim).2).count
          ⟨IJK g 0 j k, IJK g (g.nx - 1) j k, 1, 2, 0, 0, false, 2, sim.thick_default⟩ = 1) ∧
      (∀ c ∈ connections (createTopology g sim).2, c.mIdx = 1 →
        ∃ j k, j < g.ny ∧ k < g.nz ∧
          c = ⟨IJK g 0 j k, IJK g (g.nx - 1) j k, 1, 2, 0, 0, false, 2, sim.thick_default⟩) ∧
      (∀ p, Event.closeFaces p 1 ∉ (createTopology g sim).2)) ∧
    (g.periodic_y ≠ 0 → 1 < g.ny →
      (∀ i k, i < g.nx → k < g.nz →
        (connections (createTopology g sim).2).count
          ⟨IJK g i 0 k, IJK g i (g.ny - 1) k, 3, 4, 0, 0, false, 2, sim.thick_default⟩ = 1) ∧
      (∀ c ∈ connections (createTopology g sim).2, c.mIdx = 3 →
        ∃ i k, i < g.nx ∧ k < g.nz ∧
          c = ⟨IJK g i 0 k, IJK g i (g.ny - 1) k, 3, 4, 0, 0, false, 2, sim.thick_default⟩) ∧
      (∀ p, Event.closeFaces p 2 ∉ (createTopology g sim).2)) ∧
    (g.periodic_z ≠ 0 → 1 < g.nz →
      (∀ i j, i < g.nx → j < g.ny →
        (connections (createTopology g sim).2).count
          ⟨IJK g i j 0, IJK g i j (g.nz - 1), 5, 6, 0, 0, false, 2, sim.thick_default⟩ = 1) ∧
      (∀ c ∈ connections (createTopology g sim).2, c.mIdx = 5 →
        ∃ i j, i < g.nx ∧ j < g.ny ∧
          c = ⟨IJK g i j 0, IJK g i j (g.nz - 1), 5, 6, 0, 0, false, 2, sim.thick_default⟩) ∧
      (∀ p, Event.closeFaces p 3 ∉ (createTopology g sim).2)) ∧
    (g.periodic_x = 0 →
      (∀ c ∈ connections (createTopology g sim).2, c.mIdx ≠ 1) ∧
      (∀ p, Event.closeFaces p 1 ∉ (createTopology g sim).2)) ∧
    (g.periodic_y = 0 →
      (∀ c ∈ connections (createTopology g sim).2, c.mIdx ≠ 3) ∧
      (∀ p, Event.closeFaces p 2 ∉ (createTopology g sim).2)) ∧
    (g.periodic_z = 0 →
      (∀ c ∈ connections (createTopology g sim).2, c.mIdx ≠ 5) ∧
      (∀ p, Event.closeFaces p 3 ∉ (createTopology g sim).2)) := by
  rw [createTopology_of_allSucceed3D g sim hfem hok]
  have hnd := nodup_connections_calls3D g sim hnx hny hnz
  have hper := periodic_of_mIdx3D g sim hnx hny hnz
  have hcl := closeFaces_of_mem_calls3D g sim
  have hu := connections_periodic_unset3D g sim
  refine ⟨fun hp hn => ⟨fun j k hj hk => ?_, fun c hc hm => ?_, fun p hmem => ?_⟩,
    fun hp hn => ⟨fun i k hi hk => ?_, fun c hc hm => ?_, fun p hmem => ?_⟩,
    fun hp hn => ⟨fun i j hi hj => ?_, fun c hc hm => ?_, fun p hmem => ?_⟩,
    fun hp => ⟨fun c hc hm => ?_, fun p hmem => ?_⟩,
    fun hp => ⟨fun c hc hm => ?_, fun p hmem => ?_⟩,
    fun hp => ⟨fun c hc hm => ?_, fun p hmem => ?_⟩⟩
  · exact List.count_eq_one_of_mem hnd ((mem_calls_of_periodic3D g sim _).1
      ((mem_periodicX3D g sim _).mpr ⟨hp, hn, j, k, hj, hk, rfl⟩))
  · obtain ⟨_, _, j, k, hj, hk, e⟩ := (mem_periodicX3D g sim c).mp ((hper c hc).1 hm)
    exact ⟨j, k, hj, hk, e⟩
  · rcases hcl p 1 hmem with ⟨_, _, h⟩ | ⟨h, _⟩ | ⟨h, _⟩
    · exact h hn
    · omega
    · omega
  · exact List.count_eq_one_of_mem hnd ((mem_calls_of_periodic3D g sim _).2.1
      ((mem_periodicY3D g sim _).mpr ⟨hp, hn, i, k, hi, hk, rfl⟩))
  · obtain ⟨_, _, i, k, hi, hk, e⟩ := (mem_periodicY3D g sim c).mp ((hper c hc).2.1 hm)
    exact ⟨i, k, hi, hk, e⟩
  · rcases hcl p 2 hmem with ⟨h, _⟩ | ⟨_, _, h⟩ | ⟨h, _⟩
    · omega
    · exact h hn
    · omega
  · exact List.count_eq_one_of_mem hnd ((mem_calls_of_periodic3D g sim _).2.2
      ((mem_periodicZ3D g sim _).mpr ⟨hp, hn, i, j, hi, hj, rfl⟩))
  · obtain ⟨_, _, i, j, hi, hj, e⟩ := (mem_periodicZ3D g sim c).mp ((hper c hc).2.2 hm)
    exact ⟨i, j, hi, hj, e⟩
  · rcases hcl p 3 hmem with ⟨h, _⟩ | ⟨h, _⟩ | ⟨_, _, h⟩
    · omega
    · omega
    · exact h hn
  · have h := (hper c hc).1 hm
    rw [hu.1 hp] at h
    exact absurd h (List.not_mem_nil c)
  · rcases hcl p 1 hmem with ⟨_, h, _⟩ | ⟨h, _⟩ | ⟨h, _⟩
    · exact h hp
    · omega
    · omega
  · have h := (hper c hc).2.1 hm
    rw [hu.2.1 hp] at h
    exact absurd h (List.not_mem_nil c)
  · rcases hcl p 2 hmem with ⟨h, _⟩ | ⟨_, h, _⟩ | ⟨h, _⟩
    · omega
    · exact h hp
    · omega
  · have h := (hper c hc).2.2 hm
    rw [hu.2.2 hp] at h
    exact absurd h (List.not_mem_nil c)
  · rcases hcl p 3 hmem with ⟨h, _⟩ | ⟨h, _⟩ | ⟨_, h, _⟩
    · omega
    · omega
    · exact h hp

/-- A 2 x 2 x 1 grid periodic in `x` and `z`: the row `j = 1` is closed by one
connection of patch 3 (face 1) with patch 4 (face 2). -/
theorem createTopology_periodic_witness :
    (1 ≤ (2 : Nat) ∧ 1 ≤ (1 : Nat) ∧ sampleSim.createFEMmodel = true ∧
      allSucceed (createTopology ⟨2, 2, 1, 1, 0, 1, false⟩ sampleSim).2 = true ∧
      (1 : Int) ≠ 0 ∧ 1 < (2 : Nat)) ∧
    (connections (createTopology ⟨2, 2, 1, 1, 0, 1, false⟩ sampleSim).2).count
      ⟨3, 4, 1, 2, 0, 0, false, 2, 1⟩ = 1 :=
  ⟨by decide,
   ((createTopology_periodic ⟨2, 2, 1, 1, 0, 1, false⟩ sampleSim (by decide) (by decide)
      (by decide) rfl (by decide)).1 (by decide) (by decide)).1 1 0 (by decide) (by decide)⟩

end MultiPatchModelGenerator3D

/-! ## Theorems: periodic connections and self-closures -/

/-- Orientation code, coordinate check and second local index of each
connection requested by the 1D builder. -/
theorem MultiPatchModelGenerator1D.orient_of_mem_calls1D (g : MultiPatchModelGenerator1D)
    (sim : SIMinput) (c : Conn) (h : c ∈ connections (calls g sim)) :
    c.orient = 0 ∧
    ((c.mIdx = 2 ∧ c.sIdx = 1 ∧ c.coordCheck = true) ∨
     (c.mIdx = 1 ∧ c.sIdx = 2 ∧ c.coordCheck = false)) := by
  rw [connections_calls1D] at h
  simp only [List.mem_append, List.mem_map] at h
  rcases h with ⟨i, _, rfl⟩ | h
  · exact ⟨rfl, Or.inl ⟨rfl, rfl, rfl⟩⟩
  · split_ifs at h
    · simp only [List.mem_singleton] at h
      subst h
      exact ⟨rfl, Or.inr ⟨rfl, rfl, rfl⟩⟩
    · exact absurd h (List.not_mem_nil c)

/-- Orientation code, coordinate check and second local index of each
connection requested by the 2D builder. -/
theorem MultiPatchModelGenerator2D.orient_of_mem_calls2D (g : MultiPatchModelGenerator2D)
    (sim : SIMinput) (c : Conn) (h : c ∈ connections (calls g sim)) :
    c.orient = 0 ∧
    ((c.mIdx = 2 ∧ c.sIdx = 1 ∧ c.coordCheck = true) ∨
     (c.mIdx = 4 ∧ c.sIdx = 3 ∧ c.coordCheck = true) ∨
     (c.mIdx = 1 ∧ c.sIdx = 2 ∧ c.coordCheck = false) ∨
     (c.mIdx = 3 ∧ c.sIdx = 4 ∧ c.coordCheck = false)) := by
  rw [connections_calls2D] at h
  simp only [List.mem_append] at h
  rcases h with h | h | h | h
  · rw [connections_adjacentX2D] at h
    simp only [List.mem_flatMap, List.mem_singleton] at h
    obtain ⟨j, _, i, _, rfl⟩ := h
    exact ⟨rfl, Or.inl ⟨rfl, rfl, rfl⟩⟩
  · rw [connections_adjacentY2D] at h
    simp only [List.mem_flatMap, List.mem_singleton] at h
    obtain ⟨j, _, i, _, rfl⟩ := h
    exact ⟨rfl, Or.inr (Or.inl ⟨rfl, rfl, rfl⟩)⟩
  · rw [connections_periodicX2D] at h
    split_ifs at h
    · simp only [List.mem_flatMap, List.mem_singleton] at h
      obtain ⟨j, _, rfl⟩ := h
      exact ⟨rfl, Or.inr (Or.inr (Or.inl ⟨rfl, rfl, rfl⟩))⟩
    · exact absurd h (List.not_mem_nil c)
  · rw [connections_periodicY2D] at h
    split_ifs at h
    · simp only [List.mem_flatMap, List.mem_singleton] at h
      obtain ⟨i, _, rfl⟩ := h
      exact ⟨rfl, Or.inr (Or.inr (Or.inr ⟨rfl, rfl, rfl⟩))⟩
    · exact absurd h (List.not_mem_nil c)

/-- Orientation code, coordinate check and second local index of each
connection requested by the 3D builder. -/
theorem MultiPatchModelGenerator3D.orient_of_mem_calls3D (g : MultiPatchModelGenerator3D)
    (sim : SIMinput) (c : Conn) (h : c ∈ connections (calls g sim)) :
    c.orient = 0 ∧
    ((c.mIdx = 2 ∧ c.sIdx = 1 ∧ c.coordCheck = true) ∨
     (c.mIdx = 4 ∧ c.sIdx = 3 ∧ c.coordCheck = true) ∨
     (c.mIdx = 6 ∧ c.sIdx = 5 ∧ c.coordCheck = true) ∨
     (c.mIdx = 1 ∧ c.sIdx = 2 ∧ c.coordCheck = false) ∨
     (c.mIdx = 3 ∧ c.sIdx = 4 ∧ c.coordCheck = false) ∨
     (c.mIdx = 5 ∧ c.sIdx = 6 ∧ c.coordCheck = false)) := by
  rw [connections_calls3D] at h
  simp only [List.mem_append] at h
  rcases h with h | h | h | h | h | h
  · rw [connections_adjacentX3D] at h
    simp only [List.mem_flatMap, List.mem_singleton] at h
    obtain ⟨k, _, j, _, i, _, rfl⟩ := h
    exact ⟨rfl, Or.inl ⟨rfl, rfl, rfl⟩⟩
  · rw [connections_adjacentY3D] at h
    simp only [List.mem_flatMap, List.mem_singleton] at h
    obtain ⟨k, _, j, _, i, _, rfl⟩ := h
    exact ⟨rfl, Or.inr (Or.inl ⟨rfl, rfl, rfl⟩)⟩
  · rw [connections_adjacentZ3D] at h
    simp only [List.mem_flatMap, List.mem_singleton] at h
    obtain ⟨k, _, j, _, i, _, rfl⟩ := h
    exact ⟨rfl, Or.inr (Or.inr (Or.inl ⟨rfl, rfl, rfl⟩))⟩
  · rw [mem_periodicX3D] at h
    obtain ⟨_, _, _, _, _, _, rfl⟩ := h
    exact ⟨rfl, Or.inr (Or.inr (Or.inr (Or.inl ⟨rfl, rfl, rfl⟩)))⟩
  · rw [mem_periodicY3D] at h
    obtain ⟨_, _, _, _, _, _, rfl⟩ := h
    exact ⟨rfl, Or.inr (Or.inr (Or.inr (Or.inr (Or.inl ⟨rfl, rfl, rfl⟩))))⟩
  · rw [mem_periodicZ3D] at h
    obtain ⟨_, _, _, _, _, _, rfl⟩ := h
    exact ⟨rfl, Or.inr (Or.inr (Or.inr (Or.inr (Or.inr ⟨rfl, rfl, rfl⟩))))⟩

/-- A run that stops before the model is built records no call. -/
theorem createTopology_nil_of_not_built (g1 : MultiPatchModelGenerator1D)
    (g2 : MultiPatchModelGenerator2D) (g3 : MultiPatchModelGenerator3D) (sim : SIMinput)
    (h : ¬ sim.createFEMmodel = true) :
    MultiPatchModelGenerator1D.createTopology g1 sim = (false, []) ∧
    MultiPatchModelGenerator2D.createTopology g2 sim = (false, []) ∧
    MultiPatchModelGenerator3D.createTopology g3 sim = (false, []) := by
  simp [MultiPatchModelGenerator1D.createTopology, MultiPatchModelGenerator2D.createTopology,
    MultiPatchModelGenerator3D.createTopology, h]

/-- C11, as stated, fails: for two patches in 1D with `periodic_x` set the
builder requests the connection of the neighbours and the periodic connection,
and both carry the orientation code 0. -/
theorem MultiPatchModelGenerator1D.periodic_orient_not_reversed :
    connections (createTopology ⟨2, 1, false⟩ sampleSim).2 =
      [⟨1, 2, 2, 1, 0, 0, true, 0, 1⟩, ⟨1, 2, 1, 2, 0, 0, false, 0, 1⟩] ∧
    (⟨1, 2, 1, 2, 0, 0, false, 0, 1⟩ : Conn).orient =
      (⟨1, 2, 2, 1, 0, 0, true, 0, 1⟩ : Conn).orient := by
  decide

/-- The periodic connections of the 2D builder, as members of the connections
of a run in which nothing fails. -/
theorem MultiPatchModelGenerator2D.mem_periodic2D (g : MultiPatchModelGenerator2D)
    (sim : SIMinput) (c : Conn) :
    (c ∈ connections (MultiPatchModelGenerator2D.periodicX g sim) ↔
      g.periodic_x ≠ 0 ∧ 1 < g.nx ∧ ∃ j, j < g.ny ∧
        c = ⟨MultiPatchModelGenerator2D.IJ g 0 j, MultiPatchModelGenerator2D.IJ g (g.nx - 1) j,
          1, 2, 0, 0, false, sim.dim_default, sim.thick_default⟩) ∧
    (c ∈ connections (MultiPatchModelGenerator2D.periodicY g sim) ↔
      g.periodic_y ≠ 0 ∧ 1 < g.ny ∧ ∃ i, i < g.nx ∧
        c = ⟨MultiPatchModelGenerator2D.IJ g i 0, MultiPatchModelGenerator2D.IJ g i (g.ny - 1),
          3, 4, 0, 0, false, sim.dim_default, sim.thick_default⟩) := by
  constructor
  · rw [MultiPatchModelGenerator2D.connections_periodicX2D]
    split_ifs with h
    · simp only [List.mem_flatMap, List.mem_range, List.mem_singleton]
      exact ⟨fun ⟨j, hj, e⟩ => ⟨h.1, h.2, j, hj, e⟩, fun ⟨_, _, j, hj, e⟩ => ⟨j, hj, e⟩⟩
    · exact ⟨fun hc => absurd hc (List.not_mem_nil c), fun ⟨a, b, _⟩ => absurd ⟨a, b⟩ h⟩
  · rw [MultiPatchModelGenerator2D.connections_periodicY2D]
    split_ifs with h
    · simp only [List.mem_flatMap, List.mem_range, List.mem_singleton]
      exact ⟨fun ⟨i, hi, e⟩ => ⟨h.1, h.2, i, hi, e⟩, fun ⟨_, _, i, hi, e⟩ => ⟨i, hi, e⟩⟩
    · exact ⟨fun hc => absurd hc (List.not_mem_nil c), fun ⟨a, b, _⟩ => absurd ⟨a, b⟩ h⟩

/-- The two kinds of connection of a run of the 1D builder in which nothing
fails: a neighbour connection, checked, or the periodic one, unchecked. -/
theorem MultiPatchModelGenerator1D.conn_kinds1D (g : MultiPatchModelGenerator1D)
    (sim : SIMinput) (c : Conn) (h : c ∈ connections (calls g sim)) :
    (c.coordCheck = true ∧ c.mIdx = 2 ∧ c.sIdx = 1 ∧ c.slave = c.master + 1) ∨
    (c.coordCheck = false ∧ g.periodic_x ≠ 0 ∧ 1 < g.nx ∧
      c = ⟨1, g.nx, 1, 2, 0, 0, false, 0, thick g sim⟩) := by
  rw [connections_calls1D] at h
  simp only [List.mem_append, List.mem_map] at h
  rcases h with ⟨i, _, rfl⟩ | h
  · exact Or.inl ⟨rfl, rfl, rfl, rfl⟩
  · split_ifs at h with hp
    · simp only [List.mem_singleton] at h
      subst h
      exact Or.inr ⟨rfl, hp.1, hp.2, rfl⟩
    · exact absurd h (List.not_mem_nil c)

/-- The kinds of connection of a run of the 2D builder in which nothing fails:
a neighbour connection, checked, or a periodic one, unchecked. -/
theorem MultiPatchModelGenerator2D.conn_kinds2D (g : MultiPatchModelGenerator2D)
    (sim : SIMinput) (c : Conn) (h : c ∈ connections (calls g sim)) :
    (c.coordCheck = true ∧ ((c.mIdx = 2 ∧ c.sIdx = 1) ∨ (c.mIdx = 4 ∧ c.sIdx = 3))) ∨
    (c.coordCheck = false ∧
      ((g.periodic_x ≠ 0 ∧ 1 < g.nx ∧ ∃ j, j < g.ny ∧
          c = ⟨IJ g 0 j, IJ g (g.nx - 1) j, 1, 2, 0, 0, false, sim.dim_default,
            sim.thick_default⟩) ∨
       (g.periodic_y ≠ 0 ∧ 1 < g.ny ∧ ∃ i, i < g.nx ∧
          c = ⟨IJ g i 0, IJ g i (g.ny - 1), 3, 4, 0, 0, false, sim.dim_default,
            sim.thick_default⟩))) := by
  rw [connections_calls2D] at h
  simp only [List.mem_append] at h
  rcases h with h | h | h | h
  · rw [connections_adjacentX2D] at h
    simp only [List.mem_flatMap, List.mem_singleton] at h
    obtain ⟨j, _, i, _, rfl⟩ := h
    exact Or.inl ⟨rfl, Or.inl ⟨rfl, rfl⟩⟩
  · rw [connections_adjacentY2D] at h
    simp only [List.mem_flatMap, List.mem_singleton] at h
    obtain ⟨j, _, i, _, rfl⟩ := h
    exact Or.inl ⟨rfl, Or.inr ⟨rfl, rfl⟩⟩
  · obtain ⟨a, b, j, hj, rfl⟩ := (mem_periodic2D g sim c).1.mp h
    exact Or.inr ⟨rfl, Or.inl ⟨a, b, j, hj, rfl⟩⟩
  · obtain ⟨a, b, i, hi, rfl⟩ := (mem_periodic2D g sim c).2.mp h
    exact Or.inr ⟨rfl, Or.inr ⟨a, b, i, hi, rfl⟩⟩

/-- The kinds of connection of a run of the 3D builder in which nothing fails:
a neighbour connection, checked, or a periodic one, unchecked. -/
theorem MultiPatchModelGenerator3D.conn_kinds3D (g : MultiPatchModelGenerator3D)
    (sim : SIMinput) (c : Conn) (h : c ∈ connections (calls g sim)) :
    (c.coordCheck = true ∧
      ((c.mIdx = 2 ∧ c.sIdx = 1) ∨ (c.mIdx = 4 ∧ c.sIdx = 3) ∨ (c.mIdx = 6 ∧ c.sIdx = 5))) ∨
    (c.coordCheck = false ∧
      ((g.periodic_x ≠ 0 ∧ 1 < g.nx ∧ ∃ j k, j < g.ny ∧ k < g.nz ∧
          c = ⟨IJK g 0 j k, IJK g (g.nx - 1) j k, 1, 2, 0, 0, false, 2, sim.thick_default⟩) ∨
       (g.periodic_y ≠ 0 ∧ 1 < g.ny ∧ ∃ i k, i < g.nx ∧ k < g.nz ∧
          c = ⟨IJK g i 0 k, IJK g i (g.ny - 1) k, 3, 4, 0, 0, false, 2, sim.thick_default⟩) ∨
       (g.periodic_z ≠ 0 ∧ 1 < g.nz ∧ ∃ i j, i < g.nx ∧ j < g.ny ∧
          c = ⟨IJK g i j 0, IJK g i j (g.nz - 1), 5, 6, 0, 0, false, 2,
            sim.thick_default⟩))) := by
  rw [connections_calls3D] at h
  simp only [List.mem_append] at h
  rcases h with h | h | h | h | h | h
  · rw [connections_adjacentX3D] at h
    simp only [List.mem_flatMap, List.mem_singleton] at h
    obtain ⟨k, _, j, _, i, _, rfl⟩ := h
    exact Or.inl ⟨rfl, Or.inl ⟨rfl, rfl⟩⟩
  · rw [connections_adjacentY3D] at h
    simp only [List.mem_flatMap, List.mem_singleton] at h
    obtain ⟨k, _, j, _, i, _, rfl⟩ := h
    exact Or.inl ⟨rfl, Or.inr (Or.inl ⟨rfl, rfl⟩)⟩
  · rw [connections_adjacentZ3D] at h
    simp only [List.mem_flatMap, List.mem_singleton] at h
    obtain ⟨k, _, j, _, i, _, rfl⟩ := h
    exact Or.inl ⟨rfl, Or.inr (Or.inr ⟨rfl, rfl⟩)⟩
  · obtain ⟨a, b, j, k, hj, hk, rfl⟩ := (mem_periodicX3D g sim c).mp h
    exact Or.inr ⟨rfl, Or.inl ⟨a, b, j, k, hj, hk, rfl⟩⟩
  · obtain ⟨a, b, i, k, hi, hk, rfl⟩ := (mem_periodicY3D g sim c).mp h
    exact Or.inr ⟨rfl, Or.inr (Or.inl ⟨a, b, i, k, hi, hk, rfl⟩)⟩
  · obtain ⟨a, b, i, j, hi, hj, rfl⟩ := (mem_periodicZ3D g sim c).mp h
    exact Or.inr ⟨rfl, Or.inr (Or.inr ⟨a, b, i, j, hi, hj, rfl⟩)⟩

/-- Every connection call recorded by a run of the 1D, 2D and 3D builders,
whether the run succeeds or not, carries the orientation code 0; a call on
local index 1, 3 or 5 of the first patch names local index 2, 4 or 6 of the
second and disables the coordinate check. -/
theorem orient_of_recorded (g1 : MultiPatchModelGenerator1D)
    (g2 : MultiPatchModelGenerator2D) (g3 : MultiPatchModelGenerator3D) (sim : SIMinput) :
    (∀ c ok, Event.addConnection c ok ∈ (MultiPatchModelGenerator1D.createTopology g1 sim).2 →
      c.orient = 0 ∧ (c.mIdx = 1 → c.sIdx = 2 ∧ c.coordCheck = false)) ∧
    (∀ c ok, Event.addConnection c ok ∈ (MultiPatchModelGenerator2D.createTopology g2 sim).2 →
      c.orient = 0 ∧ (c.mIdx = 1 → c.sIdx = 2 ∧ c.coordCheck = false) ∧
      (c.mIdx = 3 → c.sIdx = 4 ∧ c.coordCheck = false)) ∧
    (∀ c ok, Event.addConnection c ok ∈ (MultiPatchModelGenerator3D.createTopology g3 sim).2 →
      c.orient = 0 ∧ (c.mIdx = 1 → c.sIdx = 2 ∧ c.coordCheck = false) ∧
      (c.mIdx = 3 → c.sIdx = 4 ∧ c.coordCheck = false) ∧
      (c.mIdx = 5 → c.sIdx = 6 ∧ c.coordCheck = false)) := by
  refine ⟨fun c ok hm => ?_, fun c ok hm => ?_, fun c ok hm => ?_⟩
  · by_cases hfem : sim.createFEMmodel = true
    · have hc := mem_connections_of_run _ _
        (MultiPatchModelGenerator1D.createTopology_run1D g1 sim hfem) c ok hm
      obtain ⟨ho, h⟩ := MultiPatchModelGenerator1D.orient_of_mem_calls1D g1 sim c hc
      refine ⟨ho, fun h1 => ?_⟩
      rcases h with ⟨a, _, _⟩ | ⟨_, b, d⟩
      · omega
      · exact ⟨b, d⟩
    · rw [(createTopology_nil_of_not_built g1 g2 g3 sim hfem).1] at hm
      exact absurd hm (List.not_mem_nil _)
  · by_cases hfem : sim.createFEMmodel = true
    · have hc := mem_connections_of_run _ _
        (MultiPatchModelGenerator2D.createTopology_run2D g2 sim hfem) c ok hm
      obtain ⟨ho, h⟩ := MultiPatchModelGenerator2D.orient_of_mem_calls2D g2 sim c hc
      refine ⟨ho, fun h1 => ?_, fun h1 => ?_⟩
      · rcases h with ⟨a, _, _⟩ | ⟨a, _, _⟩ | ⟨_, b, d⟩ | ⟨a, _, _⟩
        · omega
        · omega
        · exact ⟨b, d⟩
        · omega
      · rcases h with ⟨a, _, _⟩ | ⟨a, _, _⟩ | ⟨a, _, _⟩ | ⟨_, b, d⟩
        · omega
        · omega
        · omega
        · exact ⟨b, d⟩
    · rw [(createTopology_nil_of_not_built g1 g2 g3 sim hfem).2.1] at hm
      exact absurd hm (List.not_mem_nil _)
  · by_cases hfem : sim.createFEMmodel = true
    · have hc := mem_connections_of_run _ _
        (MultiPatchModelGenerator3D.createTopology_run3D g3 sim hfem) c ok hm
      obtain ⟨ho, h⟩ := MultiPatchModelGenerator3D.orient_of_mem_calls3D g3 sim c hc
      refine ⟨ho, fun h1 => ?_, fun h1 => ?_, fun h1 => ?_⟩
      · rcases h with ⟨a, _, _⟩ | ⟨a, _, _⟩ | ⟨a, _, _⟩ | ⟨_, b, d⟩ | ⟨a, _, _⟩ | ⟨a, _, _⟩
        · omega
        · omega
        · omega
        · exact ⟨b, d⟩
        · omega
        · omega
      · rcases h with ⟨a, _, _⟩ | ⟨a, _, _⟩ | ⟨a, _, _⟩ | ⟨a, _, _⟩ | ⟨_, b, d⟩ | ⟨a, _, _⟩
        · omega
        · omega
        · omega
        · omega
        · exact ⟨b, d⟩
        · omega
      · rcases h with ⟨a, _, _⟩ | ⟨a, _, _⟩ | ⟨a, _, _⟩ | ⟨a, _, _⟩ | ⟨a, _, _⟩ | ⟨_, b, d⟩
        · omega
        · omega
        · omega
        · omega
        · omega
        · exact ⟨b, d⟩
    · rw [(createTopology_nil_of_not_built g1 g2 g3 sim hfem).2.2] at hm
      exact absurd hm (List.not_mem_nil _)

/-- C11, amended: in a run of the 1D, 2D or 3D builder in which the model is
built and every connection call succeeds, when an axis is periodic and has
more than one patch along it, the connection of the first patch of each row
along that axis, on its start boundary (local index 1, 3 or 5), with the last
patch of the row, on its end boundary (local index 2, 4 or 6), is requested,
with the coordinate check disabled and the orientation code 0; every
connection requested carries the orientation code 0 and is either a
connection of neighbours (local index 2, 4 or 6 first, coordinate check
enabled) or one of these periodic connections. -/
theorem periodic_orientation (g1 : MultiPatchModelGenerator1D)
    (g2 : MultiPatchModelGenerator2D) (g3 : MultiPatchModelGenerator3D) (sim : SIMinput)
    (hfem : sim.createFEMmodel = true)
    (hok1 : allSucceed (MultiPatchModelGenerator1D.createTopology g1 sim).2 = true)
    (hok2 : allSucceed (MultiPatchModelGenerator2D.createTopology g2 sim).2 = true)
    (hok3 : allSucceed (MultiPatchModelGenerator3D.createTopology g3 sim).2 = true) :
    ((g1.periodic_x ≠ 0 → 1 < g1.nx →
        (⟨1, g1.nx, 1, 2, 0, 0, false, 0, MultiPatchModelGenerator1D.thick g1 sim⟩ : Conn) ∈
          connections (MultiPatchModelGenerator1D.createTopology g1 sim).2) ∧
      ∀ c ∈ connections (MultiPatchModelGenerator1D.createTopology g1 sim).2,
        c.orient = 0 ∧
        ((c.coordCheck = true ∧ c.mIdx = 2 ∧ c.sIdx = 1 ∧ c.slave = c.master + 1) ∨
         (c.coordCheck = false ∧ g1.periodic_x ≠ 0 ∧ 1 < g1.nx ∧
            c = ⟨1, g1.nx, 1, 2, 0, 0, false, 0, MultiPatchModelGenerator1D.thick g1 sim⟩))) ∧
    ((g2.periodic_x ≠ 0 → 1 < g2.nx → ∀ j, j < g2.ny →
        (⟨MultiPatchModelGenerator2D.IJ g2 0 j, MultiPatchModelGenerator2D.IJ g2 (g2.nx - 1) j,
          1, 2, 0, 0, false, sim.dim_default, sim.thick_default⟩ : Conn) ∈
          connections (MultiPatchModelGenerator2D.createTopology g2 sim).2) ∧
      (g2.periodic_y ≠ 0 → 1 < g2.ny → ∀ i, i < g2.nx →
        (⟨MultiPatchModelGenerator2D.IJ g2 i 0, MultiPatchModelGenerator2D.IJ g2 i (g2.ny - 1),
          3, 4, 0, 0, false, sim.dim_default, sim.thick_default⟩ : Conn) ∈
          connections (MultiPatchModelGenerator2D.createTopology g2 sim).2) ∧
      ∀ c ∈ connections (MultiPatchModelGenerator2D.createTopology g2 sim).2,
        c.orient = 0 ∧
        ((c.coordCheck = true ∧ ((c.mIdx = 2 ∧ c.sIdx = 1) ∨ (c.mIdx = 4 ∧ c.sIdx = 3))) ∨
         (c.coordCheck = false ∧
          ((g2.periodic_x ≠ 0 ∧ 1 < g2.nx ∧ ∃ j, j < g2.ny ∧
              c = ⟨MultiPatchModelGenerator2D.IJ g2 0 j,
                MultiPatchModelGenerator2D.IJ g2 (g2.nx - 1) j, 1, 2, 0, 0, false,
                sim.dim_default, sim.thick_default⟩) ∨
           (g2.periodic_y ≠ 0 ∧ 1 < g2.ny ∧ ∃ i, i < g2.nx ∧
              c = ⟨MultiPatchModelGenerator2D.IJ g2 i 0,
                MultiPatchModelGenerator2D.IJ g2 i (g2.ny - 1), 3, 4, 0, 0, false,
                sim.dim_default, sim.thick_default⟩))))) ∧
    ((g3.periodic_x ≠ 0 → 1 < g3.nx → ∀ j k, j < g3.ny → k < g3.nz →
        (⟨MultiPatchModelGenerator3D.IJK g3 0 j k,
          MultiPatchModelGenerator3D.IJK g3 (g3.nx - 1) j k, 1, 2, 0, 0, false, 2,
          sim.thick_default⟩ : Conn) ∈
          connections (MultiPatchModelGenerator3D.createTopology g3 sim).2) ∧
      (g3.periodic_y ≠ 0 → 1 < g3.ny → ∀ i k, i < g3.nx → k < g3.nz →
        (⟨MultiPatchModelGenerator3D.IJK g3 i 0 k,
          MultiPatchModelGenerator3D.IJK g3 i (g3.ny - 1) k, 3, 4, 0, 0, false, 2,
          sim.thick_default⟩ : Conn) ∈
          connections (MultiPatchModelGenerator3D.createTopology g3 sim).2) ∧
      (g3.periodic_z ≠ 0 → 1 < g3.nz → ∀ i j, i < g3.nx → j < g3.ny →
        (⟨MultiPatchModelGenerator3D.IJK g3 i j 0,
          MultiPatchModelGenerator3D.IJK g3 i j (g3.nz - 1), 5, 6, 0, 0, false, 2,
          sim.thick_default⟩ : Conn) ∈
          connections (MultiPatchModelGenerator3D.createTopology g3 sim).2) ∧
      ∀ c ∈ connections (MultiPatchModelGenerator3D.createTopology g3 sim).2,
        c.orient = 0 ∧
        ((c.coordCheck = true ∧
          ((c.mIdx = 2 ∧ c.sIdx = 1) ∨ (c.mIdx = 4 ∧ c.sIdx = 3) ∨
            (c.mIdx = 6 ∧ c.sIdx = 5))) ∨
         (c.coordCheck = false ∧
          ((g3.periodic_x ≠ 0 ∧ 1 < g3.nx ∧ ∃ j k, j < g3.ny ∧ k < g3.nz ∧
              c = ⟨MultiPatchModelGenerator3D.IJK g3 0 j k,
                MultiPatchModelGenerator3D.IJK g3 (g3.nx - 1) j k, 1, 2, 0, 0, false, 2,
                sim.thick_default⟩) ∨
           (g3.periodic_y ≠ 0 ∧ 1 < g3.ny ∧ ∃ i k, i < g3.nx ∧ k < g3.nz ∧
              c = ⟨MultiPatchModelGenerator3D.IJK g3 i 0 k,
                MultiPatchModelGenerator3D.IJK g3 i (g3.ny - 1) k, 3, 4, 0, 0, false, 2,
                sim.thick_default⟩) ∨
           (g3.periodic_z ≠ 0 ∧ 1 < g3.nz ∧ ∃ i j, i < g3.nx ∧ j < g3.ny ∧
              c = ⟨MultiPatchModelGenerator3D.IJK g3 i j 0,
                MultiPatchModelGenerator3D.IJK g3 i j (g3.nz - 1), 5, 6, 0, 0, false, 2,
                sim.thick_default⟩))))) := by
  rw [MultiPatchModelGenerator1D.createTopology_of_allSucceed1D g1 sim hfem hok1,
    MultiPatchModelGenerator2D.createTopology_of_allSucceed2D g2 sim hfem hok2,
    MultiPatchModelGenerator3D.createTopology_of_allSucceed3D g3 sim hfem hok3]
  refine ⟨⟨fun hp hn => ?_, fun c hc => ?_⟩,
    ⟨fun hp hn j hj => ?_, fun hp hn i hi => ?_, fun c hc => ?_⟩,
    ⟨fun hp hn j k hj hk => ?_, fun hp hn i k hi hk => ?_, fun hp hn i j hi hj => ?_,
      fun c hc => ?_⟩⟩
  · rw [MultiPatchModelGenerator1D.connections_calls1D, if_pos ⟨hp, hn⟩]
    exact List.mem_append_right _ (List.mem_singleton_self _)
  · exact ⟨(MultiPatchModelGenerator1D.orient_of_mem_calls1D g1 sim c hc).1,
      MultiPatchModelGenerator1D.conn_kinds1D g1 sim c hc⟩
  · rw [MultiPatchModelGenerator2D.connections_calls2D]
    simp only [List.mem_append]
    exact Or.inr (Or.inr (Or.inl
      ((MultiPatchModelGenerator2D.mem_periodic2D g2 sim _).1.mpr ⟨hp, hn, j, hj, rfl⟩)))
  · rw [MultiPatchModelGenerator2D.connections_calls2D]
    simp only [List.mem_append]
    exact Or.inr (Or.inr (Or.inr
      ((MultiPatchModelGenerator2D.mem_periodic2D g2 sim _).2.mpr ⟨hp, hn, i, hi, rfl⟩)))
  · exact ⟨(MultiPatchModelGenerator2D.orient_of_mem_calls2D g2 sim c hc).1,
      MultiPatchModelGenerator2D.conn_kinds2D g2 sim c hc⟩
  · exact (MultiPatchModelGenerator3D.mem_calls_of_periodic3D g3 sim _).1
      ((MultiPatchModelGenerator3D.mem_periodicX3D g3 sim _).mpr ⟨hp, hn, j, k, hj, hk, rfl⟩)
  · exact (MultiPatchModelGenerator3D.mem_calls_of_periodic3D g3 sim _).2.1
      ((MultiPatchModelGenerator3D.mem_periodicY3D g3 sim _).mpr ⟨hp, hn, i, k, hi, hk, rfl⟩)
  · exact (MultiPatchModelGenerator3D.mem_calls_of_periodic3D g3 sim _).2.2
      ((MultiPatchModelGenerator3D.mem_periodicZ3D g3 sim _).mpr ⟨hp, hn, i, j, hi, hj, rfl⟩)
  · exact ⟨(MultiPatchModelGenerator3D.orient_of_mem_calls3D g3 sim c hc).1,
      MultiPatchModelGenerator3D.conn_kinds3D g3 sim c hc⟩

/-- Three patches in 1D, a 2 x 2 grid and a 2 x 2 x 1 grid, all periodic in
`x`: the periodic connection of patch 1 with patch 3 in 1D and that of patch 3
with patch 4 (row 1) in 2D are requested, with orientation code 0. -/
theorem periodic_orientation_witness :
    (sampleSim.createFEMmodel = true ∧
      allSucceed (MultiPatchModelGenerator1D.createTopology ⟨3, 1, false⟩ sampleSim).2 = true ∧
      allSucceed (MultiPatchModelGenerator2D.createTopology ⟨2, 2, 1, 0, false⟩
        sampleSim).2 = true ∧
      allSucceed (MultiPatchModelGenerator3D.createTopology ⟨2, 2, 1, 1, 0, 0, false⟩
        sampleSim).2 = true ∧
      (1 : Int) ≠ 0 ∧ 1 < (3 : Nat) ∧ 1 < (2 : Nat)) ∧
    (⟨1, 3, 1, 2, 0, 0, false, 0,
        MultiPatchModelGenerator1D.thick ⟨3, 1, false⟩ sampleSim⟩ : Conn) ∈
      connections (MultiPatchModelGenerator1D.createTopology ⟨3, 1, false⟩ sampleSim).2 ∧
    (⟨MultiPatchModelGenerator2D.IJ ⟨2, 2, 1, 0, false⟩ 0 1,
        MultiPatchModelGenerator2D.IJ ⟨2, 2, 1, 0, false⟩ (2 - 1) 1, 1, 2, 0, 0, false,
        sampleSim.dim_default, sampleSim.thick_default⟩ : Conn) ∈
      connections (MultiPatchModelGenerator2D.createTopology ⟨2, 2, 1, 0, false⟩ sampleSim).2 :=
  ⟨by decide,
   (periodic_orientation ⟨3, 1, false⟩ ⟨2, 2, 1, 0, false⟩ ⟨2, 2, 1, 1, 0, 0, false⟩ sampleSim
      rfl (by decide) (by decide) (by decide)).1.1 (by decide) (by decide),
   (periodic_orientation ⟨3, 1, false⟩ ⟨2, 2, 1, 0, false⟩ ⟨2, 2, 1, 1, 0, 0, false⟩ sampleSim
      rfl (by decide) (by decide) (by decide)).2.1.1 (by decide) (by decide) 1 (by decide)⟩

namespace MultiPatchModelGenerator2D

/-- The neighbour connections contain no closing call. -/
theorem closeEdges_not_mem_adjacent2D (g : MultiPatchModelGenerator2D) (sim : SIMinput)
    (p d : Nat) :
    Event.closeEdges p d ∉ adjacentX g sim ∧ Event.closeEdges p d ∉ adjacentY g sim := by
  constructor
  · simp [adjacentX]
  · simp [adjacentY]

/-- The edge closures requested for the `x` direction. -/
theorem closeEdges_mem_periodicX2D (g : MultiPatchModelGenerator2D) (sim : SIMinput)
    (p d : Nat) :
    Event.closeEdges p d ∈ periodicX g sim ↔
      d = 1 ∧ g.periodic_x ≠ 0 ∧ ¬ 1 < g.nx ∧
        ∃ j, j < g.ny ∧ p = IJ g 0 j ∧ sim.getPatch p = true := by
  by_cases hp : g.periodic_x = 0
  · simp [periodicX, hp]
  · by_cases hn : 1 < g.nx
    · simp [periodicX, hp, hn]
    · simp only [periodicX, hp, hn, ne_eq, not_false_eq_true, if_true, gt_iff_lt, if_false,
        List.mem_flatMap, List.mem_range, true_and]
      constructor
      · rintro ⟨j, hj, h⟩
        split_ifs at h with hg
        · simp only [List.mem_singleton, Event.closeEdges.injEq] at h
          exact ⟨h.2, j, hj, h.1, by rw [h.1]; exact hg⟩
        · exact absurd h (List.not_mem_nil _)
      · rintro ⟨hd, j, hj, hpj, hg⟩
        refine ⟨j, hj, ?_⟩
        rw [← hpj, if_pos hg, hd]
        exact List.mem_singleton_self _

/-- The edge closures requested for the `y` direction. -/
theorem closeEdges_mem_periodicY2D (g : MultiPatchModelGenerator2D) (sim : SIMinput)
    (p d : Nat) :
    Event.closeEdges p d ∈ periodicY g sim ↔
      d = 2 ∧ g.periodic_y ≠ 0 ∧ ¬ 1 < g.ny ∧
        ∃ i, i < g.nx ∧ p = IJ g i 0 ∧ sim.getPatch p = true := by
  by_cases hp : g.periodic_y = 0
  · simp [periodicY, hp]
  · by_cases hn : 1 < g.ny
    · simp [periodicY, hp, hn]
    · simp only [periodicY, hp, hn, ne_eq, not_false_eq_true, if_true, gt_iff_lt, if_false,
        List.mem_flatMap, List.mem_range, true_and]
      constructor
      · rintro ⟨i, hi, h⟩
        split_ifs at h with hg
        · simp only [List.mem_singleton, Event.closeEdges.injEq] at h
          exact ⟨h.2, i, hi, h.1, by rw [h.1]; exact hg⟩
        · exact absurd h (List.not_mem_nil _)
      · rintro ⟨hd, i, hi, hpi, hg⟩
        refine ⟨i, hi, ?_⟩
        rw [← hpi, if_pos hg, hd]
        exact List.mem_singleton_self _

/-- With a single patch along `x`, no edge closure for `x` is requested twice. -/
theorem nodup_periodicX2D (g : MultiPatchModelGenerator2D) (sim : SIMinput)
    (hnx : g.nx = 1) : (periodicX g sim).Nodup := by
  by_cases hp : g.periodic_x = 0
  · simp [periodicX, hp]
  · simp only [periodicX, hp, hnx, ne_eq, not_false_eq_true, if_true, gt_iff_lt,
      lt_self_iff_false, if_false]
    apply nodup_flatMap_range
    · intro j _
      split_ifs <;> simp
    · intro a b x _ _ ha hb
      split_ifs at ha hb
      all_goals first
        | exact absurd ha (List.not_mem_nil _)
        | exact absurd hb (List.not_mem_nil _)
        | skip
      simp only [List.mem_singleton] at ha hb
      rw [ha] at hb
      simp only [Event.closeEdges.injEq, IJ, hnx, and_true] at hb
      omega

/-- With a single patch along `y`, no edge closure for `y` is requested twice. -/
theorem nodup_periodicY2D (g : MultiPatchModelGenerator2D) (sim : SIMinput)
    (hny : g.ny = 1) : (periodicY g sim).Nodup := by
  by_cases hp : g.periodic_y = 0
  · simp [periodicY, hp]
  · simp only [periodicY, hp, hny, ne_eq, not_false_eq_true, if_true, gt_iff_lt,
      lt_self_iff_false, if_false]
    apply nodup_flatMap_range
    · intro i _
      split_ifs <;> simp
    · intro a b x _ _ ha hb
      split_ifs at ha hb
      all_goals first
        | exact absurd ha (List.not_mem_nil _)
        | exact absurd hb (List.not_mem_nil _)
        | skip
      simp only [List.mem_singleton] at ha hb
      rw [ha] at hb
      simp only [Event.closeEdges.injEq, IJ, and_true] at hb
      omega

/-- C12, as stated, fails: for a single patch with both periodic flags set, on
a simulator whose patch lookup answers null for every index (it does not hold
the patch), the 2D `createTopology` returns `true` and has requested neither a
connection nor a self-closure. -/
theorem createTopology_null_patch_not_closed :
    createTopology ⟨1, 1, 1, 1, false⟩ { sampleSim with getPatch := fun _ => false } =
      (true, []) ∧
    Event.closeEdges 1 1 ∉
      (createTopology ⟨1, 1, 1, 1, false⟩ { sampleSim with getPatch := fun _ => false }).2 ∧
    Event.closeEdges 1 2 ∉
      (createTopology ⟨1, 1, 1, 1, false⟩ { sampleSim with getPatch := fun _ => false }).2 := by
  decide

/-- C12, amended: in the 2D builder, with the model built and every connection
call succeeding: if `periodic_x` is set and `nx = 1`, no connection with local
edge 1 as first edge (no periodic connection in `x`) is requested, the closure
of the edges in direction 1 is requested exactly once for each patch `IJ(0,j)`,
`j < ny`, that the simulator holds (the patch lookup is not null), and for no
other patch; likewise for `periodic_y` with `ny = 1` and direction 2.  For
`nx = ny = 1` with both flags set no connection at all is requested, and the
calls are the closure of patch 1 in direction 1 and in direction 2 when the
simulator holds patch 1, none otherwise. -/
theorem createTopology_self_closure (g : MultiPatchModelGenerator2D) (sim : SIMinput)
    (hfem : sim.createFEMmodel = true)
    (hok : allSucceed (createTopology g sim).2 = true) :
    (g.periodic_x ≠ 0 → g.nx = 1 →
      (∀ c ∈ connections (createTopology g sim).2, c.mIdx ≠ 1) ∧
      (∀ j, j < g.ny → sim.getPatch (IJ g 0 j) = true →
        (createTopology g sim).2.count (Event.closeEdges (IJ g 0 j) 1) = 1) ∧
      (∀ p, Event.closeEdges p 1 ∈ (createTopology g sim).2 →
        ∃ j, j < g.ny ∧ p = IJ g 0 j ∧ sim.getPatch p = true)) ∧
    (g.periodic_y ≠ 0 → g.ny = 1 →
      (∀ c ∈ connections (createTopology g sim).2, c.mIdx ≠ 3) ∧
      (∀ i, i < g.nx → sim.getPatch (IJ g i 0) = true →
        (createTopology g sim).2.count (Event.closeEdges (IJ g i 0) 2) = 1) ∧
      (∀ p, Event.closeEdges p 2 ∈ (createTopology g sim).2 →
        ∃ i, i < g.nx ∧ p = IJ g i 0 ∧ sim.getPatch p = true)) ∧
    (g.periodic_x ≠ 0 → g.periodic_y ≠ 0 → g.nx = 1 → g.ny = 1 →
      connections (createTopology g sim).2 = [] ∧
      (sim.getPatch 1 = true →
        (createTopology g sim).2 = [Event.closeEdges 1 1, Event.closeEdges 1 2]) ∧
      (sim.getPatch 1 = false → (createTopology g sim).2 = [])) := by
  rw [createTopology_of_allSucceed2D g sim hfem hok]
  have hadj := closeEdges_not_mem_adjacent2D g sim
  refine ⟨fun hp hn => ⟨fun c hc hm => ?_, fun j hj hg => ?_, fun p hmem => ?_⟩,
    fun hp hn => ⟨fun c hc hm => ?_, fun i hi hg => ?_, fun p hmem => ?_⟩,
    fun hpx hpy hnx hny => ⟨?_, fun hg => ?_, fun hg => ?_⟩⟩
  · rw [connections_calls2D, connections_periodicX2D, if_neg (by omega)] at hc
    simp only [List.mem_append, List.not_mem_nil, false_or] at hc
    rcases hc with h | h | h
    · rw [connections_adjacentX2D] at h
      simp only [List.mem_flatMap, List.mem_singleton] at h
      obtain ⟨_, _, _, _, rfl⟩ := h
      simp at hm
    · rw [connections_adjacentY2D] at h
      simp only [List.mem_flatMap, List.mem_singleton] at h
      obtain ⟨_, _, _, _, rfl⟩ := h
      simp at hm
    · rw [connections_periodicY2D] at h
      split_ifs at h
      · simp only [List.mem_flatMap, List.mem_singleton] at h
        obtain ⟨_, _, rfl⟩ := h
        simp at hm
      · exact absurd h (List.not_mem_nil c)
  · simp only [calls, List.count_append]
    rw [List.count_eq_zero_of_not_mem (hadj _ _).1, List.count_eq_zero_of_not_mem (hadj _ _).2,
      List.count_eq_one_of_mem (nodup_periodicX2D g sim hn)
        ((closeEdges_mem_periodicX2D g sim _ _).mpr ⟨rfl, hp, by omega, j, hj, rfl, hg⟩),
      List.count_eq_zero_of_not_mem (fun h => by
        have := ((closeEdges_mem_periodicY2D g sim _ _).mp h).1
        omega)]
  · simp only [calls, List.mem_append] at hmem
    rcases hmem with h | h | h | h
    · exact absurd h (hadj _ _).1
    · exact absurd h (hadj _ _).2
    · obtain ⟨_, _, _, j, hj, e, hg⟩ := (closeEdges_mem_periodicX2D g sim _ _).mp h
      exact ⟨j, hj, e, hg⟩
    · have := ((closeEdges_mem_periodicY2D g sim _ _).mp h).1
      omega
  · rw [connections_calls2D, connections_periodicY2D, if_neg (by omega)] at hc
    simp only [List.mem_append, List.not_mem_nil, or_false] at hc
    rcases hc with h | h | h
    · rw [connections_adjacentX2D] at h
      simp only [List.mem_flatMap, List.mem_singleton] at h
      obtain ⟨_, _, _, _, rfl⟩ := h
      simp at hm
    · rw [connections_adjacentY2D] at h
      simp only [List.mem_flatMap, List.mem_singleton] at h
      obtain ⟨_, _, _, _, rfl⟩ := h
      simp at hm
    · rw [connections_periodicX2D] at h
      split_ifs at h
      · simp only [List.mem_flatMap, List.mem_singleton] at h
        obtain ⟨_, _, rfl⟩ := h
        simp at hm
      · exact absurd h (List.not_mem_nil c)
  · simp only [calls, List.count_append]
    rw [List.count_eq_zero_of_not_mem (hadj _ _).1, List.count_eq_zero_of_not_mem (hadj _ _).2,
      List.count_eq_one_of_mem (nodup_periodicY2D g sim hn)
        ((closeEdges_mem_periodicY2D g sim _ _).mpr ⟨rfl, hp, by omega, i, hi, rfl, hg⟩),
      List.count_eq_zero_of_not_mem (fun h => by
        have := ((closeEdges_mem_periodicX2D g sim _ _).mp h).1
        omega)]
  · simp only [calls, List.mem_append] at hmem
    rcases hmem with h | h | h | h
    · exact absurd h (hadj _ _).1
    · exact absurd h (hadj _ _).2
    · have := ((closeEdges_mem_periodicX2D g sim _ _).mp h).1
      omega
    · obtain ⟨_, _, _, i, hi, e, hg⟩ := (closeEdges_mem_periodicY2D g sim _ _).mp h
      exact ⟨i, hi, e, hg⟩
  · rw [connections_calls2D, connections_adjacentX2D, connections_adjacentY2D,
      connections_periodicX2D, connections_periodicY2D, if_neg (by omega), if_neg (by omega)]
    have r1 : List.range 1 = [0] := rfl
    simp [hnx, hny, decr, r1]
  · have r1 : List.range 1 = [0] := rfl
    simp [calls, adjacentX, adjacentY, periodicX, periodicY, hpx, hpy, hnx, hny, decr, IJ, hg, r1]
  · have r1 : List.range 1 = [0] := rfl
    simp [calls, adjacentX, adjacentY, periodicX, periodicY, hpx, hpy, hnx, hny, decr, IJ, hg, r1]

/-- A single 2D patch, periodic in both directions: no connection, and the
closures of patch 1 in directions 1 and 2. -/
theorem createTopology_self_closure_witness :
    (sampleSim.createFEMmodel = true ∧
      allSucceed (createTopology ⟨1, 1, 1, 1, false⟩ sampleSim).2 = true ∧
      (1 : Int) ≠ 0 ∧ (1 : Nat) = 1 ∧ sampleSim.getPatch 1 = true) ∧
    (createTopology ⟨1, 1, 1, 1, false⟩ sampleSim).2 =
      [Event.closeEdges 1 1, Event.closeEdges 1 2] :=
  ⟨by decide,
   ((createTopology_self_closure ⟨1, 1, 1, 1, false⟩ sampleSim rfl (by decide)).2.2
      (by decide) (by decide) rfl rfl).2.1 (by decide)⟩

end MultiPatchModelGenerator2D

/-- C13 (the code at the failing input): for a single 1D patch with
`periodic_x` set the builder asks the simulator for patch 0, not for patch 1.
With the sample simulator, whose patches are numbered from 1, it requests
nothing at all; with a simulator that answers for every index, the closure of
the ends goes to patch 0. -/
theorem MultiPatchModelGenerator1D.createTopology_closes_patch_zero :
    createTopology ⟨1, 1, false⟩ sampleSim = (true, []) ∧
    createTopology ⟨1, 1, false⟩ { sampleSim with getPatch := fun _ => true } =
      (true, [Event.closeEnds 0]) := by
  decide

/-! ## Theorems: the value returned by `createTopology` -/

theorem allSucceed_append (a b : List Event) :
    allSucceed (a ++ b) = (allSucceed a && allSucceed b) := by
  simp [allSucceed, List.all_append]

theorem allSucceed_flatMap_range (n : Nat) (f : Nat → List Event)
    (h : ∀ i, allSucceed (f i) = true) : allSucceed ((List.range n).flatMap f) = true := by
  induction n with
  | zero => rfl
  | succ n ih =>
    rw [List.range_succ, List.flatMap_append, allSucceed_append, ih]
    simp [h n]

theorem allSucceed_ite (c : Prop) [Decidable c] (a b : List Event)
    (ha : allSucceed a = true) (hb : allSucceed b = true) :
    allSucceed (if c then a else b) = true := by
  split_ifs
  · exact ha
  · exact hb

/-- In the list of calls of a run of the 3D builder in which nothing fails,
every connection call is marked as successful. -/
theorem MultiPatchModelGenerator3D.allSucceed_calls3D (g : MultiPatchModelGenerator3D)
    (sim : SIMinput) : allSucceed (calls g sim) = true := by
  have hc : ∀ c, allSucceed [Event.addConnection c true] = true := fun _ => rfl
  have hcl : ∀ (b : Bool) p d,
      allSucceed (if b = true then [Event.closeFaces p d] else []) = true := by
    intro b p d
    cases b <;> rfl
  simp only [calls, allSucceed_append, Bool.and_eq_true]
  refine ⟨?_, ?_, ?_, ?_, ?_, ?_⟩
  · exact allSucceed_flatMap_range _ _ fun k => allSucceed_flatMap_range _ _ fun j =>
      allSucceed_flatMap_range _ _ fun i => hc _
  · exact allSucceed_flatMap_range _ _ fun k => allSucceed_flatMap_range _ _ fun j =>
      allSucceed_flatMap_range _ _ fun i => hc _
  · exact allSucceed_flatMap_range _ _ fun k => allSucceed_flatMap_range _ _ fun j =>
      allSucceed_flatMap_range _ _ fun i => hc _
  · exact allSucceed_ite _ _ _ (allSucceed_flatMap_range _ _ fun k =>
      allSucceed_flatMap_range _ _ fun j => allSucceed_ite _ _ _ (hc _) (hcl _ _ _)) rfl
  · exact allSucceed_ite _ _ _ (allSucceed_flatMap_range _ _ fun k =>
      allSucceed_flatMap_range _ _ fun i => allSucceed_ite _ _ _ (hc _) (hcl _ _ _)) rfl
  · exact allSucceed_ite _ _ _ (allSucceed_flatMap_range _ _ fun j =>
      allSucceed_flatMap_range _ _ fun i => allSucceed_ite _ _ _ (hc _) (hcl _ _ _)) rfl

/-- An initial part of a record without failed call has no failed call. -/
theorem allSucceed_of_isPrefix (a b : List Event) (h : a <+: b) (hb : allSucceed b = true) :
    allSucceed a = true := by
  obtain ⟨r, rfl⟩ := h
  rw [allSucceed_append, Bool.and_eq_true] at hb
  exact hb.1

/-- In a record that ends with its first failed call, a failed call is the
last entry. -/
theorem failed_call_is_last (l : List Event) (x : Event) (hl : allSucceed l = true)
    (pre post : List Event) (c : Conn)
    (h : l ++ [x] = pre ++ Event.addConnection c false :: post) :
    post = [] ∧ pre = l := by
  rcases List.append_eq_append_iff.mp h with ⟨a, h1, h2⟩ | ⟨a, h1, h2⟩
  · cases a with
    | nil =>
      simp only [List.nil_append, List.cons.injEq] at h2
      exact ⟨h2.2.symm, by simpa using h1⟩
    | cons y ys =>
      simp only [List.cons_append, List.cons.injEq] at h2
      have := h2.2
      cases ys <;> simp at this
  · cases a with
    | nil =>
      simp only [List.nil_append, List.cons.injEq] at h2
      exact ⟨h2.2, by simpa using h1.symm⟩
    | cons y ys =>
      simp only [List.cons_append, List.cons.injEq] at h2
      rw [h1, allSucceed_append, Bool.and_eq_true] at hl
      have hy := hl.2
      rw [← h2.1] at hy
      simp [allSucceed] at hy

/-- C14: the 3D `createTopology` returns `true` if and only if the model is
built and every connection call it makes succeeds; when the model is not
built it makes no call; and a failed connection call is the last call made,
all calls before it having succeeded. -/
theorem MultiPatchModelGenerator3D.createTopology_result (g : MultiPatchModelGenerator3D)
    (sim : SIMinput) :
    ((createTopology g sim).1 = true ↔
      sim.createFEMmodel = true ∧ allSucceed (createTopology g sim).2 = true) ∧
    (sim.createFEMmodel = false → createTopology g sim = (false, [])) ∧
    (∀ pre c post, (createTopology g sim).2 = pre ++ Event.addConnection c false :: post →
      post = [] ∧ allSucceed pre = true) := by
  refine ⟨⟨fun h => ?_, fun h => ?_⟩, fun h => ?_, fun pre c post h => ?_⟩
  · by_cases hfem : sim.createFEMmodel = true
    · rcases createTopology_run3D g sim hfem with h1 | ⟨pre, c, h1, _⟩
      · rw [h1]
        exact ⟨hfem, allSucceed_calls3D g sim⟩
      · rw [h1] at h
        exact absurd h (by simp)
    · have e : createTopology g sim = (false, []) := by simp [createTopology, hfem]
      rw [e] at h
      exact absurd h (by simp)
  · rw [createTopology_of_allSucceed3D g sim h.1 h.2]
  · simp [createTopology, h]
  · by_cases hfem : sim.createFEMmodel = true
    · rcases createTopology_run3D g sim hfem with h1 | ⟨pre', c', h1, hp⟩
      · rw [h1] at h
        have hc := allSucceed_calls3D g sim
        rw [show (true, calls g sim).2 = calls g sim from rfl] at h
        rw [h, allSucceed_append, Bool.and_eq_true] at hc
        have := hc.2
        simp [allSucceed] at this
      · rw [h1] at h
        have hpre : allSucceed pre' = true :=
          allSucceed_of_isPrefix _ _ ((List.prefix_append _ _).trans hp)
            (allSucceed_calls3D g sim)
        obtain ⟨e1, e2⟩ := failed_call_is_last pre' _ hpre pre post c h
        exact ⟨e1, by rw [e2]; exact hpre⟩
    · have e : createTopology g sim = (false, []) := by simp [createTopology, hfem]
      rw [e] at h
      have : ([] : List Event).length = (pre ++ Event.addConnection c false :: post).length :=
        congrArg List.length h
      simp at this
      omega

/-- A 2 x 1 x 1 grid periodic in `x` on a simulator that refuses every
connection after the first: the refused periodic connection is the last call. -/
theorem MultiPatchModelGenerator3D.createTopology_result_witness :
    (createTopology ⟨2, 1, 1, 1, 0, 0, false⟩
        { sampleSim with addConnection := fun t _ => t.isEmpty }).2 =
      [Event.addConnection ⟨1, 2, 2, 1, 0, 0, true, 2, 1⟩ true] ++
        Event.addConnection ⟨1, 2, 1, 2, 0, 0, false, 2, 1⟩ false :: [] ∧
    (([] : List Event) = [] ∧
      allSucceed [Event.addConnection ⟨1, 2, 2, 1, 0, 0, true, 2, 1⟩ true] = true) :=
  ⟨by decide,
   (createTopology_result ⟨2, 1, 1, 1, 0, 0, false⟩
      { sampleSim with addConnection := fun t _ => t.isEmpty }).2.2
      [Event.addConnection ⟨1, 2, 2, 1, 0, 0, true, 2, 1⟩ true]
      ⟨1, 2, 1, 2, 0, 0, false, 2, 1⟩ [] (by decide)⟩

/-! ## Theorems: the named topology sets -/

theorem forEach_zero {σ : Type} (body : Nat → σ → σ) (s : σ) : forEach 0 body s = s := rfl

theorem forEach_succ {σ : Type} (n : Nat) (body : Nat → σ → σ) (s : σ) :
    forEach (n + 1) body s = body n (forEach n body s) := by
  simp [forEach, List.range_succ, List.foldl_append]

/-- A loop whose rounds advance the counter `r` by `c` after using it: the
counter of round `i` is `r0 + c*i`. -/
theorem forEach_counter {β : Type} (body : Nat → Nat × β → Nat × β) (c : Nat)
    (f : Nat → Nat → β → β) (h : ∀ i s, body i s = (s.1 + c, f i s.1 s.2))
    (n r0 : Nat) (m : β) :
    forEach n body (r0, m) = (r0 + c * n, forEach n (fun i m => f i (r0 + c * i) m) m) := by
  induction n with
  | zero => simp [forEach_zero]
  | succ n ih =>
    rw [forEach_succ, ih, h, forEach_succ]
    simp [Nat.mul_succ, Nat.add_assoc]

theorem Adds.id : Adds (fun m => m) (fun _ => ∅) := by
  intro m k
  simp

theorem Adds.touch (n : String) : Adds (fun m => m.touch n) (fun _ => ∅) := by
  intro m k
  simp [TopologySet.touch]

theorem Adds.comp {f g : TopologySet → TopologySet} {A B : String → Finset TopItem}
    (hf : Adds f A) (hg : Adds g B) : Adds (fun m => g (f m)) (fun k => A k ∪ B k) := by
  intro m k
  rw [hg, hf, Finset.union_assoc]

theorem Adds.forEach (n : Nat) {body : Nat → TopologySet → TopologySet}
    {A : Nat → String → Finset TopItem} (h : ∀ i, Adds (body i) (A i)) :
    Adds (forEach n body) (fun k => (Finset.range n).biUnion fun i => A i k) := by
  induction n with
  | zero =>
    intro m k
    simp [forEach_zero]
  | succ n ih =>
    intro m k
    rw [forEach_succ, h n, ih]
    ext x
    simp only [Finset.mem_union, Finset.mem_biUnion, Finset.mem_range]
    constructor
    · rintro ((hx | ⟨i, hi, hx⟩) | hx)
      · exact Or.inl hx
      · exact Or.inr ⟨i, by omega, hx⟩
      · exact Or.inr ⟨n, by omega, hx⟩
    · rintro (hx | ⟨i, hi, hx⟩)
      · exact Or.inl (Or.inl hx)
      · by_cases hin : i = n
        · subst hin
          exact Or.inr hx
        · exact Or.inl (Or.inr ⟨i, by omega, hx⟩)

theorem TopologySet.items_insert (m : TopologySet) (n : String) (t : TopItem) (k : String) :
    (m.insert n t).items k = if k = n then Insert.insert t (m.items k) else m.items k := rfl

theorem TopologySet.items_touch (m : TopologySet) (n : String) (k : String) :
    (m.touch n).items k = m.items k := rfl

/-- The effect of the lambda `insertion` of the 1D and 2D generators. -/
theorem Adds.insertion (L : Nat → Nat) (glob name : String) (top : TopItem) :
    Adds (IFEM.insertion L glob name top) (fun k =>
      if 0 < L top.patch ∧ (k = name ∨ k = glob) then
        {⟨L top.patch, top.item, top.idim⟩} else ∅) := by
  intro m k
  unfold IFEM.insertion
  by_cases hL : 0 < L top.patch
  · simp only [gt_iff_lt, hL, if_true, true_and, TopologySet.items_insert]
    ext x
    by_cases h1 : k = glob
    · subst h1
      by_cases h2 : k = name
      · subst h2
        simp only [if_true, or_self, Finset.mem_insert, Finset.mem_union, Finset.mem_singleton]
        tauto
      · simp only [h2, if_true, if_false, false_or, Finset.mem_insert, Finset.mem_union,
          Finset.mem_singleton]
        tauto
    · by_cases h2 : k = name
      · subst h2
        simp only [h1, if_true, if_false, true_or, Finset.mem_insert, Finset.mem_union,
          Finset.mem_singleton]
        tauto
      · simp [h1, h2]
  · simp [hL]

/-- The effect of the lambda `insertion` of the 3D generator. -/
theorem Adds.insertion3D (L : Nat → Nat) (top : TopItem) (glob type : String) :
    Adds (MultiPatchModelGenerator3D.insertion L top glob type) (fun k =>
      if 0 < L top.patch ∧ (k = type ++ toString top.item ∨ k = glob) then
        {⟨L top.patch, top.item, top.idim⟩} else ∅) := by
  intro m k
  unfold MultiPatchModelGenerator3D.insertion
  by_cases hL : 0 < L top.patch
  · simp only [gt_iff_lt, hL, if_true, true_and, TopologySet.items_insert,
      TopologySet.items_touch]
    ext x
    by_cases h1 : k = glob
    · subst h1
      by_cases h2 : k = type ++ toString top.item
      · simp only [← h2, if_true, or_self, Finset.mem_insert, Finset.mem_union,
          Finset.mem_singleton]
        tauto
      · simp only [h2, if_true, if_false, false_or, Finset.mem_insert, Finset.mem_union,
          Finset.mem_singleton]
        tauto
    · by_cases h2 : k = type ++ toString top.item
      · simp only [← h2, h1, if_true, if_false, true_or, Finset.mem_insert, Finset.mem_union,
          Finset.mem_singleton]
        tauto
      · simp [h1, h2]
  · simp [hL, TopologySet.items_touch]

/-- Membership in a set that holds one item under a condition. -/
theorem mem_ite_singleton {β : Type} [DecidableEq β] (c : Prop) [Decidable c] (a x : β) :
    x ∈ (if c then ({a} : Finset β) else ∅) ↔ c ∧ x = a := by
  split_ifs with h
  · simp [h]
  · simp [h]

/-- The items of the sets built by the 2D `createTopologySets`, for any
resolution `L` of patch numbers. -/
theorem MultiPatchModelGenerator2D.mem_createTopologySets2D (g : MultiPatchModelGenerator2D)
    (L : Nat → Nat) (k : String) (t : TopItem) :
    t ∈ (createTopologySets g true L).items k ↔
      (∃ i, i < g.ny ∧
        ((0 < L (i * g.nx + 1) ∧ (k = "Edge1" ∨ k = "Boundary") ∧
            t = ⟨L (i * g.nx + 1), 1, 1⟩) ∨
         (0 < L ((i + 1) * g.nx) ∧ (k = "Edge2" ∨ k = "Boundary") ∧
            t = ⟨L ((i + 1) * g.nx), 2, 1⟩))) ∨
      (∃ i, i < g.nx ∧
        ((0 < L (i + 1) ∧ (k = "Edge3" ∨ k = "Boundary") ∧ t = ⟨L (i + 1), 3, 1⟩) ∨
         (0 < L (g.nx * (g.ny - 1) + 1 + i) ∧ (k = "Edge4" ∨ k = "Boundary") ∧
            t = ⟨L (g.nx * (g.ny - 1) + 1 + i), 4, 1⟩))) ∨
      (0 < L 1 ∧ (k = "Vertex1" ∨ k = "Corners") ∧ t = ⟨L 1, 1, 0⟩) ∨
      (0 < L g.nx ∧ (k = "Vertex2" ∨ k = "Corners") ∧ t = ⟨L g.nx, 2, 0⟩) ∨
      (0 < L (g.nx * (g.ny - 1) + 1) ∧ (k = "Vertex3" ∨ k = "Corners") ∧
        t = ⟨L (g.nx * (g.ny - 1) + 1), 3, 0⟩) ∨
      (0 < L (g.nx * g.ny) ∧ (k = "Vertex4" ∨ k = "Corners") ∧ t = ⟨L (g.nx * g.ny), 4, 0⟩) := by
  have key := Adds.comp (Adds.comp (Adds.comp (Adds.comp (Adds.comp (Adds.comp
    (Adds.forEach g.ny fun i => Adds.comp
      (Adds.insertion L "Boundary" "Edge1" ⟨i * g.nx + 1, 1, 1⟩)
      (Adds.insertion L "Boundary" "Edge2" ⟨(i + 1) * g.nx, 2, 1⟩))
    (Adds.forEach g.nx fun i => Adds.comp
      (Adds.insertion L "Boundary" "Edge3" ⟨i + 1, 3, 1⟩)
      (Adds.insertion L "Boundary" "Edge4" ⟨g.nx * (g.ny - 1) + 1 + i, 4, 1⟩)))
    (Adds.touch "Corners"))
    (Adds.comp (Adds.touch "Vertex1") (Adds.insertion L "Corners" "Vertex1" ⟨1, 1, 0⟩)))
    (Adds.comp (Adds.touch "Vertex2") (Adds.insertion L "Corners" "Vertex2" ⟨g.nx, 2, 0⟩)))
    (Adds.comp (Adds.touch "Vertex3")
      (Adds.insertion L "Corners" "Vertex3" ⟨g.nx * (g.ny - 1) + 1, 3, 0⟩)))
    (Adds.comp (Adds.touch "Vertex4")
      (Adds.insertion L "Corners" "Vertex4" ⟨g.nx * g.ny, 4, 0⟩))
  have h := key (((((TopologySet.empty.touch "Edge1").touch "Edge2").touch "Edge3").touch
    "Edge4").touch "Boundary") k
  have e : (createTopologySets g true L).items k = _ := h
  rw [e]
  simp only [TopologySet.items_touch, TopologySet.empty, Finset.empty_union, Finset.union_empty,
    Finset.mem_union, Finset.mem_biUnion, Finset.mem_range, mem_ite_singleton, and_assoc,
    or_assoc]

/-- A loop whose rounds advance the counter by `c` after using it, started in
any state. -/
theorem forEach_counter_state {β : Type} (body : Nat → Nat × β → Nat × β) (c : Nat)
    (f : Nat → Nat → β → β) (h : ∀ i s, body i s = (s.1 + c, f i s.1 s.2))
    (n : Nat) (s : Nat × β) :
    forEach n body s = (s.1 + c * n, forEach n (fun i m => f i (s.1 + c * i) m) s.2) :=
  forEach_counter body c f h n s.1 s.2

namespace MultiPatchModelGenerator3D

/-- The 3D `createTopologySets` with the running item number `r` written as a
function of the loop indices: `1+i`, `3+j`, `5+k` for the faces,
`1 + 4k + 2j + i` for the vertices, `1 + 2k + i`, `5 + 2j + i`, `9 + 2k + j`
for the edges. -/
theorem createTopologySets_closed3D (g : MultiPatchModelGenerator3D) (L : Nat → Nat) :
    createTopologySets g true L =
      forEach 2 (fun k m => forEach 2 (fun j m => forEach g.nx (fun i m =>
        insertion L ⟨IJKI g i j k, 9 + 2 * k + j, 1⟩ "Frame" "Edge" m) m) m)
      (forEach 2 (fun j m => forEach 2 (fun i m => forEach g.nz (fun k m =>
        insertion L ⟨IJKK g i j k, 5 + 2 * j + i, 1⟩ "Frame" "Edge" m) m) m)
      (forEach 2 (fun k m => forEach 2 (fun i m => forEach g.ny (fun j m =>
        insertion L ⟨IJKJ g i j k, 1 + 2 * k + i, 1⟩ "Frame" "Edge" m) m) m)
      (forEach 2 (fun k m => forEach 2 (fun j m => forEach 2 (fun i m =>
        insertion L ⟨IJK2 g i j k, 1 + 4 * k + 2 * j + i, 0⟩ "Corners" "Vertex" m) m) m)
      (forEach 2 (fun k m => forEach g.ny (fun j m => forEach g.nx (fun i m =>
        insertion L ⟨IJK2K g i j k, 5 + k, 2⟩ "Boundary" "Face" m) m) m)
      (forEach 2 (fun j m => forEach g.nz (fun k m => forEach g.nx (fun i m =>
        insertion L ⟨IJK2J g i j k, 3 + j, 2⟩ "Boundary" "Face" m) m) m)
      (forEach 2 (fun i m => forEach g.nz (fun k m => forEach g.ny (fun j m =>
        insertion L ⟨IJK2I g i j k, 1 + i, 2⟩ "Boundary" "Face" m) m) m)
        TopologySet.empty)))))) := by
  have hF1 : ∀ s : Nat × TopologySet, forEach 2 (fun i s =>
      (s.1 + 1, forEach g.nz (fun k m => forEach g.ny (fun j m =>
        insertion L ⟨IJK2I g i j k, s.1, 2⟩ "Boundary" "Face" m) m) s.2)) s = _ :=
    fun s => forEach_counter_state _ 1 (fun i r m => forEach g.nz (fun k m =>
      forEach g.ny (fun j m => insertion L ⟨IJK2I g i j k, r, 2⟩ "Boundary" "Face" m) m) m)
      (fun _ _ => rfl) 2 s
  have hF2 : ∀ s : Nat × TopologySet, forEach 2 (fun j s =>
      (s.1 + 1, forEach g.nz (fun k m => forEach g.nx (fun i m =>
        insertion L ⟨IJK2J g i j k, s.1, 2⟩ "Boundary" "Face" m) m) s.2)) s = _ :=
    fun s => forEach_counter_state _ 1 (fun j r m => forEach g.nz (fun k m =>
      forEach g.nx (fun i m => insertion L ⟨IJK2J g i j k, r, 2⟩ "Boundary" "Face" m) m) m)
      (fun _ _ => rfl) 2 s
  have hF3 : ∀ s : Nat × TopologySet, forEach 2 (fun k s =>
      (s.1 + 1, forEach g.ny (fun j m => forEach g.nx (fun i m =>
        insertion L ⟨IJK2K g i j k, s.1, 2⟩ "Boundary" "Face" m) m) s.2)) s = _ :=
    fun s => forEach_counter_state _ 1 (fun k r m => forEach g.ny (fun j m =>
      forEach g.nx (fun i m => insertion L ⟨IJK2K g i j k, r, 2⟩ "Boundary" "Face" m) m) m)
      (fun _ _ => rfl) 2 s
  have hV1 : ∀ (j k : Nat) (s : Nat × TopologySet), forEach 2 (fun i s =>
      (s.1 + 1, insertion L ⟨IJK2 g i j k, s.1, 0⟩ "Corners" "Vertex" s.2)) s = _ :=
    fun j k s => forEach_counter_state _ 1 (fun i r m =>
      insertion L ⟨IJK2 g i j k, r, 0⟩ "Corners" "Vertex" m) (fun _ _ => rfl) 2 s
  have hV2 : ∀ (k : Nat) (s : Nat × TopologySet), forEach 2 (fun j s =>
      (s.1 + 2, forEach 2 (fun i m =>
        insertion L ⟨IJK2 g i j k, s.1 + i, 0⟩ "Corners" "Vertex" m) s.2)) s = _ :=
    fun k s => forEach_counter_state _ 2 (fun j r m => forEach 2 (fun i m =>
      insertion L ⟨IJK2 g i j k, r + i, 0⟩ "Corners" "Vertex" m) m) (fun _ _ => rfl) 2 s
  have hV3 : ∀ (s : Nat × TopologySet), forEach 2 (fun k s =>
      (s.1 + 4, forEach 2 (fun j m => forEach 2 (fun i m =>
        insertion L ⟨IJK2 g i j k, s.1 + 2 * j + i, 0⟩ "Corners" "Vertex" m) m) s.2))
      s = _ :=
    fun s => forEach_counter_state _ 4 (fun k r m => forEach 2 (fun j m =>
      forEach 2 (fun i m =>
        insertion L ⟨IJK2 g i j k, r + 2 * j + i, 0⟩ "Corners" "Vertex" m) m) m)
      (fun _ _ => rfl) 2 s
  have hE1 : ∀ (k : Nat) (s : Nat × TopologySet), forEach 2 (fun i s =>
      (s.1 + 1, forEach g.ny (fun j m =>
        insertion L ⟨IJKJ g i j k, s.1, 1⟩ "Frame" "Edge" m) s.2)) s = _ :=
    fun k s => forEach_counter_state _ 1 (fun i r m => forEach g.ny (fun j m =>
      insertion L ⟨IJKJ g i j k, r, 1⟩ "Frame" "Edge" m) m) (fun _ _ => rfl) 2 s
  have hE1' : ∀ (s : Nat × TopologySet), forEach 2 (fun k s =>
      (s.1 + 2, forEach 2 (fun i m => forEach g.ny (fun j m =>
        insertion L ⟨IJKJ g i j k, s.1 + i, 1⟩ "Frame" "Edge" m) m) s.2)) s = _ :=
    fun s => forEach_counter_state _ 2 (fun k r m => forEach 2 (fun i m =>
      forEach g.ny (fun j m =>
        insertion L ⟨IJKJ g i j k, r + i, 1⟩ "Frame" "Edge" m) m) m) (fun _ _ => rfl) 2 s
  have hE2 : ∀ (j : Nat) (s : Nat × TopologySet), forEach 2 (fun i s =>
      (s.1 + 1, forEach g.nz (fun k m =>
        insertion L ⟨IJKK g i j k, s.1, 1⟩ "Frame" "Edge" m) s.2)) s = _ :=
    fun j s => forEach_counter_state _ 1 (fun i r m => forEach g.nz (fun k m =>
      insertion L ⟨IJKK g i j k, r, 1⟩ "Frame" "Edge" m) m) (fun _ _ => rfl) 2 s
  have hE2' : ∀ (s : Nat × TopologySet), forEach 2 (fun j s =>
      (s.1 + 2, forEach 2 (fun i m => forEach g.nz (fun k m =>
        insertion L ⟨IJKK g i j k, s.1 + i, 1⟩ "Frame" "Edge" m) m) s.2)) s = _ :=
    fun s => forEach_counter_state _ 2 (fun j r m => forEach 2 (fun i m =>
      forEach g.nz (fun k m =>
        insertion L ⟨IJKK g i j k, r + i, 1⟩ "Frame" "Edge" m) m) m) (fun _ _ => rfl) 2 s
  have hE3 : ∀ (k : Nat) (s : Nat × TopologySet), forEach 2 (fun j s =>
      (s.1 + 1, forEach g.nx (fun i m =>
        insertion L ⟨IJKI g i j k, s.1, 1⟩ "Frame" "Edge" m) s.2)) s = _ :=
    fun k s => forEach_counter_state _ 1 (fun j r m => forEach g.nx (fun i m =>
      insertion L ⟨IJKI g i j k, r, 1⟩ "Frame" "Edge" m) m) (fun _ _ => rfl) 2 s
  have hE3' : ∀ (s : Nat × TopologySet), forEach 2 (fun k s =>
      (s.1 + 2, forEach 2 (fun j m => forEach g.nx (fun i m =>
        insertion L ⟨IJKI g i j k, s.1 + j, 1⟩ "Frame" "Edge" m) m) s.2)) s = _ :=
    fun s => forEach_counter_state _ 2 (fun k r m => forEach 2 (fun j m =>
      forEach g.nx (fun i m =>
        insertion L ⟨IJKI g i j k, r + j, 1⟩ "Frame" "Edge" m) m) m) (fun _ _ => rfl) 2 s
  unfold createTopologySets
  simp only [Bool.not_true, Bool.false_eq_true, if_false, hF1, hF2, hF3, hV1,
    hE1, hE2, hE3, Nat.reduceMul, Nat.reduceAdd, Nat.one_mul]
  simp only [hV2, hE1', hE2', hE3', Nat.reduceMul, Nat.reduceAdd]
  simp only [hV3, Nat.reduceMul, Nat.reduceAdd]

/-- The items of the sets built by the 3D `createTopologySets`, for any
resolution `L` of patch numbers. -/
theorem mem_createTopologySets3D (g : MultiPatchModelGenerator3D) (L : Nat → Nat)
    (n : String) (t : TopItem) :
    t ∈ (createTopologySets g true L).items n ↔
      (∃ i, i < 2 ∧ ∃ k, k < g.nz ∧ ∃ j, j < g.ny ∧ 0 < L (IJK2I g i j k) ∧
        (n = "Face" ++ toString (1 + i) ∨ n = "Boundary") ∧
        t = ⟨L (IJK2I g i j k), 1 + i, 2⟩) ∨
      (∃ j, j < 2 ∧ ∃ k, k < g.nz ∧ ∃ i, i < g.nx ∧ 0 < L (IJK2J g i j k) ∧
        (n = "Face" ++ toString (3 + j) ∨ n = "Boundary") ∧
        t = ⟨L (IJK2J g i j k), 3 + j, 2⟩) ∨
      (∃ k, k < 2 ∧ ∃ j, j < g.ny ∧ ∃ i, i < g.nx ∧ 0 < L (IJK2K g i j k) ∧
        (n = "Face" ++ toString (5 + k) ∨ n = "Boundary") ∧
        t = ⟨L (IJK2K g i j k), 5 + k, 2⟩) ∨
      (∃ k, k < 2 ∧ ∃ j, j < 2 ∧ ∃ i, i < 2 ∧ 0 < L (IJK2 g i j k) ∧
        (n = "Vertex" ++ toString (1 + 4 * k + 2 * j + i) ∨ n = "Corners") ∧
        t = ⟨L (IJK2 g i j k), 1 + 4 * k + 2 * j + i, 0⟩) ∨
      (∃ k, k < 2 ∧ ∃ i, i < 2 ∧ ∃ j, j < g.ny ∧ 0 < L (IJKJ g i j k) ∧
        (n = "Edge" ++ toString (1 + 2 * k + i) ∨ n = "Frame") ∧
        t = ⟨L (IJKJ g i j k), 1 + 2 * k + i, 1⟩) ∨
      (∃ j, j < 2 ∧ ∃ i, i < 2 ∧ ∃ k, k < g.nz ∧ 0 < L (IJKK g i j k) ∧
        (n = "Edge" ++ toString (5 + 2 * j + i) ∨ n = "Frame") ∧
        t = ⟨L (IJKK g i j k), 5 + 2 * j + i, 1⟩) ∨
      (∃ k, k < 2 ∧ ∃ j, j < 2 ∧ ∃ i, i < g.nx ∧ 0 < L (IJKI g i j k) ∧
        (n = "Edge" ++ toString (9 + 2 * k + j) ∨ n = "Frame") ∧
        t = ⟨L (IJKI g i j k), 9 + 2 * k + j, 1⟩) := by
  have key := Adds.comp (Adds.comp (Adds.comp (Adds.comp (Adds.comp (Adds.comp
    (Adds.forEach 2 fun i => Adds.forEach g.nz fun k => Adds.forEach g.ny fun j =>
      Adds.insertion3D L ⟨IJK2I g i j k, 1 + i, 2⟩ "Boundary" "Face")
    (Adds.forEach 2 fun j => Adds.forEach g.nz fun k => Adds.forEach g.nx fun i =>
      Adds.insertion3D L ⟨IJK2J g i j k, 3 + j, 2⟩ "Boundary" "Face"))
    (Adds.forEach 2 fun k => Adds.forEach g.ny fun j => Adds.forEach g.nx fun i =>
      Adds.insertion3D L ⟨IJK2K g i j k, 5 + k, 2⟩ "Boundary" "Face"))
    (Adds.forEach 2 fun k => Adds.forEach 2 fun j => Adds.forEach 2 fun i =>
      Adds.insertion3D L ⟨IJK2 g i j k, 1 + 4 * k + 2 * j + i, 0⟩ "Corners" "Vertex"))
    (Adds.forEach 2 fun k => Adds.forEach 2 fun i => Adds.forEach g.ny fun j =>
      Adds.insertion3D L ⟨IJKJ g i j k, 1 + 2 * k + i, 1⟩ "Frame" "Edge"))
    (Adds.forEach 2 fun j => Adds.forEach 2 fun i => Adds.forEach g.nz fun k =>
      Adds.insertion3D L ⟨IJKK g i j k, 5 + 2 * j + i, 1⟩ "Frame" "Edge"))
    (Adds.forEach 2 fun k => Adds.forEach 2 fun j => Adds.forEach g.nx fun i =>
      Adds.insertion3D L ⟨IJKI g i j k, 9 + 2 * k + j, 1⟩ "Frame" "Edge")
  have h := key TopologySet.empty n
  rw [createTopologySets_closed3D]
  have e : (_ : TopologySet).items n = _ := h
  rw [e]
  simp only [TopologySet.empty, Finset.empty_union, Finset.mem_union, Finset.mem_biUnion,
    Finset.mem_range, mem_ite_singleton, and_assoc, or_assoc]

end MultiPatchModelGenerator3D

/-- The items of the sets built by the 1D `createTopologySets`, for any
resolution `L` of patch numbers. -/
theorem MultiPatchModelGenerator1D.mem_createTopologySets1D (g : MultiPatchModelGenerator1D)
    (L : Nat → Nat) (k : String) (t : TopItem) :
    t ∈ (createTopologySets g true L).items k ↔
      (0 < L 1 ∧ (k = "Vertex1" ∨ k = "Boundary") ∧ t = ⟨L 1, 1, 0⟩) ∨
      (0 < L g.nx ∧ (k = "Vertex2" ∨ k = "Boundary") ∧ t = ⟨L g.nx, 2, 0⟩) := by
  have key := Adds.comp (Adds.insertion L "Boundary" "Vertex1" ⟨1, 1, 0⟩)
    (Adds.insertion L "Boundary" "Vertex2" ⟨g.nx, 2, 0⟩)
  have h := key (((TopologySet.empty.touch "Vertex1").touch "Vertex2").touch "Boundary") k
  have e : (createTopologySets g true L).items k = _ := h
  rw [e]
  simp only [TopologySet.items_touch, TopologySet.empty, Finset.empty_union, Finset.mem_union,
    mem_ite_singleton, and_assoc, or_assoc]

/-- C15: when named sets have not been requested, `createTopologySets` of the
1D, 2D and 3D generators returns the empty collection: no name, and no item
under any name, whatever the block counts and the resolution of patch numbers. -/
theorem createTopologySets_not_requested (g1 : MultiPatchModelGenerator1D)
    (g2 : MultiPatchModelGenerator2D) (g3 : MultiPatchModelGenerator3D) (L : Nat → Nat) :
    ((MultiPatchModelGenerator1D.createTopologySets g1 false L).names = ∅ ∧
      ∀ k, (MultiPatchModelGenerator1D.createTopologySets g1 false L).items k = ∅) ∧
    ((MultiPatchModelGenerator2D.createTopologySets g2 false L).names = ∅ ∧
      ∀ k, (MultiPatchModelGenerator2D.createTopologySets g2 false L).items k = ∅) ∧
    ((MultiPatchModelGenerator3D.createTopologySets g3 false L).names = ∅ ∧
      ∀ k, (MultiPatchModelGenerator3D.createTopologySets g3 false L).items k = ∅) :=
  ⟨⟨rfl, fun _ => rfl⟩, ⟨rfl, fun _ => rfl⟩, ⟨rfl, fun _ => rfl⟩⟩

/-- Adding one item to a set. -/
theorem union_singleton_eq_insert (s : Finset TopItem) (t : TopItem) :
    s ∪ {t} = insert t s := by
  ext x
  simp only [Finset.mem_union, Finset.mem_singleton, Finset.mem_insert]
  tauto

/-- C16: the lambda `insertion` (2D and 3D) stores a candidate item in its
named set and in the aggregate set exactly when the local index `L(g)` of its
patch is positive, and it stores it with the patch number replaced by `L(g)`;
when `L(g) = 0` no set is changed.  So no set returned by `createTopologySets`
holds an item with patch number 0. -/
theorem insertion_local_index (L : Nat → Nat) (glob name type : String) (top : TopItem)
    (m : TopologySet) :
    (0 < L top.patch →
      (insertion L glob name top m).items name =
        insert ⟨L top.patch, top.item, top.idim⟩ (m.items name) ∧
      (insertion L glob name top m).items glob =
        insert ⟨L top.patch, top.item, top.idim⟩ (m.items glob) ∧
      ∀ k, k ≠ name → k ≠ glob → (insertion L glob name top m).items k = m.items k) ∧
    (L top.patch = 0 → insertion L glob name top m = m) ∧
    (0 < L top.patch →
      (MultiPatchModelGenerator3D.insertion L top glob type m).items
          (type ++ toString top.item) =
        insert ⟨L top.patch, top.item, top.idim⟩ (m.items (type ++ toString top.item)) ∧
      (MultiPatchModelGenerator3D.insertion L top glob type m).items glob =
        insert ⟨L top.patch, top.item, top.idim⟩ (m.items glob) ∧
      ∀ k, k ≠ type ++ toString top.item → k ≠ glob →
        (MultiPatchModelGenerator3D.insertion L top glob type m).items k = m.items k) ∧
    (L top.patch = 0 →
      ∀ k, (MultiPatchModelGenerator3D.insertion L top glob type m).items k = m.items k) ∧
    (∀ (g : MultiPatchModelGenerator2D) k t,
      t ∈ (MultiPatchModelGenerator2D.createTopologySets g true L).items k → 0 < t.patch) ∧
    (∀ (g : MultiPatchModelGenerator3D) k t,
      t ∈ (MultiPatchModelGenerator3D.createTopologySets g true L).items k → 0 < t.patch) := by
  have h2 : ∀ k, (insertion L glob name top m).items k = m.items k ∪
      (if 0 < L top.patch ∧ (k = name ∨ k = glob) then
        {⟨L top.patch, top.item, top.idim⟩} else ∅) := Adds.insertion L glob name top m
  have h3 : ∀ k, (MultiPatchModelGenerator3D.insertion L top glob type m).items k =
      m.items k ∪ (if 0 < L top.patch ∧ (k = type ++ toString top.item ∨ k = glob) then
        {⟨L top.patch, top.item, top.idim⟩} else ∅) := Adds.insertion3D L top glob type m
  refine ⟨fun h => ⟨?_, ?_, fun k hk1 hk2 => ?_⟩, fun h => ?_,
    fun h => ⟨?_, ?_, fun k hk1 hk2 => ?_⟩, fun h k => ?_, fun g k t ht => ?_,
    fun g k t ht => ?_⟩
  · rw [h2, if_pos ⟨h, Or.inl rfl⟩, union_singleton_eq_insert]
  · rw [h2, if_pos ⟨h, Or.inr rfl⟩, union_singleton_eq_insert]
  · rw [h2, if_neg (fun hc => hc.2.elim hk1 hk2), Finset.union_empty]
  · unfold insertion
    rw [if_neg (by omega)]
  · rw [h3, if_pos ⟨h, Or.inl rfl⟩, union_singleton_eq_insert]
  · rw [h3, if_pos ⟨h, Or.inr rfl⟩, union_singleton_eq_insert]
  · rw [h3, if_neg (fun hc => hc.2.elim hk1 hk2), Finset.union_empty]
  · rw [h3, if_neg (fun hc => by omega), Finset.union_empty]
  · rw [MultiPatchModelGenerator2D.mem_createTopologySets2D] at ht
    rcases ht with ⟨i, _, ⟨h, _, rfl⟩ | ⟨h, _, rfl⟩⟩ | ⟨i, _, ⟨h, _, rfl⟩ | ⟨h, _, rfl⟩⟩ |
      ⟨h, _, rfl⟩ | ⟨h, _, rfl⟩ | ⟨h, _, rfl⟩ | ⟨h, _, rfl⟩ <;> exact h
  · rw [MultiPatchModelGenerator3D.mem_createTopologySets3D] at ht
    rcases ht with ⟨_, _, _, _, _, _, h, _, rfl⟩ | ⟨_, _, _, _, _, _, h, _, rfl⟩ |
      ⟨_, _, _, _, _, _, h, _, rfl⟩ | ⟨_, _, _, _, _, _, h, _, rfl⟩ |
      ⟨_, _, _, _, _, _, h, _, rfl⟩ | ⟨_, _, _, _, _, _, h, _, rfl⟩ |
      ⟨_, _, _, _, _, _, h, _, rfl⟩ <;> exact h

/-- A resolution that owns patch 1 only, on a 2 x 1 grid in 2D: the item of
patch 1 is stored, and every stored item has a positive patch number. -/
theorem insertion_local_index_witness :
    (0 < (fun p => if p = 1 then 1 else 0) (1 : Nat)) ∧
    (insertion (fun p => if p = 1 then 1 else 0) "Boundary" "Edge1" ⟨1, 1, 1⟩
        TopologySet.empty).items "Edge1" =
      insert ⟨1, 1, 1⟩ (TopologySet.empty.items "Edge1") :=
  ⟨by decide,
   ((insertion_local_index (fun p => if p = 1 then 1 else 0) "Boundary" "Edge1" "Edge"
      ⟨1, 1, 1⟩ TopologySet.empty).1 (by decide)).1⟩

/-- C17: for `nx ≥ 1`, with sets requested and every patch resolving to
itself, the 1D `createTopologySets` returns `Vertex1 = {(1, 1, 0)}`,
`Vertex2 = {(nx, 2, 0)}` and `Boundary` = these two items, which are distinct. -/
theorem MultiPatchModelGenerator1D.createTopologySets_vertices
    (g : MultiPatchModelGenerator1D) (hnx : 1 ≤ g.nx) :
    (createTopologySets g true id).items "Vertex1" = {⟨1, 1, 0⟩} ∧
    (createTopologySets g true id).items "Vertex2" = {⟨g.nx, 2, 0⟩} ∧
    (createTopologySets g true id).items "Boundary" = {⟨1, 1, 0⟩, ⟨g.nx, 2, 0⟩} ∧
    ((createTopologySets g true id).items "Boundary").card = 2 := by
  have hB : (createTopologySets g true id).items "Boundary" = {⟨1, 1, 0⟩, ⟨g.nx, 2, 0⟩} := by
    ext t
    rw [mem_createTopologySets1D]
    simp only [id, Finset.mem_insert, Finset.mem_singleton]
    constructor
    · rintro (⟨_, _, h⟩ | ⟨_, _, h⟩)
      · exact Or.inl h
      · exact Or.inr h
    · rintro (h | h)
      · exact Or.inl ⟨by omega, by simp, h⟩
      · exact Or.inr ⟨by omega, by simp, h⟩
  refine ⟨?_, ?_, hB, ?_⟩
  · ext t
    rw [mem_createTopologySets1D]
    simp only [id, Finset.mem_singleton]
    constructor
    · rintro (⟨_, _, h⟩ | ⟨_, h, _⟩)
      · exact h
      · simp at h
    · intro h
      exact Or.inl ⟨by omega, by simp, h⟩
  · ext t
    rw [mem_createTopologySets1D]
    simp only [id, Finset.mem_singleton]
    constructor
    · rintro (⟨_, h, _⟩ | ⟨_, _, h⟩)
      · simp at h
      · exact h
    · intro h
      exact Or.inr ⟨by omega, by simp, h⟩
  · rw [hB, Finset.card_insert_of_not_mem, Finset.card_singleton]
    simp

/-- A 1D model of two patches: the boundary is vertex 1 of patch 1 and vertex 2
of patch 2. -/
theorem MultiPatchModelGenerator1D.createTopologySets_vertices_witness :
    1 ≤ (2 : Nat) ∧
    (createTopologySets ⟨2, 0, false⟩ true id).items "Boundary" = {⟨1, 1, 0⟩, ⟨2, 2, 0⟩} :=
  ⟨by decide, (createTopologySets_vertices ⟨2, 0, false⟩ (by decide)).2.2.1⟩

namespace MultiPatchModelGenerator2D

/-- The patch numbers used by the 2D `createTopologySets`, in terms of `IJ`. -/
theorem patch_numbers2D (g : MultiPatchModelGenerator2D) (hnx : 1 ≤ g.nx) (hny : 1 ≤ g.ny)
    (i : Nat) :
    i * g.nx + 1 = IJ g 0 i ∧ (i + 1) * g.nx = IJ g (g.nx - 1) i ∧ i + 1 = IJ g i 0 ∧
    g.nx * (g.ny - 1) + 1 + i = IJ g i (g.ny - 1) ∧ 1 = IJ g 0 0 ∧ g.nx = IJ g (g.nx - 1) 0 ∧
    g.nx * (g.ny - 1) + 1 = IJ g 0 (g.ny - 1) ∧ g.nx * g.ny = IJ g (g.nx - 1) (g.ny - 1) := by
  unfold IJ
  obtain ⟨b, hb⟩ : ∃ b, g.ny = b + 1 := ⟨g.ny - 1, by omega⟩
  have h1 : (i + 1) * g.nx = i * g.nx + g.nx := Nat.succ_mul i g.nx
  have h2 : g.nx * (g.ny - 1) = (g.ny - 1) * g.nx := Nat.mul_comm _ _
  have h3 : g.nx * g.ny = (g.ny - 1) * g.nx + g.nx := by
    rw [hb, Nat.add_sub_cancel, Nat.mul_succ, Nat.mul_comm]
  refine ⟨?_, ?_, ?_, ?_, ?_, ?_, ?_, ?_⟩
  all_goals (try simp only [Nat.zero_mul, Nat.add_zero])
  all_goals omega

/-- The items of the sets built by the 2D `createTopologySets` when every
patch resolves to itself. -/
theorem mem_createTopologySets_id2D (g : MultiPatchModelGenerator2D) (hnx : 1 ≤ g.nx)
    (hny : 1 ≤ g.ny) (k : String) (t : TopItem) :
    t ∈ (createTopologySets g true id).items k ↔
      (∃ j, j < g.ny ∧
        (((k = "Edge1" ∨ k = "Boundary") ∧ t = ⟨IJ g 0 j, 1, 1⟩) ∨
         ((k = "Edge2" ∨ k = "Boundary") ∧ t = ⟨IJ g (g.nx - 1) j, 2, 1⟩))) ∨
      (∃ i, i < g.nx ∧
        (((k = "Edge3" ∨ k = "Boundary") ∧ t = ⟨IJ g i 0, 3, 1⟩) ∨
         ((k = "Edge4" ∨ k = "Boundary") ∧ t = ⟨IJ g i (g.ny - 1), 4, 1⟩))) ∨
      ((k = "Vertex1" ∨ k = "Corners") ∧ t = ⟨IJ g 0 0, 1, 0⟩) ∨
      ((k = "Vertex2" ∨ k = "Corners") ∧ t = ⟨IJ g (g.nx - 1) 0, 2, 0⟩) ∨
      ((k = "Vertex3" ∨ k = "Corners") ∧ t = ⟨IJ g 0 (g.ny - 1), 3, 0⟩) ∨
      ((k = "Vertex4" ∨ k = "Corners") ∧ t = ⟨IJ g (g.nx - 1) (g.ny - 1), 4, 0⟩) := by
  rw [mem_createTopologySets2D]
  have hp := patch_numbers2D g hnx hny
  have hpos : ∀ a b, 0 < IJ g a b := fun a b => by unfold IJ; omega
  simp only [id]
  constructor
  · rintro (⟨i, hi, ⟨_, hk, rfl⟩ | ⟨_, hk, rfl⟩⟩ | ⟨i, hi, ⟨_, hk, rfl⟩ | ⟨_, hk, rfl⟩⟩ |
      ⟨_, hk, rfl⟩ | ⟨_, hk, rfl⟩ | ⟨_, hk, rfl⟩ | ⟨_, hk, rfl⟩)
    · exact Or.inl ⟨i, hi, Or.inl ⟨hk, by rw [(hp i).1]⟩⟩
    · exact Or.inl ⟨i, hi, Or.inr ⟨hk, by rw [(hp i).2.1]⟩⟩
    · exact Or.inr (Or.inl ⟨i, hi, Or.inl ⟨hk, by rw [(hp i).2.2.1]⟩⟩)
    · exact Or.inr (Or.inl ⟨i, hi, Or.inr ⟨hk, by rw [(hp i).2.2.2.1]⟩⟩)
    · exact Or.inr (Or.inr (Or.inl ⟨hk, by rw [← (hp 0).2.2.2.2.1]⟩))
    · exact Or.inr (Or.inr (Or.inr (Or.inl ⟨hk, by rw [← (hp 0).2.2.2.2.2.1]⟩)))
    · exact Or.inr (Or.inr (Or.inr (Or.inr (Or.inl ⟨hk, by rw [← (hp 0).2.2.2.2.2.2.1]⟩))))
    · exact Or.inr (Or.inr (Or.inr (Or.inr (Or.inr ⟨hk, by rw [← (hp 0).2.2.2.2.2.2.2]⟩))))
  · rintro (⟨i, hi, ⟨hk, rfl⟩ | ⟨hk, rfl⟩⟩ | ⟨i, hi, ⟨hk, rfl⟩ | ⟨hk, rfl⟩⟩ |
      ⟨hk, rfl⟩ | ⟨hk, rfl⟩ | ⟨hk, rfl⟩ | ⟨hk, rfl⟩)
    · exact Or.inl ⟨i, hi, Or.inl ⟨by rw [(hp i).1]; exact hpos _ _, hk, by rw [(hp i).1]⟩⟩
    · exact Or.inl ⟨i, hi, Or.inr ⟨by rw [(hp i).2.1]; exact hpos _ _, hk,
        by rw [(hp i).2.1]⟩⟩
    · exact Or.inr (Or.inl ⟨i, hi, Or.inl ⟨by omega, hk, by rw [(hp i).2.2.1]⟩⟩)
    · exact Or.inr (Or.inl ⟨i, hi, Or.inr ⟨by omega, hk, by rw [(hp i).2.2.2.1]⟩⟩)
    · exact Or.inr (Or.inr (Or.inl ⟨by omega, hk, by rw [← (hp 0).2.2.2.2.1]⟩))
    · exact Or.inr (Or.inr (Or.inr (Or.inl ⟨by omega, hk, by rw [← (hp 0).2.2.2.2.2.1]⟩)))
    · exact Or.inr (Or.inr (Or.inr (Or.inr (Or.inl ⟨by omega, hk,
        by rw [← (hp 0).2.2.2.2.2.2.1]⟩))))
    · exact Or.inr (Or.inr (Or.inr (Or.inr (Or.inr ⟨by
        rw [(hp 0).2.2.2.2.2.2.2]; exact hpos _ _, hk, by rw [← (hp 0).2.2.2.2.2.2.2]⟩))))

end MultiPatchModelGenerator2D

namespace MultiPatchModelGenerator2D

/-- `IJ` is injective in each of its arguments. -/
theorem IJ_inj (g : MultiPatchModelGenerator2D) (hnx : 1 ≤ g.nx) (a b c : Nat) :
    (IJ g a c = IJ g b c → a = b) ∧ (IJ g c a = IJ g c b → a = b) := by
  unfold IJ
  constructor
  · intro h; omega
  · intro h
    have h1 : a * g.nx = b * g.nx := by omega
    exact Nat.eq_of_mul_eq_mul_right (by omega) h1

/-- C19: for `nx, ny ≥ 1`, with sets requested and every patch resolving to
itself, the 2D `createTopologySets` returns: `Edge1` = edge 1 of the patches
of grid column 0, `Edge2` = edge 2 of those of column `nx-1`, `Edge3` = edge 3
of those of row 0, `Edge4` = edge 4 of those of row `ny-1`; `Boundary` = the
union of `Edge1..Edge4`, with `2*(nx+ny)` items; `Vertex1..Vertex4` = vertex 1
of `IJ(0,0)`, vertex 2 of `IJ(nx-1,0)`, vertex 3 of `IJ(0,ny-1)`, vertex 4 of
`IJ(nx-1,ny-1)`; `Corners` = the union of `Vertex1..Vertex4`, with 4 items. -/
theorem createTopologySets_edges (g : MultiPatchModelGenerator2D) (hnx : 1 ≤ g.nx)
    (hny : 1 ≤ g.ny) :
    (createTopologySets g true id).items "Edge1" =
      (Finset.range g.ny).image (fun j => (⟨IJ g 0 j, 1, 1⟩ : TopItem)) ∧
    (createTopologySets g true id).items "Edge2" =
      (Finset.range g.ny).image (fun j => (⟨IJ g (g.nx - 1) j, 2, 1⟩ : TopItem)) ∧
    (createTopologySets g true id).items "Edge3" =
      (Finset.range g.nx).image (fun i => (⟨IJ g i 0, 3, 1⟩ : TopItem)) ∧
    (createTopologySets g true id).items "Edge4" =
      (Finset.range g.nx).image (fun i => (⟨IJ g i (g.ny - 1), 4, 1⟩ : TopItem)) ∧
    (createTopologySets g true id).items "Boundary" =
      (createTopologySets g true id).items "Edge1" ∪
      (createTopologySets g true id).items "Edge2" ∪
      (createTopologySets g true id).items "Edge3" ∪
      (createTopologySets g true id).items "Edge4" ∧
    ((createTopologySets g true id).items "Boundary").card = 2 * (g.nx + g.ny) ∧
    (createTopologySets g true id).items "Vertex1" = {⟨IJ g 0 0, 1, 0⟩} ∧
    (createTopologySets g true id).items "Vertex2" = {⟨IJ g (g.nx - 1) 0, 2, 0⟩} ∧
    (createTopologySets g true id).items "Vertex3" = {⟨IJ g 0 (g.ny - 1), 3, 0⟩} ∧
    (createTopologySets g true id).items "Vertex4" = {⟨IJ g (g.nx - 1) (g.ny - 1), 4, 0⟩} ∧
    (createTopologySets g true id).items "Corners" =
      (createTopologySets g true id).items "Vertex1" ∪
      (createTopologySets g true id).items "Vertex2" ∪
      (createTopologySets g true id).items "Vertex3" ∪
      (createTopologySets g true id).items "Vertex4" ∧
    ((createTopologySets g true id).items "Corners").card = 4 := by
  have hm := mem_createTopologySets_id2D g hnx hny
  have e1 : (createTopologySets g true id).items "Edge1" =
      (Finset.range g.ny).image (fun j => (⟨IJ g 0 j, 1, 1⟩ : TopItem)) := by
    ext t
    rw [hm]
    simp [eq_comm]
  have e2 : (createTopologySets g true id).items "Edge2" =
      (Finset.range g.ny).image (fun j => (⟨IJ g (g.nx - 1) j, 2, 1⟩ : TopItem)) := by
    ext t
    rw [hm]
    simp [eq_comm]
  have e3 : (createTopologySets g true id).items "Edge3" =
      (Finset.range g.nx).image (fun i => (⟨IJ g i 0, 3, 1⟩ : TopItem)) := by
    ext t
    rw [hm]
    simp [eq_comm]
  have e4 : (createTopologySets g true id).items "Edge4" =
      (Finset.range g.nx).image (fun i => (⟨IJ g i (g.ny - 1), 4, 1⟩ : TopItem)) := by
    ext t
    rw [hm]
    simp [eq_comm]
  have v1 : (createTopologySets g true id).items "Vertex1" = {⟨IJ g 0 0, 1, 0⟩} := by
    ext t
    rw [hm]
    simp
  have v2 : (createTopologySets g true id).items "Vertex2" = {⟨IJ g (g.nx - 1) 0, 2, 0⟩} := by
    ext t
    rw [hm]
    simp
  have v3 : (createTopologySets g true id).items "Vertex3" = {⟨IJ g 0 (g.ny - 1), 3, 0⟩} := by
    ext t
    rw [hm]
    simp
  have v4 : (createTopologySets g true id).items "Vertex4" =
      {⟨IJ g (g.nx - 1) (g.ny - 1), 4, 0⟩} := by
    ext t
    rw [hm]
    simp
  have eB : (createTopologySets g true id).items "Boundary" =
      (createTopologySets g true id).items "Edge1" ∪
      (createTopologySets g true id).items "Edge2" ∪
      (createTopologySets g true id).items "Edge3" ∪
      (createTopologySets g true id).items "Edge4" := by
    ext t
    simp only [Finset.mem_union, hm]
    simp only [String.reduceEq, false_or, or_false, true_and, false_and, or_true, exists_false,
      and_false, exists_or, and_or_left, or_assoc, exists_const]
  have eC : (createTopologySets g true id).items "Corners" =
      (createTopologySets g true id).items "Vertex1" ∪
      (createTopologySets g true id).items "Vertex2" ∪
      (createTopologySets g true id).items "Vertex3" ∪
      (createTopologySets g true id).items "Vertex4" := by
    ext t
    simp only [Finset.mem_union, hm]
    simp only [String.reduceEq, false_or, or_false, true_and, false_and, or_true, exists_false,
      and_false, exists_or, and_or_left, or_assoc, exists_const]
  have cB : ((createTopologySets g true id).items "Boundary").card = 2 * (g.nx + g.ny) := by
    have c1 : ((Finset.range g.ny).image (fun j => (⟨IJ g 0 j, 1, 1⟩ : TopItem))).card = g.ny := by
      rw [Finset.card_image_of_injective, Finset.card_range]
      intro a b h
      exact (IJ_inj g hnx a b 0).2 (by simpa using h)
    have c2 : ((Finset.range g.ny).image
        (fun j => (⟨IJ g (g.nx - 1) j, 2, 1⟩ : TopItem))).card = g.ny := by
      rw [Finset.card_image_of_injective, Finset.card_range]
      intro a b h
      exact (IJ_inj g hnx a b (g.nx - 1)).2 (by simpa using h)
    have c3 : ((Finset.range g.nx).image (fun i => (⟨IJ g i 0, 3, 1⟩ : TopItem))).card = g.nx := by
      rw [Finset.card_image_of_injective, Finset.card_range]
      intro a b h
      exact (IJ_inj g hnx a b 0).1 (by simpa using h)
    have c4 : ((Finset.range g.nx).image
        (fun i => (⟨IJ g i (g.ny - 1), 4, 1⟩ : TopItem))).card = g.nx := by
      rw [Finset.card_image_of_injective, Finset.card_range]
      intro a b h
      exact (IJ_inj g hnx a b (g.ny - 1)).1 (by simpa using h)
    rw [eB, e1, e2, e3, e4, Finset.card_union_of_disjoint, Finset.card_union_of_disjoint,
      Finset.card_union_of_disjoint, c1, c2, c3, c4]
    · omega
    all_goals
      rw [Finset.disjoint_left]
      intro t h1 h2
      simp only [Finset.mem_union, Finset.mem_image, Finset.mem_range] at h1 h2
      rcases h2 with ⟨_, _, rfl⟩
      simp at h1
  have cC : ((createTopologySets g true id).items "Corners").card = 4 := by
    rw [eC, v1, v2, v3, v4, Finset.card_union_of_disjoint, Finset.card_union_of_disjoint,
      Finset.card_union_of_disjoint]
    · rfl
    all_goals
      rw [Finset.disjoint_left]
      intro t h1 h2
      simp only [Finset.mem_union, Finset.mem_singleton] at h1 h2
      subst h2
      simp at h1
  exact ⟨e1, e2, e3, e4, eB, cB, v1, v2, v3, v4, eC, cC⟩

/-- A 2 x 3 grid of patches in 2D: the boundary has 10 edges, and `Edge2`
holds edge 2 of the patches 2, 4 and 6. -/
theorem createTopologySets_edges_witness :
    (1 ≤ (⟨2, 3, 0, 0, false⟩ : MultiPatchModelGenerator2D).nx ∧
     1 ≤ (⟨2, 3, 0, 0, false⟩ : MultiPatchModelGenerator2D).ny) ∧
    ((createTopologySets ⟨2, 3, 0, 0, false⟩ true id).items "Boundary").card = 10 ∧
    (createTopologySets ⟨2, 3, 0, 0, false⟩ true id).items "Edge2" =
      {⟨2, 2, 1⟩, ⟨4, 2, 1⟩, ⟨6, 2, 1⟩} :=
  ⟨⟨by decide, by decide⟩,
   (createTopologySets_edges ⟨2, 3, 0, 0, false⟩ (by decide) (by decide)).2.2.2.2.2.1,
   (createTopologySets_edges ⟨2, 3, 0, 0, false⟩ (by decide) (by decide)).2.1.trans (by decide)⟩

end MultiPatchModelGenerator2D

/-- A quantifier over the two sides `0` and `1` of an axis. -/
theorem exists_lt_two (P : Nat → Prop) : (∃ i, i < 2 ∧ P i) ↔ P 0 ∨ P 1 := by
  constructor
  · rintro ⟨i, hi, h⟩
    have : i = 0 ∨ i = 1 := by omega
    rcases this with rfl | rfl
    · exact Or.inl h
    · exact Or.inr h
  · rintro (h | h)
    · exact ⟨0, by decide, h⟩
    · exact ⟨1, by decide, h⟩

/-- The decimal item numbers written by `str << type << top.item`. -/
theorem toString_items :
    toString (1 : Nat) = "1" ∧ toString (2 : Nat) = "2" ∧ toString (3 : Nat) = "3" ∧
    toString (4 : Nat) = "4" ∧ toString (5 : Nat) = "5" ∧ toString (6 : Nat) = "6" ∧
    toString (7 : Nat) = "7" ∧ toString (8 : Nat) = "8" ∧ toString (9 : Nat) = "9" ∧
    toString (10 : Nat) = "10" ∧ toString (11 : Nat) = "11" ∧ toString (12 : Nat) = "12" := by
  decide

namespace MultiPatchModelGenerator3D

/-- Patch numbers are positive. -/
theorem IJK_pos (g : MultiPatchModelGenerator3D) (i j k : Nat) : 0 < IJK g i j k ↔ True := by
  unfold IJK
  simp only [iff_true]
  omega

/-- With every patch resolving to itself, the six face sets of the 3D
`createTopologySets` in closed form. -/
theorem face_sets3D (g : MultiPatchModelGenerator3D) :
    (createTopologySets g true id).items "Face1" =
      (Finset.range g.ny ×ˢ Finset.range g.nz).image
        (fun p => (⟨IJK g 0 p.1 p.2, 1, 2⟩ : TopItem)) ∧
    (createTopologySets g true id).items "Face2" =
      (Finset.range g.ny ×ˢ Finset.range g.nz).image
        (fun p => (⟨IJK g (g.nx - 1) p.1 p.2, 2, 2⟩ : TopItem)) ∧
    (createTopologySets g true id).items "Face3" =
      (Finset.range g.nx ×ˢ Finset.range g.nz).image
        (fun p => (⟨IJK g p.1 0 p.2, 3, 2⟩ : TopItem)) ∧
    (createTopologySets g true id).items "Face4" =
      (Finset.range g.nx ×ˢ Finset.range g.nz).image
        (fun p => (⟨IJK g p.1 (g.ny - 1) p.2, 4, 2⟩ : TopItem)) ∧
    (createTopologySets g true id).items "Face5" =
      (Finset.range g.nx ×ˢ Finset.range g.ny).image
        (fun p => (⟨IJK g p.1 p.2 0, 5, 2⟩ : TopItem)) ∧
    (createTopologySets g true id).items "Face6" =
      (Finset.range g.nx ×ˢ Finset.range g.ny).image
        (fun p => (⟨IJK g p.1 p.2 (g.nz - 1), 6, 2⟩ : TopItem)) := by
  refine ⟨?_, ?_, ?_, ?_, ?_, ?_⟩
  all_goals
    ext t
    rw [mem_createTopologySets3D]
    simp only [exists_lt_two, id, toString_items, String.reduceAppend, String.reduceEq,
      Nat.reduceAdd, Nat.reduceMul, Nat.add_zero, Nat.mul_zero, false_or, or_false, false_and,
      and_false, exists_false, exists_const, true_and, or_true, true_or,
      Finset.mem_image, Finset.mem_product, Finset.mem_range, Prod.exists,
      IJK2I, IJK2J, IJK2K, IJK_pos, Nat.zero_mul, Nat.one_mul]
    constructor
    · rintro ⟨a, ha, b, hb, rfl⟩
      exact ⟨b, a, ⟨hb, ha⟩, rfl⟩
    · rintro ⟨a, b, ⟨ha, hb⟩, rfl⟩
      exact ⟨b, hb, a, ha, rfl⟩

/-- With every patch resolving to itself, the set "Boundary" of the 3D
`createTopologySets` is the union of the six face sets. -/
theorem boundary_set3D (g : MultiPatchModelGenerator3D) :
    (createTopologySets g true id).items "Boundary" =
      (createTopologySets g true id).items "Face1" ∪
      (createTopologySets g true id).items "Face2" ∪
      (createTopologySets g true id).items "Face3" ∪
      (createTopologySets g true id).items "Face4" ∪
      (createTopologySets g true id).items "Face5" ∪
      (createTopologySets g true id).items "Face6" := by
  ext t
  simp only [Finset.mem_union, mem_createTopologySets3D]
  simp only [exists_lt_two, id, toString_items, String.reduceAppend, String.reduceEq,
    Nat.reduceAdd, Nat.reduceMul, Nat.add_zero, Nat.mul_zero, false_or, or_false, false_and,
    and_false, exists_false, exists_const, true_and, or_true, true_or, or_assoc]

end MultiPatchModelGenerator3D

namespace MultiPatchModelGenerator3D

/-- The number of items of a face set built from an injective patch numbering. -/
theorem card_face_image (a b r : Nat) (f : Nat × Nat → Nat)
    (hf : ∀ p q : Nat × Nat, p.1 < a → q.1 < a → p.2 < b → q.2 < b → f p = f q → p = q) :
    ((Finset.range a ×ˢ Finset.range b).image (fun p => (⟨f p, r, 2⟩ : TopItem))).card =
      a * b := by
  rw [Finset.card_image_of_injOn, Finset.card_product, Finset.card_range, Finset.card_range]
  intro p hp q hq h
  simp only [Finset.coe_product, Finset.coe_range, Set.mem_prod, Set.mem_Iio] at hp hq
  simp only [TopItem.mk.injEq, and_true] at h
  exact hf p q hp.1 hq.1 hp.2 hq.2 h

/-- C18: for `nx, ny, nz ≥ 1`, with sets requested and every patch resolving
to itself, the 3D `createTopologySets` returns `Face1` = the items
`(IJK(0,j,k), 1, 2)` and `Face2` = the items `(IJK(nx-1,j,k), 2, 2)` over
`j < ny`, `k < nz`; `Face3` = `(IJK(i,0,k), 3, 2)` and `Face4` =
`(IJK(i,ny-1,k), 4, 2)` over `i < nx`, `k < nz`; `Face5` = `(IJK(i,j,0), 5, 2)`
and `Face6` = `(IJK(i,j,nz-1), 6, 2)` over `i < nx`, `j < ny`; `Boundary` is
the union of `Face1..Face6` and has `2*(nx*ny + ny*nz + nx*nz)` items. -/
theorem createTopologySets_faces (g : MultiPatchModelGenerator3D) (hnx : 1 ≤ g.nx)
    (hny : 1 ≤ g.ny) (hnz : 1 ≤ g.nz) :
    ((createTopologySets g true id).items "Face1" =
      (Finset.range g.ny ×ˢ Finset.range g.nz).image
        (fun p => (⟨IJK g 0 p.1 p.2, 1, 2⟩ : TopItem)) ∧
    (createTopologySets g true id).items "Face2" =
      (Finset.range g.ny ×ˢ Finset.range g.nz).image
        (fun p => (⟨IJK g (g.nx - 1) p.1 p.2, 2, 2⟩ : TopItem)) ∧
    (createTopologySets g true id).items "Face3" =
      (Finset.range g.nx ×ˢ Finset.range g.nz).image
        (fun p => (⟨IJK g p.1 0 p.2, 3, 2⟩ : TopItem)) ∧
    (createTopologySets g true id).items "Face4" =
      (Finset.range g.nx ×ˢ Finset.range g.nz).image
        (fun p => (⟨IJK g p.1 (g.ny - 1) p.2, 4, 2⟩ : TopItem)) ∧
    (createTopologySets g true id).items "Face5" =
      (Finset.range g.nx ×ˢ Finset.range g.ny).image
        (fun p => (⟨IJK g p.1 p.2 0, 5, 2⟩ : TopItem)) ∧
    (createTopologySets g true id).items "Face6" =
      (Finset.range g.nx ×ˢ Finset.range g.ny).image
        (fun p => (⟨IJK g p.1 p.2 (g.nz - 1), 6, 2⟩ : TopItem))) ∧
    (createTopologySets g true id).items "Boundary" =
      (createTopologySets g true id).items "Face1" ∪
      (createTopologySets g true id).items "Face2" ∪
      (createTopologySets g true id).items "Face3" ∪
      (createTopologySets g true id).items "Face4" ∪
      (createTopologySets g true id).items "Face5" ∪
      (createTopologySets g true id).items "Face6" ∧
    ((createTopologySets g true id).items "Boundary").card =
      2 * (g.nx * g.ny + g.ny * g.nz + g.nx * g.nz) := by
  refine ⟨face_sets3D g, boundary_set3D g, ?_⟩
  obtain ⟨f1, f2, f3, f4, f5, f6⟩ := face_sets3D g
  have c1 := card_face_image g.ny g.nz 1 (fun p => IJK g 0 p.1 p.2) (fun p q h1 h2 _ _ h => by
    obtain ⟨_, a, b⟩ := IJK_inj g 0 p.1 p.2 0 q.1 q.2 (by omega) (by omega) h1 h2 h
    exact Prod.ext a b)
  have c2 := card_face_image g.ny g.nz 2 (fun p => IJK g (g.nx - 1) p.1 p.2)
    (fun p q h1 h2 _ _ h => by
    obtain ⟨_, a, b⟩ := IJK_inj g (g.nx - 1) p.1 p.2 (g.nx - 1) q.1 q.2 (by omega) (by omega)
      h1 h2 h
    exact Prod.ext a b)
  have c3 := card_face_image g.nx g.nz 3 (fun p => IJK g p.1 0 p.2) (fun p q h1 h2 _ _ h => by
    obtain ⟨a, _, b⟩ := IJK_inj g p.1 0 p.2 q.1 0 q.2 h1 h2 (by omega) (by omega) h
    exact Prod.ext a b)
  have c4 := card_face_image g.nx g.nz 4 (fun p => IJK g p.1 (g.ny - 1) p.2)
    (fun p q h1 h2 _ _ h => by
    obtain ⟨a, _, b⟩ := IJK_inj g p.1 (g.ny - 1) p.2 q.1 (g.ny - 1) q.2 h1 h2 (by omega)
      (by omega) h
    exact Prod.ext a b)
  have c5 := card_face_image g.nx g.ny 5 (fun p => IJK g p.1 p.2 0) (fun p q h1 h2 h3 h4 h => by
    obtain ⟨a, b, _⟩ := IJK_inj g p.1 p.2 0 q.1 q.2 0 h1 h2 h3 h4 h
    exact Prod.ext a b)
  have c6 := card_face_image g.nx g.ny 6 (fun p => IJK g p.1 p.2 (g.nz - 1))
    (fun p q h1 h2 h3 h4 h => by
    obtain ⟨a, b, _⟩ := IJK_inj g p.1 p.2 (g.nz - 1) q.1 q.2 (g.nz - 1) h1 h2 h3 h4 h
    exact Prod.ext a b)
  rw [boundary_set3D, f1, f2, f3, f4, f5, f6, Finset.card_union_of_disjoint,
    Finset.card_union_of_disjoint, Finset.card_union_of_disjoint, Finset.card_union_of_disjoint,
    Finset.card_union_of_disjoint, c1, c2, c3, c4, c5, c6]
  · ring
  all_goals
    rw [Finset.disjoint_left]
    intro t h1 h2
    simp only [Finset.mem_union, Finset.mem_image, Finset.mem_product, Finset.mem_range] at h1 h2
    rcases h2 with ⟨_, _, rfl⟩
    simp at h1

/-- A 2 x 3 x 1 grid of patches: the boundary has 22 faces, and `Face2` holds
face 2 of the patches 2, 4 and 6. -/
theorem createTopologySets_faces_witness :
    (1 ≤ (⟨2, 3, 1, 0, 0, 0, false⟩ : MultiPatchModelGenerator3D).nx ∧
     1 ≤ (⟨2, 3, 1, 0, 0, 0, false⟩ : MultiPatchModelGenerator3D).ny ∧
     1 ≤ (⟨2, 3, 1, 0, 0, 0, false⟩ : MultiPatchModelGenerator3D).nz) ∧
    ((createTopologySets ⟨2, 3, 1, 0, 0, 0, false⟩ true id).items "Boundary").card = 22 ∧
    (createTopologySets ⟨2, 3, 1, 0, 0, 0, false⟩ true id).items "Face2" =
      {⟨2, 2, 2⟩, ⟨4, 2, 2⟩, ⟨6, 2, 2⟩} :=
  ⟨⟨by decide, by decide, by decide⟩,
   (createTopologySets_faces ⟨2, 3, 1, 0, 0, 0, false⟩ (by decide) (by decide) (by decide)).2.2,
   (createTopologySets_faces ⟨2, 3, 1, 0, 0, 0, false⟩ (by decide) (by decide)
     (by decide)).1.2.1.trans (by decide)⟩

end MultiPatchModelGenerator3D

namespace MultiPatchModelGenerator3D

/-- The patch at grid position `(x,y,z)` is the only patch lying in the slab
`i = x`, in the slab `j = y` and in the slab `k = z`. -/
theorem corner_patch (g : MultiPatchModelGenerator3D) (x y z p : Nat)
    (hx : x < g.nx) (hy : y < g.ny) (hz : z < g.nz) :
    ((∃ a b, (a < g.ny ∧ b < g.nz) ∧ IJK g x a b = p) ∧
     (∃ a b, (a < g.nx ∧ b < g.nz) ∧ IJK g a y b = p) ∧
     (∃ a b, (a < g.nx ∧ b < g.ny) ∧ IJK g a b z = p)) ↔ p = IJK g x y z := by
  constructor
  · rintro ⟨⟨a, b, ⟨ha, _⟩, rfl⟩, ⟨c, d, ⟨hc, _⟩, h2⟩, ⟨e, f, ⟨he, hf⟩, h3⟩⟩
    obtain ⟨_, r2, _⟩ := IJK_inj g c y d x a b hc hx hy ha h2
    obtain ⟨_, _, r3⟩ := IJK_inj g e f z x a b he hx hf ha h3
    rw [← r2, ← r3]
  · rintro rfl
    exact ⟨⟨y, z, ⟨hy, hz⟩, rfl⟩, ⟨x, z, ⟨hx, hz⟩, rfl⟩, ⟨x, y, ⟨hx, hy⟩, rfl⟩⟩

/-- C20: for `nx, ny, nz ≥ 1`, with sets requested and every patch resolving
to itself, the 3D `createTopologySets` returns for every `(i,j,k)` in
`{0,1}^3` the set `Vertex<r>`, `r = 1 + i + 2*j + 4*k`, holding exactly the
item `(IJK(i*(nx-1), j*(ny-1), k*(nz-1)), r, 0)`, and that patch is the one
patch common to `Face<1+i>`, `Face<3+j>` and `Face<5+k>`; `Corners` is the
union of `Vertex1..Vertex8` and has 8 items. -/
theorem createTopologySets_vertices3D (g : MultiPatchModelGenerator3D) (hnx : 1 ≤ g.nx)
    (hny : 1 ≤ g.ny) (hnz : 1 ≤ g.nz) :
    (∀ i j k, i < 2 → j < 2 → k < 2 →
      (createTopologySets g true id).items ("Vertex" ++ toString (1 + i + 2 * j + 4 * k)) =
        {⟨IJK g (i * (g.nx - 1)) (j * (g.ny - 1)) (k * (g.nz - 1)), 1 + i + 2 * j + 4 * k, 0⟩} ∧
      ∀ p, ((⟨p, 1 + i, 2⟩ : TopItem) ∈
              (createTopologySets g true id).items ("Face" ++ toString (1 + i)) ∧
            (⟨p, 3 + j, 2⟩ : TopItem) ∈
              (createTopologySets g true id).items ("Face" ++ toString (3 + j)) ∧
            (⟨p, 5 + k, 2⟩ : TopItem) ∈
              (createTopologySets g true id).items ("Face" ++ toString (5 + k))) ↔
          p = IJK g (i * (g.nx - 1)) (j * (g.ny - 1)) (k * (g.nz - 1))) ∧
    (createTopologySets g true id).items "Corners" =
      (createTopologySets g true id).items "Vertex1" ∪
      (createTopologySets g true id).items "Vertex2" ∪
      (createTopologySets g true id).items "Vertex3" ∪
      (createTopologySets g true id).items "Vertex4" ∪
      (createTopologySets g true id).items "Vertex5" ∪
      (createTopologySets g true id).items "Vertex6" ∪
      (createTopologySets g true id).items "Vertex7" ∪
      (createTopologySets g true id).items "Vertex8" ∧
    ((createTopologySets g true id).items "Corners").card = 8 := by
  have hV : ∀ i j k, i < 2 → j < 2 → k < 2 →
      (createTopologySets g true id).items ("Vertex" ++ toString (1 + i + 2 * j + 4 * k)) =
        {⟨IJK g (i * (g.nx - 1)) (j * (g.ny - 1)) (k * (g.nz - 1)),
          1 + i + 2 * j + 4 * k, 0⟩} := by
    intro i j k hi hj hk
    have ei : i = 0 ∨ i = 1 := by omega
    have ej : j = 0 ∨ j = 1 := by omega
    have ek : k = 0 ∨ k = 1 := by omega
    rcases ei with rfl | rfl <;> rcases ej with rfl | rfl <;> rcases ek with rfl | rfl
    all_goals
      ext t
      rw [mem_createTopologySets3D]
      simp only [exists_lt_two, id, toString_items, String.reduceAppend, String.reduceEq,
        Nat.reduceAdd, Nat.reduceMul, Nat.add_zero, Nat.mul_zero, false_or, or_false, false_and,
        and_false, exists_false, exists_const, true_and, or_true, true_or,
        Finset.mem_singleton, IJK2, IJK_pos, Nat.zero_mul, Nat.one_mul]
  have hP : ∀ i j k, i < 2 → j < 2 → k < 2 → ∀ p,
      ((⟨p, 1 + i, 2⟩ : TopItem) ∈
          (createTopologySets g true id).items ("Face" ++ toString (1 + i)) ∧
        (⟨p, 3 + j, 2⟩ : TopItem) ∈
          (createTopologySets g true id).items ("Face" ++ toString (3 + j)) ∧
        (⟨p, 5 + k, 2⟩ : TopItem) ∈
          (createTopologySets g true id).items ("Face" ++ toString (5 + k))) ↔
      p = IJK g (i * (g.nx - 1)) (j * (g.ny - 1)) (k * (g.nz - 1)) := by
    intro i j k hi hj hk p
    have ei : i = 0 ∨ i = 1 := by omega
    have ej : j = 0 ∨ j = 1 := by omega
    have ek : k = 0 ∨ k = 1 := by omega
    rcases ei with rfl | rfl <;> rcases ej with rfl | rfl <;> rcases ek with rfl | rfl
    all_goals
      simp only [toString_items, String.reduceAppend, Nat.reduceAdd, Nat.add_zero,
        face_sets3D g, Finset.mem_image, Finset.mem_product, Finset.mem_range, Prod.exists,
        TopItem.mk.injEq, and_true, Nat.zero_mul, Nat.one_mul]
      exact corner_patch g _ _ _ p (by omega) (by omega) (by omega)
  have hC : (createTopologySets g true id).items "Corners" =
      (createTopologySets g true id).items "Vertex1" ∪
      (createTopologySets g true id).items "Vertex2" ∪
      (createTopologySets g true id).items "Vertex3" ∪
      (createTopologySets g true id).items "Vertex4" ∪
      (createTopologySets g true id).items "Vertex5" ∪
      (createTopologySets g true id).items "Vertex6" ∪
      (createTopologySets g true id).items "Vertex7" ∪
      (createTopologySets g true id).items "Vertex8" := by
    ext t
    simp only [Finset.mem_union, mem_createTopologySets3D]
    simp only [exists_lt_two, id, toString_items, String.reduceAppend, String.reduceEq,
      Nat.reduceAdd, Nat.reduceMul, Nat.add_zero, Nat.mul_zero, false_or, or_false, false_and,
      and_false, exists_false, exists_const, true_and, or_true, true_or, or_assoc]
  refine ⟨fun i j k hi hj hk => ⟨hV i j k hi hj hk, hP i j k hi hj hk⟩, hC, ?_⟩
  have v1 := hV 0 0 0 (by decide) (by decide) (by decide)
  have v2 := hV 1 0 0 (by decide) (by decide) (by decide)
  have v3 := hV 0 1 0 (by decide) (by decide) (by decide)
  have v4 := hV 1 1 0 (by decide) (by decide) (by decide)
  have v5 := hV 0 0 1 (by decide) (by decide) (by decide)
  have v6 := hV 1 0 1 (by decide) (by decide) (by decide)
  have v7 := hV 0 1 1 (by decide) (by decide) (by decide)
  have v8 := hV 1 1 1 (by decide) (by decide) (by decide)
  simp only [toString_items, String.reduceAppend, Nat.reduceAdd, Nat.reduceMul, Nat.add_zero,
    Nat.mul_zero] at v1 v2 v3 v4 v5 v6 v7 v8
  rw [hC, v1, v2, v3, v4, v5, v6, v7, v8, Finset.card_union_of_disjoint,
    Finset.card_union_of_disjoint, Finset.card_union_of_disjoint, Finset.card_union_of_disjoint,
    Finset.card_union_of_disjoint, Finset.card_union_of_disjoint, Finset.card_union_of_disjoint]
  · rfl
  all_goals
    rw [Finset.disjoint_left]
    intro t h1 h2
    simp only [Finset.mem_union, Finset.mem_singleton] at h1 h2
    subst h2
    simp at h1

/-- A 2 x 3 x 1 grid of patches: there are 8 corner items, and `Vertex4` holds
vertex 4 of patch 6. -/
theorem createTopologySets_vertices3D_witness :
    (1 ≤ (⟨2, 3, 1, 0, 0, 0, false⟩ : MultiPatchModelGenerator3D).nx ∧
     1 ≤ (⟨2, 3, 1, 0, 0, 0, false⟩ : MultiPatchModelGenerator3D).ny ∧
     1 ≤ (⟨2, 3, 1, 0, 0, 0, false⟩ : MultiPatchModelGenerator3D).nz) ∧
    ((createTopologySets ⟨2, 3, 1, 0, 0, 0, false⟩ true id).items "Corners").card = 8 ∧
    (createTopologySets ⟨2, 3, 1, 0, 0, 0, false⟩ true id).items "Vertex4" = {⟨6, 4, 0⟩} :=
  ⟨⟨by decide, by decide, by decide⟩,
   (createTopologySets_vertices3D ⟨2, 3, 1, 0, 0, 0, false⟩ (by decide) (by decide)
     (by decide)).2.2,
   (congrArg (createTopologySets ⟨2, 3, 1, 0, 0, 0, false⟩ true id).items
     (by decide : "Vertex4" = "Vertex" ++ toString (1 + 1 + 2 * 1 + 4 * 0))).trans
   (((createTopologySets_vertices3D ⟨2, 3, 1, 0, 0, 0, false⟩ (by decide) (by decide)
     (by decide)).1 1 1 0 (by decide) (by decide) (by decide)).1.trans (by decide))⟩

end MultiPatchModelGenerator3D

namespace MultiPatchModelGenerator3D

/-- With every patch resolving to itself, the twelve edge sets of the 3D
`createTopologySets` in closed form. -/
theorem edge_sets3D (g : MultiPatchModelGenerator3D) :
    ((createTopologySets g true id).items "Edge1" =
      (Finset.range g.ny).image (fun j => (⟨IJK g 0 j 0, 1, 1⟩ : TopItem)) ∧
    (createTopologySets g true id).items "Edge2" =
      (Finset.range g.ny).image (fun j => (⟨IJK g (g.nx - 1) j 0, 2, 1⟩ : TopItem)) ∧
    (createTopologySets g true id).items "Edge3" =
      (Finset.range g.ny).image (fun j => (⟨IJK g 0 j (g.nz - 1), 3, 1⟩ : TopItem)) ∧
    (createTopologySets g true id).items "Edge4" =
      (Finset.range g.ny).image
        (fun j => (⟨IJK g (g.nx - 1) j (g.nz - 1), 4, 1⟩ : TopItem))) ∧
    ((createTopologySets g true id).items "Edge5" =
      (Finset.range g.nz).image (fun k => (⟨IJK g 0 0 k, 5, 1⟩ : TopItem)) ∧
    (createTopologySets g true id).items "Edge6" =
      (Finset.range g.nz).image (fun k => (⟨IJK g (g.nx - 1) 0 k, 6, 1⟩ : TopItem)) ∧
    (createTopologySets g true id).items "Edge7" =
      (Finset.range g.nz).image (fun k => (⟨IJK g 0 (g.ny - 1) k, 7, 1⟩ : TopItem)) ∧
    (createTopologySets g true id).items "Edge8" =
      (Finset.range g.nz).image
        (fun k => (⟨IJK g (g.nx - 1) (g.ny - 1) k, 8, 1⟩ : TopItem))) ∧
    ((createTopologySets g true id).items "Edge9" =
      (Finset.range g.nx).image (fun i => (⟨IJK g i 0 0, 9, 1⟩ : TopItem)) ∧
    (createTopologySets g true id).items "Edge10" =
      (Finset.range g.nx).image (fun i => (⟨IJK g i (g.ny - 1) 0, 10, 1⟩ : TopItem)) ∧
    (createTopologySets g true id).items "Edge11" =
      (Finset.range g.nx).image (fun i => (⟨IJK g i 0 (g.nz - 1), 11, 1⟩ : TopItem)) ∧
    (createTopologySets g true id).items "Edge12" =
      (Finset.range g.nx).image
        (fun i => (⟨IJK g i (g.ny - 1) (g.nz - 1), 12, 1⟩ : TopItem))) := by
  refine ⟨⟨?_, ?_, ?_, ?_⟩, ⟨?_, ?_, ?_, ?_⟩, ⟨?_, ?_, ?_, ?_⟩⟩
  all_goals
    ext t
    rw [mem_createTopologySets3D]
    simp only [exists_lt_two, id, toString_items, String.reduceAppend, String.reduceEq,
      Nat.reduceAdd, Nat.reduceMul, Nat.add_zero, Nat.mul_zero, false_or, or_false, false_and,
      and_false, exists_false, exists_const, true_and, or_true, true_or,
      Finset.mem_image, Finset.mem_range,
      IJKI, IJKJ, IJKK, IJK_pos, Nat.zero_mul, Nat.one_mul]
    constructor
    · rintro ⟨a, ha, rfl⟩
      exact ⟨a, ha, rfl⟩
    · rintro ⟨a, ha, rfl⟩
      exact ⟨a, ha, rfl⟩

/-- With every patch resolving to itself, the set "Frame" of the 3D
`createTopologySets` is the union of the twelve edge sets. -/
theorem frame_set3D (g : MultiPatchModelGenerator3D) :
    (createTopologySets g true id).items "Frame" =
      (createTopologySets g true id).items "Edge1" ∪
      (createTopologySets g true id).items "Edge2" ∪
      (createTopologySets g true id).items "Edge3" ∪
      (createTopologySets g true id).items "Edge4" ∪
      (createTopologySets g true id).items "Edge5" ∪
      (createTopologySets g true id).items "Edge6" ∪
      (createTopologySets g true id).items "Edge7" ∪
      (createTopologySets g true id).items "Edge8" ∪
      (createTopologySets g true id).items "Edge9" ∪
      (createTopologySets g true id).items "Edge10" ∪
      (createTopologySets g true id).items "Edge11" ∪
      (createTopologySets g true id).items "Edge12" := by
  ext t
  simp only [Finset.mem_union, mem_createTopologySets3D]
  simp only [exists_lt_two, id, toString_items, String.reduceAppend, String.reduceEq,
    Nat.reduceAdd, Nat.reduceMul, Nat.add_zero, Nat.mul_zero, false_or, or_false, false_and,
    and_false, exists_false, exists_const, true_and, or_true, true_or, or_assoc]

end MultiPatchModelGenerator3D

namespace MultiPatchModelGenerator3D

/-- The patches lying in the slab `i = x` and in the slab `k = z` are those of
the grid line `(x, j, z)`, `j < ny`. -/
theorem edge_patch_xz (g : MultiPatchModelGenerator3D) (x z p : Nat)
    (hx : x < g.nx) (hz : z < g.nz) :
    ((∃ a b, (a < g.ny ∧ b < g.nz) ∧ IJK g x a b = p) ∧
     (∃ a b, (a < g.nx ∧ b < g.ny) ∧ IJK g a b z = p)) ↔
    ∃ j, j < g.ny ∧ IJK g x j z = p := by
  constructor
  · rintro ⟨⟨a, b, ⟨ha, _⟩, rfl⟩, ⟨c, d, ⟨hc, hd⟩, h⟩⟩
    obtain ⟨_, _, r3⟩ := IJK_inj g c d z x a b hc hx hd ha h
    exact ⟨a, ha, by rw [r3]⟩
  · rintro ⟨j, hj, rfl⟩
    exact ⟨⟨j, z, ⟨hj, hz⟩, rfl⟩, ⟨x, j, ⟨hx, hj⟩, rfl⟩⟩

/-- The patches lying in the slab `i = x` and in the slab `j = y` are those of
the grid line `(x, y, k)`, `k < nz`. -/
theorem edge_patch_xy (g : MultiPatchModelGenerator3D) (x y p : Nat)
    (hx : x < g.nx) (hy : y < g.ny) :
    ((∃ a b, (a < g.ny ∧ b < g.nz) ∧ IJK g x a b = p) ∧
     (∃ a b, (a < g.nx ∧ b < g.nz) ∧ IJK g a y b = p)) ↔
    ∃ k, k < g.nz ∧ IJK g x y k = p := by
  constructor
  · rintro ⟨⟨a, b, ⟨ha, hb⟩, rfl⟩, ⟨c, d, ⟨hc, _⟩, h⟩⟩
    obtain ⟨_, r2, _⟩ := IJK_inj g c y d x a b hc hx hy ha h
    exact ⟨b, hb, by rw [r2]⟩
  · rintro ⟨k, hk, rfl⟩
    exact ⟨⟨y, k, ⟨hy, hk⟩, rfl⟩, ⟨x, k, ⟨hx, hk⟩, rfl⟩⟩

/-- The patches lying in the slab `j = y` and in the slab `k = z` are those of
the grid line `(i, y, z)`, `i < nx`. -/
theorem edge_patch_yz (g : MultiPatchModelGenerator3D) (y z p : Nat)
    (hy : y < g.ny) (hz : z < g.nz) :
    ((∃ a b, (a < g.nx ∧ b < g.nz) ∧ IJK g a y b = p) ∧
     (∃ a b, (a < g.nx ∧ b < g.ny) ∧ IJK g a b z = p)) ↔
    ∃ i, i < g.nx ∧ IJK g i y z = p := by
  constructor
  · rintro ⟨⟨a, b, ⟨ha, _⟩, rfl⟩, ⟨c, d, ⟨hc, hd⟩, h⟩⟩
    obtain ⟨_, _, r3⟩ := IJK_inj g c d z a y b hc ha hd hy h
    exact ⟨a, ha, by rw [r3]⟩
  · rintro ⟨i, hi, rfl⟩
    exact ⟨⟨i, z, ⟨hi, hz⟩, rfl⟩, ⟨i, y, ⟨hi, hy⟩, rfl⟩⟩

/-- Membership of an item in the image of a grid line. -/
theorem mem_edge_image (n r : Nat) (f : Nat → Nat) (t : TopItem) :
    t ∈ (Finset.range n).image (fun j => (⟨f j, r, 1⟩ : TopItem)) ↔
      t.item = r ∧ t.idim = 1 ∧ ∃ j, j < n ∧ f j = t.patch := by
  obtain ⟨p, it, d⟩ := t
  simp only [Finset.mem_image, Finset.mem_range, TopItem.mk.injEq]
  constructor
  · rintro ⟨j, hj, h1, h2, h3⟩
    exact ⟨h2.symm, h3.symm, j, hj, h1⟩
  · rintro ⟨h2, h3, j, hj, h1⟩
    exact ⟨j, hj, h1, h2.symm, h3.symm⟩

/-- The number of items of an edge set built from an injective patch numbering. -/
theorem card_edge_image (n r : Nat) (f : Nat → Nat)
    (hf : ∀ a b, a < n → b < n → f a = f b → a = b) :
    ((Finset.range n).image (fun j => (⟨f j, r, 1⟩ : TopItem))).card = n := by
  rw [Finset.card_image_of_injOn, Finset.card_range]
  intro a ha b hb h
  simp only [Finset.coe_range, Set.mem_Iio] at ha hb
  simp only [TopItem.mk.injEq, and_true] at h
  exact hf a b ha hb h

end MultiPatchModelGenerator3D

namespace MultiPatchModelGenerator3D

/-- C21: for `nx, ny, nz ≥ 1`, with sets requested and every patch resolving
to itself, the 3D `createTopologySets` returns twelve sets `Edge1..Edge12`:
an item lies in `Edge<1+i+2k>` exactly when it has that local edge index,
dimension 1 and a patch common to `Face<1+i>` and `Face<5+k>`; in
`Edge<5+i+2j>` exactly when its patch is common to `Face<1+i>` and `Face<3+j>`;
in `Edge<9+j+2k>` exactly when its patch is common to `Face<3+j>` and
`Face<5+k>` (`i, j, k < 2`); `Frame` is the union of `Edge1..Edge12` and has
`4*(nx+ny+nz)` items. -/
theorem createTopologySets_edges3D (g : MultiPatchModelGenerator3D) (hnx : 1 ≤ g.nx)
    (hny : 1 ≤ g.ny) (hnz : 1 ≤ g.nz) :
    (∀ i k, i < 2 → k < 2 → ∀ t : TopItem,
      t ∈ (createTopologySets g true id).items ("Edge" ++ toString (1 + i + 2 * k)) ↔
        t.item = 1 + i + 2 * k ∧ t.idim = 1 ∧
        (⟨t.patch, 1 + i, 2⟩ : TopItem) ∈
          (createTopologySets g true id).items ("Face" ++ toString (1 + i)) ∧
        (⟨t.patch, 5 + k, 2⟩ : TopItem) ∈
          (createTopologySets g true id).items ("Face" ++ toString (5 + k))) ∧
    (∀ i j, i < 2 → j < 2 → ∀ t : TopItem,
      t ∈ (createTopologySets g true id).items ("Edge" ++ toString (5 + i + 2 * j)) ↔
        t.item = 5 + i + 2 * j ∧ t.idim = 1 ∧
        (⟨t.patch, 1 + i, 2⟩ : TopItem) ∈
          (createTopologySets g true id).items ("Face" ++ toString (1 + i)) ∧
        (⟨t.patch, 3 + j, 2⟩ : TopItem) ∈
          (createTopologySets g true id).items ("Face" ++ toString (3 + j))) ∧
    (∀ j k, j < 2 → k < 2 → ∀ t : TopItem,
      t ∈ (createTopologySets g true id).items ("Edge" ++ toString (9 + j + 2 * k)) ↔
        t.item = 9 + j + 2 * k ∧ t.idim = 1 ∧
        (⟨t.patch, 3 + j, 2⟩ : TopItem) ∈
          (createTopologySets g true id).items ("Face" ++ toString (3 + j)) ∧
        (⟨t.patch, 5 + k, 2⟩ : TopItem) ∈
          (createTopologySets g true id).items ("Face" ++ toString (5 + k))) ∧
    (createTopologySets g true id).items "Frame" =
      (createTopologySets g true id).items "Edge1" ∪
      (createTopologySets g true id).items "Edge2" ∪
      (createTopologySets g true id).items "Edge3" ∪
      (createTopologySets g true id).items "Edge4" ∪
      (createTopologySets g true id).items "Edge5" ∪
      (createTopologySets g true id).items "Edge6" ∪
      (createTopologySets g true id).items "Edge7" ∪
      (createTopologySets g true id).items "Edge8" ∪
      (createTopologySets g true id).items "Edge9" ∪
      (createTopologySets g true id).items "Edge10" ∪
      (createTopologySets g true id).items "Edge11" ∪
      (createTopologySets g true id).items "Edge12" ∧
    ((createTopologySets g true id).items "Frame").card = 4 * (g.nx + g.ny + g.nz) := by
  obtain ⟨⟨e1, e2, e3, e4⟩, ⟨e5, e6, e7, e8⟩, ⟨e9, e10, e11, e12⟩⟩ := edge_sets3D g
  refine ⟨?_, ?_, ?_, frame_set3D g, ?_⟩
  · intro i k hi hk t
    have ei : i = 0 ∨ i = 1 := by omega
    have ek : k = 0 ∨ k = 1 := by omega
    rcases ei with rfl | rfl <;> rcases ek with rfl | rfl
    all_goals
      simp only [toString_items, String.reduceAppend, Nat.reduceAdd, Nat.reduceMul, Nat.add_zero,
        Nat.mul_zero, e1, e2, e3, e4, mem_edge_image]
      simp only [face_sets3D g, Finset.mem_image, Finset.mem_product, Finset.mem_range,
        Prod.exists, TopItem.mk.injEq, and_true]
      rw [edge_patch_xz g _ _ t.patch (by omega) (by omega)]
  · intro i j hi hj t
    have ei : i = 0 ∨ i = 1 := by omega
    have ej : j = 0 ∨ j = 1 := by omega
    rcases ei with rfl | rfl <;> rcases ej with rfl | rfl
    all_goals
      simp only [toString_items, String.reduceAppend, Nat.reduceAdd, Nat.reduceMul, Nat.add_zero,
        Nat.mul_zero, e5, e6, e7, e8, mem_edge_image]
      simp only [face_sets3D g, Finset.mem_image, Finset.mem_product, Finset.mem_range,
        Prod.exists, TopItem.mk.injEq, and_true]
      rw [edge_patch_xy g _ _ t.patch (by omega) (by omega)]
  · intro j k hj hk t
    have ej : j = 0 ∨ j = 1 := by omega
    have ek : k = 0 ∨ k = 1 := by omega
    rcases ej with rfl | rfl <;> rcases ek with rfl | rfl
    all_goals
      simp only [toString_items, String.reduceAppend, Nat.reduceAdd, Nat.reduceMul, Nat.add_zero,
        Nat.mul_zero, e9, e10, e11, e12, mem_edge_image]
      simp only [face_sets3D g, Finset.mem_image, Finset.mem_product, Finset.mem_range,
        Prod.exists, TopItem.mk.injEq, and_true]
      rw [edge_patch_yz g _ _ t.patch (by omega) (by omega)]
  · have c1 := card_edge_image g.ny 1 (fun j => IJK g 0 j 0) (fun a b ha hb h =>
      (IJK_inj g 0 a 0 0 b 0 (by omega) (by omega) ha hb h).2.1)
    have c2 := card_edge_image g.ny 2 (fun j => IJK g (g.nx - 1) j 0) (fun a b ha hb h =>
      (IJK_inj g _ a 0 _ b 0 (by omega) (by omega) ha hb h).2.1)
    have c3 := card_edge_image g.ny 3 (fun j => IJK g 0 j (g.nz - 1)) (fun a b ha hb h =>
      (IJK_inj g 0 a _ 0 b _ (by omega) (by omega) ha hb h).2.1)
    have c4 := card_edge_image g.ny 4 (fun j => IJK g (g.nx - 1) j (g.nz - 1))
      (fun a b ha hb h => (IJK_inj g _ a _ _ b _ (by omega) (by omega) ha hb h).2.1)
    have c5 := card_edge_image g.nz 5 (fun k => IJK g 0 0 k) (fun a b _ _ h =>
      (IJK_inj g 0 0 a 0 0 b (by omega) (by omega) (by omega) (by omega) h).2.2)
    have c6 := card_edge_image g.nz 6 (fun k => IJK g (g.nx - 1) 0 k) (fun a b _ _ h =>
      (IJK_inj g _ 0 a _ 0 b (by omega) (by omega) (by omega) (by omega) h).2.2)
    have c7 := card_edge_image g.nz 7 (fun k => IJK g 0 (g.ny - 1) k) (fun a b _ _ h =>
      (IJK_inj g 0 _ a 0 _ b (by omega) (by omega) (by omega) (by omega) h).2.2)
    have c8 := card_edge_image g.nz 8 (fun k => IJK g (g.nx - 1) (g.ny - 1) k)
      (fun a b _ _ h =>
        (IJK_inj g _ _ a _ _ b (by omega) (by omega) (by omega) (by omega) h).2.2)
    have c9 := card_edge_image g.nx 9 (fun i => IJK g i 0 0) (fun a b ha hb h =>
      (IJK_inj g a 0 0 b 0 0 ha hb (by omega) (by omega) h).1)
    have c10 := card_edge_image g.nx 10 (fun i => IJK g i (g.ny - 1) 0) (fun a b ha hb h =>
      (IJK_inj g a _ 0 b _ 0 ha hb (by omega) (by omega) h).1)
    have c11 := card_edge_image g.nx 11 (fun i => IJK g i 0 (g.nz - 1)) (fun a b ha hb h =>
      (IJK_inj g a 0 _ b 0 _ ha hb (by omega) (by omega) h).1)
    have c12 := card_edge_image g.nx 12 (fun i => IJK g i (g.ny - 1) (g.nz - 1))
      (fun a b ha hb h => (IJK_inj g a _ _ b _ _ ha hb (by omega) (by omega) h).1)
    rw [frame_set3D, e1, e2, e3, e4, e5, e6, e7, e8, e9, e10, e11, e12,
      Finset.card_union_of_disjoint, Finset.card_union_of_disjoint,
      Finset.card_union_of_disjoint, Finset.card_union_of_disjoint,
      Finset.card_union_of_disjoint, Finset.card_union_of_disjoint,
      Finset.card_union_of_disjoint, Finset.card_union_of_disjoint,
      Finset.card_union_of_disjoint, Finset.card_union_of_disjoint,
      Finset.card_union_of_disjoint, c1, c2, c3, c4, c5, c6, c7, c8, c9, c10, c11, c12]
    · omega
    all_goals
      rw [Finset.disjoint_left]
      intro t h1 h2
      simp only [Finset.mem_union, Finset.mem_image, Finset.mem_range] at h1 h2
      rcases h2 with ⟨_, _, rfl⟩
      simp at h1

/-- A 2 x 3 x 1 grid of patches: the frame has 24 edge items, and `Edge4` holds
edge 4 of the patches 2, 4 and 6, which are the patches common to `Face2` and
`Face6`. -/
theorem createTopologySets_edges3D_witness :
    (1 ≤ (⟨2, 3, 1, 0, 0, 0, false⟩ : MultiPatchModelGenerator3D).nx ∧
     1 ≤ (⟨2, 3, 1, 0, 0, 0, false⟩ : MultiPatchModelGenerator3D).ny ∧
     1 ≤ (⟨2, 3, 1, 0, 0, 0, false⟩ : MultiPatchModelGenerator3D).nz) ∧
    ((createTopologySets ⟨2, 3, 1, 0, 0, 0, false⟩ true id).items "Frame").card = 24 ∧
    (createTopologySets ⟨2, 3, 1, 0, 0, 0, false⟩ true id).items "Edge4" =
      {⟨2, 4, 1⟩, ⟨4, 4, 1⟩, ⟨6, 4, 1⟩} :=
  ⟨⟨by decide, by decide, by decide⟩,
   (createTopologySets_edges3D ⟨2, 3, 1, 0, 0, 0, false⟩ (by decide) (by decide)
     (by decide)).2.2.2.2,
   by decide⟩

end MultiPatchModelGenerator3D

/-! ## Theorems: the pre-split geometry written by `createG2` -/

/-- Indexing into a list built by two nested loops, the inner one a `map`. -/
theorem getElem?_grid2 {β : Type} (f : Nat → Nat → β) (nx ny x y : Nat)
    (hx : x < nx) (hy : y < ny) :
    ((List.range ny).flatMap fun y => (List.range nx).map fun x => f x y)[y * nx + x]? =
      some (f x y) := by
  have h := getElem?_flatMap_range_uniform (fun y => (List.range nx).map fun x => f x y) nx
    (fun a => by simp) ny y x hy hx
  rw [Nat.mul_comm y nx, h]
  simp [hx]

/-- Indexing into a list built by three nested loops, the innermost a `map`. -/
theorem getElem?_grid3 {β : Type} (f : Nat → Nat → Nat → β) (nx ny nz x y z : Nat)
    (hx : x < nx) (hy : y < ny) (hz : z < nz) :
    ((List.range nz).flatMap fun z => (List.range ny).flatMap fun y =>
      (List.range nx).map fun x => f x y z)[(z * ny + y) * nx + x]? = some (f x y z) := by
  have hlen : ∀ a, ((List.range ny).flatMap fun y =>
      (List.range nx).map fun x => f x y a).length = nx * ny := fun a =>
    length_flatMap_range_uniform _ nx (fun b => by simp) ny
  have hr : y * nx + x < nx * ny := by
    calc y * nx + x < y * nx + nx := by omega
      _ = nx * (y + 1) := by ring
      _ ≤ nx * ny := Nat.mul_le_mul_left _ hy
  have h := getElem?_flatMap_range_uniform
    (fun z => (List.range ny).flatMap fun y => (List.range nx).map fun x => f x y z)
    (nx * ny) hlen nz z (y * nx + x) hz hr
  have e : (z * ny + y) * nx + x = nx * ny * z + (y * nx + x) := by ring
  rw [e, h]
  exact getElem?_grid2 (fun x y => f x y z) nx ny x y hx hy

/-- The length of a list built by three nested loops. -/
theorem length_grid3 {β : Type} (f : Nat → Nat → Nat → β) (nx ny nz : Nat) :
    ((List.range nz).flatMap fun z => (List.range ny).flatMap fun y =>
      (List.range nx).map fun x => f x y z).length = nx * ny * nz :=
  length_flatMap_range_uniform _ (nx * ny)
    (fun a => length_flatMap_range_uniform _ nx (fun b => by simp) ny) nz

/-- Along one axis the cells `[cellLower x, cellUpper x)`, `x < n`, chain from
`X0` to `X0 + s*L`, and for `s*L > 0` every point of `[X0, X0 + s*L)` lies in
exactly one of them. -/
theorem cells_tile (o s L : ℚ) (n : Nat) (hn : 1 ≤ n) :
    cellLower o s L n 0 = o ∧ cellUpper o s L n (n - 1) = o + s * L ∧
    (∀ x, cellUpper o s L n x = cellLower o s L n (x + 1)) ∧
    (0 < s * L → ∀ u, o ≤ u → u < o + s * L →
      ∃! x, x < n ∧ cellLower o s L n x ≤ u ∧ u < cellUpper o s L n x) := by
  have hn0 : (n : ℚ) ≠ 0 := by
    have : (0 : ℚ) < n := by exact_mod_cast hn
    exact ne_of_gt this
  have hnpos : (0 : ℚ) < n := by exact_mod_cast hn
  refine ⟨?_, ?_, ?_, ?_⟩
  · simp [cellLower]
  · unfold cellUpper
    have e : ((n - 1 : Nat) : ℚ) + 1 = n := by
      rw [Nat.cast_sub hn]; simp
    rw [e]
    field_simp
  · intro x
    simp only [cellUpper, cellLower]
    push_cast
    ring
  · intro hpos u hu1 hu2
    have hh : 0 < s * L / n := div_pos hpos hnpos
    have hq : 0 ≤ (u - o) / (s * L / n) := div_nonneg (by linarith) (le_of_lt hh)
    refine ⟨⌊(u - o) / (s * L / n)⌋₊, ⟨?_, ?_, ?_⟩, ?_⟩
    · have h1 : (u - o) / (s * L / n) < n := by
        rw [div_lt_iff₀ hh]
        have : (n : ℚ) * (s * L / n) = s * L := by field_simp
        rw [this]; linarith
      exact (Nat.floor_lt hq).2 h1
    · unfold cellLower
      have h1 := Nat.floor_le hq
      have h2 := (le_div_iff₀ hh).1 h1
      linarith
    · unfold cellUpper
      have h1 := Nat.lt_floor_add_one ((u - o) / (s * L / n))
      have h2 := (div_lt_iff₀ hh).1 h1
      linarith
    · rintro y ⟨_, hy1, hy2⟩
      unfold cellLower at hy1
      unfold cellUpper at hy2
      symm
      rw [Nat.floor_eq_iff hq]
      constructor
      · rw [le_div_iff₀ hh]; linarith
      · rw [div_lt_iff₀ hh]; linarith

namespace MultiPatchModelGenerator3D

/-- The control points of the patch that the pre-split `createG2` writes for
grid cell `(x, y, z)`, in terms of the cell bounds of the specification. -/
theorem createG2_cell (g : MultiPatchModelGenerator3D) (geo : GeoAttributes)
    (hsub : g.subdivision = false) (x y z : Nat)
    (hx : x < g.nx) (hy : y < g.ny) (hz : z < g.nz) :
    ∃ p, (createG2 g geo)[(z * g.ny + y) * g.nx + x]? = some p ∧
      p.coefs =
        (boxCorners
          (cellLower geo.X0.1 geo.scale geo.Lx g.nx x,
           cellLower geo.X0.2.1 geo.scale geo.Ly g.ny y,
           cellLower geo.X0.2.2 geo.scale geo.Lz g.nz z)
          (cellUpper geo.X0.1 geo.scale geo.Lx g.nx x,
           cellUpper geo.X0.2.1 geo.scale geo.Ly g.ny y,
           cellUpper geo.X0.2.2 geo.scale geo.Lz g.nz z)).map
          (fun c => c ++ (if geo.rational then [1] else [])) := by
  simp only [createG2, hsub, Bool.not_false, if_true]
  rw [getElem?_grid3 _ g.nx g.ny g.nz x y z hx hy hz]
  refine ⟨_, rfl, ?_⟩
  · have r8 : List.range 8 = [0, 1, 2, 3, 4, 5, 6, 7] := rfl
    have r3 : List.range 3 = [0, 1, 2] := rfl
    simp only [r8, r3, List.map, nodes, Nat.reduceMul, Nat.reduceAdd, List.getD_cons_zero,
      List.getD_cons_succ, cellLower, cellUpper, boxCorners]
    simp only [List.cons.injEq, List.append_cancel_right_eq, and_true]
    refine ⟨⟨?_, ?_, ?_⟩, ⟨?_, ?_, ?_⟩, ⟨?_, ?_, ?_⟩, ⟨?_, ?_, ?_⟩, ⟨?_, ?_, ?_⟩, ⟨?_, ?_, ?_⟩,
      ⟨?_, ?_, ?_⟩, ⟨?_, ?_, ?_⟩⟩ <;> ring

end MultiPatchModelGenerator3D

namespace MultiPatchModelGenerator3D

/-- C22: in pre-split mode of the 3D generator, in exact rational arithmetic,
for `nx, ny, nz ≥ 1`: the patch written for grid cell `(x, y, z)` has as its 8
control points the corners of the box from `X0 + (x*hx, y*hy, z*hz)` to
`X0 + ((x+1)*hx, (y+1)*hy, (z+1)*hz)`, `h = s*L/n` (followed by the weight 1
when rational); the control points of neighbouring patches coincide on the
shared face, along each axis; and along each axis the cells chain from `X0` to
`X0 + s*L`, every point of `[X0, X0 + s*L)` lying in exactly one cell when
`s*L > 0`. -/
theorem createG2_tiling (g : MultiPatchModelGenerator3D) (geo : GeoAttributes)
    (hsub : g.subdivision = false) (hnx : 1 ≤ g.nx) (hny : 1 ≤ g.ny) (hnz : 1 ≤ g.nz) :
    (∀ x y z, x < g.nx → y < g.ny → z < g.nz →
      ∃ p, (createG2 g geo)[(z * g.ny + y) * g.nx + x]? = some p ∧
        p.coefs =
          (boxCorners
            (cellLower geo.X0.1 geo.scale geo.Lx g.nx x,
             cellLower geo.X0.2.1 geo.scale geo.Ly g.ny y,
             cellLower geo.X0.2.2 geo.scale geo.Lz g.nz z)
            (cellUpper geo.X0.1 geo.scale geo.Lx g.nx x,
             cellUpper geo.X0.2.1 geo.scale geo.Ly g.ny y,
             cellUpper geo.X0.2.2 geo.scale geo.Lz g.nz z)).map
            (fun c => c ++ (if geo.rational then [1] else []))) ∧
    (∀ x y z, x + 1 < g.nx → y < g.ny → z < g.nz →
      ∃ p q, (createG2 g geo)[(z * g.ny + y) * g.nx + x]? = some p ∧
        (createG2 g geo)[(z * g.ny + y) * g.nx + (x + 1)]? = some q ∧
        [1, 3, 5, 7].map (fun i => p.coefs[i]?) = [0, 2, 4, 6].map (fun i => q.coefs[i]?)) ∧
    (∀ x y z, x < g.nx → y + 1 < g.ny → z < g.nz →
      ∃ p q, (createG2 g geo)[(z * g.ny + y) * g.nx + x]? = some p ∧
        (createG2 g geo)[(z * g.ny + (y + 1)) * g.nx + x]? = some q ∧
        [2, 3, 6, 7].map (fun i => p.coefs[i]?) = [0, 1, 4, 5].map (fun i => q.coefs[i]?)) ∧
    (∀ x y z, x < g.nx → y < g.ny → z + 1 < g.nz →
      ∃ p q, (createG2 g geo)[(z * g.ny + y) * g.nx + x]? = some p ∧
        (createG2 g geo)[((z + 1) * g.ny + y) * g.nx + x]? = some q ∧
        [4, 5, 6, 7].map (fun i => p.coefs[i]?) = [0, 1, 2, 3].map (fun i => q.coefs[i]?)) ∧
    (cellLower geo.X0.1 geo.scale geo.Lx g.nx 0 = geo.X0.1 ∧
      cellUpper geo.X0.1 geo.scale geo.Lx g.nx (g.nx - 1) = geo.X0.1 + geo.scale * geo.Lx ∧
      (∀ x, cellUpper geo.X0.1 geo.scale geo.Lx g.nx x =
        cellLower geo.X0.1 geo.scale geo.Lx g.nx (x + 1)) ∧
      (0 < geo.scale * geo.Lx → ∀ u, geo.X0.1 ≤ u → u < geo.X0.1 + geo.scale * geo.Lx →
        ∃! x, x < g.nx ∧ cellLower geo.X0.1 geo.scale geo.Lx g.nx x ≤ u ∧
          u < cellUpper geo.X0.1 geo.scale geo.Lx g.nx x)) ∧
    (cellLower geo.X0.2.1 geo.scale geo.Ly g.ny 0 = geo.X0.2.1 ∧
      cellUpper geo.X0.2.1 geo.scale geo.Ly g.ny (g.ny - 1) =
        geo.X0.2.1 + geo.scale * geo.Ly ∧
      (∀ y, cellUpper geo.X0.2.1 geo.scale geo.Ly g.ny y =
        cellLower geo.X0.2.1 geo.scale geo.Ly g.ny (y + 1)) ∧
      (0 < geo.scale * geo.Ly → ∀ u, geo.X0.2.1 ≤ u → u < geo.X0.2.1 + geo.scale * geo.Ly →
        ∃! y, y < g.ny ∧ cellLower geo.X0.2.1 geo.scale geo.Ly g.ny y ≤ u ∧
          u < cellUpper geo.X0.2.1 geo.scale geo.Ly g.ny y)) ∧
    (cellLower geo.X0.2.2 geo.scale geo.Lz g.nz 0 = geo.X0.2.2 ∧
      cellUpper geo.X0.2.2 geo.scale geo.Lz g.nz (g.nz - 1) =
        geo.X0.2.2 + geo.scale * geo.Lz ∧
      (∀ z, cellUpper geo.X0.2.2 geo.scale geo.Lz g.nz z =
        cellLower geo.X0.2.2 geo.scale geo.Lz g.nz (z + 1)) ∧
      (0 < geo.scale * geo.Lz → ∀ u, geo.X0.2.2 ≤ u → u < geo.X0.2.2 + geo.scale * geo.Lz →
        ∃! z, z < g.nz ∧ cellLower geo.X0.2.2 geo.scale geo.Lz g.nz z ≤ u ∧
          u < cellUpper geo.X0.2.2 geo.scale geo.Lz g.nz z)) := by
  have tx := cells_tile geo.X0.1 geo.scale geo.Lx g.nx hnx
  have ty := cells_tile geo.X0.2.1 geo.scale geo.Ly g.ny hny
  have tz := cells_tile geo.X0.2.2 geo.scale geo.Lz g.nz hnz
  refine ⟨fun x y z hx hy hz => createG2_cell g geo hsub x y z hx hy hz, ?_, ?_, ?_, tx, ty, tz⟩
  · intro x y z hx hy hz
    obtain ⟨p, hp, cp⟩ := createG2_cell g geo hsub x y z (by omega) hy hz
    obtain ⟨q, hq, cq⟩ := createG2_cell g geo hsub (x + 1) y z hx hy hz
    refine ⟨p, q, hp, hq, ?_⟩
    rw [cp, cq]
    simp [boxCorners, tx.2.2.1 x]
  · intro x y z hx hy hz
    obtain ⟨p, hp, cp⟩ := createG2_cell g geo hsub x y z hx (by omega) hz
    obtain ⟨q, hq, cq⟩ := createG2_cell g geo hsub x (y + 1) z hx hy hz
    refine ⟨p, q, hp, hq, ?_⟩
    rw [cp, cq]
    simp [boxCorners, ty.2.2.1 y]
  · intro x y z hx hy hz
    obtain ⟨p, hp, cp⟩ := createG2_cell g geo hsub x y z hx hy (by omega)
    obtain ⟨q, hq, cq⟩ := createG2_cell g geo hsub x y (z + 1) hx hy hz
    refine ⟨p, q, hp, hq, ?_⟩
    rw [cp, cq]
    simp [boxCorners, tz.2.2.1 z]

end MultiPatchModelGenerator3D

namespace MultiPatchModelGenerator3D

/-- A 2 x 1 x 1 grid on the sample box: the control points with `x`-bit 1 of
the first patch are those with `x`-bit 0 of the second. -/
theorem createG2_tiling_witness :
    ((⟨2, 1, 1, 0, 0, 0, false⟩ : MultiPatchModelGenerator3D).subdivision = false ∧
     1 ≤ (⟨2, 1, 1, 0, 0, 0, false⟩ : MultiPatchModelGenerator3D).nx ∧
     1 ≤ (⟨2, 1, 1, 0, 0, 0, false⟩ : MultiPatchModelGenerator3D).ny ∧
     1 ≤ (⟨2, 1, 1, 0, 0, 0, false⟩ : MultiPatchModelGenerator3D).nz) ∧
    ∃ p q, (createG2 ⟨2, 1, 1, 0, 0, 0, false⟩ sampleGeo)[(0 * 1 + 0) * 2 + 0]? = some p ∧
      (createG2 ⟨2, 1, 1, 0, 0, 0, false⟩ sampleGeo)[(0 * 1 + 0) * 2 + (0 + 1)]? = some q ∧
      [1, 3, 5, 7].map (fun i => p.coefs[i]?) = [0, 2, 4, 6].map (fun i => q.coefs[i]?) :=
  ⟨⟨rfl, by decide, by decide, by decide⟩,
   (createG2_tiling ⟨2, 1, 1, 0, 0, 0, false⟩ sampleGeo rfl (by decide) (by decide)
     (by decide)).2.1 0 0 0 (by decide) (by decide) (by decide)⟩

end MultiPatchModelGenerator3D

namespace MultiPatchModelGenerator3D

/-- The position at which the 3D `getSubPatch` stores the index it reads for
local control point `(ii, jj, kk)`, component `n`. -/
theorem subIndices_getElem?3D (N I J su nu sv nv sw nw n ii jj kk : Nat)
    (hn : n < N) (hii : ii < nu) (hjj : jj < nv) (hkk : kk < nw) :
    (subIndices N I J su nu sv nv sw nw)[((kk * nv + jj) * nu + ii) * N + n]? =
      some (n + N * (su + ii) + N * I * (sv + jj) + N * I * J * (sw + kk)) := by
  unfold subIndices
  have l1 : ∀ (c b : Nat), ((List.range nu).flatMap fun a => (List.range N).map fun m =>
      m + N * (su + a) + N * I * (sv + b) + N * I * J * (sw + c)).length = N * nu := fun c b =>
    length_flatMap_range_uniform _ N (fun a => by simp) nu
  have l2 : ∀ (c : Nat), ((List.range nv).flatMap fun b => (List.range nu).flatMap fun a =>
      (List.range N).map fun m =>
        m + N * (su + a) + N * I * (sv + b) + N * I * J * (sw + c)).length = N * nu * nv :=
    fun c => length_flatMap_range_uniform _ (N * nu) (fun b => l1 c b) nv
  have h1 : ii * N + n < N * nu := by
    calc ii * N + n < ii * N + N := by omega
      _ = N * (ii + 1) := by ring
      _ ≤ N * nu := Nat.mul_le_mul_left _ hii
  have h2 : N * nu * jj + (ii * N + n) < N * nu * nv := by
    calc N * nu * jj + (ii * N + n) < N * nu * jj + N * nu := by omega
      _ = N * nu * (jj + 1) := by ring
      _ ≤ N * nu * nv := Nat.mul_le_mul_left _ hjj
  have e : ((kk * nv + jj) * nu + ii) * N + n =
      N * nu * nv * kk + (N * nu * jj + (ii * N + n)) := by ring
  rw [e, getElem?_flatMap_range_uniform _ (N * nu * nv) l2 nw kk _ hkk h2,
    getElem?_flatMap_range_uniform _ (N * nu) (fun b => l1 kk b) nv jj _ hjj h1,
    Nat.mul_comm ii N,
    getElem?_flatMap_range_uniform _ N (fun a => by simp) nu ii n hii hn]
  simp [hn]

/-- The number of indices read by the 3D `getSubPatch`. -/
theorem subIndices_length3D (N I J su nu sv nv sw nw : Nat) :
    (subIndices N I J su nu sv nv sw nw).length = N * nu * nv * nw :=
  length_flatMap_range_uniform _ (N * nu * nv)
    (fun c => length_flatMap_range_uniform _ (N * nu)
      (fun b => length_flatMap_range_uniform _ N (fun a => by simp) nu) nv) nw

end MultiPatchModelGenerator3D

namespace MultiPatchModelGenerator3D

/-- C27: for a source volume with `I x J x K` control points of `N` values
each (`N = dimension + 1` and the homogeneous coefficients when rational,
`N = dimension` otherwise) and an in-range window, the coefficient list built
by the 3D `getSubPatch` has length `N*numcoefsu*numcoefsv*numcoefsw` and its
entry at local position `(k', j', i', n)`, `n` fastest, is the source
coefficient at flat index
`n + N*(startu+i') + N*I*(startv+j') + N*I*J*(startw+k')`. -/
theorem getSubPatch_coefficients {α : Type} (vol : SplineVolume α)
    (startu numcoefsu orderu startv numcoefsv orderv startw numcoefsw orderw : Nat)
    (hsrc : (if vol.rational then vol.rcoefs else vol.coefs).length =
      (vol.dimension + (if vol.rational then 1 else 0)) * vol.numCoefs0 * vol.numCoefs1 *
        vol.numCoefs2)
    (hu : startu + numcoefsu ≤ vol.numCoefs0) (hv : startv + numcoefsv ≤ vol.numCoefs1)
    (hw : startw + numcoefsw ≤ vol.numCoefs2) :
    (getSubPatch vol startu numcoefsu orderu startv numcoefsv orderv
        startw numcoefsw orderw).subcoefs.length =
      (vol.dimension + (if vol.rational then 1 else 0)) * numcoefsu * numcoefsv * numcoefsw ∧
    ∀ kk jj ii n, kk < numcoefsw → jj < numcoefsv → ii < numcoefsu →
      n < vol.dimension + (if vol.rational then 1 else 0) →
      ∃ c, (if vol.rational then vol.rcoefs else vol.coefs)[n +
            (vol.dimension + (if vol.rational then 1 else 0)) * (startu + ii) +
            (vol.dimension + (if vol.rational then 1 else 0)) * vol.numCoefs0 * (startv + jj) +
            (vol.dimension + (if vol.rational then 1 else 0)) * vol.numCoefs0 * vol.numCoefs1 *
              (startw + kk)]? = some c ∧
        (getSubPatch vol startu numcoefsu orderu startv numcoefsv orderv
          startw numcoefsw orderw).subcoefs[((kk * numcoefsv + jj) * numcoefsu + ii) *
            (vol.dimension + (if vol.rational then 1 else 0)) + n]? = some (some c) := by
  constructor
  · simp only [getSubPatch, List.length_map]
    exact subIndices_length3D _ _ _ _ _ _ _ _ _
  · intro kk jj ii n hkk hjj hii hn
    have hlt := flat_index_lt (vol.dimension + (if vol.rational then 1 else 0)) vol.numCoefs0
      vol.numCoefs1 vol.numCoefs2 n (startu + ii) (startv + jj) (startw + kk) hn (by omega)
      (by omega) (by omega)
    rw [← hsrc] at hlt
    refine ⟨(if vol.rational then vol.rcoefs else vol.coefs)[n +
            (vol.dimension + (if vol.rational then 1 else 0)) * (startu + ii) +
            (vol.dimension + (if vol.rational then 1 else 0)) * vol.numCoefs0 * (startv + jj) +
            (vol.dimension + (if vol.rational then 1 else 0)) * vol.numCoefs0 * vol.numCoefs1 *
              (startw + kk)], List.getElem?_eq_getElem hlt, ?_⟩
    simp only [getSubPatch, List.getElem?_map]
    rw [subIndices_getElem?3D _ _ _ _ _ _ _ _ _ _ _ _ _ hn hii hjj hkk]
    simp only [Option.map_some']
    rw [List.getElem?_eq_getElem hlt]

/-- The sample volume (3 x 2 x 2 control points of 3 values): the window of the
last two columns in `u` has 24 coefficients, and its entry for local control
point `(1, 1, 1)`, component 2, is source coefficient 35. -/
theorem getSubPatch_coefficients_witness :
    ((if sampleVolume.rational then sampleVolume.rcoefs else sampleVolume.coefs).length =
      (sampleVolume.dimension + (if sampleVolume.rational then 1 else 0)) *
        sampleVolume.numCoefs0 * sampleVolume.numCoefs1 * sampleVolume.numCoefs2 ∧
     1 + 2 ≤ sampleVolume.numCoefs0 ∧ 0 + 2 ≤ sampleVolume.numCoefs1 ∧
     0 + 2 ≤ sampleVolume.numCoefs2) ∧
    (getSubPatch sampleVolume 1 2 2 0 2 2 0 2 2).subcoefs.length = 24 ∧
    (getSubPatch sampleVolume 1 2 2 0 2 2 0 2 2).subcoefs[23]? = some (some 35) :=
  ⟨⟨by decide, by decide, by decide, by decide⟩,
   (getSubPatch_coefficients sampleVolume 1 2 2 0 2 2 0 2 2 (by decide) (by decide) (by decide)
     (by decide)).1,
   by decide⟩

end MultiPatchModelGenerator3D

/-- Reading `n` consecutive entries of a list from position `s` on, all inside
the list, yields the window `drop s` / `take n`. -/
theorem window_eq_drop_take {β : Type} (l : List β) (s n : Nat) (h : s + n ≤ l.length) :
    ((List.range n).map fun t => l[s + t]?) = ((l.drop s).take n).map some := by
  apply List.ext_getElem?
  intro t
  by_cases ht : t < n
  · have h1 : s + t < l.length := by omega
    have h2 : t < ((l.drop s).take n).length := by
      simp only [List.length_take, List.length_drop]; omega
    simp only [List.getElem?_map, List.getElem?_range ht, Option.map_some',
      List.getElem?_eq_getElem h1, List.getElem?_eq_getElem h2, List.getElem_take,
      List.getElem_drop]
  · have h2 : ((l.drop s).take n).length ≤ t := by
      simp only [List.length_take, List.length_drop]; omega
    rw [List.getElem?_eq_none (by simpa using Nat.le_of_not_lt ht),
      List.getElem?_eq_none (by simpa using h2)]

/-- An entry of the knot vector of a sub-curve. -/
theorem SubCurve.knots_getElem? {α : Type} (cur : SplineCurve α) (s : SubCurve) (t : Nat)
    (ht : t < s.numcoefsu + s.orderu) :
    (SubCurve.knots cur s)[t]? = some (cur.basis[s.knotStart + t]?) := by
  simp [SubCurve.knots, List.getElem?_range ht]

namespace MultiPatchModelGenerator1D

/-- The sub-curve that the post-split `createGeometry` builds for block `i`. -/
theorem createGeometry_getElem? {α : Type} (g : MultiPatchModelGenerator1D)
    (cur : SplineCurve α) (i : Nat) (hi : i < g.nx) :
    (createGeometry g cur)[i]? =
      some (getSubPatch cur (i0 (cur.numCoefs - (cur.order - 1)) g.nx i)
        (di (cur.numCoefs - (cur.order - 1)) g.nx (cur.order - 1) i) (cur.order - 1 + 1)) := by
  simp [createGeometry, List.getElem?_range hi]

end MultiPatchModelGenerator1D

namespace MultiPatchModelGenerator1D

/-- C28: for every block of the post-split 1D generator (`nx ≥ 1`, a source
curve whose knot vector has `numCoefs + order` entries, `1 ≤ order ≤ numCoefs`)
the knot vector of the sub-curve is the window of the source knot vector that
starts at the block offset `i0` and has `numcoefs + order` entries, and the
window ends within the source knot vector; the parametric range
`[knot[order-1], knot[numcoefs]]` of block `i+1` begins at the knot at which
that of block `i` ends, the range of the first block begins at the source's
`knot[order-1]` and that of the last block ends at the source's
`knot[numCoefs]`. -/
theorem createGeometry_knots {α : Type} (g : MultiPatchModelGenerator1D)
    (cur : SplineCurve α) (hnx : 1 ≤ g.nx) (hord : 1 ≤ cur.order)
    (hnc : cur.order ≤ cur.numCoefs)
    (hlen : cur.basis.length = cur.numCoefs + cur.order) :
    (∀ i, i < g.nx → ∃ b, (createGeometry g cur)[i]? = some b ∧
      b.knotStart = i0 (cur.numCoefs - (cur.order - 1)) g.nx i ∧
      b.knotStart + (b.numcoefsu + b.orderu) ≤ cur.basis.length ∧
      SubCurve.knots cur b =
        ((cur.basis.drop b.knotStart).take (b.numcoefsu + b.orderu)).map some) ∧
    (∀ i, i + 1 < g.nx → ∃ b c t, (createGeometry g cur)[i]? = some b ∧
      (createGeometry g cur)[i + 1]? = some c ∧
      (SubCurve.knots cur b)[b.numcoefsu]? = some (some t) ∧
      (SubCurve.knots cur c)[c.orderu - 1]? = some (some t)) ∧
    (∃ b t, (createGeometry g cur)[0]? = some b ∧
      (SubCurve.knots cur b)[b.orderu - 1]? = some (some t) ∧
      cur.basis[cur.order - 1]? = some t) ∧
    (∃ b t, (createGeometry g cur)[g.nx - 1]? = some b ∧
      (SubCurve.knots cur b)[b.numcoefsu]? = some (some t) ∧
      cur.basis[cur.numCoefs]? = some t) := by
  have hE : cur.numCoefs - (cur.order - 1) + (cur.order - 1) = cur.numCoefs := by omega
  have hwin : ∀ i, i < g.nx →
      i0 (cur.numCoefs - (cur.order - 1)) g.nx i +
        (di (cur.numCoefs - (cur.order - 1)) g.nx (cur.order - 1) i + (cur.order - 1 + 1)) ≤
      cur.basis.length := by
    intro i hi
    have h := i0_add_ni_le (cur.numCoefs - (cur.order - 1)) g.nx i hi
    unfold di
    omega
  refine ⟨?_, ?_, ?_, ?_⟩
  · intro i hi
    refine ⟨_, createGeometry_getElem? g cur i hi, rfl, hwin i hi, ?_⟩
    exact window_eq_drop_take cur.basis _ _ (hwin i hi)
  · intro i hi
    have hb := hwin i (by omega)
    have hc := hwin (i + 1) hi
    have hs := i0_succ (cur.numCoefs - (cur.order - 1)) g.nx i
    have hlt : i0 (cur.numCoefs - (cur.order - 1)) g.nx i +
        di (cur.numCoefs - (cur.order - 1)) g.nx (cur.order - 1) i < cur.basis.length := by
      omega
    refine ⟨_, _, cur.basis[i0 (cur.numCoefs - (cur.order - 1)) g.nx i +
        di (cur.numCoefs - (cur.order - 1)) g.nx (cur.order - 1) i],
      createGeometry_getElem? g cur i (by omega), createGeometry_getElem? g cur (i + 1) hi, ?_, ?_⟩
    · rw [SubCurve.knots_getElem? cur _ _ (by simp [getSubPatch])]
      simp only [getSubPatch]
      rw [List.getElem?_eq_getElem hlt]
    · rw [SubCurve.knots_getElem? cur _ _ (by simp only [getSubPatch]; omega)]
      simp only [getSubPatch, Nat.add_sub_cancel]
      have e : i0 (cur.numCoefs - (cur.order - 1)) g.nx (i + 1) + (cur.order - 1) =
          i0 (cur.numCoefs - (cur.order - 1)) g.nx i +
            di (cur.numCoefs - (cur.order - 1)) g.nx (cur.order - 1) i := by
        rw [hs]; unfold di; omega
      rw [e, List.getElem?_eq_getElem hlt]
  · have h0 : i0 (cur.numCoefs - (cur.order - 1)) g.nx 0 = 0 := by simp [i0]
    have hlt : cur.order - 1 < cur.basis.length := by omega
    refine ⟨_, cur.basis[cur.order - 1], createGeometry_getElem? g cur 0 (by omega), ?_,
      List.getElem?_eq_getElem hlt⟩
    rw [SubCurve.knots_getElem? cur _ _ (by simp only [getSubPatch]; omega)]
    simp only [getSubPatch, Nat.add_sub_cancel, h0, Nat.zero_add]
    rw [List.getElem?_eq_getElem hlt]
  · have hl := i0_add_ni_last (cur.numCoefs - (cur.order - 1)) g.nx (g.nx - 1) (by omega)
    have hlt : cur.numCoefs < cur.basis.length := by omega
    refine ⟨_, cur.basis[cur.numCoefs], createGeometry_getElem? g cur (g.nx - 1) (by omega), ?_,
      List.getElem?_eq_getElem hlt⟩
    rw [SubCurve.knots_getElem? cur _ _ (by simp [getSubPatch])]
    simp only [getSubPatch]
    have e : i0 (cur.numCoefs - (cur.order - 1)) g.nx (g.nx - 1) +
        di (cur.numCoefs - (cur.order - 1)) g.nx (cur.order - 1) (g.nx - 1) = cur.numCoefs := by
      unfold di; omega
    rw [e, List.getElem?_eq_getElem hlt]

end MultiPatchModelGenerator1D

namespace MultiPatchModelGenerator1D

/-- The sample curve (two coefficients, order 2, knots `0 0 1 1`) as one block:
the sub-curve gets the whole knot vector. -/
theorem createGeometry_knots_witness :
    (1 ≤ (⟨1, 0, true⟩ : MultiPatchModelGenerator1D).nx ∧ 1 ≤ sampleCurve.order ∧
     sampleCurve.order ≤ sampleCurve.numCoefs ∧
     sampleCurve.basis.length = sampleCurve.numCoefs + sampleCurve.order) ∧
    ∃ b, (createGeometry ⟨1, 0, true⟩ sampleCurve)[0]? = some b ∧
      b.knotStart = i0 (sampleCurve.numCoefs - (sampleCurve.order - 1)) 1 0 ∧
      b.knotStart + (b.numcoefsu + b.orderu) ≤ sampleCurve.basis.length ∧
      SubCurve.knots sampleCurve b =
        ((sampleCurve.basis.drop b.knotStart).take (b.numcoefsu + b.orderu)).map some :=
  ⟨⟨by decide, by decide, by decide, by decide⟩,
   (createGeometry_knots ⟨1, 0, true⟩ sampleCurve (by decide) (by decide) (by decide)
     (by decide)).1 0 (by decide)⟩

end MultiPatchModelGenerator1D

/-! ## Theorems: connection thickness and the overlap of consecutive blocks -/

/-- Consecutive blocks along an axis have `p` coefficient layers in common:
block `i+1` starts `p` layers before the end of block `i`. -/
theorem block_overlap (E n p i : Nat) :
    i0 E n (i + 1) + p = i0 E n i + di E n p i ∧
    (Finset.Ico (i0 E n i) (i0 E n i + di E n p i) ∩
      Finset.Ico (i0 E n (i + 1)) (i0 E n (i + 1) + di E n p (i + 1))).card = p := by
  have hs := i0_succ E n i
  constructor
  · rw [hs]; unfold di; omega
  · rw [Finset.Ico_inter_Ico, Nat.card_Ico, hs]
    unfold di
    have h1 : max (i0 E n i) (i0 E n i + ni E n i) = i0 E n i + ni E n i := by omega
    have h2 : min (i0 E n i + (ni E n i + p)) (i0 E n i + ni E n i + (ni E n (i + 1) + p)) =
        i0 E n i + (ni E n i + p) := by omega
    rw [h1, h2]
    omega

namespace MultiPatchModelGenerator3D

/-- C30: in post-split mode, when the orders delivered by `getOrder` for
patch 1 are the orders `p+1` with which `createGeometry` builds the
sub-patches, the thickness that `createTopology` gives to the connections of
neighbours along an axis, `order - 1`, is the number of control-point layers
that two consecutive sub-patches along that axis have in common, and block
`i+1` starts at `start_i + numcoefs_i - thickness`. -/
theorem thick_eq_overlap {α : Type} (g : MultiPatchModelGenerator3D) (vol : SplineVolume α)
    (sim : SIMinput) (hsub : g.subdivision = true)
    (hp1 : sim.p1 = ((block g vol 0 0 0).orderu : Int))
    (hp2 : sim.p2 = ((block g vol 0 0 0).orderv : Int))
    (hp3 : sim.p3 = ((block g vol 0 0 0).orderw : Int)) (i j k : Nat) :
    (thick g sim 1 =
        ((Finset.Ico (block g vol i j k).knotStartu
            ((block g vol i j k).knotStartu + (block g vol i j k).numcoefsu) ∩
          Finset.Ico (block g vol (i + 1) j k).knotStartu
            ((block g vol (i + 1) j k).knotStartu +
              (block g vol (i + 1) j k).numcoefsu)).card : Int) ∧
      ((block g vol (i + 1) j k).knotStartu : Int) =
        (block g vol i j k).knotStartu + (block g vol i j k).numcoefsu - thick g sim 1) ∧
    (thick g sim 2 =
        ((Finset.Ico (block g vol i j k).knotStartv
            ((block g vol i j k).knotStartv + (block g vol i j k).numcoefsv) ∩
          Finset.Ico (block g vol i (j + 1) k).knotStartv
            ((block g vol i (j + 1) k).knotStartv +
              (block g vol i (j + 1) k).numcoefsv)).card : Int) ∧
      ((block g vol i (j + 1) k).knotStartv : Int) =
        (block g vol i j k).knotStartv + (block g vol i j k).numcoefsv - thick g sim 2) ∧
    (thick g sim 3 =
        ((Finset.Ico (block g vol i j k).knotStartw
            ((block g vol i j k).knotStartw + (block g vol i j k).numcoefsw) ∩
          Finset.Ico (block g vol i j (k + 1)).knotStartw
            ((block g vol i j (k + 1)).knotStartw +
              (block g vol i j (k + 1)).numcoefsw)).card : Int) ∧
      ((block g vol i j (k + 1)).knotStartw : Int) =
        (block g vol i j k).knotStartw + (block g vol i j k).numcoefsw - thick g sim 3) := by
  have t1 : thick g sim 1 = ((vol.order0 - 1 : Nat) : Int) := by
    simp only [thick, hsub, Bool.not_true, Bool.false_eq_true, if_false, if_true, hp1, block,
      getSubPatch]
    push_cast; omega
  have t2 : thick g sim 2 = ((vol.order1 - 1 : Nat) : Int) := by
    simp only [thick, hsub, Bool.not_true, Bool.false_eq_true, if_false, hp2, block,
      getSubPatch]
    simp
  have t3 : thick g sim 3 = ((vol.order2 - 1 : Nat) : Int) := by
    simp only [thick, hsub, Bool.not_true, Bool.false_eq_true, if_false, hp3, block,
      getSubPatch]
    simp
  have bx := block_overlap (vol.numCoefs0 - (vol.order0 - 1)) g.nx (vol.order0 - 1) i
  have by1 := block_overlap (vol.numCoefs1 - (vol.order1 - 1)) g.ny (vol.order1 - 1) j
  have bz := block_overlap (vol.numCoefs2 - (vol.order2 - 1)) g.nz (vol.order2 - 1) k
  refine ⟨⟨?_, ?_⟩, ⟨?_, ?_⟩, ⟨?_, ?_⟩⟩
  · rw [t1]; simp only [block, getSubPatch]; rw [bx.2]
  · rw [t1]; simp only [block, getSubPatch]; have := bx.1; omega
  · rw [t2]; simp only [block, getSubPatch]; rw [by1.2]
  · rw [t2]; simp only [block, getSubPatch]; have := by1.1; omega
  · rw [t3]; simp only [block, getSubPatch]; rw [bz.2]
  · rw [t3]; simp only [block, getSubPatch]; have := bz.1; omega

end MultiPatchModelGenerator3D

namespace MultiPatchModelGenerator3D

/-- The sample volume (orders 2, 2, 2; three columns in `u`) split into two
blocks along `u`, on a simulator reporting these orders: the thickness 1 of the
connections along `u` is the one coefficient layer that the two blocks share. -/
theorem thick_eq_overlap_witness :
    ((⟨2, 1, 1, 0, 0, 0, true⟩ : MultiPatchModelGenerator3D).subdivision = true ∧
     ({ sampleSim with p1 := 2, p2 := 2, p3 := 2 } : SIMinput).p1 =
       ((block ⟨2, 1, 1, 0, 0, 0, true⟩ sampleVolume 0 0 0).orderu : Int) ∧
     ({ sampleSim with p1 := 2, p2 := 2, p3 := 2 } : SIMinput).p2 =
       ((block ⟨2, 1, 1, 0, 0, 0, true⟩ sampleVolume 0 0 0).orderv : Int) ∧
     ({ sampleSim with p1 := 2, p2 := 2, p3 := 2 } : SIMinput).p3 =
       ((block ⟨2, 1, 1, 0, 0, 0, true⟩ sampleVolume 0 0 0).orderw : Int)) ∧
    thick ⟨2, 1, 1, 0, 0, 0, true⟩ { sampleSim with p1 := 2, p2 := 2, p3 := 2 } 1 = 1 ∧
    (block ⟨2, 1, 1, 0, 0, 0, true⟩ sampleVolume 0 0 0).knotStartu = 0 ∧
    (block ⟨2, 1, 1, 0, 0, 0, true⟩ sampleVolume 0 0 0).numcoefsu = 2 ∧
    (block ⟨2, 1, 1, 0, 0, 0, true⟩ sampleVolume 1 0 0).knotStartu = 1 :=
  ⟨⟨rfl, by decide, by decide, by decide⟩,
   (thick_eq_overlap ⟨2, 1, 1, 0, 0, 0, true⟩ sampleVolume
     { sampleSim with p1 := 2, p2 := 2, p3 := 2 } rfl (by decide) (by decide) (by decide)
     0 0 0).1.1.trans (by decide),
   by decide, by decide, by decide⟩

end MultiPatchModelGenerator3D

/-! ## Theorems: boundary faces and connected faces of the 3D grid -/

namespace MultiPatchModelGenerator3D

/-- With every patch resolving to itself, face `f` of the patch at grid
position `(i, j, k)` is in the set "Boundary" exactly when the patch lies on
the side of the grid that the face looks at. -/
theorem boundary_face_iff (g : MultiPatchModelGenerator3D) (i j k f : Nat)
    (hi : i < g.nx) (hj : j < g.ny) (hk : k < g.nz) :
    (⟨IJK g i j k, f, 2⟩ : TopItem) ∈ (createTopologySets g true id).items "Boundary" ↔
      (f = 1 ∧ i = 0) ∨ (f = 2 ∧ i + 1 = g.nx) ∨ (f = 3 ∧ j = 0) ∨ (f = 4 ∧ j + 1 = g.ny) ∨
      (f = 5 ∧ k = 0) ∨ (f = 6 ∧ k + 1 = g.nz) := by
  rw [boundary_set3D]
  simp only [Finset.mem_union, face_sets3D g, Finset.mem_image, Finset.mem_product,
    Finset.mem_range, Prod.exists, TopItem.mk.injEq, and_true, or_assoc]
  constructor
  · rintro (⟨a, b, ⟨ha, hb⟩, h, rfl⟩ | ⟨a, b, ⟨ha, hb⟩, h, rfl⟩ | ⟨a, b, ⟨ha, hb⟩, h, rfl⟩ |
      ⟨a, b, ⟨ha, hb⟩, h, rfl⟩ | ⟨a, b, ⟨ha, hb⟩, h, rfl⟩ | ⟨a, b, ⟨ha, hb⟩, h, rfl⟩)
    · obtain ⟨r, _, _⟩ := IJK_inj g _ _ _ _ _ _ (by omega) hi ha hj h
      exact Or.inl ⟨rfl, r.symm⟩
    · obtain ⟨r, _, _⟩ := IJK_inj g _ _ _ _ _ _ (by omega) hi ha hj h
      exact Or.inr (Or.inl ⟨rfl, by omega⟩)
    · obtain ⟨_, r, _⟩ := IJK_inj g _ _ _ _ _ _ ha hi (by omega) hj h
      exact Or.inr (Or.inr (Or.inl ⟨rfl, r.symm⟩))
    · obtain ⟨_, r, _⟩ := IJK_inj g _ _ _ _ _ _ ha hi (by omega) hj h
      exact Or.inr (Or.inr (Or.inr (Or.inl ⟨rfl, by omega⟩)))
    · obtain ⟨_, _, r⟩ := IJK_inj g _ _ _ _ _ _ ha hi hb hj h
      exact Or.inr (Or.inr (Or.inr (Or.inr (Or.inl ⟨rfl, r.symm⟩))))
    · obtain ⟨_, _, r⟩ := IJK_inj g _ _ _ _ _ _ ha hi hb hj h
      exact Or.inr (Or.inr (Or.inr (Or.inr (Or.inr ⟨rfl, by omega⟩))))
  · rintro (⟨rfl, rfl⟩ | ⟨rfl, h⟩ | ⟨rfl, rfl⟩ | ⟨rfl, h⟩ | ⟨rfl, rfl⟩ | ⟨rfl, h⟩)
    · exact Or.inl ⟨j, k, ⟨hj, hk⟩, rfl, rfl⟩
    · have e : g.nx - 1 = i := by omega
      exact Or.inr (Or.inl ⟨j, k, ⟨hj, hk⟩, by rw [e], rfl⟩)
    · exact Or.inr (Or.inr (Or.inl ⟨i, k, ⟨hi, hk⟩, rfl, rfl⟩))
    · have e : g.ny - 1 = j := by omega
      exact Or.inr (Or.inr (Or.inr (Or.inl ⟨i, k, ⟨hi, hk⟩, by rw [e], rfl⟩)))
    · exact Or.inr (Or.inr (Or.inr (Or.inr (Or.inl ⟨i, j, ⟨hi, hj⟩, rfl, rfl⟩))))
    · have e : g.nz - 1 = k := by omega
      exact Or.inr (Or.inr (Or.inr (Or.inr (Or.inr ⟨i, j, ⟨hi, hj⟩, by rw [e], rfl⟩))))

/-- Face `f` of the patch at grid position `(i, j, k)` is the first-patch face
or the second-patch face of a connection of neighbours exactly when the patch
has a neighbour on that side. -/
theorem connected_face_iff (g : MultiPatchModelGenerator3D) (sim : SIMinput)
    (hnx : 1 ≤ g.nx) (hny : 1 ≤ g.ny) (hnz : 1 ≤ g.nz) (i j k f : Nat)
    (hi : i < g.nx) (hj : j < g.ny) (hk : k < g.nz) :
    (∃ c ∈ connections (adjacentX g sim) ++ (connections (adjacentY g sim) ++
        connections (adjacentZ g sim)),
      (c.master = IJK g i j k ∧ c.mIdx = f) ∨ (c.slave = IJK g i j k ∧ c.sIdx = f)) ↔
      (f = 1 ∧ 1 ≤ i) ∨ (f = 2 ∧ i + 1 < g.nx) ∨ (f = 3 ∧ 1 ≤ j) ∨ (f = 4 ∧ j + 1 < g.ny) ∨
      (f = 5 ∧ 1 ≤ k) ∨ (f = 6 ∧ k + 1 < g.nz) := by
  simp only [List.mem_append, mem_adjacentX3D g sim hnx, mem_adjacentY3D g sim hny,
    mem_adjacentZ3D g sim hnz]
  constructor
  · rintro ⟨c, (⟨a, b, d, ha, hb, hd, rfl⟩ | ⟨a, b, d, ha, hb, hd, rfl⟩ |
      ⟨a, b, d, ha, hb, hd, rfl⟩), (⟨h, rfl⟩ | ⟨h, rfl⟩)⟩
    · obtain ⟨r, _, _⟩ := IJK_inj g _ _ _ _ _ _ (by omega) hi hb hj h
      exact Or.inr (Or.inl ⟨rfl, by omega⟩)
    · obtain ⟨r, _, _⟩ := IJK_inj g _ _ _ _ _ _ (by omega) hi hb hj h
      exact Or.inl ⟨rfl, by omega⟩
    · obtain ⟨_, r, _⟩ := IJK_inj g _ _ _ _ _ _ ha hi (by omega) hj h
      exact Or.inr (Or.inr (Or.inr (Or.inl ⟨rfl, by omega⟩)))
    · obtain ⟨_, r, _⟩ := IJK_inj g _ _ _ _ _ _ ha hi (by omega) hj h
      exact Or.inr (Or.inr (Or.inl ⟨rfl, by omega⟩))
    · obtain ⟨_, _, r⟩ := IJK_inj g _ _ _ _ _ _ ha hi hb hj h
      exact Or.inr (Or.inr (Or.inr (Or.inr (Or.inr ⟨rfl, by omega⟩))))
    · obtain ⟨_, _, r⟩ := IJK_inj g _ _ _ _ _ _ ha hi hb hj h
      exact Or.inr (Or.inr (Or.inr (Or.inr (Or.inl ⟨rfl, by omega⟩))))
  · rintro (⟨rfl, h⟩ | ⟨rfl, h⟩ | ⟨rfl, h⟩ | ⟨rfl, h⟩ | ⟨rfl, h⟩ | ⟨rfl, h⟩)
    · refine ⟨_, Or.inl ⟨i - 1, j, k, by omega, hj, hk, rfl⟩, Or.inr ⟨?_, rfl⟩⟩
      have e : i - 1 + 1 = i := by omega
      simp only [e]
    · exact ⟨_, Or.inl ⟨i, j, k, h, hj, hk, rfl⟩, Or.inl ⟨rfl, rfl⟩⟩
    · refine ⟨_, Or.inr (Or.inl ⟨i, j - 1, k, hi, by omega, hk, rfl⟩), Or.inr ⟨?_, rfl⟩⟩
      have e : j - 1 + 1 = j := by omega
      simp only [e]
    · exact ⟨_, Or.inr (Or.inl ⟨i, j, k, hi, h, hk, rfl⟩), Or.inl ⟨rfl, rfl⟩⟩
    · refine ⟨_, Or.inr (Or.inr ⟨i, j, k - 1, hi, hj, by omega, rfl⟩), Or.inr ⟨?_, rfl⟩⟩
      have e : k - 1 + 1 = k := by omega
      simp only [e]
    · exact ⟨_, Or.inr (Or.inr ⟨i, j, k, hi, hj, h, rfl⟩), Or.inl ⟨rfl, rfl⟩⟩

end MultiPatchModelGenerator3D

namespace MultiPatchModelGenerator3D

/-- C29: for `nx, ny, nz ≥ 1` with no periodic flag set and every patch
resolving to itself, in a run of `createTopology` in which the model is built
and every connection call succeeds: a pair (patch, local face) with patch in
`1..nx*ny*nz` and face in `1..6` is in the set "Boundary" if and only if it is
neither the first-patch face nor the second-patch face of a connection
requested by `createTopology`. -/
theorem boundary_iff_not_connected (g : MultiPatchModelGenerator3D) (sim : SIMinput)
    (hnx : 1 ≤ g.nx) (hny : 1 ≤ g.ny) (hnz : 1 ≤ g.nz)
    (hpx : g.periodic_x = 0) (hpy : g.periodic_y = 0) (hpz : g.periodic_z = 0)
    (hfem : sim.createFEMmodel = true) (hok : allSucceed (createTopology g sim).2 = true)
    (p f : Nat) (hp1 : 1 ≤ p) (hp2 : p ≤ g.nx * g.ny * g.nz) (hf1 : 1 ≤ f) (hf2 : f ≤ 6) :
    (⟨p, f, 2⟩ : TopItem) ∈ (createTopologySets g true id).items "Boundary" ↔
      ¬ ∃ c ∈ connections (createTopology g sim).2,
        (c.master = p ∧ c.mIdx = f) ∨ (c.slave = p ∧ c.sIdx = f) := by
  obtain ⟨i, j, k, hi, hj, hk, rfl⟩ := IJK_surj g p hp1 hp2
  obtain ⟨ux, uy, uz⟩ := connections_periodic_unset3D g sim
  rw [createTopology_of_allSucceed3D g sim hfem hok, connections_calls3D, ux hpx, uy hpy,
    uz hpz, List.append_nil, List.append_nil, List.append_nil,
    connected_face_iff g sim hnx hny hnz i j k f hi hj hk, boundary_face_iff g i j k f hi hj hk]
  have hf : f = 1 ∨ f = 2 ∨ f = 3 ∨ f = 4 ∨ f = 5 ∨ f = 6 := by omega
  rcases hf with rfl | rfl | rfl | rfl | rfl | rfl
  all_goals
    simp only [Nat.reduceEqDiff, OfNat.ofNat_ne_one, OfNat.one_ne_ofNat, false_and, true_and,
      or_false, false_or]
    omega

/-- A 2 x 1 x 1 grid: face 2 of patch 1 is connected (to face 1 of patch 2) and
is not in "Boundary", while face 1 of patch 1 is in "Boundary". -/
theorem boundary_iff_not_connected_witness :
    (1 ≤ (⟨2, 1, 1, 0, 0, 0, false⟩ : MultiPatchModelGenerator3D).nx ∧
     1 ≤ (⟨2, 1, 1, 0, 0, 0, false⟩ : MultiPatchModelGenerator3D).ny ∧
     1 ≤ (⟨2, 1, 1, 0, 0, 0, false⟩ : MultiPatchModelGenerator3D).nz ∧
     (⟨2, 1, 1, 0, 0, 0, false⟩ : MultiPatchModelGenerator3D).periodic_x = 0 ∧
     (⟨2, 1, 1, 0, 0, 0, false⟩ : MultiPatchModelGenerator3D).periodic_y = 0 ∧
     (⟨2, 1, 1, 0, 0, 0, false⟩ : MultiPatchModelGenerator3D).periodic_z = 0 ∧
     sampleSim.createFEMmodel = true ∧
     allSucceed (createTopology ⟨2, 1, 1, 0, 0, 0, false⟩ sampleSim).2 = true ∧
     1 ≤ 1 ∧ 1 ≤ 2 * 1 * 1 ∧ 1 ≤ 2 ∧ 2 ≤ 6) ∧
    connections (createTopology ⟨2, 1, 1, 0, 0, 0, false⟩ sampleSim).2 =
      [⟨1, 2, 2, 1, 0, 0, true, 2, 1⟩] ∧
    (⟨1, 2, 2⟩ : TopItem) ∉ (createTopologySets ⟨2, 1, 1, 0, 0, 0, false⟩ true id).items
      "Boundary" ∧
    (⟨1, 1, 2⟩ : TopItem) ∈ (createTopologySets ⟨2, 1, 1, 0, 0, 0, false⟩ true id).items
      "Boundary" :=
  ⟨⟨by decide, by decide, by decide, rfl, rfl, rfl, rfl, by decide, by decide, by decide,
     by decide, by decide⟩,
   by decide,
   fun h => (boundary_iff_not_connected ⟨2, 1, 1, 0, 0, 0, false⟩ sampleSim (by decide)
     (by decide) (by decide) rfl rfl rfl rfl (by decide) 1 2 (by decide) (by decide)
     (by decide) (by decide)).1 h ⟨⟨1, 2, 2, 1, 0, 0, true, 2, 1⟩, by decide, by decide⟩,
   by decide⟩

end MultiPatchModelGenerator3D

/-! ## Theorems: global node numbering of structured 3D patches -/

/-- A table in which every entry with key `k` has value `v`, and which has
such an entry, answers `v` for `k`. -/
theorem lookup_of_mem_unique (table : List (Nat × Nat)) (k v : Nat)
    (hm : (k, v) ∈ table) (hu : ∀ e ∈ table, e.1 = k → e.2 = v) :
    table.lookup k = some v := by
  induction table with
  | nil => simp at hm
  | cons e es ih =>
    obtain ⟨k', v'⟩ := e
    rw [List.lookup_cons]
    by_cases h : k = k'
    · subst h
      have := hu (k, v') (List.mem_cons_self _ _) rfl
      simp only at this
      simp [this]
    · have hne : (k == k') = false := by simpa using h
      simp only [hne]
      apply ih
      · rcases List.mem_cons.1 hm with h1 | h1
        · simp only [Prod.mk.injEq] at h1
          exact absurd h1.1 h
        · exact h1
      · intro e he
        exact hu e (List.mem_cons_of_mem _ he)

namespace ASMs3D

/-- One more node visited by `numberNodes`. -/
theorem numberNodes_succ (shared : List (Nat × Nat)) (n c : Nat) :
    numberNodes shared (n + 1) c =
      match shared.lookup n with
      | some g => ((numberNodes shared n c).1 ++ [g], (numberNodes shared n c).2)
      | none => ((numberNodes shared n c).1 ++ [(numberNodes shared n c).2],
          (numberNodes shared n c).2 + 1) := by
  simp only [numberNodes, List.range_succ, List.foldl_append, List.foldl_cons, List.foldl_nil]

/-- The list of numbers given by `numberNodes` has one entry per node. -/
theorem numberNodes_length (shared : List (Nat × Nat)) (n c : Nat) :
    (numberNodes shared n c).1.length = n := by
  induction n with
  | zero => rfl
  | succ n ih =>
    rw [numberNodes_succ]
    cases shared.lookup n <;> simp [ih]

/-- A shared node gets the number of the table. -/
theorem numberNodes_shared (shared : List (Nat × Nat)) (n c inod g : Nat) (hi : inod < n)
    (hg : shared.lookup inod = some g) :
    (numberNodes shared n c).1[inod]? = some g := by
  induction n with
  | zero => omega
  | succ n ih =>
    rw [numberNodes_succ]
    by_cases h : inod < n
    · have hl : inod < (numberNodes shared n c).1.length := by
        rw [numberNodes_length]; exact h
      cases shared.lookup n <;> simp only [List.getElem?_append_left hl] <;> exact ih h
    · have e : inod = n := by omega
      subst e
      have hl : (numberNodes shared inod c).1.length ≤ inod := by rw [numberNodes_length]
      rw [hg]
      simp only [List.getElem?_append_right hl, numberNodes_length, Nat.sub_self,
        List.getElem?_cons_zero]

/-- Without shared nodes the nodes are numbered consecutively from the counter. -/
theorem numberNodes_nil (n c : Nat) :
    numberNodes [] n c = ((List.range n).map (fun inod => c + inod), c + n) := by
  induction n with
  | zero => rfl
  | succ n ih =>
    rw [numberNodes_succ, ih]
    simp only [List.lookup_nil, List.range_succ, List.map_append, List.map_cons, List.map_nil]
    rfl

end ASMs3D

namespace ASMs3D

/-- The local index of a node inside the patch is below the number of nodes. -/
theorem node_lt (p : ASMs3D) (i j k : Nat) (hi : i < p.n1) (hj : j < p.n2) (hk : k < p.n3) :
    p.node i j k < p.n1 * p.n2 * p.n3 := by
  have h := flat_index_lt 1 p.n1 p.n2 p.n3 0 i j k (by omega) hi hj hk
  have e : 0 + 1 * i + 1 * p.n1 * j + 1 * p.n1 * p.n2 * k = i + p.n1 * (j + p.n2 * k) := by ring
  have e2 : 1 * p.n1 * p.n2 * p.n3 = p.n1 * p.n2 * p.n3 := by ring
  rw [e, e2] at h
  exact h

/-- The local index determines the node. -/
theorem node_inj (p : ASMs3D) (i j k i' j' k' : Nat) (hi : i < p.n1) (hi' : i' < p.n1)
    (hj : j < p.n2) (hj' : j' < p.n2) (h : p.node i j k = p.node i' j' k') :
    i = i' ∧ j = j' ∧ k = k' := by
  unfold node at h
  have h1 := mul_add_inj p.n1 (j + p.n2 * k) i (j' + p.n2 * k') i' hi hi'
    (by rw [Nat.mul_comm _ p.n1, Nat.mul_comm _ p.n1]; omega)
  have h2 := mul_add_inj p.n2 k j k' j' hj hj'
    (by rw [Nat.mul_comm _ p.n2, Nat.mul_comm _ p.n2]; omega)
  exact ⟨h1.2, h2.2, h2.1⟩

/-- A node of the layer next to a face lies inside the patch. -/
theorem faceNode_lt (p : ASMs3D) (face a b : Nat) (hf1 : 1 ≤ face) (hf2 : face ≤ 6)
    (hn : 1 ≤ p.normalSize face) (ha : a < (p.faceSize face).1)
    (hb : b < (p.faceSize face).2) :
    p.faceNode face 1 0 a b < p.n1 * p.n2 * p.n3 := by
  have hf : face = 1 ∨ face = 2 ∨ face = 3 ∨ face = 4 ∨ face = 5 ∨ face = 6 := by omega
  rcases hf with rfl | rfl | rfl | rfl | rfl | rfl <;>
    simp only [faceSize, normalSize, faceNode, Nat.reduceEqDiff, OfNat.ofNat_ne_one,
      OfNat.one_ne_ofNat, or_true, true_or, or_self, or_false, false_or, if_true, if_false]
      at ha hb hn ⊢ <;>
    apply node_lt <;> omega

/-- The nodes of the layer next to a face are told apart by their face
parameters. -/
theorem faceNode_inj (p : ASMs3D) (face a b a' b' : Nat) (hf1 : 1 ≤ face) (hf2 : face ≤ 6)
    (hn : 1 ≤ p.normalSize face) (ha : a < (p.faceSize face).1)
    (hb : b < (p.faceSize face).2) (ha' : a' < (p.faceSize face).1)
    (hb' : b' < (p.faceSize face).2)
    (h : p.faceNode face 1 0 a b = p.faceNode face 1 0 a' b') : a = a' ∧ b = b' := by
  have hf : face = 1 ∨ face = 2 ∨ face = 3 ∨ face = 4 ∨ face = 5 ∨ face = 6 := by omega
  rcases hf with rfl | rfl | rfl | rfl | rfl | rfl <;>
    simp only [faceSize, normalSize, faceNode, Nat.reduceEqDiff, OfNat.ofNat_ne_one,
      OfNat.one_ne_ofNat, or_true, true_or, or_self, or_false, false_or, if_true, if_false]
      at ha hb ha' hb' hn h
  · obtain ⟨_, r1, r2⟩ := node_inj p _ _ _ _ _ _ (by omega) (by omega) ha ha' h
    exact ⟨r1, r2⟩
  · obtain ⟨_, r1, r2⟩ := node_inj p _ _ _ _ _ _ (by omega) (by omega) ha ha' h
    exact ⟨r1, r2⟩
  · obtain ⟨r1, _, r2⟩ := node_inj p _ _ _ _ _ _ ha ha' (by omega) (by omega) h
    exact ⟨r1, r2⟩
  · obtain ⟨r1, _, r2⟩ := node_inj p _ _ _ _ _ _ ha ha' (by omega) (by omega) h
    exact ⟨r1, r2⟩
  · obtain ⟨r1, r2, _⟩ := node_inj p _ _ _ _ _ _ ha ha' hb hb' h
    exact ⟨r1, r2⟩
  · obtain ⟨r1, r2, _⟩ := node_inj p _ _ _ _ _ _ ha ha' hb hb' h
    exact ⟨r1, r2⟩

end ASMs3D

namespace ASMs3D

/-- A connection of two faces with matching numbers of nodes, orientation flag
0 and thickness 1 succeeds, and its table gives every node of the face of this
patch the number of the node of the neighbour with the same face parameters. -/
theorem connectPatch_table (this neighbor : ASMs3D) (face nface : Nat)
    (hf1 : 1 ≤ face) (hf2 : face ≤ 6) (hnf1 : 1 ≤ nface) (hnf2 : nface ≤ 6)
    (hsize : this.faceSize face = neighbor.faceSize nface)
    (hn1 : 1 ≤ this.normalSize face) (hn2 : 1 ≤ neighbor.normalSize nface) :
    (this.connectPatch face neighbor nface 0 1).1 = true ∧
    ∀ a b, a < (this.faceSize face).1 → b < (this.faceSize face).2 →
      (this.connectPatch face neighbor nface 0 1).2.lookup (this.faceNode face 1 0 a b) =
        some (neighbor.MLGN.getD (neighbor.faceNode nface 1 0 a b) 0) := by
  have h1 : ¬ (face < 1 ∨ 6 < face ∨ nface < 1 ∨ 6 < nface) := by omega
  have h2 : ¬ ((0 : Int) < 0 ∨ (7 : Int) < 0) := by decide
  have h3 : ¬ (min (this.normalSize face) (neighbor.normalSize nface) < 1) := by omega
  have h4 : ¬ (((this.faceSize face).1, (this.faceSize face).2) ≠
      ((neighbor.faceSize nface).1, (neighbor.faceSize nface).2)) := by
    rw [hsize]; simp
  have r1 : List.range 1 = [0] := rfl
  simp only [connectPatch, h1, h2, h3, if_false, Int.toNat_zero, Nat.zero_div, Nat.zero_mod,
    Nat.zero_ne_one, decide_False, Bool.false_eq_true, h4, r1, List.flatMap_cons,
    List.flatMap_nil, List.append_nil, true_and]
  intro a b ha hb
  apply lookup_of_mem_unique
  · simp only [List.mem_flatMap, List.mem_map, List.mem_range]
    exact ⟨b, hb, a, ha, rfl⟩
  · intro e he hk
    simp only [List.mem_flatMap, List.mem_map, List.mem_range] at he
    obtain ⟨b', hb', a', ha', rfl⟩ := he
    simp only at hk
    obtain ⟨ra, rb⟩ := faceNode_inj this face a' b' a b hf1 hf2 hn1 ha' hb' ha hb hk
    subst ra; subst rb
    rfl

end ASMs3D

namespace ASMs3D

/-- The numbers on a face of a patch numbered without shared nodes are
pairwise different: there are as many as the face has nodes. -/
theorem card_faceNumbers_nil (p : ASMs3D) (c face : Nat) (hf1 : 1 ≤ face) (hf2 : face ≤ 6)
    (hn : 1 ≤ p.normalSize face) :
    ((p.assignNodeNumbers [] c).1.faceNumbers face).card =
      (p.faceSize face).1 * (p.faceSize face).2 ∧
    ∀ g ∈ (p.assignNodeNumbers [] c).1.faceNumbers face,
      c ≤ g ∧ g < c + p.n1 * p.n2 * p.n3 := by
  have hval : ∀ a b, a < (p.faceSize face).1 → b < (p.faceSize face).2 →
      (p.assignNodeNumbers [] c).1.MLGN.getD ((p.assignNodeNumbers [] c).1.faceNode face 1 0 a b)
        0 = c + p.faceNode face 1 0 a b := by
    intro a b ha hb
    have hlt := faceNode_lt p face a b hf1 hf2 hn ha hb
    simp only [assignNodeNumbers, numberNodes_nil]
    have e : ({ p with MLGN := (List.range (p.n1 * p.n2 * p.n3)).map fun inod => c + inod } :
        ASMs3D).faceNode face 1 0 a b = p.faceNode face 1 0 a b := rfl
    rw [e, List.getD_eq_getElem?_getD, List.getElem?_map, List.getElem?_range hlt]
    rfl
  constructor
  · unfold faceNumbers
    have es : (p.assignNodeNumbers [] c).1.faceSize face = p.faceSize face := rfl
    rw [es, Finset.card_image_of_injOn, Finset.card_product, Finset.card_range,
      Finset.card_range]
    intro x hx y hy h
    simp only [Finset.coe_product, Finset.coe_range, Set.mem_prod, Set.mem_Iio] at hx hy
    simp only at h
    rw [hval x.1 x.2 hx.1 hx.2, hval y.1 y.2 hy.1 hy.2] at h
    obtain ⟨r1, r2⟩ := faceNode_inj p face x.1 x.2 y.1 y.2 hf1 hf2 hn hx.1 hx.2 hy.1 hy.2
      (by omega)
    exact Prod.ext r1 r2
  · intro g hg
    unfold faceNumbers at hg
    have es : (p.assignNodeNumbers [] c).1.faceSize face = p.faceSize face := rfl
    rw [es] at hg
    simp only [Finset.mem_image, Finset.mem_product, Finset.mem_range, Prod.exists] at hg
    obtain ⟨a, b, ⟨ha, hb⟩, rfl⟩ := hg
    rw [hval a b ha hb]
    have hlt := faceNode_lt p face a b hf1 hf2 hn ha hb
    omega

end ASMs3D

namespace ASMs3D

/-- Two patches that share a face, numbered one after the other by the global
node numbering, the first without shared nodes, the second through the
connection of its face `face` with face `nface` of the first (matching numbers
of nodes, orientation flag 0, thickness 1): the connection succeeds, the
numbers on the face of the second patch are those on the face of the first,
and the number of distinct global node numbers on the face, counted over both
patches, is the number of nodes of one side; numbered without the connection
the two sides have twice as many. -/
theorem shared_face_thickness_one (A B : ASMs3D) (c face nface : Nat)
    (hf1 : 1 ≤ face) (hf2 : face ≤ 6) (hnf1 : 1 ≤ nface) (hnf2 : nface ≤ 6)
    (hsize : B.faceSize face = A.faceSize nface)
    (hB : 1 ≤ B.normalSize face) (hA : 1 ≤ A.normalSize nface) :
    (B.connectPatch face (A.assignNodeNumbers [] c).1 nface 0 1).1 = true ∧
    (B.assignNodeNumbers (B.connectPatch face (A.assignNodeNumbers [] c).1 nface 0 1).2
        (A.assignNodeNumbers [] c).2).1.faceNumbers face =
      (A.assignNodeNumbers [] c).1.faceNumbers nface ∧
    ((A.assignNodeNumbers [] c).1.faceNumbers nface ∪
      (B.assignNodeNumbers (B.connectPatch face (A.assignNodeNumbers [] c).1 nface 0 1).2
        (A.assignNodeNumbers [] c).2).1.faceNumbers face).card =
      (A.faceSize nface).1 * (A.faceSize nface).2 ∧
    ((A.assignNodeNumbers [] c).1.faceNumbers nface ∪
      (B.assignNodeNumbers [] (A.assignNodeNumbers [] c).2).1.faceNumbers face).card =
      2 * ((A.faceSize nface).1 * (A.faceSize nface).2) := by
  obtain ⟨hc, htab⟩ := connectPatch_table B (A.assignNodeNumbers [] c).1 face nface hf1 hf2
    hnf1 hnf2 hsize hB hA
  have heq : (B.assignNodeNumbers
      (B.connectPatch face (A.assignNodeNumbers [] c).1 nface 0 1).2
        (A.assignNodeNumbers [] c).2).1.faceNumbers face =
      (A.assignNodeNumbers [] c).1.faceNumbers nface := by
    unfold faceNumbers
    have es : (B.assignNodeNumbers
        (B.connectPatch face (A.assignNodeNumbers [] c).1 nface 0 1).2
          (A.assignNodeNumbers [] c).2).1.faceSize face =
        (A.assignNodeNumbers [] c).1.faceSize nface := hsize
    rw [es]
    apply Finset.image_congr
    intro x hx
    have es2 : (A.assignNodeNumbers [] c).1.faceSize nface = B.faceSize face := hsize.symm
    rw [es2] at hx
    simp only [Finset.coe_product, Finset.coe_range, Set.mem_prod, Set.mem_Iio] at hx
    have hlt := faceNode_lt B face x.1 x.2 hf1 hf2 hB hx.1 hx.2
    have h := numberNodes_shared
      (B.connectPatch face (A.assignNodeNumbers [] c).1 nface 0 1).2
      (B.n1 * B.n2 * B.n3) (A.assignNodeNumbers [] c).2 _ _ hlt (htab x.1 x.2 hx.1 hx.2)
    simp only [assignNodeNumbers] at h ⊢
    rw [List.getD_eq_getElem?_getD]
    exact (congrArg (fun o => o.getD 0) h)
  have cA := card_faceNumbers_nil A c nface hnf1 hnf2 hA
  have cB := card_faceNumbers_nil B (A.assignNodeNumbers [] c).2 face hf1 hf2 hB
  refine ⟨hc, heq, ?_, ?_⟩
  · rw [heq, Finset.union_self, cA.1]
  · rw [Finset.card_union_of_disjoint, cA.1, cB.1, hsize]
    · ring
    · rw [Finset.disjoint_left]
      intro g h1 h2
      have b1 := cA.2 g h1
      have b2 := cB.2 g h2
      have e : (A.assignNodeNumbers [] c).2 = c + A.n1 * A.n2 * A.n3 := by
        simp only [assignNodeNumbers, numberNodes_nil]
      omega

end ASMs3D

namespace ASMs3D

/-- C26: connecting two 3D patches fails whenever the orientation flag is
outside `[0,7]` or the thickness exceeds the node count normal to the
interface of the smaller patch: `connectPatch` returns `false` with an empty
table of shared nodes, so that every node of the patch numbered with this
table takes a new number from the counter and none is read from the
neighbour. -/
theorem connectPatch_invalid (this neighbor : ASMs3D) (face nface : Nat) (norient : Int)
    (thick : Nat)
    (h : norient < 0 ∨ 7 < norient ∨
      min (this.normalSize face) (neighbor.normalSize nface) < thick) :
    this.connectPatch face neighbor nface norient thick = (false, []) ∧
    ∀ counter,
      (this.assignNodeNumbers (this.connectPatch face neighbor nface norient thick).2
        counter).1.MLGN =
        (List.range (this.n1 * this.n2 * this.n3)).map (fun inod => counter + inod) := by
  have hc : this.connectPatch face neighbor nface norient thick = (false, []) := by
    unfold connectPatch
    by_cases h1 : face < 1 ∨ 6 < face ∨ nface < 1 ∨ 6 < nface
    · rw [if_pos h1]
    · rw [if_neg h1]
      by_cases h2 : norient < 0 ∨ 7 < norient
      · rw [if_pos h2]
      · rw [if_neg h2]
        have h3 : min (this.normalSize face) (neighbor.normalSize nface) < thick := by
          rcases h with h | h | h
          · exact absurd (Or.inl h) h2
          · exact absurd (Or.inr h) h2
          · exact h
        rw [if_pos h3]
  refine ⟨hc, fun counter => ?_⟩
  rw [hc]
  simp only [assignNodeNumbers, numberNodes_nil]

/-- The orientation flag 8 and, for patches with 2 and 3 nodes normal to the
interface, the thickness 3 are refused. -/
theorem connectPatch_invalid_witness :
    (((8 : Int) < 0 ∨ (7 : Int) < 8 ∨
      min ((⟨2, 2, 2, 2, 2, 2, []⟩ : ASMs3D).normalSize 1)
        ((⟨3, 2, 2, 2, 2, 2, [1, 2, 3, 4, 5, 6, 7, 8, 9, 10, 11, 12]⟩ : ASMs3D).normalSize 2) <
          1) ∧
     connectPatch ⟨2, 2, 2, 2, 2, 2, []⟩ 1
       ⟨3, 2, 2, 2, 2, 2, [1, 2, 3, 4, 5, 6, 7, 8, 9, 10, 11, 12]⟩ 2 8 1 = (false, [])) ∧
    connectPatch ⟨2, 2, 2, 2, 2, 2, []⟩ 1
      ⟨3, 2, 2, 2, 2, 2, [1, 2, 3, 4, 5, 6, 7, 8, 9, 10, 11, 12]⟩ 2 0 3 = (false, []) ∧
    (connectPatch ⟨2, 2, 2, 2, 2, 2, []⟩ 1
      ⟨3, 2, 2, 2, 2, 2, [1, 2, 3, 4, 5, 6, 7, 8, 9, 10, 11, 12]⟩ 2 0 2).1 = true :=
  ⟨⟨by decide,
    (connectPatch_invalid ⟨2, 2, 2, 2, 2, 2, []⟩
      ⟨3, 2, 2, 2, 2, 2, [1, 2, 3, 4, 5, 6, 7, 8, 9, 10, 11, 12]⟩ 1 2 8 1 (by decide)).1⟩,
   by decide, by decide⟩

end ASMs3D

/-! ## Theorems: thread groups of a structured 3D patch -/

/-- Two numbers with the same remainder modulo `p` that differ by less than
`p` are equal. -/
theorem eq_of_mod_eq_of_add_eq (p e e' a a' : Nat) (ha : a < p) (ha' : a' < p)
    (hm : e % p = e' % p) (h : e + a = e' + a') : e = e' := by
  have h1 := Nat.div_add_mod e p
  have h2 := Nat.div_add_mod e' p
  have hr : e % p < p := Nat.mod_lt _ (by omega)
  have key : e / p = e' / p := by
    by_contra hne
    rcases Nat.lt_or_gt_of_ne hne with hlt | hlt
    · have : p * (e / p + 1) ≤ p * (e' / p) := Nat.mul_le_mul_left _ hlt
      rw [Nat.mul_add, Nat.mul_one] at this
      omega
    · have : p * (e' / p + 1) ≤ p * (e / p) := Nat.mul_le_mul_left _ hlt
      rw [Nat.mul_add, Nat.mul_one] at this
      omega
  rw [← h1, ← h2, key, hm]

namespace ASMs3D

/-- The lattice position of an element of the patch lies inside the lattice
and determines the element. -/
theorem elementIJK_spec (p : ASMs3D) (iel : Nat) (h : iel < p.nElements) :
    (p.elementIJK iel).1 < p.nel.1 ∧ (p.elementIJK iel).2.1 < p.nel.2.1 ∧
    (p.elementIJK iel).2.2 < p.nel.2.2 ∧
    iel = (p.elementIJK iel).1 +
      p.nel.1 * ((p.elementIJK iel).2.1 + p.nel.2.1 * (p.elementIJK iel).2.2) := by
  have h1 : 0 < p.nel.1 := by simp [nel]
  have h2 : 0 < p.nel.2.1 := by simp [nel]
  simp only [elementIJK]
  refine ⟨Nat.mod_lt _ h1, Nat.mod_lt _ h2, ?_, ?_⟩
  · rw [Nat.div_div_eq_div_mul]
    exact Nat.div_lt_of_lt_mul h
  · have e1 := Nat.mod_add_div iel p.nel.1
    have e2 := Nat.mod_add_div (iel / p.nel.1) p.nel.2.1
    rw [e2, e1]

/-- The groups of the components of the lattice position are read off the
group of the element. -/
theorem threadGroup_inj (p : ASMs3D) (hp1 : 1 ≤ p.p1) (hp2 : 1 ≤ p.p2) (iel iel' : Nat)
    (h : p.threadGroup iel = p.threadGroup iel') :
    (p.elementIJK iel).1 % p.p1 = (p.elementIJK iel').1 % p.p1 ∧
    (p.elementIJK iel).2.1 % p.p2 = (p.elementIJK iel').2.1 % p.p2 ∧
    (p.elementIJK iel).2.2 % p.p3 = (p.elementIJK iel').2.2 % p.p3 := by
  unfold threadGroup at h
  have a1 := mul_add_inj p.p1
    ((p.elementIJK iel).2.1 % p.p2 + p.p2 * ((p.elementIJK iel).2.2 % p.p3))
    ((p.elementIJK iel).1 % p.p1)
    ((p.elementIJK iel').2.1 % p.p2 + p.p2 * ((p.elementIJK iel').2.2 % p.p3))
    ((p.elementIJK iel').1 % p.p1)
    (Nat.mod_lt _ hp1) (Nat.mod_lt _ hp1) (by linarith)
  have a2 := mul_add_inj p.p2 ((p.elementIJK iel).2.2 % p.p3) ((p.elementIJK iel).2.1 % p.p2)
    ((p.elementIJK iel').2.2 % p.p3) ((p.elementIJK iel').2.1 % p.p2)
    (Nat.mod_lt _ hp2) (Nat.mod_lt _ hp2) (by linarith [a1.1])
  exact ⟨a1.2, a2.2, a2.1⟩

end ASMs3D

namespace ASMs3D

/-- The group of an element is one of the `p1*p2*p3` groups. -/
theorem threadGroup_lt (p : ASMs3D) (hp1 : 1 ≤ p.p1) (hp2 : 1 ≤ p.p2) (hp3 : 1 ≤ p.p3)
    (iel : Nat) : p.threadGroup iel < p.p1 * p.p2 * p.p3 := by
  have h := flat_index_lt 1 p.p1 p.p2 p.p3 0 ((p.elementIJK iel).1 % p.p1)
    ((p.elementIJK iel).2.1 % p.p2) ((p.elementIJK iel).2.2 % p.p3) (by omega)
    (Nat.mod_lt _ hp1) (Nat.mod_lt _ hp2) (Nat.mod_lt _ hp3)
  unfold threadGroup
  calc (p.elementIJK iel).1 % p.p1 +
        p.p1 * ((p.elementIJK iel).2.1 % p.p2 + p.p2 * ((p.elementIJK iel).2.2 % p.p3))
      = 0 + 1 * ((p.elementIJK iel).1 % p.p1) + 1 * p.p1 * ((p.elementIJK iel).2.1 % p.p2) +
        1 * p.p1 * p.p2 * ((p.elementIJK iel).2.2 % p.p3) := by ring
    _ < 1 * p.p1 * p.p2 * p.p3 := h
    _ = p.p1 * p.p2 * p.p3 := by ring

/-- Membership in a thread group. -/
theorem mem_generateThreadGroups (p : ASMs3D) (grp : List Nat) :
    grp ∈ p.generateThreadGroups ↔
      ∃ gi, gi < p.p1 * p.p2 * p.p3 ∧
        grp = (List.range p.nElements).filter fun iel => p.threadGroup iel = gi := by
  simp only [generateThreadGroups, List.mem_map, List.mem_range]
  constructor
  · rintro ⟨gi, h, rfl⟩
    exact ⟨gi, h, rfl⟩
  · rintro ⟨gi, h, rfl⟩
    exact ⟨gi, h, rfl⟩

/-- Two elements of the same thread group that have a node in common are the
same element. -/
theorem eq_of_common_node (p : ASMs3D) (h1 : 1 ≤ p.p1 ∧ p.p1 ≤ p.n1)
    (h2 : 1 ≤ p.p2 ∧ p.p2 ≤ p.n2) (e e' x : Nat)
    (he : e < p.nElements) (he' : e' < p.nElements)
    (hg : p.threadGroup e = p.threadGroup e')
    (hx : x ∈ p.elementNodes e) (hx' : x ∈ p.elementNodes e') : e = e' := by
  obtain ⟨m1, m2, m3⟩ := threadGroup_inj p h1.1 h2.1 e e' hg
  obtain ⟨b1, b2, _, r⟩ := elementIJK_spec p e he
  obtain ⟨b1', b2', _, r'⟩ := elementIJK_spec p e' he'
  simp only [elementNodes, Finset.mem_image, Finset.mem_product, Finset.mem_range,
    Prod.exists] at hx hx'
  obtain ⟨a, b, c, ⟨ha, hb, hc⟩, rfl⟩ := hx
  obtain ⟨a', b', c', ⟨ha', hb', hc'⟩, hn⟩ := hx'
  simp only [nel] at b1 b2 b1' b2'
  obtain ⟨q1, q2, q3⟩ := node_inj p _ _ _ _ _ _ (by omega) (by omega) (by omega) (by omega) hn
  have s1 := eq_of_mod_eq_of_add_eq p.p1 _ _ _ _ ha' ha m1.symm q1
  have s2 := eq_of_mod_eq_of_add_eq p.p2 _ _ _ _ hb' hb m2.symm q2
  have s3 := eq_of_mod_eq_of_add_eq p.p3 _ _ _ _ hc' hc m3.symm q3
  rw [r, r', s1, s2, s3]

/-- C25: for a patch with orders `1 ≤ p ≤ n` in each direction, the element
groups produced by `generateThreadGroups` form a partition of the element
index set (every element is in exactly one group, once, and the groups hold
elements of the patch only) and no two distinct elements of a group share a
node. -/
theorem generateThreadGroups_partition (p : ASMs3D) (h1 : 1 ≤ p.p1 ∧ p.p1 ≤ p.n1)
    (h2 : 1 ≤ p.p2 ∧ p.p2 ≤ p.n2) (h3 : 1 ≤ p.p3 ∧ p.p3 ≤ p.n3) :
    (∀ iel, iel < p.nElements →
      ∃! gi : Nat, ∃ grp : List Nat, p.generateThreadGroups[gi]? = some grp ∧ iel ∈ grp) ∧
    (∀ grp ∈ p.generateThreadGroups, grp.Nodup ∧ ∀ iel ∈ grp, iel < p.nElements) ∧
    (∀ grp ∈ p.generateThreadGroups, ∀ e ∈ grp, ∀ e' ∈ grp, e ≠ e' →
      Disjoint (p.elementNodes e) (p.elementNodes e')) := by
  have hget : ∀ gi grp, p.generateThreadGroups[gi]? = some grp ↔
      gi < p.p1 * p.p2 * p.p3 ∧
        grp = (List.range p.nElements).filter fun iel => p.threadGroup iel = gi := by
    intro gi grp
    unfold generateThreadGroups
    by_cases hgi : gi < p.p1 * p.p2 * p.p3
    · simp only [List.getElem?_map, List.getElem?_range hgi, Option.map_some', Option.some.injEq,
        hgi, true_and]
      exact eq_comm
    · have : (List.map (fun grp => List.filter (fun iel => decide (p.threadGroup iel = grp))
          (List.range p.nElements)) (List.range (p.p1 * p.p2 * p.p3)))[gi]? = none := by
        rw [List.getElem?_eq_none]
        simp only [List.length_map, List.length_range]
        omega
      rw [this]
      simp [hgi]
  refine ⟨?_, ?_, ?_⟩
  · intro iel hiel
    refine ⟨p.threadGroup iel, ⟨_, (hget _ _).2 ⟨threadGroup_lt p h1.1 h2.1 h3.1 iel, rfl⟩, ?_⟩,
      ?_⟩
    · simp only [List.mem_filter, List.mem_range, decide_eq_true_eq, and_true]
      exact hiel
    · rintro gi ⟨grp, hg, hm⟩
      obtain ⟨_, rfl⟩ := (hget gi grp).1 hg
      simp only [List.mem_filter, List.mem_range, decide_eq_true_eq] at hm
      exact hm.2.symm
  · intro grp hgrp
    obtain ⟨gi, _, rfl⟩ := (mem_generateThreadGroups p grp).1 hgrp
    refine ⟨List.Nodup.filter _ (List.nodup_range _), ?_⟩
    intro iel hm
    simp only [List.mem_filter, List.mem_range] at hm
    exact hm.1
  · intro grp hgrp e he e' he' hne
    obtain ⟨gi, _, rfl⟩ := (mem_generateThreadGroups p grp).1 hgrp
    simp only [List.mem_filter, List.mem_range, decide_eq_true_eq] at he he'
    rw [Finset.disjoint_left]
    intro x hx hx'
    exact hne (eq_of_common_node p h1 h2 e e' x he.1 he'.1 (he.2.trans he'.2.symm) hx hx')

/-- A patch of 4 x 3 x 2 nodes of order 2 in each direction (3 x 2 x 1
elements): the elements 0 and 2 form the first group and have no node in
common. -/
theorem generateThreadGroups_partition_witness :
    ((1 ≤ (⟨4, 3, 2, 2, 2, 2, []⟩ : ASMs3D).p1 ∧
        (⟨4, 3, 2, 2, 2, 2, []⟩ : ASMs3D).p1 ≤ (⟨4, 3, 2, 2, 2, 2, []⟩ : ASMs3D).n1) ∧
     (1 ≤ (⟨4, 3, 2, 2, 2, 2, []⟩ : ASMs3D).p2 ∧
        (⟨4, 3, 2, 2, 2, 2, []⟩ : ASMs3D).p2 ≤ (⟨4, 3, 2, 2, 2, 2, []⟩ : ASMs3D).n2) ∧
     (1 ≤ (⟨4, 3, 2, 2, 2, 2, []⟩ : ASMs3D).p3 ∧
        (⟨4, 3, 2, 2, 2, 2, []⟩ : ASMs3D).p3 ≤ (⟨4, 3, 2, 2, 2, 2, []⟩ : ASMs3D).n3)) ∧
    generateThreadGroups ⟨4, 3, 2, 2, 2, 2, []⟩ = [[0, 2], [1], [3, 5], [4], [], [], [], []] ∧
    Disjoint (elementNodes ⟨4, 3, 2, 2, 2, 2, []⟩ 0) (elementNodes ⟨4, 3, 2, 2, 2, 2, []⟩ 2) :=
  ⟨⟨by decide, by decide, by decide⟩, by decide,
   (generateThreadGroups_partition ⟨4, 3, 2, 2, 2, 2, []⟩ (by decide) (by decide)
     (by decide)).2.2 [0, 2] (by decide) 0 (by decide) 2 (by decide) (by decide)⟩

end ASMs3D

/-! ## Theorems: a single block is the whole patch -/

/-- Two nested loops that enumerate `r + b*q` run through `0 .. b*m - 1` in
order. -/
theorem flatMap_range_map {β : Type} (b m : Nat) (f : Nat → β) :
    ((List.range m).flatMap fun q => (List.range b).map fun r => f (r + b * q)) =
      (List.range (b * m)).map f := by
  induction m with
  | zero => simp
  | succ m ih =>
    rw [List.range_succ, List.flatMap_append, ih, Nat.mul_succ, List.range_add, List.map_append]
    simp only [List.flatMap_cons, List.flatMap_nil, List.append_nil, List.map_map]
    congr 1
    apply List.map_congr_left
    intro r _
    simp only [Function.comp_apply, Nat.add_comm]

/-- Reading every position of a list in order yields the list. -/
theorem map_getElem?_range {β : Type} (l : List β) (n : Nat) (h : l.length = n) :
    ((List.range n).map fun i => l[i]?) = l.map some := by
  have := window_eq_drop_take l 0 n (by omega)
  simp only [Nat.zero_add, List.drop_zero] at this
  rw [this, ← h, List.take_length]

/-- With one block the block has all the elements and starts at offset 0. -/
theorem single_block (E p : Nat) : i0 E 1 0 = 0 ∧ ni E 1 0 = E ∧ di E 1 p 0 = E + p := by
  simp [i0, ni, di, Nat.mod_one]

namespace MultiPatchModelGenerator2D

/-- The positions read by the 2D `getSubPatch` for the full window are all
positions of the source array, in order. -/
theorem subIndices_full (d I J : Nat) : subIndices d I 0 I 0 J = List.range (d * I * J) := by
  unfold subIndices
  have inner : ∀ jj, ((List.range I).flatMap fun ii => (List.range d).map fun k =>
      k + d * (0 + ii) + d * I * (0 + jj)) =
      (List.range (d * I)).map fun t => t + d * I * jj := by
    intro jj
    rw [← flatMap_range_map d I (fun t => t + d * I * jj)]
    simp only [Nat.zero_add]
  simp only [inner]
  have outer := flatMap_range_map (d * I) J (fun t => t)
  simp only [List.map_id'] at outer
  exact outer

end MultiPatchModelGenerator2D

namespace MultiPatchModelGenerator3D

/-- The positions read by the 3D `getSubPatch` for the full window are all
positions of the source array, in order. -/
theorem subIndices_full3D (N I J K : Nat) :
    subIndices N I J 0 I 0 J 0 K = List.range (N * I * J * K) := by
  unfold subIndices
  have inner : ∀ jj kk, ((List.range I).flatMap fun ii => (List.range N).map fun n =>
      n + N * (0 + ii) + N * I * (0 + jj) + N * I * J * (0 + kk)) =
      (List.range (N * I)).map fun t => t + N * I * jj + N * I * J * kk := by
    intro jj kk
    rw [← flatMap_range_map N I (fun t => t + N * I * jj + N * I * J * kk)]
    simp only [Nat.zero_add]
  have mid : ∀ kk, ((List.range J).flatMap fun jj => (List.range (N * I)).map fun t =>
      t + N * I * jj + N * I * J * kk) =
      (List.range (N * I * J)).map fun t => t + N * I * J * kk := by
    intro kk
    rw [← flatMap_range_map (N * I) J (fun t => t + N * I * J * kk)]
  simp only [inner, mid]
  have outer := flatMap_range_map (N * I * J) K (fun t => t)
  simp only [List.map_id'] at outer
  exact outer

end MultiPatchModelGenerator3D

/-- C31: post-split subdivision into a single block is the identity: with one
block in every direction the block of the 1D, 2D and 3D generator has start
offset 0 and as many coefficients as the source in every direction (in 1D the
order, dimension and rational flag of the source too), and the coefficient
list built by
`getSubPatch` (2D and 3D) is the source coefficient list, entry for entry and
in the same order. -/
theorem single_block_identity {α : Type} (g1 : MultiPatchModelGenerator1D)
    (g2 : MultiPatchModelGenerator2D) (g3 : MultiPatchModelGenerator3D)
    (cur : SplineCurve α) (srf : SplineSurface α) (vol : SplineVolume α)
    (h1 : g1.nx = 1) (h2 : g2.nx = 1 ∧ g2.ny = 1) (h3 : g3.nx = 1 ∧ g3.ny = 1 ∧ g3.nz = 1)
    (hc : cur.order - 1 ≤ cur.numCoefs)
    (hs : srf.order_u - 1 ≤ srf.numCoefs_u ∧ srf.order_v - 1 ≤ srf.numCoefs_v)
    (hv : vol.order0 - 1 ≤ vol.numCoefs0 ∧ vol.order1 - 1 ≤ vol.numCoefs1 ∧
      vol.order2 - 1 ≤ vol.numCoefs2)
    (hsl : (if srf.rational then srf.rcoefs else srf.coefs).length =
      (srf.dimension + (if srf.rational then 1 else 0)) * srf.numCoefs_u * srf.numCoefs_v)
    (hvl : (if vol.rational then vol.rcoefs else vol.coefs).length =
      (vol.dimension + (if vol.rational then 1 else 0)) * vol.numCoefs0 * vol.numCoefs1 *
        vol.numCoefs2) :
    (MultiPatchModelGenerator1D.createGeometry g1 cur =
        [MultiPatchModelGenerator1D.getSubPatch cur 0 cur.numCoefs (cur.order - 1 + 1)] ∧
      (∀ b ∈ MultiPatchModelGenerator1D.createGeometry g1 cur,
        b.knotStart = 0 ∧ b.coefStart = 0 ∧ b.numcoefsu = cur.numCoefs ∧
        b.orderu = cur.order - 1 + 1 ∧ b.dimension = cur.dimension ∧
        b.rational = cur.rational)) ∧
    (MultiPatchModelGenerator2D.createGeometry g2 srf =
        [MultiPatchModelGenerator2D.block g2 srf 0 0] ∧
      (MultiPatchModelGenerator2D.block g2 srf 0 0).knotStartu = 0 ∧
      (MultiPatchModelGenerator2D.block g2 srf 0 0).knotStartv = 0 ∧
      (MultiPatchModelGenerator2D.block g2 srf 0 0).numcoefsu = srf.numCoefs_u ∧
      (MultiPatchModelGenerator2D.block g2 srf 0 0).numcoefsv = srf.numCoefs_v ∧
      (MultiPatchModelGenerator2D.block g2 srf 0 0).subcoefs =
        (if srf.rational then srf.rcoefs else srf.coefs).map some) ∧
    (MultiPatchModelGenerator3D.createGeometry g3 vol =
        [MultiPatchModelGenerator3D.block g3 vol 0 0 0] ∧
      (MultiPatchModelGenerator3D.block g3 vol 0 0 0).knotStartu = 0 ∧
      (MultiPatchModelGenerator3D.block g3 vol 0 0 0).knotStartv = 0 ∧
      (MultiPatchModelGenerator3D.block g3 vol 0 0 0).knotStartw = 0 ∧
      (MultiPatchModelGenerator3D.block g3 vol 0 0 0).numcoefsu = vol.numCoefs0 ∧
      (MultiPatchModelGenerator3D.block g3 vol 0 0 0).numcoefsv = vol.numCoefs1 ∧
      (MultiPatchModelGenerator3D.block g3 vol 0 0 0).numcoefsw = vol.numCoefs2 ∧
      (MultiPatchModelGenerator3D.block g3 vol 0 0 0).subcoefs =
        (if vol.rational then vol.rcoefs else vol.coefs).map some) := by
  have r1 : List.range 1 = [0] := rfl
  have e1 : MultiPatchModelGenerator1D.createGeometry g1 cur =
      [MultiPatchModelGenerator1D.getSubPatch cur 0 cur.numCoefs (cur.order - 1 + 1)] := by
    have e : cur.numCoefs - (cur.order - 1) + (cur.order - 1) = cur.numCoefs := by omega
    simp only [MultiPatchModelGenerator1D.createGeometry, h1, r1, List.map_cons, List.map_nil,
      (single_block _ 0).1, (single_block _ _).2.2, e]
  refine ⟨⟨e1, ?_⟩, ⟨?_, ?_, ?_, ?_, ?_, ?_⟩, ⟨?_, ?_, ?_, ?_, ?_, ?_, ?_, ?_⟩⟩
  · intro b hb
    rw [e1, List.mem_singleton] at hb
    subst hb
    exact ⟨rfl, Nat.mul_zero _, rfl, rfl, rfl, rfl⟩
  · simp only [MultiPatchModelGenerator2D.createGeometry, h2.1, h2.2, r1, List.map_cons,
      List.map_nil, List.flatMap_cons, List.flatMap_nil, List.append_nil]
  · simp only [MultiPatchModelGenerator2D.block, MultiPatchModelGenerator2D.getSubPatch, h2.1,
      (single_block _ 0).1]
  · simp only [MultiPatchModelGenerator2D.block, MultiPatchModelGenerator2D.getSubPatch, h2.2,
      (single_block _ 0).1]
  · simp only [MultiPatchModelGenerator2D.block, MultiPatchModelGenerator2D.getSubPatch, h2.1,
      (single_block _ _).2.2]
    omega
  · simp only [MultiPatchModelGenerator2D.block, MultiPatchModelGenerator2D.getSubPatch, h2.2,
      (single_block _ _).2.2]
    omega
  · have eu : srf.numCoefs_u - (srf.order_u - 1) + (srf.order_u - 1) = srf.numCoefs_u := by
      omega
    have ev : srf.numCoefs_v - (srf.order_v - 1) + (srf.order_v - 1) = srf.numCoefs_v := by
      omega
    simp only [MultiPatchModelGenerator2D.block, MultiPatchModelGenerator2D.getSubPatch, h2.1,
      h2.2, (single_block _ _).2.2, (single_block _ 0).1, eu, ev,
      MultiPatchModelGenerator2D.subIndices_full]
    exact map_getElem?_range _ _ hsl
  · simp only [MultiPatchModelGenerator3D.createGeometry, h3.1, h3.2.1, h3.2.2, r1,
      List.map_cons, List.map_nil, List.flatMap_cons, List.flatMap_nil, List.append_nil]
  · simp only [MultiPatchModelGenerator3D.block, MultiPatchModelGenerator3D.getSubPatch, h3.1,
      (single_block _ 0).1]
  · simp only [MultiPatchModelGenerator3D.block, MultiPatchModelGenerator3D.getSubPatch, h3.2.1,
      (single_block _ 0).1]
  · simp only [MultiPatchModelGenerator3D.block, MultiPatchModelGenerator3D.getSubPatch, h3.2.2,
      (single_block _ 0).1]
  · simp only [MultiPatchModelGenerator3D.block, MultiPatchModelGenerator3D.getSubPatch, h3.1,
      (single_block _ _).2.2]
    omega
  · simp only [MultiPatchModelGenerator3D.block, MultiPatchModelGenerator3D.getSubPatch, h3.2.1,
      (single_block _ _).2.2]
    omega
  · simp only [MultiPatchModelGenerator3D.block, MultiPatchModelGenerator3D.getSubPatch, h3.2.2,
      (single_block _ _).2.2]
    omega
  · have eu : vol.numCoefs0 - (vol.order0 - 1) + (vol.order0 - 1) = vol.numCoefs0 := by omega
    have ev : vol.numCoefs1 - (vol.order1 - 1) + (vol.order1 - 1) = vol.numCoefs1 := by omega
    have ew : vol.numCoefs2 - (vol.order2 - 1) + (vol.order2 - 1) = vol.numCoefs2 := by omega
    simp only [MultiPatchModelGenerator3D.block, MultiPatchModelGenerator3D.getSubPatch, h3.1,
      h3.2.1, h3.2.2, (single_block _ _).2.2, (single_block _ 0).1, eu, ev, ew,
      MultiPatchModelGenerator3D.subIndices_full3D]
    exact map_getElem?_range _ _ hvl

/-- The sample curve, surface and volume as single blocks: the one sub-volume
has the 36 coefficients of the sample volume. -/
theorem single_block_identity_witness :
    ((⟨1, 0, true⟩ : MultiPatchModelGenerator1D).nx = 1 ∧
     ((⟨1, 1, 0, 0, true⟩ : MultiPatchModelGenerator2D).nx = 1 ∧
      (⟨1, 1, 0, 0, true⟩ : MultiPatchModelGenerator2D).ny = 1) ∧
     ((⟨1, 1, 1, 0, 0, 0, true⟩ : MultiPatchModelGenerator3D).nx = 1 ∧
      (⟨1, 1, 1, 0, 0, 0, true⟩ : MultiPatchModelGenerator3D).ny = 1 ∧
      (⟨1, 1, 1, 0, 0, 0, true⟩ : MultiPatchModelGenerator3D).nz = 1) ∧
     sampleCurve.order - 1 ≤ sampleCurve.numCoefs ∧
     (sampleSurface.order_u - 1 ≤ sampleSurface.numCoefs_u ∧
      sampleSurface.order_v - 1 ≤ sampleSurface.numCoefs_v) ∧
     (sampleVolume.order0 - 1 ≤ sampleVolume.numCoefs0 ∧
      sampleVolume.order1 - 1 ≤ sampleVolume.numCoefs1 ∧
      sampleVolume.order2 - 1 ≤ sampleVolume.numCoefs2) ∧
     (if sampleSurface.rational then sampleSurface.rcoefs else sampleSurface.coefs).length =
       (sampleSurface.dimension + (if sampleSurface.rational then 1 else 0)) *
         sampleSurface.numCoefs_u * sampleSurface.numCoefs_v ∧
     (if sampleVolume.rational then sampleVolume.rcoefs else sampleVolume.coefs).length =
       (sampleVolume.dimension + (if sampleVolume.rational then 1 else 0)) *
         sampleVolume.numCoefs0 * sampleVolume.numCoefs1 * sampleVolume.numCoefs2) ∧
    (MultiPatchModelGenerator3D.block ⟨1, 1, 1, 0, 0, 0, true⟩ sampleVolume 0 0 0).subcoefs =
      (if sampleVolume.rational then sampleVolume.rcoefs else sampleVolume.coefs).map some ∧
    MultiPatchModelGenerator1D.createGeometry ⟨1, 0, true⟩ sampleCurve =
      [⟨2, 2, 0, 0, 1, false⟩] :=
  ⟨⟨rfl, ⟨rfl, rfl⟩, ⟨rfl, rfl, rfl⟩, by decide, ⟨by decide, by decide⟩,
     ⟨by decide, by decide, by decide⟩, by decide, by decide⟩,
   (single_block_identity ⟨1, 0, true⟩ ⟨1, 1, 0, 0, true⟩ ⟨1, 1, 1, 0, 0, 0, true⟩ sampleCurve
     sampleSurface sampleVolume rfl ⟨rfl, rfl⟩ ⟨rfl, rfl, rfl⟩ (by decide)
     ⟨by decide, by decide⟩ ⟨by decide, by decide, by decide⟩ (by decide)
     (by decide)).2.2.2.2.2.2.2.2.2,
   (single_block_identity ⟨1, 0, true⟩ ⟨1, 1, 0, 0, true⟩ ⟨1, 1, 1, 0, 0, 0, true⟩ sampleCurve
     sampleSurface sampleVolume rfl ⟨rfl, rfl⟩ ⟨rfl, rfl, rfl⟩ (by decide)
     ⟨by decide, by decide⟩ ⟨by decide, by decide, by decide⟩ (by decide)
     (by decide)).1.1.trans (by decide)⟩

/-! ## Theorems: blocks without elements -/

/-- C32: for `E` elements split into `n ≥ 1` blocks, every block has at least
one element (so that its `numcoefs = elements + p` is at least its order
`p+1`) if and only if `n ≤ E`; for `n > E` exactly the blocks with index
`≥ E` have no element, and they are extracted with `numcoefs = order - 1`. -/
theorem blocks_nonempty_iff (E n p : Nat) (hn : 1 ≤ n) :
    ((∀ i, i < n → 1 ≤ ni E n i) ↔ n ≤ E) ∧
    (∀ i, 1 ≤ ni E n i ↔ p + 1 ≤ di E n p i) ∧
    (E < n → ∀ i, i < n →
      (ni E n i = 0 ↔ E ≤ i) ∧ (E ≤ i → di E n p i = p + 1 - 1)) := by
  have hsmall : E < n → ∀ i, ni E n i = if i < E then 1 else 0 := by
    intro h i
    simp only [ni, Nat.div_eq_of_lt h, Nat.mod_eq_of_lt h, Nat.zero_add]
  refine ⟨⟨?_, ?_⟩, ?_, ?_⟩
  · intro h
    by_contra hlt
    have hE : E < n := by omega
    have := h E hE
    rw [hsmall hE] at this
    simp at this
  · intro h i _
    have : 1 ≤ E / n := (Nat.one_le_div_iff (by omega)).2 h
    unfold ni
    omega
  · intro i
    unfold di
    omega
  · intro h i _
    have e := hsmall h i
    unfold di
    by_cases hi : i < E
    · rw [if_pos hi] at e
      omega
    · rw [if_neg hi] at e
      omega

/-- One element split into three blocks: the blocks 1 and 2 have no element,
and with `p = 1` they get one coefficient for order 2. -/
theorem blocks_nonempty_iff_witness :
    (1 ≤ 3 ∧ 1 < 3 ∧ 1 ≤ 1) ∧ ni 1 3 0 = 1 ∧ ni 1 3 1 = 0 ∧ ni 1 3 2 = 0 ∧ di 1 3 1 2 = 1 :=
  ⟨⟨by decide, by decide, by decide⟩, by decide,
   ((blocks_nonempty_iff 1 3 1 (by decide)).2.2 (by decide) 1 (by decide)).1.2 (by decide),
   by decide, by decide⟩

/-! ## Theorems: the order in which the geometry is written -/

namespace MultiPatchModelGenerator3D

/-- C33: in both modes of the 3D generator the `m`-th patch written to the
geometry stream (`m` counted from 1, up to `nx*ny*nz`, so `nx, ny, nz ≥ 1`) is
the block of `createGeometry` (post-split) or the cell of `createG2`
(pre-split) with the grid coordinates `(i, j, k)`, the only ones inside the
grid, for which `IJK(i,j,k) = 1 + (k*ny + j)*nx + i = m`, the patch numbering
of `createTopology` and `createTopologySets`. -/
theorem emission_order {α : Type} (g : MultiPatchModelGenerator3D) (geo : GeoAttributes)
    (vol : SplineVolume α) (m : Nat) (hm1 : 1 ≤ m) (hm2 : m ≤ g.nx * g.ny * g.nz) :
    ∃ i j k, (i < g.nx ∧ j < g.ny ∧ k < g.nz ∧ IJK g i j k = m) ∧
      (∀ i' j' k', i' < g.nx → j' < g.ny → k' < g.nz → IJK g i' j' k' = m →
        i' = i ∧ j' = j ∧ k' = k) ∧
      (createGeometry g vol)[m - 1]? = some (block g vol i j k) ∧
      (g.subdivision = false →
        ∃ p, (createG2 g geo)[m - 1]? = some p ∧
          p.coefs =
            (boxCorners
              (cellLower geo.X0.1 geo.scale geo.Lx g.nx i,
               cellLower geo.X0.2.1 geo.scale geo.Ly g.ny j,
               cellLower geo.X0.2.2 geo.scale geo.Lz g.nz k)
              (cellUpper geo.X0.1 geo.scale geo.Lx g.nx i,
               cellUpper geo.X0.2.1 geo.scale geo.Ly g.ny j,
               cellUpper geo.X0.2.2 geo.scale geo.Lz g.nz k)).map
              (fun c => c ++ (if geo.rational then [1] else []))) := by
  obtain ⟨i, j, k, hi, hj, hk, rfl⟩ := IJK_surj g m hm1 hm2
  have e : IJK g i j k - 1 = (k * g.ny + j) * g.nx + i := by
    unfold IJK; omega
  refine ⟨i, j, k, ⟨hi, hj, hk, rfl⟩, ?_, ?_, ?_⟩
  · intro i' j' k' hi' hj' _ h
    exact IJK_inj g i' j' k' i j k hi' hi hj' hj h
  · rw [e]
    exact getElem?_grid3 (fun i j k => block g vol i j k) g.nx g.ny g.nz i j k hi hj hk
  · intro hsub
    rw [e]
    exact createG2_cell g geo hsub i j k hi hj hk

/-- A 2 x 3 x 1 grid: the fourth patch written is the block `(1, 1, 0)`. -/
theorem emission_order_witness :
    (1 ≤ 4 ∧ 4 ≤ (⟨2, 3, 1, 0, 0, 0, true⟩ : MultiPatchModelGenerator3D).nx *
       (⟨2, 3, 1, 0, 0, 0, true⟩ : MultiPatchModelGenerator3D).ny *
       (⟨2, 3, 1, 0, 0, 0, true⟩ : MultiPatchModelGenerator3D).nz) ∧
    IJK ⟨2, 3, 1, 0, 0, 0, true⟩ 1 1 0 = 4 ∧
    ∃ i j k, (i < 2 ∧ j < 3 ∧ k < 1 ∧ IJK ⟨2, 3, 1, 0, 0, 0, true⟩ i j k = 4) ∧
      (createGeometry ⟨2, 3, 1, 0, 0, 0, true⟩ sampleVolume)[4 - 1]? =
        some (block ⟨2, 3, 1, 0, 0, 0, true⟩ sampleVolume i j k) :=
  ⟨⟨by decide, by decide⟩, by decide,
   (emission_order ⟨2, 3, 1, 0, 0, 0, true⟩ sampleGeo sampleVolume 4 (by decide)
     (by decide)).imp fun _ h => h.imp fun _ h => h.imp fun _ h =>
       ⟨h.1, h.2.2.1⟩⟩

end MultiPatchModelGenerator3D

theorem length_flatMap2 {β : Type} (n1 n2 : Nat) (f : Nat → Nat → β) :
    ((List.range n1).flatMap fun a => (List.range n2).flatMap fun b => [f a b]).length =
      n2 * n1 := by
  have h2 : ∀ a, ((List.range n2).flatMap fun b => [f a b]).length = n2 := by
    intro a
    rw [length_flatMap_range_uniform (fun b => [f a b]) 1 (fun b => rfl), Nat.one_mul]
  rw [length_flatMap_range_uniform _ n2 h2]

namespace MultiPatchModelGenerator2D

theorem mem_adjacentX2D (g : MultiPatchModelGenerator2D) (sim : SIMinput) (hnx : 1 ≤ g.nx)
    (c : Conn) :
    c ∈ connections (adjacentX g sim) ↔
      ∃ i j, i + 1 < g.nx ∧ j < g.ny ∧
        c = ⟨IJ g i j, IJ g (i + 1) j, 2, 1, 0, 0, true, 1, thick g sim 1⟩ := by
  rw [connections_adjacentX2D, decr_of_pos g.nx hnx]
  simp only [List.mem_flatMap, List.mem_range, List.mem_singleton]
  constructor
  · rintro ⟨j, hj, i, hi, e⟩
    exact ⟨i, j, by omega, hj, e⟩
  · rintro ⟨i, j, hi, hj, e⟩
    exact ⟨j, hj, i, by omega, e⟩

theorem mem_adjacentY2D (g : MultiPatchModelGenerator2D) (sim : SIMinput) (hny : 1 ≤ g.ny)
    (c : Conn) :
    c ∈ connections (adjacentY g sim) ↔
      ∃ i j, i < g.nx ∧ j + 1 < g.ny ∧
        c = ⟨IJ g i j, IJ g i (j + 1), 4, 3, 0, 0, true, 1, thick g sim 2⟩ := by
  rw [connections_adjacentY2D, decr_of_pos g.ny hny]
  simp only [List.mem_flatMap, List.mem_range, List.mem_singleton]
  constructor
  · rintro ⟨j, hj, i, hi, e⟩
    exact ⟨i, j, hi, by omega, e⟩
  · rintro ⟨i, j, hi, hj, e⟩
    exact ⟨j, by omega, i, hi, e⟩

/-- Two cells of the grid with the same patch number are the same cell. -/
theorem IJ_inj2 (g : MultiPatchModelGenerator2D) (i j i' j' : Nat)
    (hi : i < g.nx) (hi' : i' < g.nx) (h : IJ g i j = IJ g i' j') : i = i' ∧ j = j' := by
  unfold IJ at h
  have hj : j = j' := by
    rcases Nat.lt_trichotomy j j' with hlt | heq | hgt
    · exfalso
      have : (j + 1) * g.nx ≤ j' * g.nx := Nat.mul_le_mul_right _ hlt
      rw [Nat.add_mul] at this
      omega
    · exact heq
    · exfalso
      have : (j' + 1) * g.nx ≤ j * g.nx := Nat.mul_le_mul_right _ hgt
      rw [Nat.add_mul] at this
      omega
  subst hj
  exact ⟨by omega, rfl⟩

theorem nodup_adjacentX2D (g : MultiPatchModelGenerator2D) (sim : SIMinput) (hnx : 1 ≤ g.nx) :
    (connections (adjacentX g sim)).Nodup := by
  rw [connections_adjacentX2D, decr_of_pos g.nx hnx]
  apply nodup_flatMap2
  intro j i j' i' _ hi _ hi' e
  have hm := congrArg Conn.master e
  obtain ⟨a, b⟩ := IJ_inj2 g i j i' j' (by omega) (by omega) hm
  exact ⟨b, a⟩

theorem nodup_adjacentY2D (g : MultiPatchModelGenerator2D) (sim : SIMinput) :
    (connections (adjacentY g sim)).Nodup := by
  rw [connections_adjacentY2D]
  apply nodup_flatMap2
  intro j i j' i' _ hi _ hi' e
  have hm := congrArg Conn.master e
  obtain ⟨a, b⟩ := IJ_inj2 g i j i' j' hi hi' hm
  exact ⟨b, a⟩

/-- With a periodic flag unset, the corresponding part of the 2D
`createTopology` requests nothing. -/
theorem connections_periodic_unset2D (g : MultiPatchModelGenerator2D) (sim : SIMinput) :
    (g.periodic_x = 0 → connections (periodicX g sim) = []) ∧
    (g.periodic_y = 0 → connections (periodicY g sim) = []) := by
  refine ⟨fun h => ?_, fun h => ?_⟩
  · simp [periodicX, h, connections_nil]
  · simp [periodicY, h, connections_nil]

/-- C34: for `nx, ny ≥ 1`, no periodic flag set, the model built and every
connection call succeeding, the connections requested by the 2D
`createTopology` are, each exactly once: for every patch `a = IJ(i,j)` with a
right neighbour in its grid row, edge 2 of `a` to edge 1 of `a+1`; for every
patch `a` with a neighbour above in its grid column, edge 4 of `a` to edge 3
of `a+nx`; all with orientation code 0 and dimension 1.  Their number is
`ny*(nx-1) + nx*(ny-1)`, the first patch of each has the lower number, and two
requests that join the same two patches are the same request. -/
theorem createTopology_adjacent_pairs2D (g : MultiPatchModelGenerator2D) (sim : SIMinput)
    (hnx : 1 ≤ g.nx) (hny : 1 ≤ g.ny)
    (hpx : g.periodic_x = 0) (hpy : g.periodic_y = 0)
    (hfem : sim.createFEMmodel = true)
    (hok : allSucceed (createTopology g sim).2 = true) :
    (connections (createTopology g sim).2).Nodup ∧
    (∀ c, c ∈ connections (createTopology g sim).2 ↔
      ∃ i j, i < g.nx ∧ j < g.ny ∧
        ((i + 1 < g.nx ∧
            c = ⟨IJ g i j, IJ g i j + 1, 2, 1, 0, 0, true, 1, thick g sim 1⟩) ∨
         (j + 1 < g.ny ∧
            c = ⟨IJ g i j, IJ g i j + g.nx, 4, 3, 0, 0, true, 1, thick g sim 2⟩))) ∧
    (connections (createTopology g sim).2).length =
      g.ny * (g.nx - 1) + g.nx * (g.ny - 1) ∧
    (∀ c, c ∈ connections (createTopology g sim).2 →
      c.master < c.slave ∧ c.orient = 0 ∧ c.dim = 1) ∧
    (∀ c c', c ∈ connections (createTopology g sim).2 →
      c' ∈ connections (createTopology g sim).2 →
      (c.master = c'.master ∧ c.slave = c'.slave ∨
        c.master = c'.slave ∧ c.slave = c'.master) → c = c') := by
  rw [createTopology_of_allSucceed2D g sim hfem hok]
  have hu := connections_periodic_unset2D g sim
  have hX : ∀ i j, IJ g (i + 1) j = IJ g i j + 1 := by intro i j; unfold IJ; omega
  have hY : ∀ i j, IJ g i (j + 1) = IJ g i j + g.nx := by
    intro i j; unfold IJ; rw [Nat.add_mul]; omega
  have hmem : ∀ c, c ∈ connections (calls g sim) ↔
      ∃ i j, i < g.nx ∧ j < g.ny ∧
        ((i + 1 < g.nx ∧
            c = ⟨IJ g i j, IJ g i j + 1, 2, 1, 0, 0, true, 1, thick g sim 1⟩) ∨
         (j + 1 < g.ny ∧
            c = ⟨IJ g i j, IJ g i j + g.nx, 4, 3, 0, 0, true, 1, thick g sim 2⟩)) := by
    intro c
    rw [connections_calls2D, hu.1 hpx, hu.2 hpy]
    simp only [List.append_nil, List.mem_append]
    rw [mem_adjacentX2D g sim hnx, mem_adjacentY2D g sim hny]
    constructor
    · rintro (⟨i, j, hi, hj, e⟩ | ⟨i, j, hi, hj, e⟩)
      · exact ⟨i, j, by omega, hj, Or.inl ⟨hi, by rw [← hX]; exact e⟩⟩
      · exact ⟨i, j, hi, by omega, Or.inr ⟨hj, by rw [← hY]; exact e⟩⟩
    · rintro ⟨i, j, hi, hj, (⟨h, e⟩ | ⟨h, e⟩)⟩
      · exact Or.inl ⟨i, j, h, hj, by rw [hX]; exact e⟩
      · exact Or.inr ⟨i, j, hi, h, by rw [hY]; exact e⟩
  refine ⟨?_, hmem, ?_, ?_, ?_⟩
  · rw [connections_calls2D, hu.1 hpx, hu.2 hpy]
    simp only [List.append_nil]
    refine List.nodup_append.mpr ⟨nodup_adjacentX2D g sim hnx, nodup_adjacentY2D g sim, ?_⟩
    intro c h1 h2
    rw [mem_adjacentX2D g sim hnx] at h1
    rw [mem_adjacentY2D g sim hny] at h2
    obtain ⟨i, j, _, _, e⟩ := h1
    obtain ⟨i', j', _, _, e'⟩ := h2
    have := congrArg Conn.mIdx (e.symm.trans e')
    simp at this
  · rw [connections_calls2D, hu.1 hpx, hu.2 hpy,
      connections_adjacentX2D, connections_adjacentY2D]
    simp only [List.append_nil, List.length_append, length_flatMap2,
      decr_of_pos g.nx hnx, decr_of_pos g.ny hny]
    ring
  · intro c hc
    obtain ⟨i, j, hi, hj, (⟨h, e⟩ | ⟨h, e⟩)⟩ := (hmem c).mp hc
    · subst e; exact ⟨by simp, rfl, rfl⟩
    · subst e; exact ⟨by simp; omega, rfl, rfl⟩
  · intro c c' hc hc' hp
    obtain ⟨i, j, hi, hj, (⟨h, e⟩ | ⟨h, e⟩)⟩ := (hmem c).mp hc <;>
    obtain ⟨i', j', hi', hj', (⟨h', e'⟩ | ⟨h', e'⟩)⟩ := (hmem c').mp hc' <;>
    subst e <;> subst e' <;> simp only at hp <;>
    simp only [Conn.mk.injEq, and_true, true_and] <;> omega

/-- A 3 x 2 grid without periodicity: seven connections. -/
theorem createTopology_adjacent_pairs2D_witness :
    (1 ≤ (3 : Nat) ∧ 1 ≤ (2 : Nat) ∧ (0 : Int) = 0 ∧ sampleSim.createFEMmodel = true ∧
      allSucceed (createTopology ⟨3, 2, 0, 0, false⟩ sampleSim).2 = true) ∧
    (connections (createTopology ⟨3, 2, 0, 0, false⟩ sampleSim).2).length = 2 * (3 - 1) + 3 * (2 - 1) :=
  ⟨by decide,
   (createTopology_adjacent_pairs2D ⟨3, 2, 0, 0, false⟩ sampleSim (by decide) (by decide)
      rfl rfl rfl (by decide)).2.2.1⟩

end MultiPatchModelGenerator2D

namespace MultiPatchModelGenerator1D

/-- C39: in the 1D builder, with `periodic_x` set and `nx > 1`, the model
built and every connection call succeeding, the calls made are the `nx-1`
connections of neighbouring patches followed by one periodic connection and
nothing else: it joins local vertex 1 of patch 1 to local vertex 2 of patch
`nx`, with the coordinate check disabled, dimension 0 and the thickness of the
neighbour connections.  It is the only request with the coordinate check
disabled, and `closeEnds` is not called. -/
theorem createTopology_periodic1D (g : MultiPatchModelGenerator1D) (sim : SIMinput)
    (hnx : 1 < g.nx) (hp : g.periodic_x ≠ 0) (hfem : sim.createFEMmodel = true)
    (hok : allSucceed (createTopology g sim).2 = true) :
    (createTopology g sim).2 =
      ((List.range (g.nx - 1)).map fun i =>
        Event.addConnection ⟨i + 1, i + 2, 2, 1, 0, 0, true, 0, thick g sim⟩ true) ++
      [Event.addConnection ⟨1, g.nx, 1, 2, 0, 0, false, 0, thick g sim⟩ true] ∧
    (connections (createTopology g sim).2).length = g.nx ∧
    (connections (createTopology g sim).2).filter (fun c => !c.coordCheck) =
      [⟨1, g.nx, 1, 2, 0, 0, false, 0, thick g sim⟩] ∧
    (∀ m, 1 ≤ m → m < g.nx →
      (connections (createTopology g sim).2)[m - 1]? =
        some ⟨m, m + 1, 2, 1, 0, 0, true, 0, thick g sim⟩) ∧
    (connections (createTopology g sim).2)[g.nx - 1]? =
      some ⟨1, g.nx, 1, 2, 0, 0, false, 0, thick g sim⟩ ∧
    (∀ p, Event.closeEnds p ∉ (createTopology g sim).2) := by
  rw [createTopology_of_allSucceed1D g sim hfem hok]
  have hc : connections (calls g sim) = ((List.range (g.nx - 1)).map fun i =>
      (⟨i + 1, i + 2, 2, 1, 0, 0, true, 0, thick g sim⟩ : Conn)) ++
      [⟨1, g.nx, 1, 2, 0, 0, false, 0, thick g sim⟩] := by
    rw [connections_calls1D, decr_of_pos g.nx (by omega)]
    simp [hp, hnx]
  have he : calls g sim = ((List.range (g.nx - 1)).map fun i =>
        Event.addConnection ⟨i + 1, i + 2, 2, 1, 0, 0, true, 0, thick g sim⟩ true) ++
      [Event.addConnection ⟨1, g.nx, 1, 2, 0, 0, false, 0, thick g sim⟩ true] := by
    simp only [calls, hp, hnx, decr_of_pos g.nx (by omega), ne_eq, not_false_eq_true, if_true,
      gt_iff_lt]
    congr 1
    induction (List.range (g.nx - 1)) with
    | nil => rfl
    | cons x xs ih => simp [List.flatMap_cons, ih]
  refine ⟨he, ?_, ?_, ?_, ?_, ?_⟩
  · rw [hc]; simp; omega
  · rw [hc, List.filter_append]
    simp [List.filter_map, Function.comp_def]
  · intro m h1 h2
    rw [hc, List.getElem?_append_left (by simp; omega), List.getElem?_map,
      List.getElem?_range (by omega)]
    have e1 : m - 1 + 1 = m := by omega
    have e2 : m - 1 + 2 = m + 1 := by omega
    simp only [Option.map_some', e1, e2]
  · rw [hc, List.getElem?_append_right (by simp)]
    simp
  · intro p hmem
    rw [he] at hmem
    simp at hmem

/-- A periodic chain of three patches: connections 1-2, 2-3, then 1-3. -/
theorem createTopology_periodic1D_witness :
    (1 < (3 : Nat) ∧ (1 : Int) ≠ 0 ∧ sampleSim.createFEMmodel = true ∧
      allSucceed (createTopology ⟨3, 1, false⟩ sampleSim).2 = true) ∧
    (createTopology ⟨3, 1, false⟩ sampleSim).2 =
      ((List.range (3 - 1)).map fun i =>
        Event.addConnection ⟨i + 1, i + 2, 2, 1, 0, 0, true, 0,
          thick ⟨3, 1, false⟩ sampleSim⟩ true) ++
      [Event.addConnection ⟨1, 3, 1, 2, 0, 0, false, 0, thick ⟨3, 1, false⟩ sampleSim⟩ true] :=
  ⟨by decide,
   (createTopology_periodic1D ⟨3, 1, false⟩ sampleSim (by decide) (by decide) rfl
      (by decide)).1⟩

end MultiPatchModelGenerator1D

/-- The faces of the patches on the six sides of the 3D grid are members of
the face sets, whatever the flags of the generator. -/
theorem MultiPatchModelGenerator3D.face_members3D (g : MultiPatchModelGenerator3D)
    (i j k : Nat) (hi : i < g.nx) (hj : j < g.ny) (hk : k < g.nz) :
    (⟨IJK g 0 j k, 1, 2⟩ : TopItem) ∈ (createTopologySets g true id).items "Face1" ∧
    (⟨IJK g (g.nx - 1) j k, 2, 2⟩ : TopItem) ∈ (createTopologySets g true id).items "Face2" ∧
    (⟨IJK g i 0 k, 3, 2⟩ : TopItem) ∈ (createTopologySets g true id).items "Face3" ∧
    (⟨IJK g i (g.ny - 1) k, 4, 2⟩ : TopItem) ∈ (createTopologySets g true id).items "Face4" ∧
    (⟨IJK g i j 0, 5, 2⟩ : TopItem) ∈ (createTopologySets g true id).items "Face5" ∧
    (⟨IJK g i j (g.nz - 1), 6, 2⟩ : TopItem) ∈ (createTopologySets g true id).items "Face6" := by
  obtain ⟨f1, f2, f3, f4, f5, f6⟩ := face_sets3D g
  rw [f1, f2, f3, f4, f5, f6]
  simp only [Finset.mem_image, Finset.mem_product, Finset.mem_range, Prod.exists]
  exact ⟨⟨j, k, ⟨hj, hk⟩, rfl⟩, ⟨j, k, ⟨hj, hk⟩, rfl⟩, ⟨i, k, ⟨hi, hk⟩, rfl⟩,
    ⟨i, k, ⟨hi, hk⟩, rfl⟩, ⟨i, j, ⟨hi, hj⟩, rfl⟩, ⟨i, j, ⟨hi, hj⟩, rfl⟩⟩

/-- C38: `createTopologySets` of the 1D, 2D and 3D generators returns the same
collection for every value of the periodicity flags and of the subdivision
mode, the block counts, the sets-requested flag and the resolution of patch
numbers being equal.  So, whatever the flags (with every patch resolving to
itself): the two end vertices of a 1D chain are in `Vertex1`, `Vertex2` and
`Boundary`; the edges of the patches on the four sides of a 2D grid are in
`Edge1..Edge4` and in `Boundary`; the faces of the patches on the six sides of
a 3D grid are in `Face1..Face6` and in `Boundary`. -/
theorem createTopologySets_flags (nx ny nz : Nat) (px py pz px' py' pz' : Int)
    (sub sub' ts : Bool) (L : Nat → Nat) :
    MultiPatchModelGenerator1D.createTopologySets ⟨nx, px, sub⟩ ts L =
      MultiPatchModelGenerator1D.createTopologySets ⟨nx, px', sub'⟩ ts L ∧
    MultiPatchModelGenerator2D.createTopologySets ⟨nx, ny, px, py, sub⟩ ts L =
      MultiPatchModelGenerator2D.createTopologySets ⟨nx, ny, px', py', sub'⟩ ts L ∧
    MultiPatchModelGenerator3D.createTopologySets ⟨nx, ny, nz, px, py, pz, sub⟩ ts L =
      MultiPatchModelGenerator3D.createTopologySets ⟨nx, ny, nz, px', py', pz', sub'⟩ ts L ∧
    (1 ≤ nx → ∀ n, (n = "Vertex1" ∨ n = "Boundary" →
        (⟨1, 1, 0⟩ : TopItem) ∈
          (MultiPatchModelGenerator1D.createTopologySets ⟨nx, px, sub⟩ true id).items n) ∧
      (n = "Vertex2" ∨ n = "Boundary" →
        (⟨nx, 2, 0⟩ : TopItem) ∈
          (MultiPatchModelGenerator1D.createTopologySets ⟨nx, px, sub⟩ true id).items n)) ∧
    (∀ i j, i < nx → j < ny → ∀ n,
      (n = "Edge1" ∨ n = "Boundary" →
        (⟨MultiPatchModelGenerator2D.IJ ⟨nx, ny, px, py, sub⟩ 0 j, 1, 1⟩ : TopItem) ∈
          (MultiPatchModelGenerator2D.createTopologySets ⟨nx, ny, px, py, sub⟩ true id).items n) ∧
      (n = "Edge2" ∨ n = "Boundary" →
        (⟨MultiPatchModelGenerator2D.IJ ⟨nx, ny, px, py, sub⟩ (nx - 1) j, 2, 1⟩ : TopItem) ∈
          (MultiPatchModelGenerator2D.createTopologySets ⟨nx, ny, px, py, sub⟩ true id).items n) ∧
      (n = "Edge3" ∨ n = "Boundary" →
        (⟨MultiPatchModelGenerator2D.IJ ⟨nx, ny, px, py, sub⟩ i 0, 3, 1⟩ : TopItem) ∈
          (MultiPatchModelGenerator2D.createTopologySets ⟨nx, ny, px, py, sub⟩ true id).items n) ∧
      (n = "Edge4" ∨ n = "Boundary" →
        (⟨MultiPatchModelGenerator2D.IJ ⟨nx, ny, px, py, sub⟩ i (ny - 1), 4, 1⟩ : TopItem) ∈
          (MultiPatchModelGenerator2D.createTopologySets ⟨nx, ny, px, py, sub⟩ true id).items
            n)) ∧
    (∀ i j k, i < nx → j < ny → k < nz → ∀ n,
      (n = "Face1" ∨ n = "Boundary" →
        (⟨MultiPatchModelGenerator3D.IJK ⟨nx, ny, nz, px, py, pz, sub⟩ 0 j k, 1, 2⟩ : TopItem) ∈
          (MultiPatchModelGenerator3D.createTopologySets ⟨nx, ny, nz, px, py, pz, sub⟩
            true id).items n) ∧
      (n = "Face2" ∨ n = "Boundary" →
        (⟨MultiPatchModelGenerator3D.IJK ⟨nx, ny, nz, px, py, pz, sub⟩ (nx - 1) j k, 2, 2⟩ :
            TopItem) ∈
          (MultiPatchModelGenerator3D.createTopologySets ⟨nx, ny, nz, px, py, pz, sub⟩
            true id).items n) ∧
      (n = "Face3" ∨ n = "Boundary" →
        (⟨MultiPatchModelGenerator3D.IJK ⟨nx, ny, nz, px, py, pz, sub⟩ i 0 k, 3, 2⟩ : TopItem) ∈
          (MultiPatchModelGenerator3D.createTopologySets ⟨nx, ny, nz, px, py, pz, sub⟩
            true id).items n) ∧
      (n = "Face4" ∨ n = "Boundary" →
        (⟨MultiPatchModelGenerator3D.IJK ⟨nx, ny, nz, px, py, pz, sub⟩ i (ny - 1) k, 4, 2⟩ :
            TopItem) ∈
          (MultiPatchModelGenerator3D.createTopologySets ⟨nx, ny, nz, px, py, pz, sub⟩
            true id).items n) ∧
      (n = "Face5" ∨ n = "Boundary" →
        (⟨MultiPatchModelGenerator3D.IJK ⟨nx, ny, nz, px, py, pz, sub⟩ i j 0, 5, 2⟩ : TopItem) ∈
          (MultiPatchModelGenerator3D.createTopologySets ⟨nx, ny, nz, px, py, pz, sub⟩
            true id).items n) ∧
      (n = "Face6" ∨ n = "Boundary" →
        (⟨MultiPatchModelGenerator3D.IJK ⟨nx, ny, nz, px, py, pz, sub⟩ i j (nz - 1), 6, 2⟩ :
            TopItem) ∈
          (MultiPatchModelGenerator3D.createTopologySets ⟨nx, ny, nz, px, py, pz, sub⟩
            true id).items n)) := by
  refine ⟨rfl, rfl, rfl, ?_, ?_, ?_⟩
  · intro hnx n
    have hm := MultiPatchModelGenerator1D.mem_createTopologySets1D ⟨nx, px, sub⟩ id n
    exact ⟨fun h => (hm _).mpr (Or.inl ⟨by decide, h, rfl⟩),
      fun h => (hm _).mpr (Or.inr ⟨hnx, h, rfl⟩)⟩
  · intro i j hi hj n
    have hm := MultiPatchModelGenerator2D.mem_createTopologySets_id2D ⟨nx, ny, px, py, sub⟩
      (by show 1 ≤ nx; omega) (by show 1 ≤ ny; omega) n
    exact ⟨fun h => (hm _).mpr (Or.inl ⟨j, hj, Or.inl ⟨h, rfl⟩⟩),
      fun h => (hm _).mpr (Or.inl ⟨j, hj, Or.inr ⟨h, rfl⟩⟩),
      fun h => (hm _).mpr (Or.inr (Or.inl ⟨i, hi, Or.inl ⟨h, rfl⟩⟩)),
      fun h => (hm _).mpr (Or.inr (Or.inl ⟨i, hi, Or.inr ⟨h, rfl⟩⟩))⟩
  · intro i j k hi hj hk n
    have hb := MultiPatchModelGenerator3D.boundary_set3D ⟨nx, ny, nz, px, py, pz, sub⟩
    obtain ⟨f1, f2, f3, f4, f5, f6⟩ :=
      MultiPatchModelGenerator3D.face_members3D ⟨nx, ny, nz, px, py, pz, sub⟩ i j k hi hj hk
    refine ⟨?_, ?_, ?_, ?_, ?_, ?_⟩
    all_goals
      rintro (rfl | rfl)
      · assumption
      · rw [hb]
        simp only [Finset.mem_union]
        tauto

/-- A 2 x 3 x 1 grid that is periodic in `x`: the faces 1 and 2 that the wrap
connections join are in "Boundary". -/
theorem createTopologySets_flags_witness :
    ((0 : Nat) < 2 ∧ (1 : Nat) < 3 ∧ (0 : Nat) < 1) ∧
    (⟨MultiPatchModelGenerator3D.IJK ⟨2, 3, 1, 1, 0, 0, false⟩ 0 1 0, 1, 2⟩ : TopItem) ∈
      (MultiPatchModelGenerator3D.createTopologySets ⟨2, 3, 1, 1, 0, 0, false⟩
        true id).items "Boundary" ∧
    (⟨MultiPatchModelGenerator3D.IJK ⟨2, 3, 1, 1, 0, 0, false⟩ (2 - 1) 1 0, 2, 2⟩ : TopItem) ∈
      (MultiPatchModelGenerator3D.createTopologySets ⟨2, 3, 1, 1, 0, 0, false⟩
        true id).items "Boundary" :=
  ⟨by decide,
   ((createTopologySets_flags 2 3 1 1 0 0 0 0 0 false false true id).2.2.2.2.2 0 1 0
      (by decide) (by decide) (by decide) "Boundary").1 (Or.inr rfl),
   ((createTopologySets_flags 2 3 1 1 0 0 0 0 0 false false true id).2.2.2.2.2 0 1 0
      (by decide) (by decide) (by decide) "Boundary").2.1 (Or.inr rfl)⟩

/-- The first control point of the first patch written by `createG2`: the
1D generator writes `X0.x` followed by a literal zero for each further space
dimension, the 2D generator `X0.x`, `X0.y` followed by a literal zero when
`nsd > 2`, the 3D generator the three coordinates of `X0`; a weight 1 follows
when the patch is rational.  Neither the lengths nor the scale occur. -/
theorem createG2_first_point (g1 : MultiPatchModelGenerator1D)
    (g2 : MultiPatchModelGenerator2D) (g3 : MultiPatchModelGenerator3D) (geo : GeoAttributes)
    (nsd : Nat) (h1 : g1.subdivision = true ∨ 1 ≤ g1.nx)
    (h2 : g2.subdivision = true ∨ (1 ≤ g2.nx ∧ 1 ≤ g2.ny))
    (h3 : g3.subdivision = true ∨ (1 ≤ g3.nx ∧ 1 ≤ g3.ny ∧ 1 ≤ g3.nz)) :
    ((MultiPatchModelGenerator1D.createG2 g1 geo nsd).head?.bind fun p => p.coefs.head?) =
      some ([geo.X0.1] ++ ((if nsd > 1 then [0] else []) ++ (if nsd > 2 then [0] else []) ++
        (if geo.rational then [1] else []))) ∧
    ((MultiPatchModelGenerator2D.createG2 g2 geo nsd).head?.bind fun p => p.coefs.head?) =
      some ([geo.X0.1, geo.X0.2.1] ++ ((if nsd > 2 then [0] else []) ++
        (if geo.rational then [1] else []))) ∧
    ((MultiPatchModelGenerator3D.createG2 g3 geo).head?.bind fun p => p.coefs.head?) =
      some ([geo.X0.1, geo.X0.2.1, geo.X0.2.2] ++ (if geo.rational then [1] else [])) := by
  refine ⟨?_, ?_, ?_⟩
  · obtain ⟨n, hn⟩ : ∃ n, (if !g1.subdivision then g1.nx else 1) = n + 1 := by
      rcases h1 with h | h
      · exact ⟨0, by simp [h]⟩
      · exact ⟨(if !g1.subdivision then g1.nx else 1) - 1, by split <;> omega⟩
    simp only [MultiPatchModelGenerator1D.createG2, hn, List.range_succ_eq_map, List.map_cons,
      List.head?_cons, Option.some_bind, Nat.cast_zero, zero_mul, add_zero]
  · obtain ⟨n, hn⟩ : ∃ n, (if !g2.subdivision then g2.nx else 1) = n + 1 := by
      rcases h2 with h | h
      · exact ⟨0, by simp [h]⟩
      · exact ⟨(if !g2.subdivision then g2.nx else 1) - 1, by split <;> omega⟩
    obtain ⟨m, hm⟩ : ∃ m, (if !g2.subdivision then g2.ny else 1) = m + 1 := by
      rcases h2 with h | h
      · exact ⟨0, by simp [h]⟩
      · exact ⟨(if !g2.subdivision then g2.ny else 1) - 1, by split <;> omega⟩
    simp only [MultiPatchModelGenerator2D.createG2, hn, hm, List.range_succ_eq_map,
      List.map_cons, List.flatMap_cons, List.cons_append, List.head?_cons, Option.some_bind,
      Nat.cast_zero, zero_mul, add_zero]
  · obtain ⟨n, hn⟩ : ∃ n, (if !g3.subdivision then g3.nx else 1) = n + 1 := by
      rcases h3 with h | h
      · exact ⟨0, by simp [h]⟩
      · exact ⟨(if !g3.subdivision then g3.nx else 1) - 1, by split <;> omega⟩
    obtain ⟨m, hm⟩ : ∃ m, (if !g3.subdivision then g3.ny else 1) = m + 1 := by
      rcases h3 with h | h
      · exact ⟨0, by simp [h]⟩
      · exact ⟨(if !g3.subdivision then g3.ny else 1) - 1, by split <;> omega⟩
    obtain ⟨l, hl⟩ : ∃ l, (if !g3.subdivision then g3.nz else 1) = l + 1 := by
      rcases h3 with h | h
      · exact ⟨0, by simp [h]⟩
      · exact ⟨(if !g3.subdivision then g3.nz else 1) - 1, by split <;> omega⟩
    simp only [MultiPatchModelGenerator3D.createG2, hn, hm, hl, List.range_succ_eq_map,
      List.map_cons, List.flatMap_cons, List.cons_append, List.head?_cons, Option.some_bind,
      Nat.cast_zero, zero_mul, add_zero, MultiPatchModelGenerator3D.nodes, List.range_zero,
      List.map_nil, List.getD_cons_zero, List.getD_cons_succ, Nat.reduceMul, Nat.reduceAdd,
      Nat.succ_eq_add_one, zero_add, List.nil_append]

/-- C36: at the origin corner `X0 = (1, 5, 7)` in three space dimensions, with
unit lengths and scale, the first control point written by the 1D `createG2`
is `(1, 0, 0)` and the one written by the 2D `createG2` is `(1, 5, 0)`: the
coordinates `y` and `z` of the origin are dropped by the 1D generator and `z`
by the 2D generator, while the 3D generator writes `(1, 5, 7)`. -/
theorem createG2_origin_dropped :
    ((MultiPatchModelGenerator1D.createG2 ⟨1, 0, false⟩ ⟨false, 1, 1, 1, 1, (1, 5, 7)⟩
        3).head?.bind fun p => p.coefs.head?) = some [1, 0, 0] ∧
    ((MultiPatchModelGenerator2D.createG2 ⟨1, 1, 0, 0, false⟩ ⟨false, 1, 1, 1, 1, (1, 5, 7)⟩
        3).head?.bind fun p => p.coefs.head?) = some [1, 5, 0] ∧
    ((MultiPatchModelGenerator3D.createG2 ⟨1, 1, 1, 0, 0, 0, false⟩
        ⟨false, 1, 1, 1, 1, (1, 5, 7)⟩).head?.bind fun p => p.coefs.head?) = some [1, 5, 7] ∧
    ((MultiPatchModelGenerator1D.createG2 ⟨1, 0, false⟩ ⟨false, 1, 1, 1, 1, (1, 5, 7)⟩
        2).head?.bind fun p => p.coefs.head?) = some [1, 0] := by
  refine ⟨?_, ?_, ?_, ?_⟩
  · rw [(createG2_first_point ⟨1, 0, false⟩ ⟨1, 1, 0, 0, false⟩ ⟨1, 1, 1, 0, 0, 0, false⟩ _ 3
      (Or.inr (by decide)) (Or.inr (by decide)) (Or.inr (by decide))).1]
    rfl
  · rw [(createG2_first_point ⟨1, 0, false⟩ ⟨1, 1, 0, 0, false⟩ ⟨1, 1, 1, 0, 0, 0, false⟩ _ 3
      (Or.inr (by decide)) (Or.inr (by decide)) (Or.inr (by decide))).2.1]
    rfl
  · rw [(createG2_first_point ⟨1, 0, false⟩ ⟨1, 1, 0, 0, false⟩ ⟨1, 1, 1, 0, 0, 0, false⟩ _ 3
      (Or.inr (by decide)) (Or.inr (by decide)) (Or.inr (by decide))).2.2]
    rfl
  · rw [(createG2_first_point ⟨1, 0, false⟩ ⟨1, 1, 0, 0, false⟩ ⟨1, 1, 1, 0, 0, 0, false⟩ _ 2
      (Or.inr (by decide)) (Or.inr (by decide)) (Or.inr (by decide))).1]
    rfl

namespace SIM

/-- For `steps = 0` and `steps = 1` the level correction of `handleRestart`
moves `max` to the last level of a complete group of `steps+1` levels. -/
theorem handleRestart_small_steps (level steps : Int) (hs : steps = 0 ∨ steps = 1)
    (hl : steps ≤ level) :
    ((handleRestart level steps).max + 1).tmod (steps + 1) = 0 ∧
    (handleRestart level steps).max ≤ level ∧
    0 ≤ (handleRestart level steps).opened := by
  have e1 : ∀ a : Int, 0 ≤ a → a.tmod (steps + 1) = a % (steps + 1) :=
    fun a ha => Int.tmod_eq_emod ha (by omega)
  rcases hs with rfl | rfl
  · simp only [handleRestart, e1 (level + 1) (by omega), e1 level (by omega)]
    split
    · omega
    · rw [e1 (level + 1) (by omega)]; omega
  · simp only [handleRestart, e1 (level + 1) (by omega), e1 level (by omega)]
    split
    · rw [e1 _ (by omega)]; omega
    · rw [e1 (level + 1) (by omega)]; omega

/-- For `steps ≥ 2`, whenever the level correction of `handleRestart` applies,
the corrected `max` is not the last level of a group of `steps+1` levels:
`(max+1) mod (steps+1)` is 2. -/
theorem handleRestart_large_steps (level steps : Int) (hs : 2 ≤ steps) (hl : steps ≤ level)
    (hc : (level + 1) % (steps + 1) ≠ 0) :
    (handleRestart level steps).max = level - (level % (steps + 1) + steps) ∧
    ((handleRestart level steps).max + 1) % (steps + 1) = 2 := by
  have e1 : ∀ a : Int, 0 ≤ a → a.tmod (steps + 1) = a % (steps + 1) :=
    fun a ha => Int.tmod_eq_emod ha (by omega)
  have hm : (handleRestart level steps).max = level - (level % (steps + 1) + steps) := by
    simp only [handleRestart, e1 (level + 1) (by omega), e1 level (by omega)]
    rw [if_pos hc]
  refine ⟨hm, ?_⟩
  rw [hm]
  have h := Int.ediv_add_emod level (steps + 1)
  have e : level - (level % (steps + 1) + steps) + 1 =
      2 + (steps + 1) * (level / (steps + 1) - 1) := by
    have : (steps + 1) * (level / (steps + 1) - 1) =
        (steps + 1) * (level / (steps + 1)) - (steps + 1) := by ring
    omega
  rw [e, Int.add_mul_emod_self_left]
  exact Int.emod_eq_of_lt (by omega) (by omega)

/-- C37: with `steps = 2` and last stored time level 3 (levels 0, 1, 2 form a
complete group, level 3 starts the next one), the level correction of
`handleRestart` sets `max` to 1: `(max+1) mod (steps+1)` is 2, not 0, the level
opened is `max - steps = -1`, and the levels loaded are -1, 0, 1. -/
theorem handleRestart_level_off_group :
    (handleRestart 3 2).max = 1 ∧
    ((handleRestart 3 2).max + 1).tmod (2 + 1) = 2 ∧
    (handleRestart 3 2).opened = -1 ∧
    (handleRestart 3 2).loaded = [-1, 0, 1] ∧
    (handleRestart 4 2).max = 1 := by
  decide

end SIM

theorem AddsNames.names_touch (n : String) : AddsNames (fun m => m.touch n) {n} := by
  intro m
  ext x
  simp only [TopologySet.touch, Finset.mem_insert, Finset.mem_union, Finset.mem_singleton]
  tauto

theorem AddsNames.names_comp {f g : TopologySet → TopologySet} {A B : Finset String}
    (hf : AddsNames f A) (hg : AddsNames g B) : AddsNames (fun m => g (f m)) (A ∪ B) := by
  intro m
  rw [hg, hf, Finset.union_assoc]

theorem AddsNames.names_forEach (n : Nat) {body : Nat → TopologySet → TopologySet}
    {A : Nat → Finset String} (h : ∀ i, AddsNames (body i) (A i)) :
    AddsNames (forEach n body) ((Finset.range n).biUnion A) := by
  induction n with
  | zero =>
    intro m
    simp [forEach_zero]
  | succ n ih =>
    intro m
    rw [forEach_succ, h n, ih]
    ext x
    simp only [Finset.mem_union, Finset.mem_biUnion, Finset.mem_range]
    constructor
    · rintro ((hx | ⟨i, hi, hx⟩) | hx)
      · exact Or.inl hx
      · exact Or.inr ⟨i, by omega, hx⟩
      · exact Or.inr ⟨n, by omega, hx⟩
    · rintro (hx | ⟨i, hi, hx⟩)
      · exact Or.inl (Or.inl hx)
      · by_cases hin : i = n
        · subst hin
          exact Or.inr hx
        · exact Or.inl (Or.inr ⟨i, by omega, hx⟩)

/-- The names created by the lambda `insertion` of the 1D and 2D generators:
none when the patch resolves to 0. -/
theorem AddsNames.names_insertion (L : Nat → Nat) (glob name : String) (top : TopItem) :
    AddsNames (IFEM.insertion L glob name top)
      (if 0 < L top.patch then {name, glob} else ∅) := by
  intro m
  unfold IFEM.insertion
  by_cases hL : 0 < L top.patch
  · simp only [gt_iff_lt, hL, if_true, TopologySet.insert]
    ext x
    simp only [Finset.mem_insert, Finset.mem_union, Finset.mem_singleton]
    tauto
  · simp [hL]

/-- The names created by the lambda `insertion` of the 3D generator, whatever
the patch resolves to. -/
theorem AddsNames.names_insertion3D (L : Nat → Nat) (top : TopItem) (glob type : String) :
    AddsNames (MultiPatchModelGenerator3D.insertion L top glob type)
      {type ++ toString top.item, glob} := by
  intro m
  unfold MultiPatchModelGenerator3D.insertion
  by_cases hL : 0 < L top.patch
  · simp only [gt_iff_lt, hL, if_true, TopologySet.insert, TopologySet.touch]
    ext x
    simp only [Finset.mem_insert, Finset.mem_union, Finset.mem_singleton]
    tauto
  · simp only [gt_iff_lt, hL, if_false, TopologySet.touch]
    ext x
    simp only [Finset.mem_insert, Finset.mem_union, Finset.mem_singleton]
    tauto

theorem mem_ite_pair {β : Type} [DecidableEq β] (c : Prop) [Decidable c] (a b x : β) :
    x ∈ (if c then ({a, b} : Finset β) else ∅) ↔ c ∧ (x = a ∨ x = b) := by
  by_cases h : c <;> simp [h]

/-- A bounded quantifier over a non-empty range whose body ignores the index. -/
theorem exists_lt_prop (n : Nat) (hn : 1 ≤ n) (P : Prop) : (∃ k, k < n ∧ P) ↔ P :=
  ⟨fun ⟨_, _, h⟩ => h, fun h => ⟨0, by omega, h⟩⟩

/-- The names of the sets built by the 1D `createTopologySets`. -/
theorem MultiPatchModelGenerator1D.mem_names1D (g : MultiPatchModelGenerator1D)
    (L : Nat → Nat) (n : String) :
    n ∈ (createTopologySets g true L).names ↔
      n = "Vertex1" ∨ n = "Vertex2" ∨ n = "Boundary" := by
  have key := AddsNames.names_comp (AddsNames.names_comp (AddsNames.names_comp (AddsNames.names_comp
    (AddsNames.names_touch "Vertex1") (AddsNames.names_touch "Vertex2")) (AddsNames.names_touch "Boundary"))
    (AddsNames.names_insertion L "Boundary" "Vertex1" ⟨1, 1, 0⟩))
    (AddsNames.names_insertion L "Boundary" "Vertex2" ⟨g.nx, 2, 0⟩)
  have h := key TopologySet.empty
  have e : (createTopologySets g true L).names = _ := h
  rw [e]
  simp only [TopologySet.empty, Finset.empty_union, Finset.mem_union, Finset.mem_singleton,
    mem_ite_pair]
  tauto

/-- The names of the sets built by the 2D `createTopologySets`. -/
theorem MultiPatchModelGenerator2D.mem_names2D (g : MultiPatchModelGenerator2D)
    (L : Nat → Nat) (n : String) :
    n ∈ (createTopologySets g true L).names ↔
      n = "Edge1" ∨ n = "Edge2" ∨ n = "Edge3" ∨ n = "Edge4" ∨ n = "Boundary" ∨
      n = "Corners" ∨ n = "Vertex1" ∨ n = "Vertex2" ∨ n = "Vertex3" ∨ n = "Vertex4" := by
  have key := AddsNames.names_comp (AddsNames.names_comp (AddsNames.names_comp (AddsNames.names_comp (AddsNames.names_comp
    (AddsNames.names_comp (AddsNames.names_comp (AddsNames.names_comp (AddsNames.names_comp (AddsNames.names_comp
    (AddsNames.names_comp
    (AddsNames.names_touch "Edge1") (AddsNames.names_touch "Edge2")) (AddsNames.names_touch "Edge3"))
    (AddsNames.names_touch "Edge4")) (AddsNames.names_touch "Boundary"))
    (AddsNames.names_forEach g.ny fun i => AddsNames.names_comp
      (AddsNames.names_insertion L "Boundary" "Edge1" ⟨i * g.nx + 1, 1, 1⟩)
      (AddsNames.names_insertion L "Boundary" "Edge2" ⟨(i + 1) * g.nx, 2, 1⟩)))
    (AddsNames.names_forEach g.nx fun i => AddsNames.names_comp
      (AddsNames.names_insertion L "Boundary" "Edge3" ⟨i + 1, 3, 1⟩)
      (AddsNames.names_insertion L "Boundary" "Edge4" ⟨g.nx * (g.ny - 1) + 1 + i, 4, 1⟩)))
    (AddsNames.names_touch "Corners"))
    (AddsNames.names_comp (AddsNames.names_touch "Vertex1")
      (AddsNames.names_insertion L "Corners" "Vertex1" ⟨1, 1, 0⟩)))
    (AddsNames.names_comp (AddsNames.names_touch "Vertex2")
      (AddsNames.names_insertion L "Corners" "Vertex2" ⟨g.nx, 2, 0⟩)))
    (AddsNames.names_comp (AddsNames.names_touch "Vertex3")
      (AddsNames.names_insertion L "Corners" "Vertex3" ⟨g.nx * (g.ny - 1) + 1, 3, 0⟩)))
    (AddsNames.names_comp (AddsNames.names_touch "Vertex4")
      (AddsNames.names_insertion L "Corners" "Vertex4" ⟨g.nx * g.ny, 4, 0⟩))
  have h := key TopologySet.empty
  have e : (createTopologySets g true L).names = _ := h
  rw [e]
  simp only [TopologySet.empty, Finset.empty_union, Finset.mem_union, Finset.mem_singleton,
    Finset.mem_biUnion, Finset.mem_range, mem_ite_pair]
  constructor
  · rintro (((((((((((h | h) | h) | h) | h) | ⟨i, _, (⟨_, h⟩ | ⟨_, h⟩)⟩) |
      ⟨i, _, (⟨_, h⟩ | ⟨_, h⟩)⟩) | h) | (h | ⟨_, h⟩)) | (h | ⟨_, h⟩)) | (h | ⟨_, h⟩)) |
      (h | ⟨_, h⟩)) <;> tauto
  · rintro (rfl | rfl | rfl | rfl | rfl | rfl | rfl | rfl | rfl | rfl) <;>
      simp only [String.reduceEq, true_or, or_true, false_or, or_false]

namespace MultiPatchModelGenerator3D

/-- The names of the sets built by the 3D `createTopologySets` on a grid with
at least one patch. -/
theorem mem_names3D (g : MultiPatchModelGenerator3D) (L : Nat → Nat) (hnx : 1 ≤ g.nx)
    (hny : 1 ≤ g.ny) (hnz : 1 ≤ g.nz) (n : String) :
    n ∈ (createTopologySets g true L).names ↔
      (n = "Face1" ∨ n = "Face2" ∨ n = "Face3" ∨ n = "Face4" ∨ n = "Face5" ∨ n = "Face6") ∨
      n = "Boundary" ∨
      (n = "Vertex1" ∨ n = "Vertex2" ∨ n = "Vertex3" ∨ n = "Vertex4" ∨ n = "Vertex5" ∨
        n = "Vertex6" ∨ n = "Vertex7" ∨ n = "Vertex8") ∨
      n = "Corners" ∨
      (n = "Edge1" ∨ n = "Edge2" ∨ n = "Edge3" ∨ n = "Edge4" ∨ n = "Edge5" ∨ n = "Edge6" ∨
        n = "Edge7" ∨ n = "Edge8" ∨ n = "Edge9" ∨ n = "Edge10" ∨ n = "Edge11" ∨
        n = "Edge12") ∨
      n = "Frame" := by
  have key := AddsNames.names_comp (AddsNames.names_comp (AddsNames.names_comp (AddsNames.names_comp (AddsNames.names_comp
    (AddsNames.names_comp
    (AddsNames.names_forEach 2 fun i => AddsNames.names_forEach g.nz fun k => AddsNames.names_forEach g.ny fun j =>
      AddsNames.names_insertion3D L ⟨IJK2I g i j k, 1 + i, 2⟩ "Boundary" "Face")
    (AddsNames.names_forEach 2 fun j => AddsNames.names_forEach g.nz fun k => AddsNames.names_forEach g.nx fun i =>
      AddsNames.names_insertion3D L ⟨IJK2J g i j k, 3 + j, 2⟩ "Boundary" "Face"))
    (AddsNames.names_forEach 2 fun k => AddsNames.names_forEach g.ny fun j => AddsNames.names_forEach g.nx fun i =>
      AddsNames.names_insertion3D L ⟨IJK2K g i j k, 5 + k, 2⟩ "Boundary" "Face"))
    (AddsNames.names_forEach 2 fun k => AddsNames.names_forEach 2 fun j => AddsNames.names_forEach 2 fun i =>
      AddsNames.names_insertion3D L ⟨IJK2 g i j k, 1 + 4 * k + 2 * j + i, 0⟩ "Corners" "Vertex"))
    (AddsNames.names_forEach 2 fun k => AddsNames.names_forEach 2 fun i => AddsNames.names_forEach g.ny fun j =>
      AddsNames.names_insertion3D L ⟨IJKJ g i j k, 1 + 2 * k + i, 1⟩ "Frame" "Edge"))
    (AddsNames.names_forEach 2 fun j => AddsNames.names_forEach 2 fun i => AddsNames.names_forEach g.nz fun k =>
      AddsNames.names_insertion3D L ⟨IJKK g i j k, 5 + 2 * j + i, 1⟩ "Frame" "Edge"))
    (AddsNames.names_forEach 2 fun k => AddsNames.names_forEach 2 fun j => AddsNames.names_forEach g.nx fun i =>
      AddsNames.names_insertion3D L ⟨IJKI g i j k, 9 + 2 * k + j, 1⟩ "Frame" "Edge")
  have h := key TopologySet.empty
  rw [createTopologySets_closed3D]
  have e : (_ : TopologySet).names = _ := h
  rw [e]
  simp only [TopologySet.empty, Finset.empty_union, Finset.mem_union, Finset.mem_biUnion,
    Finset.mem_range, Finset.mem_insert, Finset.mem_singleton, exists_lt_prop g.nx hnx,
    exists_lt_prop g.ny hny, exists_lt_prop g.nz hnz, exists_lt_two, toString_items,
    String.reduceAppend, Nat.reduceAdd, Nat.reduceMul, Nat.add_zero, Nat.mul_zero]
  clear e h key
  constructor
  · intro hn
    repeat' (rcases hn with hn | hn)
    all_goals simp only [String.reduceEq, true_or, or_true, false_or, or_false]
  · intro hn
    repeat' (rcases hn with hn | hn)
    all_goals simp only [String.reduceEq, true_or, or_true, false_or, or_false]

end MultiPatchModelGenerator3D

/-- A set of the 1D `createTopologySets` all of whose entities belong to
patches that resolve to 0 is empty. -/
theorem MultiPatchModelGenerator1D.items_empty1D (g : MultiPatchModelGenerator1D)
    (L : Nat → Nat) (hnx : 1 ≤ g.nx) (n : String)
    (h : ∀ t, t ∈ (createTopologySets g true id).items n → L t.patch = 0) :
    (createTopologySets g true L).items n = ∅ := by
  apply Finset.eq_empty_of_forall_not_mem
  intro t ht
  rw [mem_createTopologySets1D] at ht
  have hid := fun p => (mem_createTopologySets1D g id n p).mpr
  rcases ht with ⟨hL, hn, rfl⟩ | ⟨hL, hn, rfl⟩
  · have e : L 1 = 0 := h ⟨1, 1, 0⟩ (hid _ (Or.inl ⟨Nat.succ_pos 0, hn, rfl⟩))
    omega
  · have e : L g.nx = 0 := h ⟨g.nx, 2, 0⟩ (hid _ (Or.inr ⟨hnx, hn, rfl⟩))
    omega

/-- A set of the 2D `createTopologySets` all of whose entities belong to
patches that resolve to 0 is empty. -/
theorem MultiPatchModelGenerator2D.items_empty2D (g : MultiPatchModelGenerator2D)
    (L : Nat → Nat) (hnx : 1 ≤ g.nx) (hny : 1 ≤ g.ny) (n : String)
    (h : ∀ t, t ∈ (createTopologySets g true id).items n → L t.patch = 0) :
    (createTopologySets g true L).items n = ∅ := by
  apply Finset.eq_empty_of_forall_not_mem
  intro t ht
  rw [mem_createTopologySets2D] at ht
  have hid := fun p => (mem_createTopologySets2D g id n p).mpr
  rcases ht with ⟨i, hi, (⟨hL, hn, rfl⟩ | ⟨hL, hn, rfl⟩)⟩ |
    ⟨i, hi, (⟨hL, hn, rfl⟩ | ⟨hL, hn, rfl⟩)⟩ | ⟨hL, hn, rfl⟩ | ⟨hL, hn, rfl⟩ |
    ⟨hL, hn, rfl⟩ | ⟨hL, hn, rfl⟩
  · have e : L (i * g.nx + 1) = 0 :=
      h ⟨i * g.nx + 1, 1, 1⟩ (hid _ (Or.inl ⟨i, hi, Or.inl ⟨Nat.succ_pos _, hn, rfl⟩⟩))
    omega
  · have e : L ((i + 1) * g.nx) = 0 :=
      h ⟨(i + 1) * g.nx, 2, 1⟩
        (hid _ (Or.inl ⟨i, hi, Or.inr ⟨Nat.mul_pos (Nat.succ_pos i) hnx, hn, rfl⟩⟩))
    omega
  · have e : L (i + 1) = 0 :=
      h ⟨i + 1, 3, 1⟩ (hid _ (Or.inr (Or.inl ⟨i, hi, Or.inl ⟨Nat.succ_pos _, hn, rfl⟩⟩)))
    omega
  · have e : L (g.nx * (g.ny - 1) + 1 + i) = 0 :=
      h ⟨g.nx * (g.ny - 1) + 1 + i, 4, 1⟩
        (hid _ (Or.inr (Or.inl ⟨i, hi, Or.inr ⟨by show 0 < g.nx * (g.ny - 1) + 1 + i; omega,
          hn, rfl⟩⟩)))
    omega
  · have e : L 1 = 0 :=
      h ⟨1, 1, 0⟩ (hid _ (Or.inr (Or.inr (Or.inl ⟨Nat.succ_pos 0, hn, rfl⟩))))
    omega
  · have e : L g.nx = 0 :=
      h ⟨g.nx, 2, 0⟩ (hid _ (Or.inr (Or.inr (Or.inr (Or.inl ⟨hnx, hn, rfl⟩)))))
    omega
  · have e : L (g.nx * (g.ny - 1) + 1) = 0 :=
      h ⟨g.nx * (g.ny - 1) + 1, 3, 0⟩
        (hid _ (Or.inr (Or.inr (Or.inr (Or.inr (Or.inl ⟨Nat.succ_pos _, hn, rfl⟩))))))
    omega
  · have e : L (g.nx * g.ny) = 0 :=
      h ⟨g.nx * g.ny, 4, 0⟩
        (hid _ (Or.inr (Or.inr (Or.inr (Or.inr (Or.inr ⟨Nat.mul_pos hnx hny, hn, rfl⟩))))))
    omega

/-- A set of the 3D `createTopologySets` all of whose entities belong to
patches that resolve to 0 is empty. -/
theorem MultiPatchModelGenerator3D.items_empty3D (g : MultiPatchModelGenerator3D)
    (L : Nat → Nat) (n : String)
    (h : ∀ t, t ∈ (createTopologySets g true id).items n → L t.patch = 0) :
    (createTopologySets g true L).items n = ∅ := by
  apply Finset.eq_empty_of_forall_not_mem
  intro t ht
  rw [mem_createTopologySets3D] at ht
  have hid := fun p => (mem_createTopologySets3D g id n p).mpr
  have pos : ∀ a b c, 0 < id (IJK g a b c) := fun a b c => (IJK_pos g a b c).mpr trivial
  rcases ht with ⟨i, hi, k, hk, j, hj, hL, hn, rfl⟩ | ⟨j, hj, k, hk, i, hi, hL, hn, rfl⟩ |
    ⟨k, hk, j, hj, i, hi, hL, hn, rfl⟩ | ⟨k, hk, j, hj, i, hi, hL, hn, rfl⟩ |
    ⟨k, hk, i, hi, j, hj, hL, hn, rfl⟩ | ⟨j, hj, i, hi, k, hk, hL, hn, rfl⟩ |
    ⟨k, hk, j, hj, i, hi, hL, hn, rfl⟩
  · have e : L (IJK2I g i j k) = 0 :=
      h ⟨IJK2I g i j k, 1 + i, 2⟩ (hid _ (Or.inl ⟨i, hi, k, hk, j, hj, pos _ _ _, hn, rfl⟩))
    omega
  · have e : L (IJK2J g i j k) = 0 :=
      h ⟨IJK2J g i j k, 3 + j, 2⟩
        (hid _ (Or.inr (Or.inl ⟨j, hj, k, hk, i, hi, pos _ _ _, hn, rfl⟩)))
    omega
  · have e : L (IJK2K g i j k) = 0 :=
      h ⟨IJK2K g i j k, 5 + k, 2⟩
        (hid _ (Or.inr (Or.inr (Or.inl ⟨k, hk, j, hj, i, hi, pos _ _ _, hn, rfl⟩))))
    omega
  · have e : L (IJK2 g i j k) = 0 :=
      h ⟨IJK2 g i j k, 1 + 4 * k + 2 * j + i, 0⟩
        (hid _ (Or.inr (Or.inr (Or.inr (Or.inl
          ⟨k, hk, j, hj, i, hi, pos _ _ _, hn, rfl⟩)))))
    omega
  · have e : L (IJKJ g i j k) = 0 :=
      h ⟨IJKJ g i j k, 1 + 2 * k + i, 1⟩
        (hid _ (Or.inr (Or.inr (Or.inr (Or.inr (Or.inl
          ⟨k, hk, i, hi, j, hj, pos _ _ _, hn, rfl⟩))))))
    omega
  · have e : L (IJKK g i j k) = 0 :=
      h ⟨IJKK g i j k, 5 + 2 * j + i, 1⟩
        (hid _ (Or.inr (Or.inr (Or.inr (Or.inr (Or.inr (Or.inl
          ⟨j, hj, i, hi, k, hk, pos _ _ _, hn, rfl⟩)))))))
    omega
  · have e : L (IJKI g i j k) = 0 :=
      h ⟨IJKI g i j k, 9 + 2 * k + j, 1⟩
        (hid _ (Or.inr (Or.inr (Or.inr (Or.inr (Or.inr (Or.inr
          ⟨k, hk, j, hj, i, hi, pos _ _ _, hn, rfl⟩)))))))
    omega

/-- C35: with sets requested and `nx, ny, nz ≥ 1`, the names in the result of
`createTopologySets` are, for every resolution `L` of patch numbers:
`Vertex1`, `Vertex2`, `Boundary` in 1D; `Edge1..Edge4`, `Boundary`, `Corners`,
`Vertex1..Vertex4` in 2D; `Face1..Face6`, `Boundary`, `Vertex1..Vertex8`,
`Corners`, `Edge1..Edge12`, `Frame` in 3D.  A set all of whose entities (the
items it holds when every patch resolves to itself) belong to patches that `L`
resolves to 0 holds no item. -/
theorem createTopologySets_names (g1 : MultiPatchModelGenerator1D)
    (g2 : MultiPatchModelGenerator2D) (g3 : MultiPatchModelGenerator3D) (L : Nat → Nat)
    (h1 : 1 ≤ g1.nx) (h2 : 1 ≤ g2.nx ∧ 1 ≤ g2.ny)
    (h3 : 1 ≤ g3.nx ∧ 1 ≤ g3.ny ∧ 1 ≤ g3.nz) :
    ((MultiPatchModelGenerator1D.createTopologySets g1 true L).names =
        {"Vertex1", "Vertex2", "Boundary"} ∧
      ∀ n, (∀ t, t ∈ (MultiPatchModelGenerator1D.createTopologySets g1 true id).items n →
          L t.patch = 0) →
        (MultiPatchModelGenerator1D.createTopologySets g1 true L).items n = ∅) ∧
    ((MultiPatchModelGenerator2D.createTopologySets g2 true L).names =
        {"Edge1", "Edge2", "Edge3", "Edge4", "Boundary", "Corners",
         "Vertex1", "Vertex2", "Vertex3", "Vertex4"} ∧
      ∀ n, (∀ t, t ∈ (MultiPatchModelGenerator2D.createTopologySets g2 true id).items n →
          L t.patch = 0) →
        (MultiPatchModelGenerator2D.createTopologySets g2 true L).items n = ∅) ∧
    ((MultiPatchModelGenerator3D.createTopologySets g3 true L).names =
        {"Face1", "Face2", "Face3", "Face4", "Face5", "Face6", "Boundary",
         "Vertex1", "Vertex2", "Vertex3", "Vertex4", "Vertex5", "Vertex6", "Vertex7", "Vertex8",
         "Corners", "Edge1", "Edge2", "Edge3", "Edge4", "Edge5", "Edge6", "Edge7", "Edge8",
         "Edge9", "Edge10", "Edge11", "Edge12", "Frame"} ∧
      ∀ n, (∀ t, t ∈ (MultiPatchModelGenerator3D.createTopologySets g3 true id).items n →
          L t.patch = 0) →
        (MultiPatchModelGenerator3D.createTopologySets g3 true L).items n = ∅) := by
  refine ⟨⟨?_, ?_⟩, ⟨?_, ?_⟩, ⟨?_, ?_⟩⟩
  · ext n
    rw [MultiPatchModelGenerator1D.mem_names1D]
    simp only [Finset.mem_insert, Finset.mem_singleton]
  · exact fun n h => MultiPatchModelGenerator1D.items_empty1D g1 L h1 n h
  · ext n
    rw [MultiPatchModelGenerator2D.mem_names2D]
    simp only [Finset.mem_insert, Finset.mem_singleton]
  · exact fun n h => MultiPatchModelGenerator2D.items_empty2D g2 L h2.1 h2.2 n h
  · ext n
    rw [MultiPatchModelGenerator3D.mem_names3D g3 L h3.1 h3.2.1 h3.2.2]
    simp only [Finset.mem_insert, Finset.mem_singleton, or_assoc]
  · exact fun n h => MultiPatchModelGenerator3D.items_empty3D g3 L n h

/-- A chain of 3 patches, a 3 x 2 grid and a 2 x 3 x 1 grid, no patch of which
is local: the names are there and "Boundary" of the 3D grid holds no item. -/
theorem createTopologySets_names_witness :
    (1 ≤ (3 : Nat) ∧ (1 ≤ (3 : Nat) ∧ 1 ≤ (2 : Nat)) ∧
      (1 ≤ (2 : Nat) ∧ 1 ≤ (3 : Nat) ∧ 1 ≤ (1 : Nat))) ∧
    (MultiPatchModelGenerator1D.createTopologySets ⟨3, 0, false⟩ true (fun _ => 0)).names =
      {"Vertex1", "Vertex2", "Boundary"} ∧
    (MultiPatchModelGenerator3D.createTopologySets ⟨2, 3, 1, 0, 0, 0, false⟩ true
      (fun _ => 0)).items "Boundary" = ∅ :=
  ⟨by decide,
   (createTopologySets_names ⟨3, 0, false⟩ ⟨3, 2, 0, 0, false⟩ ⟨2, 3, 1, 0, 0, 0, false⟩
      (fun _ => 0) (by decide) (by decide) (by decide)).1.1,
   (createTopologySets_names ⟨3, 0, false⟩ ⟨3, 2, 0, 0, false⟩ ⟨2, 3, 1, 0, 0, 0, false⟩
      (fun _ => 0) (by decide) (by decide) (by decide)).2.2.2 "Boundary" (fun _ _ => rfl)⟩

/-! ## Theorems: extraction without a check of the block counts -/

/-- C4, amended: the post-split `createGeometry` does not compare the block
counts with the numbers of knot spans and has no failure path before the
extraction: for every source patch and all block counts `n ≥ 1`, also when
`n > E`, it extracts one sub-patch per block, in loop order, so `getSubPatch`
is called `nx` times in 1D, `nx*ny` times in 2D and `nx*ny*nz` times in 3D,
with the start `i0` and the coefficient count `ni + p` of the block; a block
of the 1D generator beyond the knot spans (`E ≤ i`) is extracted with
`order - 1` coefficients. -/
theorem createGeometry_extracts_every_block {α : Type}
    (g1 : MultiPatchModelGenerator1D) (cur : SplineCurve α)
    (g2 : MultiPatchModelGenerator2D) (srf : SplineSurface α)
    (g3 : MultiPatchModelGenerator3D) (vol : SplineVolume α)
    (_h1 : 1 ≤ g1.nx) (_h2 : 1 ≤ g2.nx ∧ 1 ≤ g2.ny)
    (_h3 : 1 ≤ g3.nx ∧ 1 ≤ g3.ny ∧ 1 ≤ g3.nz) :
    ((MultiPatchModelGenerator1D.createGeometry g1 cur).length = g1.nx ∧
      (∀ i, i < g1.nx →
        (MultiPatchModelGenerator1D.createGeometry g1 cur)[i]? =
          some (MultiPatchModelGenerator1D.getSubPatch cur
            (i0 (cur.numCoefs - (cur.order - 1)) g1.nx i)
            (ni (cur.numCoefs - (cur.order - 1)) g1.nx i + (cur.order - 1))
            (cur.order - 1 + 1))) ∧
      (∀ i, i < g1.nx → cur.numCoefs - (cur.order - 1) ≤ i →
        ∃ b, (MultiPatchModelGenerator1D.createGeometry g1 cur)[i]? = some b ∧
          b.numcoefsu = cur.order - 1 ∧ b.orderu = cur.order - 1 + 1)) ∧
    ((MultiPatchModelGenerator2D.createGeometry g2 srf).length = g2.nx * g2.ny ∧
      ∀ i j, i < g2.nx → j < g2.ny →
        (MultiPatchModelGenerator2D.createGeometry g2 srf)[j * g2.nx + i]? =
          some (MultiPatchModelGenerator2D.block g2 srf i j) ∧
        (MultiPatchModelGenerator2D.block g2 srf i j).numcoefsu =
          ni (srf.numCoefs_u - (srf.order_u - 1)) g2.nx i + (srf.order_u - 1) ∧
        (MultiPatchModelGenerator2D.block g2 srf i j).numcoefsv =
          ni (srf.numCoefs_v - (srf.order_v - 1)) g2.ny j + (srf.order_v - 1)) ∧
    ((MultiPatchModelGenerator3D.createGeometry g3 vol).length = g3.nx * g3.ny * g3.nz ∧
      ∀ i j k, i < g3.nx → j < g3.ny → k < g3.nz →
        (MultiPatchModelGenerator3D.createGeometry g3 vol)[(k * g3.ny + j) * g3.nx + i]? =
          some (MultiPatchModelGenerator3D.block g3 vol i j k) ∧
        (MultiPatchModelGenerator3D.block g3 vol i j k).numcoefsu =
          ni (vol.numCoefs0 - (vol.order0 - 1)) g3.nx i + (vol.order0 - 1) ∧
        (MultiPatchModelGenerator3D.block g3 vol i j k).numcoefsv =
          ni (vol.numCoefs1 - (vol.order1 - 1)) g3.ny j + (vol.order1 - 1) ∧
        (MultiPatchModelGenerator3D.block g3 vol i j k).numcoefsw =
          ni (vol.numCoefs2 - (vol.order2 - 1)) g3.nz k + (vol.order2 - 1)) := by
  refine ⟨⟨?_, ?_, ?_⟩, ⟨?_, ?_⟩, ⟨?_, ?_⟩⟩
  · simp [MultiPatchModelGenerator1D.createGeometry]
  · intro i hi
    exact MultiPatchModelGenerator1D.createGeometry_getElem? g1 cur i hi
  · intro i hi hE
    refine ⟨_, MultiPatchModelGenerator1D.createGeometry_getElem? g1 cur i hi, ?_, rfl⟩
    have hlt : cur.numCoefs - (cur.order - 1) < g1.nx := by omega
    simp only [MultiPatchModelGenerator1D.getSubPatch, di, ni, Nat.div_eq_of_lt hlt,
      Nat.mod_eq_of_lt hlt, Nat.zero_add]
    rw [if_neg (by omega)]
    omega
  · unfold MultiPatchModelGenerator2D.createGeometry
    rw [length_flatMap_range_uniform _ g2.nx (fun a => by simp)]
  · intro i j hi hj
    exact ⟨getElem?_grid2 (fun i j => MultiPatchModelGenerator2D.block g2 srf i j) g2.nx g2.ny
      i j hi hj, rfl, rfl⟩
  · unfold MultiPatchModelGenerator3D.createGeometry
    exact length_grid3 _ g3.nx g3.ny g3.nz
  · intro i j k hi hj hk
    exact ⟨getElem?_grid3 (fun i j k => MultiPatchModelGenerator3D.block g3 vol i j k)
      g3.nx g3.ny g3.nz i j k hi hj hk, rfl, rfl, rfl⟩

/-- The sample curve has one knot span; split into two blocks, the second
block is extracted all the same, with one coefficient for order 2. -/
theorem createGeometry_extracts_every_block_witness :
    (1 ≤ (2 : Nat) ∧ (1 ≤ (1 : Nat) ∧ 1 ≤ (1 : Nat)) ∧
      (1 ≤ (1 : Nat) ∧ 1 ≤ (1 : Nat) ∧ 1 ≤ (1 : Nat))) ∧
    sampleCurve.numCoefs - (sampleCurve.order - 1) < 2 ∧
    (MultiPatchModelGenerator1D.createGeometry ⟨2, 0, true⟩ sampleCurve)[1]? =
      some (MultiPatchModelGenerator1D.getSubPatch sampleCurve
        (i0 (sampleCurve.numCoefs - (sampleCurve.order - 1)) 2 1)
        (ni (sampleCurve.numCoefs - (sampleCurve.order - 1)) 2 1 + (sampleCurve.order - 1))
        (sampleCurve.order - 1 + 1)) ∧
    MultiPatchModelGenerator1D.getSubPatch sampleCurve
        (i0 (sampleCurve.numCoefs - (sampleCurve.order - 1)) 2 1)
        (ni (sampleCurve.numCoefs - (sampleCurve.order - 1)) 2 1 + (sampleCurve.order - 1))
        (sampleCurve.order - 1 + 1) = ⟨1, 2, 1, 1, 1, false⟩ :=
  ⟨by decide, by decide,
   (createGeometry_extracts_every_block ⟨2, 0, true⟩ sampleCurve ⟨1, 1, 0, 0, true⟩
      sampleSurface ⟨1, 1, 1, 0, 0, 0, true⟩ sampleVolume (by decide) (by decide)
      (by decide)).1.2.1 1 (by decide),
   by decide⟩

namespace ASMs3D

end ASMs3D

namespace ASMs3D

end ASMs3D

end IFEM
